import Mathlib

/-!
Behaviour-tree evaluation engine of the bot AI (`src/sgame/sg_bot_ai.cpp`) and
navigation of the bots (`src/sgame/botlib/bot_nav.cpp`).

A shallow embedding of the node evaluation routines and of the compound actions of
`sg_bot_ai.cpp`, and of the path following, mesh assignment and obstacle bookkeeping of
`bot_nav.cpp`.

* Pointers to tree nodes are modelled by the address of the node (`Nat`); a null
  pointer is `none`.
* The mutable data the routines touch (`self->botMind->runningNodes`,
  `self->botMind->currentNode`, `dec->data[ self->s.number ]`, `level.time`) is
  gathered in `BotState`; everything else an action leaf may read or write is the
  abstract component `game`.
* `int` is modelled by `Int`; the sum that sets the deadline of a timer is reduced to
  the range of `int` by `wrapInt`, and the cast of a `float` to `int` takes the range of
  `int` into account (`truncToInt`).  A value of type `float` or `double` held in a
  variable is the rational it stands for (finite values).  An arithmetic operation on
  `float` rounds its result to the nearest `float` (`roundF32`); the distance test of
  the off-mesh connections works on `Float32`, which has the infinities an operation
  on finite values can overflow to.
* `BotState.evalLog` is a ghost field: `BotEvaluateNode` records the address of the
  node it is called on, so that "which nodes were evaluated, in which order" can be
  stated.  No routine reads it to take a decision.
-/

/-! ## Definitions -/

/-- Node status `AINodeStatus_t`.  The enumeration is declared in `sg_bot_ai.h`; it is
an integer type in the source (`BotDecoratorReturn` casts an `int` to it), so it is
modelled by `Int` with three distinguished values. -/
abbrev AINodeStatus_t := Int

/-- Enumerator `STATUS_FAILURE` of `AINodeStatus_t`. -/
def STATUS_FAILURE : AINodeStatus_t := 0

/-- Enumerator `STATUS_SUCCESS` of `AINodeStatus_t`. -/
def STATUS_SUCCESS : AINodeStatus_t := 1

/-- Enumerator `STATUS_RUNNING` of `AINodeStatus_t`. -/
def STATUS_RUNNING : AINodeStatus_t := 2

/-- Node kinds `AINodeType_t` stored in `node->type`. -/
inductive AINodeType_t where
  | SELECTOR_NODE
  | ACTION_NODE
  | CONDITION_NODE
  | BEHAVIOR_NODE
  | DECORATOR_NODE
  deriving DecidableEq, Repr

/-- Operators `AIOpType_t` of condition expressions.  `OP_NONE` stands for an
enumerator that neither `isBinaryOp` nor `isUnaryOp` accepts. -/
inductive AIOpType_t where
  | OP_NONE
  | OP_LESSTHAN
  | OP_LESSTHANEQUAL
  | OP_GREATERTHAN
  | OP_GREATERTHANEQUAL
  | OP_EQUAL
  | OP_NEQUAL
  | OP_NOT
  | OP_AND
  | OP_OR
  deriving DecidableEq, Repr

/-- Boxed value `AIValue_t`: the tagged union int | float | string. -/
inductive AIValue_t where
  | VALUE_INT (intValue : Int)
  | VALUE_FLOAT (floatValue : Rat)
  | VALUE_STRING (stringValue : String)
  deriving DecidableEq

/-- Source function `isBinaryOp`. -/
def isBinaryOp (op : AIOpType_t) : Bool :=
  match op with
  | .OP_GREATERTHAN => true
  | .OP_GREATERTHANEQUAL => true
  | .OP_LESSTHAN => true
  | .OP_LESSTHANEQUAL => true
  | .OP_EQUAL => true
  | .OP_NEQUAL => true
  | .OP_AND => true
  | .OP_OR => true
  | _ => false

/-- Source function `isUnaryOp`. -/
def isUnaryOp (op : AIOpType_t) : Bool :=
  decide (op = .OP_NOT)

/-! ### Machine arithmetic

The range of `int` and the rounding of `float` matter in a few places of the sources:
the deadline of a timer is a sum of two `int`, a `float` is cast to `int` and back, and
the distance test of the off-mesh connections multiplies, adds and compares `float`
values.  `int` has 32 bits; `float` is the IEEE 754 binary32 format, and each operation
on it rounds its own result to the nearest value (no fused multiply-add, no wider
intermediate format). -/

/-- Smallest value of `int` (32 bits, two's complement). -/
def INT_MIN : Int := -2147483648

/-- Largest value of `int`. -/
def INT_MAX : Int := 2147483647

/-- The `int` the machine computes for an arithmetic result `x`: `x` reduced modulo
2^32 into the range of `int`.  Signed overflow is undefined in the language; the
addition of the processor wraps. -/
def wrapInt (x : Int) : Int := (x + 2147483648) % 4294967296 - 2147483648

/-- Number of times `n` can be halved before it is below 2 (the position of its leading
bit), counted down with `fuel`. -/
def log2Fuel : Nat → Nat → Nat
  | 0, _ => 0
  | fuel + 1, n => if n < 2 then 0 else log2Fuel fuel (n / 2) + 1

/-- The exponent `e` with `2^e ≤ n / d < 2^(e+1)`, for positive `n` and `d`. -/
def ilog2Ratio (n d : Nat) : Int :=
  let e0 : Int := (log2Fuel n n : Int) - (log2Fuel d d : Int)
  if d * 2 ^ e0.toNat ≤ n * 2 ^ (-e0).toNat then e0 else e0 - 1

/-- Rounding of a real result to the format of `float` (IEEE 754 binary32: 24
significant bits, least exponent -149 with the subnormal numbers), to the nearest
value, a tie to the value with an even significand.  The exponent is not bounded
above here; `Float32.ofReal` turns a result beyond `FLT_MAX` into an infinity. -/
def roundF32 (q : Rat) : Rat :=
  if q.num = 0 then 0
  else
    let n : Nat := q.num.natAbs
    let d : Nat := q.den
    let e : Int := ilog2Ratio n d
    let e2 : Int := max (e - 23) (-149)
    let N : Nat := n * 2 ^ (-e2).toNat
    let D : Nat := d * 2 ^ e2.toNat
    let f : Nat := N / D
    let r : Nat := N % D
    let m : Nat :=
      if 2 * r < D then f else if D < 2 * r then f + 1 else if f % 2 = 0 then f else f + 1
    let v : Rat := mkRat (m * 2 ^ e2.toNat) (2 ^ (-e2).toNat)
    if q.num < 0 then -v else v

/-- Largest finite value of `float`, (2^24 - 1) * 2^104. -/
def FLT_MAX : Rat := 340282346638528859811704183484516925440

/-- The result of an arithmetic operation on `float`: a finite value, an infinity, or
not a number.  (The sign of a zero plays no role in the operations used and is not
kept.) -/
inductive Float32 where
  | finite (q : Rat)
  | infinity (negative : Bool)
  | nan
  deriving DecidableEq

/-- The `float` an operation returns whose exact result is the real `q`: `q` rounded,
or an infinity when the rounded value is beyond `FLT_MAX`. -/
def Float32.ofReal (q : Rat) : Float32 :=
  if FLT_MAX < roundF32 q then .infinity false
  else if roundF32 q < -FLT_MAX then .infinity true
  else .finite (roundF32 q)

/-- The operation `a - b` on `float`. -/
def Float32.sub : Float32 → Float32 → Float32
  | .finite a, .finite b => Float32.ofReal (a - b)
  | .nan, _ => .nan
  | _, .nan => .nan
  | .infinity s, .finite _ => .infinity s
  | .finite _, .infinity s => .infinity (!s)
  | .infinity s, .infinity t => if s = t then .nan else .infinity s

/-- The operation `a + b` on `float`. -/
def Float32.add : Float32 → Float32 → Float32
  | .finite a, .finite b => Float32.ofReal (a + b)
  | .nan, _ => .nan
  | _, .nan => .nan
  | .infinity s, .finite _ => .infinity s
  | .finite _, .infinity s => .infinity s
  | .infinity s, .infinity t => if s = t then .infinity s else .nan

/-- The operation `a * b` on `float`. -/
def Float32.mul : Float32 → Float32 → Float32
  | .finite a, .finite b => Float32.ofReal (a * b)
  | .nan, _ => .nan
  | _, .nan => .nan
  | .infinity s, .finite b => if b = 0 then .nan else .infinity (s != decide (b < 0))
  | .finite a, .infinity s => if a = 0 then .nan else .infinity (s != decide (a < 0))
  | .infinity s, .infinity t => .infinity (s != t)

/-- The comparison `a < b` on `float`; it is false when an operand is not a number. -/
def Float32.lt : Float32 → Float32 → Bool
  | .finite a, .finite b => decide (a < b)
  | .nan, _ => false
  | _, .nan => false
  | .infinity s, .finite _ => s
  | .finite _, .infinity s => !s
  | .infinity s, .infinity t => s && !t

/-- Source function `AIBoxFloat`. -/
def AIBoxFloat (f : Rat) : AIValue_t := .VALUE_FLOAT f

/-- Source function `AIBoxInt`. -/
def AIBoxInt (i : Int) : AIValue_t := .VALUE_INT i

/-- Source function `AIBoxString`. -/
def AIBoxString (s : String) : AIValue_t := .VALUE_STRING s

/-- The C conversion `( int ) f` of a `float`: truncation toward zero when the
truncated value is a value of `int`.  Outside this range the conversion is undefined in
the language; the conversion instruction of the processor (`cvttss2si`) then gives
`INT_MIN`. -/
def truncToInt (f : Rat) : Int :=
  let t := Int.tdiv f.num (f.den : Int)
  if INT_MIN ≤ t ∧ t ≤ INT_MAX then t else INT_MIN

/-- Source function `AIUnBoxFloat`; the conversion `( float ) intValue` rounds to the
nearest `float`. -/
def AIUnBoxFloat (v : AIValue_t) : Rat :=
  match v with
  | .VALUE_FLOAT f => f
  | .VALUE_INT i => roundF32 (i : Rat)
  | _ => 0

/-- Source function `AIUnBoxInt`. -/
def AIUnBoxInt (v : AIValue_t) : Int :=
  match v with
  | .VALUE_FLOAT f => truncToInt f
  | .VALUE_INT i => i
  | _ => 0

/-- Source function `AIUnBoxDouble`. -/
def AIUnBoxDouble (v : AIValue_t) : Rat :=
  match v with
  | .VALUE_FLOAT f => f
  | .VALUE_INT i => (i : Rat)
  | _ => 0

/-- The state the evaluation routines work on, for one bot `self`. -/
structure BotState (G : Type) where
  /-- The global `level.time`. -/
  levelTime : Int
  /-- The client number `self->s.number`. -/
  number : Nat
  /-- The list `self->botMind->runningNodes` (node addresses, oldest first). -/
  runningNodes : List Nat
  /-- The pointer `self->botMind->currentNode`. -/
  currentNode : Option Nat
  /-- The array `dec->data[ client ]` of the decorator node at a given address. -/
  decData : Nat → Nat → Int
  /-- Everything else action leaves and expression functions read or write. -/
  game : G
  /-- Ghost: addresses of the nodes `BotEvaluateNode` was called on, in call order. -/
  evalLog : List Nat

/-- What an action leaf hands back: its status, and the two parts of the state the
action leaves of the source write (`botMind->currentNode` and the game world). -/
structure AIActionResult (G : Type) where
  status : AINodeStatus_t
  currentNode : Option Nat
  game : G

/-- Condition expressions (`AIExpType_t *`): a value leaf (`EX_VALUE`), a function
call leaf (`EX_FUNC`), or an operator node (`EX_OP`) with one or two operands. -/
inductive AIExp (G : Type) where
  | value (v : AIValue_t)
  | func (func : BotState G → List AIValue_t → AIValue_t) (params : List AIValue_t)
  | unaryOp (opType : AIOpType_t) (exp : AIExp G)
  | binaryOp (opType : AIOpType_t) (exp1 : AIExp G) (exp2 : AIExp G)

/-- The run function of a list node (`AINodeList_t`). -/
inductive AIListRun where
  | selector
  | sequence
  | fallback
  | concurrent
  deriving DecidableEq, Repr

/-- The run function of a decorator node (`AIDecoratorNode_t`). -/
inductive AIDecoratorRun where
  | invert
  | timer
  | ret
  deriving DecidableEq, Repr

/-- Tree nodes (`AIGenericNode_t` and the structures that extend it).  `addr` is the
address of the node, the identity the running-node list and the current-node pointer
compare. -/
inductive AIGenericNode_t (G : Type) where
  | list (addr : Nat) (run : AIListRun) (list : List (AIGenericNode_t G))
  | decorator (addr : Nat) (run : AIDecoratorRun) (params : List AIValue_t)
      (child : AIGenericNode_t G)
  | condition (addr : Nat) (exp : AIExp G) (child : Option (AIGenericNode_t G))
  | action (addr : Nat) (run : BotState G → Nat → List AIValue_t → AIActionResult G)
      (params : List AIValue_t)
  | behavior (addr : Nat) (root : AIGenericNode_t G)

variable {G : Type}

/-- Address of a node. -/
def AIGenericNode_t.addr : AIGenericNode_t G → Nat
  | .list a _ _ => a
  | .decorator a _ _ _ => a
  | .condition a _ _ => a
  | .action a _ _ => a
  | .behavior a _ => a

/-- Field `node->type`.  The field is set where the tree is built, outside the sources
at hand; the evaluation only tests it against `ACTION_NODE`, which is the type of
exactly the action leaves. -/
def AIGenericNode_t.type : AIGenericNode_t G → AINodeType_t
  | .list _ _ _ => .SELECTOR_NODE
  | .decorator _ _ _ _ => .DECORATOR_NODE
  | .condition _ _ _ => .CONDITION_NODE
  | .action _ _ _ => .ACTION_NODE
  | .behavior _ _ => .BEHAVIOR_NODE

mutual
/-- Number of nodes of a subtree. -/
def AIGenericNode_t.size : AIGenericNode_t G → Nat
  | .list _ _ l => 1 + AIGenericNode_t.sizeList l
  | .decorator _ _ _ c => 1 + c.size
  | .condition _ _ none => 1
  | .condition _ _ (some c) => 1 + c.size
  | .action _ _ _ => 1
  | .behavior _ r => 1 + r.size
termination_by structural n => n
/-- Number of nodes of a list of subtrees. -/
def AIGenericNode_t.sizeList : List (AIGenericNode_t G) → Nat
  | [] => 0
  | c :: rest => c.size + AIGenericNode_t.sizeList rest
termination_by structural l => l
end

mutual
/-- Addresses of all nodes of a subtree, in pre-order. -/
def AIGenericNode_t.addrs : AIGenericNode_t G → List Nat
  | .list a _ l => a :: AIGenericNode_t.addrsList l
  | .decorator a _ _ c => a :: c.addrs
  | .condition a _ none => [a]
  | .condition a _ (some c) => a :: c.addrs
  | .action a _ _ => [a]
  | .behavior a r => a :: r.addrs
termination_by structural n => n
/-- Addresses of all nodes of a list of subtrees. -/
def AIGenericNode_t.addrsList : List (AIGenericNode_t G) → List Nat
  | [] => []
  | c :: rest => c.addrs ++ AIGenericNode_t.addrsList rest
termination_by structural l => l
end

/-- Source function `EvalFunc`. -/
def EvalFunc (self : BotState G) (func : BotState G → List AIValue_t → AIValue_t)
    (params : List AIValue_t) : Rat :=
  AIUnBoxDouble (func self params)

/-- Body of the source function `EvalValue`, given the value `cond` that
`EvalConditionExpression( self, exp )` has on the same expression. -/
def EvalValue.body (self : BotState G) (exp : AIExp G) (cond : Bool) : Rat :=
  match exp with
  | .func f ps => EvalFunc self f ps
  | .value v => AIUnBoxDouble v
  | _ => if cond then 1 else 0

/-- Source function `EvalConditionExpression`, with `EvaluateBinaryOp` and
`EvaluateUnaryOp` unfolded in place.  A node built as a unary operator carries one
operand only; were its operator a binary one the source would read a second operand
that does not exist, and the model answers `false` there.  A node built as a binary
operator whose operator is `OP_NOT` is read by the source as a unary node, whose
operand is the first operand. -/
def EvalConditionExpression (self : BotState G) : AIExp G → Bool
  | .value v => decide (AIUnBoxDouble v ≠ 0)
  | .func f ps => decide (EvalFunc self f ps ≠ 0)
  | .unaryOp opType exp =>
      if isBinaryOp opType then false
      else if isUnaryOp opType then !(EvalConditionExpression self exp)
      else false
  | .binaryOp opType exp1 exp2 =>
      if isBinaryOp opType then
        match opType with
        | .OP_LESSTHAN =>
            decide (EvalValue.body self exp1 (EvalConditionExpression self exp1)
              < EvalValue.body self exp2 (EvalConditionExpression self exp2))
        | .OP_LESSTHANEQUAL =>
            decide (EvalValue.body self exp1 (EvalConditionExpression self exp1)
              ≤ EvalValue.body self exp2 (EvalConditionExpression self exp2))
        | .OP_GREATERTHAN =>
            decide (EvalValue.body self exp1 (EvalConditionExpression self exp1)
              > EvalValue.body self exp2 (EvalConditionExpression self exp2))
        | .OP_GREATERTHANEQUAL =>
            decide (EvalValue.body self exp1 (EvalConditionExpression self exp1)
              ≥ EvalValue.body self exp2 (EvalConditionExpression self exp2))
        | .OP_EQUAL =>
            decide (EvalValue.body self exp1 (EvalConditionExpression self exp1)
              = EvalValue.body self exp2 (EvalConditionExpression self exp2))
        | .OP_NEQUAL =>
            decide (EvalValue.body self exp1 (EvalConditionExpression self exp1)
              ≠ EvalValue.body self exp2 (EvalConditionExpression self exp2))
        | .OP_AND => EvalConditionExpression self exp1 && EvalConditionExpression self exp2
        | .OP_OR => EvalConditionExpression self exp1 || EvalConditionExpression self exp2
        | _ => false
      else if isUnaryOp opType then !(EvalConditionExpression self exp1)
      else false

/-- Source function `EvalValue`. -/
def EvalValue (self : BotState G) (exp : AIExp G) : Rat :=
  EvalValue.body self exp (EvalConditionExpression self exp)

/-- Source function `NodeIsRunning`: is the node in `self->botMind->runningNodes`? -/
def NodeIsRunning (self : BotState G) (node : Nat) : Bool :=
  decide (node ∈ self.runningNodes)

/-- Modelled from the spec: the bounded container behind `runningNodes` and its
`append` are not part of the sources at hand.  The list is capacity-bounded by
`MAX_NODE_DEPTH`; `append` adds at the end and reports success, or reports failure
and leaves the list as it is when the capacity is used up. -/
def runningNodes_append (MAX_NODE_DEPTH : Nat) (nodes : List Nat) (node : Nat) :
    Option (List Nat) :=
  if nodes.length < MAX_NODE_DEPTH then some (nodes ++ [node]) else none

/-- Ghost step: record that `BotEvaluateNode` is entered on the node at `addr`. -/
def logEvaluation (addr : Nat) (self : BotState G) : BotState G :=
  { self with evalLog := self.evalLog ++ [addr] }

/-- First step after `node->run` in `BotEvaluateNode`: reset the current node if it
finishes. -/
def BotEvaluateNode.resetCurrent (addr : Nat) (status : AINodeStatus_t) (self : BotState G) :
    BotState G :=
  if (status = STATUS_SUCCESS ∨ status = STATUS_FAILURE) ∧ self.currentNode = some addr
  then { self with currentNode := none } else self

/-- Second step after `node->run` in `BotEvaluateNode`: reset running information on
node success. -/
def BotEvaluateNode.resetRunning (addr : Nat) (status : AINodeStatus_t) (self : BotState G) :
    BotState G :=
  if NodeIsRunning self addr = true ∧ status = STATUS_SUCCESS
  then { self with runningNodes := [] } else self

/-- Third step after `node->run` in `BotEvaluateNode`, taken when the status is
`STATUS_RUNNING`: store running information.  A failed `append` only logs a warning. -/
def BotEvaluateNode.storeRunning (MAX_NODE_DEPTH : Nat) (addr : Nat) (type : AINodeType_t)
    (self : BotState G) : BotState G :=
  let s : BotState G := if type = .ACTION_NODE then { self with runningNodes := [] } else self
  if NodeIsRunning s addr = false then
    match runningNodes_append MAX_NODE_DEPTH s.runningNodes addr with
    | none => s
    | some l => { s with runningNodes := l }
  else s

/-- The part of the source function `BotEvaluateNode` after `node->run( self, node )`
has returned `r.1` and left the state `r.2`.  Every path returns `status`. -/
def BotEvaluateNode.bookkeeping (MAX_NODE_DEPTH : Nat) (addr : Nat) (type : AINodeType_t)
    (r : AINodeStatus_t × BotState G) : AINodeStatus_t × BotState G :=
  let status := r.1
  let s := BotEvaluateNode.resetRunning addr status (BotEvaluateNode.resetCurrent addr status r.2)
  if status = STATUS_RUNNING then
    (status, BotEvaluateNode.storeRunning MAX_NODE_DEPTH addr type s)
  else (status, s)

/-- The scan of `BotSequenceNode` and `BotFallbackNode` for a previously running
child: `for ( i = numNodes - 1; i > 0; i-- )`, entered with `i`; yields `start`. -/
def findRunningStart (self : BotState G) (list : List (AIGenericNode_t G)) : Nat → Nat
  | 0 => 0
  | i + 1 =>
      match list[i + 1]? with
      | some n => if NodeIsRunning self n.addr then i + 1 else findRunningStart self list i
      | none => findRunningStart self list i

/-- Status mapping of `BotDecoratorInvert`. -/
def BotDecoratorInvert.status (status : AINodeStatus_t) : AINodeStatus_t :=
  if status = STATUS_SUCCESS then STATUS_FAILURE
  else if status = STATUS_FAILURE then STATUS_SUCCESS
  else status

/-- The element `params[ 0 ]` of a parameter list (reading it from an empty list is
undefined in the source; the model reads a boxed zero). -/
def params0 (params : List AIValue_t) : AIValue_t :=
  params.headD (AIBoxInt 0)

/-- The assignment `dec->data[ client ] = value` on the decorator at `addr`. -/
def setDecData (self : BotState G) (addr client : Nat) (value : Int) : BotState G :=
  { self with decData := fun a c => if a = addr ∧ c = client then value else self.decData a c }

mutual
/-- Source function `BotEvaluateNode`.  The call `node->run( self, node )` is the case
distinction on the node; each case is the body of the run function concerned (they
are named separately below), followed by the bookkeeping. -/
def BotEvaluateNode (MAX_NODE_DEPTH : Nat) :
    AIGenericNode_t G → BotState G → AINodeStatus_t × BotState G
  | .list addr .selector l, self =>
      BotEvaluateNode.bookkeeping MAX_NODE_DEPTH addr .SELECTOR_NODE
        (BotSelectorNode.loop MAX_NODE_DEPTH l (logEvaluation addr self))
  | .list addr .sequence l, self =>
      BotEvaluateNode.bookkeeping MAX_NODE_DEPTH addr .SELECTOR_NODE
        (BotSequenceNode.loop MAX_NODE_DEPTH l
          (findRunningStart (logEvaluation addr self) l (l.length - 1))
          (logEvaluation addr self))
  | .list addr .fallback l, self =>
      BotEvaluateNode.bookkeeping MAX_NODE_DEPTH addr .SELECTOR_NODE
        (BotFallbackNode.loop MAX_NODE_DEPTH l
          (findRunningStart (logEvaluation addr self) l (l.length - 1))
          (logEvaluation addr self))
  | .list addr .concurrent l, self =>
      BotEvaluateNode.bookkeeping MAX_NODE_DEPTH addr .SELECTOR_NODE
        (BotConcurrentNode.loop MAX_NODE_DEPTH l (logEvaluation addr self))
  | .decorator addr .invert _ child, self =>
      BotEvaluateNode.bookkeeping MAX_NODE_DEPTH addr .DECORATOR_NODE
        (let r := BotEvaluateNode MAX_NODE_DEPTH child (logEvaluation addr self)
         (BotDecoratorInvert.status r.1, r.2))
  | .decorator addr .timer params child, self =>
      BotEvaluateNode.bookkeeping MAX_NODE_DEPTH addr .DECORATOR_NODE
        (let s := logEvaluation addr self
         if s.levelTime > s.decData addr s.number then
           let r := BotEvaluateNode MAX_NODE_DEPTH child s
           if r.1 = STATUS_FAILURE then
             (r.1, setDecData r.2 addr r.2.number
                (wrapInt (r.2.levelTime + AIUnBoxInt (params0 params))))
           else r
         else (STATUS_FAILURE, s))
  | .decorator addr .ret params child, self =>
      BotEvaluateNode.bookkeeping MAX_NODE_DEPTH addr .DECORATOR_NODE
        (let status : AINodeStatus_t := AIUnBoxInt (params0 params)
         (status, (BotEvaluateNode MAX_NODE_DEPTH child (logEvaluation addr self)).2))
  | .condition addr exp none, self =>
      BotEvaluateNode.bookkeeping MAX_NODE_DEPTH addr .CONDITION_NODE
        (let s := logEvaluation addr self
         if EvalConditionExpression s exp then (STATUS_SUCCESS, s) else (STATUS_FAILURE, s))
  | .condition addr exp (some child), self =>
      BotEvaluateNode.bookkeeping MAX_NODE_DEPTH addr .CONDITION_NODE
        (let s := logEvaluation addr self
         if EvalConditionExpression s exp then BotEvaluateNode MAX_NODE_DEPTH child s
         else (STATUS_FAILURE, s))
  | .action addr run params, self =>
      BotEvaluateNode.bookkeeping MAX_NODE_DEPTH addr .ACTION_NODE
        (let s := logEvaluation addr self
         let r := run s addr params
         (r.status, { s with currentNode := r.currentNode, game := r.game }))
  | .behavior addr root, self =>
      BotEvaluateNode.bookkeeping MAX_NODE_DEPTH addr .BEHAVIOR_NODE
        (BotEvaluateNode MAX_NODE_DEPTH root (logEvaluation addr self))
termination_by structural n => n
/-- The loop of `BotSelectorNode` over the children that are left. -/
def BotSelectorNode.loop (MAX_NODE_DEPTH : Nat) :
    List (AIGenericNode_t G) → BotState G → AINodeStatus_t × BotState G
  | [], self => (STATUS_FAILURE, self)
  | c :: rest, self =>
      let r := BotEvaluateNode MAX_NODE_DEPTH c self
      if r.1 = STATUS_FAILURE then BotSelectorNode.loop MAX_NODE_DEPTH rest r.2
      else r
termination_by structural l => l
/-- The loop `for ( i = start; i < numNodes; i++ )` of `BotSequenceNode`: the first
`start` children of the list are passed over, the others evaluated in order. -/
def BotSequenceNode.loop (MAX_NODE_DEPTH : Nat) :
    List (AIGenericNode_t G) → Nat → BotState G → AINodeStatus_t × BotState G
  | [], _, self => (STATUS_SUCCESS, self)
  | _ :: rest, start + 1, self => BotSequenceNode.loop MAX_NODE_DEPTH rest start self
  | c :: rest, 0, self =>
      let r := BotEvaluateNode MAX_NODE_DEPTH c self
      if r.1 = STATUS_FAILURE then (STATUS_FAILURE, r.2)
      else if r.1 = STATUS_RUNNING then (STATUS_RUNNING, r.2)
      else BotSequenceNode.loop MAX_NODE_DEPTH rest 0 r.2
termination_by structural l => l
/-- The loop `for ( i = start; i < numNodes; i++ )` of `BotFallbackNode`. -/
def BotFallbackNode.loop (MAX_NODE_DEPTH : Nat) :
    List (AIGenericNode_t G) → Nat → BotState G → AINodeStatus_t × BotState G
  | [], _, self => (STATUS_FAILURE, self)
  | _ :: rest, start + 1, self => BotFallbackNode.loop MAX_NODE_DEPTH rest start self
  | c :: rest, 0, self =>
      let r := BotEvaluateNode MAX_NODE_DEPTH c self
      if r.1 = STATUS_SUCCESS then (STATUS_SUCCESS, r.2)
      else if r.1 = STATUS_RUNNING then (STATUS_RUNNING, r.2)
      else BotFallbackNode.loop MAX_NODE_DEPTH rest 0 r.2
termination_by structural l => l
/-- The loop of `BotConcurrentNode` over the children that are left. -/
def BotConcurrentNode.loop (MAX_NODE_DEPTH : Nat) :
    List (AIGenericNode_t G) → BotState G → AINodeStatus_t × BotState G
  | [], self => (STATUS_SUCCESS, self)
  | c :: rest, self =>
      let r := BotEvaluateNode MAX_NODE_DEPTH c self
      if r.1 = STATUS_FAILURE then (STATUS_FAILURE, r.2)
      else BotConcurrentNode.loop MAX_NODE_DEPTH rest r.2
termination_by structural l => l
end

/-- Source function `BotSelectorNode`, on the child list of the node. -/
def BotSelectorNode (MAX_NODE_DEPTH : Nat) (self : BotState G)
    (list : List (AIGenericNode_t G)) : AINodeStatus_t × BotState G :=
  BotSelectorNode.loop MAX_NODE_DEPTH list self

/-- The value of `start` after the scan of `BotSequenceNode`. -/
def BotSequenceNode.start (self : BotState G) (list : List (AIGenericNode_t G)) : Nat :=
  findRunningStart self list (list.length - 1)

/-- Source function `BotSequenceNode`, on the child list of the node. -/
def BotSequenceNode (MAX_NODE_DEPTH : Nat) (self : BotState G)
    (list : List (AIGenericNode_t G)) : AINodeStatus_t × BotState G :=
  BotSequenceNode.loop MAX_NODE_DEPTH list (BotSequenceNode.start self list) self

/-- Source function `BotFallbackNode`, on the child list of the node. -/
def BotFallbackNode (MAX_NODE_DEPTH : Nat) (self : BotState G)
    (list : List (AIGenericNode_t G)) : AINodeStatus_t × BotState G :=
  BotFallbackNode.loop MAX_NODE_DEPTH list (findRunningStart self list (list.length - 1)) self

/-- Source function `BotConcurrentNode`, on the child list of the node. -/
def BotConcurrentNode (MAX_NODE_DEPTH : Nat) (self : BotState G)
    (list : List (AIGenericNode_t G)) : AINodeStatus_t × BotState G :=
  BotConcurrentNode.loop MAX_NODE_DEPTH list self

/-- Source function `BotDecoratorInvert`, on the child of the node. -/
def BotDecoratorInvert (MAX_NODE_DEPTH : Nat) (self : BotState G)
    (child : AIGenericNode_t G) : AINodeStatus_t × BotState G :=
  let r := BotEvaluateNode MAX_NODE_DEPTH child self
  (BotDecoratorInvert.status r.1, r.2)

/-- Source function `BotDecoratorTimer`, on the address, parameters and child of the
node. -/
def BotDecoratorTimer (MAX_NODE_DEPTH : Nat) (self : BotState G) (addr : Nat)
    (params : List AIValue_t) (child : AIGenericNode_t G) : AINodeStatus_t × BotState G :=
  if self.levelTime > self.decData addr self.number then
    let r := BotEvaluateNode MAX_NODE_DEPTH child self
    if r.1 = STATUS_FAILURE then
      (r.1, setDecData r.2 addr r.2.number
        (wrapInt (r.2.levelTime + AIUnBoxInt (params0 params))))
    else r
  else (STATUS_FAILURE, self)

/-- Source function `BotDecoratorReturn`, on the parameters and child of the node. -/
def BotDecoratorReturn (MAX_NODE_DEPTH : Nat) (self : BotState G)
    (params : List AIValue_t) (child : AIGenericNode_t G) : AINodeStatus_t × BotState G :=
  let status : AINodeStatus_t := AIUnBoxInt (params0 params)
  (status, (BotEvaluateNode MAX_NODE_DEPTH child self).2)

/-- Source function `BotConditionNode`, on the expression and child of the node. -/
def BotConditionNode (MAX_NODE_DEPTH : Nat) (self : BotState G) (exp : AIExp G)
    (child : Option (AIGenericNode_t G)) : AINodeStatus_t × BotState G :=
  if EvalConditionExpression self exp then
    match child with
    | some c => BotEvaluateNode MAX_NODE_DEPTH c self
    | none => (STATUS_SUCCESS, self)
  else (STATUS_FAILURE, self)

/-- Source function `BotBehaviorNode`, on the root of the tree node. -/
def BotBehaviorNode (MAX_NODE_DEPTH : Nat) (self : BotState G)
    (root : AIGenericNode_t G) : AINodeStatus_t × BotState G :=
  BotEvaluateNode MAX_NODE_DEPTH root self

/-- An action leaf run function (`node->run` of an `ACTION_NODE`), with its write-back
to the state. -/
def BotActionNode (self : BotState G) (addr : Nat)
    (run : BotState G → Nat → List AIValue_t → AIActionResult G) (params : List AIValue_t) :
    AINodeStatus_t × BotState G :=
  let r := run self addr params
  (r.status, { self with currentNode := r.currentNode, game := r.game })

/-- The call `node->run( self, node )`: dispatch on the run function of the node. -/
def AIGenericNode_t.run (MAX_NODE_DEPTH : Nat) (node : AIGenericNode_t G)
    (self : BotState G) : AINodeStatus_t × BotState G :=
  match node with
  | .list _ .selector l => BotSelectorNode MAX_NODE_DEPTH self l
  | .list _ .sequence l => BotSequenceNode MAX_NODE_DEPTH self l
  | .list _ .fallback l => BotFallbackNode MAX_NODE_DEPTH self l
  | .list _ .concurrent l => BotConcurrentNode MAX_NODE_DEPTH self l
  | .decorator _ .invert _ child => BotDecoratorInvert MAX_NODE_DEPTH self child
  | .decorator addr .timer params child => BotDecoratorTimer MAX_NODE_DEPTH self addr params child
  | .decorator _ .ret params child => BotDecoratorReturn MAX_NODE_DEPTH self params child
  | .condition _ exp child => BotConditionNode MAX_NODE_DEPTH self exp child
  | .action addr run params => BotActionNode self addr run params
  | .behavior _ root => BotBehaviorNode MAX_NODE_DEPTH self root

/-- The state reached from `self` when `BotEvaluateNode` is called on the nodes of
`list` one after the other, each on the state the previous call left. -/
def evalAll (MAX_NODE_DEPTH : Nat) (list : List (AIGenericNode_t G)) (self : BotState G) :
    BotState G :=
  list.foldl (fun s c => (BotEvaluateNode MAX_NODE_DEPTH c s).2) self

/-- What the call of `BotEvaluateNode` on child `i` of `list` yields when the children
before it have been evaluated in order starting from `self` (`none` when the list has
no child `i`). -/
def childResult (MAX_NODE_DEPTH : Nat) (list : List (AIGenericNode_t G)) (self : BotState G)
    (i : Nat) : Option (AINodeStatus_t × BotState G) :=
  (list[i]?).map
    (fun c => BotEvaluateNode MAX_NODE_DEPTH c (evalAll MAX_NODE_DEPTH (list.take i) self))

/-- The status part of `childResult`. -/
def childStatus (MAX_NODE_DEPTH : Nat) (list : List (AIGenericNode_t G)) (self : BotState G)
    (i : Nat) : Option AINodeStatus_t :=
  (childResult MAX_NODE_DEPTH list self i).map Prod.fst

/-- An action leaf at address `addr` that returns the fixed status `status` and writes
nothing. -/
def constAction (status : AINodeStatus_t) (addr : Nat) : AIGenericNode_t Unit :=
  .action addr (fun s _ _ => { status := status, currentNode := s.currentNode, game := s.game }) []

/-- A bot state with an empty running-node list, no current node, all decorator data
zero, at the given time. -/
def freshState (time : Int) : BotState Unit :=
  { levelTime := time, number := 0, runningNodes := [], currentNode := none,
    decData := fun _ _ => 0, game := (), evalLog := [] }

/-- The state `freshState time` with the running-node list set to `running`. -/
def runningState (running : List Nat) (time : Int) : BotState Unit :=
  { freshState time with runningNodes := running }

/-- A timer decorator (address 7, interval 3) evaluated at time 5 with deadline 0 on a
failing leaf (address 1): the result of `BotDecoratorTimer`. -/
def timerExample : AINodeStatus_t × BotState Unit :=
  BotDecoratorTimer 4 (freshState 5) 7 [AIBoxInt 3] (constAction STATUS_FAILURE 1)

/-- The state `timerExample` left, seen at the later time `time`. -/
def timerExampleAt (time : Int) : BotState Unit :=
  { timerExample.2 with levelTime := time }

/-- A timer decorator (address 7, interval `INT_MAX`) evaluated at time 5 with deadline 0
on a leaf (address 1) that fails. -/
def timerOverflow : AINodeStatus_t × BotState Unit :=
  BotDecoratorTimer 4 (freshState 5) 7 [AIBoxInt 2147483647] (constAction STATUS_FAILURE 1)

/-- The state `timerOverflow` left, seen at the later time `time`. -/
def timerOverflowAt (time : Int) : BotState Unit :=
  { timerOverflow.2 with levelTime := time }

/-- Frame of a piece of evaluation that leads from state `s` to state `t`, inside the
subtrees with addresses `A` and `k` nodes: the evaluation log only grows, the time and
the client number stay, the running-node list grows by at most `k` entries, all its new
entries are addresses of `A`, and the data of decorators outside `A` stay. -/
def EvalFrame (A : List Nat) (k : Nat) (s t : BotState G) : Prop :=
  (∃ e, t.evalLog = s.evalLog ++ e) ∧
  t.levelTime = s.levelTime ∧ t.number = s.number ∧
  t.runningNodes.length ≤ s.runningNodes.length + k ∧
  (∀ x, x ∈ t.runningNodes → x ∈ s.runningNodes ∨ x ∈ A) ∧
  (∀ x c, x ∉ A → t.decData x c = s.decData x c)

/-- Source function `BotActionChangeGoal`, as the run function of an action leaf.  The
helpers `BotChangeGoalEntity` (applied to the entity `AIEntityToGentity` yields for the
first parameter) and `BotChangeGoalPos` are not part of the sources at hand; they are
parameters that report success and leave a game state. -/
def BotActionChangeGoal (BotChangeGoalEntity : BotState G → Int → Bool × G)
    (BotChangeGoalPos : BotState G → Rat → Rat → Rat → Bool × G)
    (self : BotState G) (node : Nat) (params : List AIValue_t) : AIActionResult G :=
  match params with
  | [p0] =>
      let r := BotChangeGoalEntity self (AIUnBoxInt p0)
      if r.1 = false then { status := STATUS_FAILURE, currentNode := self.currentNode, game := r.2 }
      else { status := STATUS_SUCCESS, currentNode := some node, game := r.2 }
  | [p0, p1, p2] =>
      let r := BotChangeGoalPos self (AIUnBoxFloat p0) (AIUnBoxFloat p1) (AIUnBoxFloat p2)
      if r.1 = false then { status := STATUS_FAILURE, currentNode := self.currentNode, game := r.2 }
      else { status := STATUS_SUCCESS, currentNode := some node, game := r.2 }
  | _ => { status := STATUS_FAILURE, currentNode := self.currentNode, game := self.game }

/-- An action leaf at address `addr` that runs `BotActionChangeGoal` with one parameter
and a goal change that always succeeds. -/
def changeGoalAction (addr : Nat) : AIGenericNode_t Unit :=
  .action addr (BotActionChangeGoal (fun s _ => (true, s.game)) (fun s _ _ _ => (true, s.game)))
    [AIBoxInt 1]

mutual
/-- Address and type of every node of a subtree, in pre-order. -/
def AIGenericNode_t.nodeTags : AIGenericNode_t G → List (Nat × AINodeType_t)
  | .list a _ l => (a, .SELECTOR_NODE) :: AIGenericNode_t.nodeTagsList l
  | .decorator a _ _ c => (a, .DECORATOR_NODE) :: c.nodeTags
  | .condition a _ none => [(a, .CONDITION_NODE)]
  | .condition a _ (some c) => (a, .CONDITION_NODE) :: c.nodeTags
  | .action a _ _ => [(a, .ACTION_NODE)]
  | .behavior a r => (a, .BEHAVIOR_NODE) :: r.nodeTags
termination_by structural n => n
/-- Address and type of every node of a list of subtrees. -/
def AIGenericNode_t.nodeTagsList : List (AIGenericNode_t G) → List (Nat × AINodeType_t)
  | [] => []
  | c :: rest => c.nodeTags ++ AIGenericNode_t.nodeTagsList rest
termination_by structural l => l
end

/-- Addresses of the action leaves of a subtree. -/
def AIGenericNode_t.actionAddrs (n : AIGenericNode_t G) : List Nat :=
  (n.nodeTags.filter (fun p => decide (p.2 = AINodeType_t.ACTION_NODE))).map Prod.fst

/-- A running-node list in which only the first entry may be an action leaf of the
tree `root`. -/
def actionOnlyFirst (root : AIGenericNode_t G) (l : List Nat) : Prop :=
  ∀ x, x ∈ l.tail → x ∉ root.actionAddrs

mutual
/-- All nodes of a subtree, in pre-order. -/
def AIGenericNode_t.subnodes : AIGenericNode_t G → List (AIGenericNode_t G)
  | .list a r l => .list a r l :: AIGenericNode_t.subnodesList l
  | .decorator a r ps c => .decorator a r ps c :: c.subnodes
  | .condition a e none => [.condition a e none]
  | .condition a e (some c) => .condition a e (some c) :: c.subnodes
  | .action a r ps => [.action a r ps]
  | .behavior a r => .behavior a r :: r.subnodes
termination_by structural n => n
/-- All nodes of a list of subtrees. -/
def AIGenericNode_t.subnodesList : List (AIGenericNode_t G) → List (AIGenericNode_t G)
  | [] => []
  | c :: rest => c.subnodes ++ AIGenericNode_t.subnodesList rest
termination_by structural l => l
end

/-- In the tree `root`, the node at address `x` is the node at address `y` or one of
its ancestors: `y` is an address of the subtree of a node at address `x`. -/
def AIGenericNode_t.isAncestorOrSelf (root : AIGenericNode_t G) (x y : Nat) : Bool :=
  root.subnodes.any (fun m => decide (m.addr = x) && decide (y ∈ m.addrs))

/-- In the tree `root`, the nodes at addresses `x` and `y` are on one path from the
root: one is the other or an ancestor of the other. -/
def AIGenericNode_t.onOnePath (root : AIGenericNode_t G) (x y : Nat) : Bool :=
  root.isAncestorOrSelf x y || root.isAncestorOrSelf y x

/-- A return decorator at address `addr` configured with `STATUS_RUNNING`, over a leaf
at address `leaf` that returns `STATUS_SUCCESS`; the game state is a flag. -/
def runningReturn (addr leaf : Nat) : AIGenericNode_t Bool :=
  .decorator addr .ret [AIBoxInt STATUS_RUNNING]
    (.action leaf (fun s _ _ =>
      { status := STATUS_SUCCESS, currentNode := s.currentNode, game := s.game }) [])

/-- A selector (address 9) over two condition nodes: the first (address 1) tests the
flag of the game state and guards `runningReturn 2 3`, the second (address 4) is always
true and guards `runningReturn 5 6`. -/
def twoReturnsSelector : AIGenericNode_t Bool :=
  .list 9 .selector
    [.condition 1 (.func (fun s _ => AIBoxInt (if s.game then 1 else 0)) [])
        (some (runningReturn 2 3)),
     .condition 4 (.value (AIBoxInt 1)) (some (runningReturn 5 6))]

/-- A concurrent node (address 9) over `runningReturn 1 2` and `runningReturn 3 4`. -/
def twoReturnsConcurrent : AIGenericNode_t Bool :=
  .list 9 .concurrent [runningReturn 1 2, runningReturn 3 4]

/-- A bot state with an empty running-node list, no current node, all decorator data
zero, at time 0, whose game state is the flag `flag`. -/
def flagState (flag : Bool) : BotState Bool :=
  { levelTime := 0, number := 0, runningNodes := [], currentNode := none,
    decData := fun _ _ => 0, game := flag, evalLog := [] }

/-- The state after the first evaluation of `twoReturnsSelector` (flag set), seen on
the next tick with the flag cleared. -/
def twoReturnsSecondTick : BotState Bool :=
  { (BotEvaluateNode 8 twoReturnsSelector (flagState true)).2 with game := false }

/-- Reference semantics, numeric value of a boxed value: the integer or the float
itself, and 0 for a string. -/
def refNumeric : AIValue_t → Rat
  | .VALUE_INT i => (i : Rat)
  | .VALUE_FLOAT f => f
  | .VALUE_STRING _ => 0

/-- Reference semantics of a condition expression, written after the specification:
the pair of the boolean value and the numeric value of the expression.  A leaf has its
numeric value and is true iff that value is not zero; an operator node has a boolean
value and counts as 1 or 0 numerically.  AND and OR combine the boolean values of the
operands (the left operand first), NOT negates the boolean value of its operand, the
six comparisons compare the numeric values of the operands, and any other operator
yields false. -/
def refExp (self : BotState G) : AIExp G → Bool × Rat
  | .value v => (decide (refNumeric v ≠ 0), refNumeric v)
  | .func f ps => (decide (refNumeric (f self ps) ≠ 0), refNumeric (f self ps))
  | .unaryOp opType exp =>
      let b : Bool :=
        match opType with
        | .OP_NOT => !(refExp self exp).1
        | _ => false
      (b, if b then 1 else 0)
  | .binaryOp opType exp1 exp2 =>
      let b : Bool :=
        match opType with
        | .OP_AND => (refExp self exp1).1 && (refExp self exp2).1
        | .OP_OR => (refExp self exp1).1 || (refExp self exp2).1
        | .OP_NOT => !(refExp self exp1).1
        | .OP_LESSTHAN => decide ((refExp self exp1).2 < (refExp self exp2).2)
        | .OP_LESSTHANEQUAL => decide ((refExp self exp1).2 ≤ (refExp self exp2).2)
        | .OP_GREATERTHAN => decide ((refExp self exp1).2 > (refExp self exp2).2)
        | .OP_GREATERTHANEQUAL => decide ((refExp self exp1).2 ≥ (refExp self exp2).2)
        | .OP_EQUAL => decide ((refExp self exp1).2 = (refExp self exp2).2)
        | .OP_NEQUAL => decide ((refExp self exp1).2 ≠ (refExp self exp2).2)
        | .OP_NONE => false
      (b, if b then 1 else 0)

/-! ### Path following (`src/sgame/botlib/bot_nav.cpp`)

The corridor (`dtPathCorridor`), the mesh queries of Detour and the helpers of the
repository that are declared in `bot_local.h` (`FindRoute`, `FindWaypoints`,
`PointInPoly`, `PointInPolyExtents`, `BotCalcSteerDir`, the coordinate conversions) are
not part of the sources at hand: they are the fields of `NavBackend`.  A coordinate is
the rational value of a finite `float`. -/

/-- A polygon reference of the navigation mesh. -/
abbrev dtPolyRef := Nat

/-- A vector of three coordinates (`rVec` in the coordinates of the mesh, `qVec` in
the coordinates of the engine). -/
structure Vec3 where
  v0 : Rat
  v1 : Rat
  v2 : Rat
  deriving DecidableEq

/-- A vector in the coordinates of the navigation mesh. -/
abbrev rVec := Vec3

/-- A vector in the coordinates of the engine. -/
abbrev qVec := Vec3

/-- Detour function `dtVdist2DSqr`: squared distance of two points on the xz-plane,
`dx*dx + dz*dz` with `dx = v2[0] - v1[0]` and `dz = v2[2] - v1[2]`, each of the five
operations carried out on `float`. -/
def dtVdist2DSqr (v1 v2 : rVec) : Float32 :=
  let dx := Float32.sub (.finite v2.v0) (.finite v1.v0)
  let dz := Float32.sub (.finite v2.v2) (.finite v1.v2)
  Float32.add (Float32.mul dx dx) (Float32.mul dz dz)

/-- Detour flag `DT_STRAIGHTPATH_OFFMESH_CONNECTION` of a corner of the straight
path. -/
def DT_STRAIGHTPATH_OFFMESH_CONNECTION : Nat := 4

/-- An off-mesh connection of the mesh (`dtOffMeshConnection`); the code reads its
radius. -/
structure dtOffMeshConnection where
  rad : Rat

/-- Kind of a route target, `botRouteTargetType_t`. -/
inductive botRouteTargetType_t where
  | BOT_TARGET_STATIC
  | BOT_TARGET_DYNAMIC
  deriving DecidableEq, Repr

/-- A route target in the coordinates of the mesh, `botRouteTargetInternal`. -/
structure botRouteTargetInternal where
  type : botRouteTargetType_t
  pos : rVec
  polyExtents : rVec

/-- The navigation command `botNavCmd_t` the caller receives. -/
structure botNavCmd_t where
  pos : qVec
  tpos : qVec
  dir : qVec
  directPathToGoal : Bool
  havePath : Bool

/-- The corner list `FindWaypoints` writes. -/
structure Corners where
  cornerVerts : Nat → rVec
  cornerFlags : Nat → Nat
  cornerPolys : Nat → dtPolyRef
  numCorners : Int

/-- The navigation state `Bot_t` of one agent, with the fields `G_BotUpdatePath` works
on; `C` is the type of the corridor, `N` the type of the navigation data.  The field
`routeResults` holds the bytes of the array of that name, which `G_BotSetNavMesh`
clears with `memset`; the declaration of its entries is not part of the sources at
hand. -/
structure Bot_t (C N : Type) where
  nav : N
  corridor : C
  clientNum : Int
  needReplan : Bool
  offMesh : Bool
  offMeshPoly : dtPolyRef
  offMeshEnd : rVec
  offMeshStart : rVec
  numCorners : Int
  cornerVerts : Nat → rVec
  cornerFlags : Nat → Nat
  cornerPolys : Nat → dtPolyRef
  routeResults : List Nat := []

/-- The operations `bot_nav.cpp` calls on the corridor, on the mesh and in the helpers
declared in `bot_local.h`.  An operation that writes the corridor returns the new
corridor. -/
structure NavBackend (C N : Type) where
  movePosition : C → rVec → N → C
  moveTargetPosition : C → rVec → N → C
  isValid : C → N → Bool
  trimInvalidPath : C → dtPolyRef → rVec → N → C
  getFirstPoly : C → dtPolyRef
  getLastPoly : C → dtPolyRef
  getPos : C → rVec
  getTarget : C → rVec
  moveOverOffmeshConnection : C → dtPolyRef → N → Bool × C × rVec × rVec
  getOffMeshConnectionByRef : N → dtPolyRef → Option dtOffMeshConnection
  getPolyHeight : N → dtPolyRef → rVec → Option Rat
  FindWaypoints : N → C → Corners
  FindRoute : Bot_t C N → rVec → botRouteTargetInternal → Bool → Bool × C
  PointInPoly : N → dtPolyRef → rVec → Bool
  PointInPolyExtents : N → dtPolyRef → rVec → rVec → Bool
  BotCalcSteerDir : Bot_t C N → rVec
  recast2quake : rVec → qVec
  quake2recast : qVec → rVec
  ProjectPointOntoVectorBounded : qVec → qVec → qVec → qVec
  VectorNormalize : qVec → qVec

variable {C N : Type}

/-- Source function `withinRadiusOfOffMeshConnection`. -/
def withinRadiusOfOffMeshConnection (be : NavBackend C N) (bot : Bot_t C N) (pos off : rVec)
    (conPoly : dtPolyRef) : Bool :=
  match be.getOffMeshConnectionByRef bot.nav conPoly with
  | none => false
  | some con =>
      if Float32.lt (dtVdist2DSqr pos off) (Float32.mul (.finite con.rad) (.finite con.rad))
      then true else false

/-- Source function `overOffMeshConnectionStart`. -/
def overOffMeshConnectionStart (be : NavBackend C N) (bot : Bot_t C N) (pos : rVec) : Bool :=
  if bot.numCorners < 1 then false
  else
    let corner := (bot.numCorners - 1).toNat
    let offMeshConnection : Bool :=
      (bot.cornerFlags corner) &&& DT_STRAIGHTPATH_OFFMESH_CONNECTION != 0
    if offMeshConnection then
      withinRadiusOfOffMeshConnection be bot pos (bot.cornerVerts corner) (bot.cornerPolys corner)
    else false

/-- Source function `G_UpdatePathCorridor`. -/
def G_UpdatePathCorridor (be : NavBackend C N) (bot : Bot_t C N) (spos : rVec)
    (target : botRouteTargetInternal) : Bot_t C N :=
  let c1 := be.movePosition bot.corridor spos bot.nav
  let c2 :=
    if target.type = botRouteTargetType_t.BOT_TARGET_DYNAMIC
    then be.moveTargetPosition c1 target.pos bot.nav else c1
  let bot1 : Bot_t C N :=
    if be.isValid c2 bot.nav = false then
      { bot with corridor := be.trimInvalidPath c2 (be.getFirstPoly c2) spos bot.nav,
                 needReplan := true }
    else { bot with corridor := c2 }
  let w := be.FindWaypoints bot1.nav bot1.corridor
  { bot1 with cornerVerts := w.cornerVerts, cornerFlags := w.cornerFlags,
              cornerPolys := w.cornerPolys, numCorners := w.numCorners }

/-- The target position of the command: the target of the corridor, at the height of
the last polygon when the mesh knows it, in the coordinates of the engine. -/
def G_BotUpdatePath.targetPos (be : NavBackend C N) (bot : Bot_t C N) : qVec :=
  let tpos := be.getTarget bot.corridor
  match be.getPolyHeight bot.nav (be.getLastPoly bot.corridor) tpos with
  | some height => be.recast2quake { tpos with v1 := height }
  | none => be.recast2quake tpos

/-- First step of the block `if ( !bot->offMesh )` of `G_BotUpdatePath`: the route
query, made when a replan is needed; it clears `needReplan` when it succeeds. -/
def G_BotUpdatePath.replan (be : NavBackend C N) (bot : Bot_t C N) (spos : rVec)
    (rtarget : botRouteTargetInternal) : Bot_t C N :=
  if bot.needReplan then
    let r := be.FindRoute bot spos rtarget false
    if r.1 then { bot with corridor := r.2, needReplan := false }
    else { bot with corridor := r.2 }
  else bot

/-- Second step of the block `if ( !bot->offMesh )`: the start of an off-mesh
traversal. -/
def G_BotUpdatePath.enterOffMesh (be : NavBackend C N) (bot : Bot_t C N) (spos : rVec) :
    Bot_t C N :=
  if overOffMeshConnectionStart be bot spos then
    let con := bot.cornerPolys (bot.numCorners - 1).toNat
    let r := be.moveOverOffmeshConnection bot.corridor con bot.nav
    if r.1 then
      { bot with corridor := r.2.1, offMesh := true, offMeshPoly := con,
                 offMeshEnd := r.2.2.2, offMeshStart := r.2.2.1 }
    else { bot with corridor := r.2.1 }
  else bot

/-- Third step of the block `if ( !bot->offMesh )`: the check of the two ends of the
corridor. -/
def G_BotUpdatePath.checkCorridor (be : NavBackend C N) (bot : Bot_t C N) (spos epos : rVec)
    (rtarget : botRouteTargetInternal) : Bot_t C N :=
  let firstPoly := be.getFirstPoly bot.corridor
  let lastPoly := be.getLastPoly bot.corridor
  if be.PointInPoly bot.nav firstPoly spos = false
      ∨ (rtarget.type = botRouteTargetType_t.BOT_TARGET_DYNAMIC
          ∧ be.PointInPolyExtents bot.nav lastPoly epos rtarget.polyExtents = false)
  then { bot with needReplan := true } else bot

/-- The block `if ( !bot->offMesh )` of `G_BotUpdatePath`. -/
def G_BotUpdatePath.onMesh (be : NavBackend C N) (bot : Bot_t C N) (spos epos : rVec)
    (rtarget : botRouteTargetInternal) (cmd : botNavCmd_t) : Bot_t C N × botNavCmd_t :=
  let bot1 := G_BotUpdatePath.replan be bot spos rtarget
  let havePath := !bot1.needReplan
  let bot2 := G_BotUpdatePath.enterOffMesh be bot1 spos
  let bot3 := G_BotUpdatePath.checkCorridor be bot2 spos epos rtarget
  let pos := be.recast2quake (be.getPos bot3.corridor)
  (bot3,
    { cmd with
      havePath := havePath,
      dir := be.recast2quake (be.BotCalcSteerDir bot3),
      directPathToGoal := decide (bot3.numCorners ≤ 1),
      pos := pos,
      tpos := if bot3.numCorners = 0 then pos else G_BotUpdatePath.targetPos be bot3 })

/-- The block `if ( bot->offMesh )` of `G_BotUpdatePath`; `origin` is the position of
the agent in the coordinates of the engine, `spos` in those of the mesh.  The
differences of `VectorSubtract` are rounded to `float`; the vector is handed to
`VectorNormalize` only. -/
def G_BotUpdatePath.offMesh (be : NavBackend C N) (bot : Bot_t C N) (origin : qVec)
    (spos : rVec) (cmd : botNavCmd_t) : Bot_t C N × botNavCmd_t :=
  let start : qVec := { be.recast2quake bot.offMeshStart with v2 := origin.v2 }
  let endp : qVec := { be.recast2quake bot.offMeshEnd with v2 := origin.v2 }
  let cmd1 : botNavCmd_t :=
    { cmd with
      pos := be.ProjectPointOntoVectorBounded origin start endp,
      directPathToGoal := false,
      dir := be.VectorNormalize
        { v0 := roundF32 (endp.v0 - origin.v0), v1 := roundF32 (endp.v1 - origin.v1),
          v2 := roundF32 (endp.v2 - origin.v2) },
      tpos := G_BotUpdatePath.targetPos be bot,
      havePath := true }
  if withinRadiusOfOffMeshConnection be bot spos bot.offMeshEnd bot.offMeshPoly then
    ({ bot with offMesh := false }, cmd1)
  else (bot, cmd1)

/-- Source function `G_BotUpdatePath` on the navigation state `bot` of the agent;
`origin` is the position of the agent's entity, `target` and `cmd` are the two pointer
arguments (`none` for a null pointer).  The result is the new navigation state and the
command. -/
def G_BotUpdatePath (be : NavBackend C N) (bot : Bot_t C N) (origin : qVec)
    (target : Option botRouteTargetInternal) (cmd : Option botNavCmd_t) :
    Bot_t C N × Option botNavCmd_t :=
  match cmd, target with
  | some cmd0, some rtarget =>
      let spos := be.quake2recast origin
      let epos := rtarget.pos
      let bot1 := G_UpdatePathCorridor be bot spos rtarget
      let r1 : Bot_t C N × botNavCmd_t :=
        if bot1.offMesh = false then G_BotUpdatePath.onMesh be bot1 spos epos rtarget cmd0
        else (bot1, cmd0)
      let r2 : Bot_t C N × botNavCmd_t :=
        if r1.1.offMesh then G_BotUpdatePath.offMesh be r1.1 origin spos r1.2 else r1
      (r2.1, some r2.2)
  | _, _ => (bot, cmd)

/-- A backend over trivial corridor and navigation data: the corridor is always valid,
the agent is never inside a polygon, the corner list is the single corner at the
origin, flagged as the start of the off-mesh connection 7, whose radius is 2; moving
over the connection succeeds and captures the end point (10, 0, 0); the coordinate
conversions are the identity. -/
def exampleBackend : NavBackend Unit Unit where
  movePosition := fun c _ _ => c
  moveTargetPosition := fun c _ _ => c
  isValid := fun _ _ => true
  trimInvalidPath := fun c _ _ _ => c
  getFirstPoly := fun _ => 1
  getLastPoly := fun _ => 1
  getPos := fun _ => ⟨0, 0, 0⟩
  getTarget := fun _ => ⟨0, 0, 0⟩
  moveOverOffmeshConnection := fun c _ _ => (true, c, ⟨0, 0, 0⟩, ⟨10, 0, 0⟩)
  getOffMeshConnectionByRef := fun _ ref => if ref = 7 then some ⟨2⟩ else none
  getPolyHeight := fun _ _ _ => none
  FindWaypoints := fun _ _ =>
    { cornerVerts := fun _ => ⟨0, 0, 0⟩, cornerFlags := fun _ => 4, cornerPolys := fun _ => 7,
      numCorners := 1 }
  FindRoute := fun b _ _ _ => (true, b.corridor)
  PointInPoly := fun _ _ _ => false
  PointInPolyExtents := fun _ _ _ _ => true
  BotCalcSteerDir := fun _ => ⟨0, 0, 0⟩
  recast2quake := fun v => v
  quake2recast := fun v => v
  ProjectPointOntoVectorBounded := fun p _ _ => p
  VectorNormalize := fun v => v

/-- The backend `exampleBackend` with the radius 11635/256 (about 45.45) for the
connection 7, whose end point is (100, 0, 0). -/
def wideBackend : NavBackend Unit Unit :=
  { exampleBackend with
    moveOverOffmeshConnection := fun c _ _ => (true, c, ⟨0, 0, 0⟩, ⟨100, 0, 0⟩),
    getOffMeshConnectionByRef := fun _ ref => if ref = 7 then some ⟨11635 / 256⟩ else none }

/-- A navigation state over `exampleBackend`: no replan needed, no corner yet, with the
given off-mesh flag; an active traversal is over the connection 3 (unknown to the
mesh). -/
def exampleBot (offMesh : Bool) : Bot_t Unit Unit where
  nav := ()
  corridor := ()
  clientNum := 0
  needReplan := false
  offMesh := offMesh
  offMeshPoly := 3
  offMeshEnd := ⟨10, 0, 0⟩
  offMeshStart := ⟨0, 0, 0⟩
  numCorners := 0
  cornerVerts := fun _ => ⟨0, 0, 0⟩
  cornerFlags := fun _ => 0
  cornerPolys := fun _ => 0

/-- A static route target at the origin. -/
def exampleTarget : botRouteTargetInternal where
  type := botRouteTargetType_t.BOT_TARGET_STATIC
  pos := ⟨0, 0, 0⟩
  polyExtents := ⟨0, 0, 0⟩

/-- A command with all fields cleared. -/
def exampleCmd : botNavCmd_t where
  pos := ⟨0, 0, 0⟩
  tpos := ⟨0, 0, 0⟩
  dir := ⟨0, 0, 0⟩
  directPathToGoal := false
  havePath := false

/-- Is the node a return decorator configured with `STATUS_RUNNING`? -/
def AIGenericNode_t.returnsRunning : AIGenericNode_t G → Bool
  | .decorator _ .ret params _ => decide (AIUnBoxInt (params0 params) = STATUS_RUNNING)
  | _ => false

/-- The entries of a running-node list are pairwise on one path of the tree `root`. -/
def onePath (root : AIGenericNode_t G) (l : List Nat) : Prop :=
  l.Pairwise (fun x y => root.onOnePath x y = true)

/-- Outcome of a piece of evaluation inside the subtrees with addresses `A`, from state
`s` to state `t` with status `status`: the running-node list is left as it was, or it
is a list of addresses of `A` that are pairwise on one path of `root`; the latter holds
whenever the status is `STATUS_RUNNING`. -/
def PathOutcome (root : AIGenericNode_t G) (A : List Nat) (s t : BotState G)
    (status : AINodeStatus_t) : Prop :=
  (t.runningNodes = s.runningNodes
    ∨ (onePath root t.runningNodes ∧ ∀ x, x ∈ t.runningNodes → x ∈ A))
  ∧ (status = STATUS_RUNNING → onePath root t.runningNodes ∧ ∀ x, x ∈ t.runningNodes → x ∈ A)

/-- The backend `exampleBackend` with a route query that always fails and leaves the
corridor as it is. -/
def noRouteBackend : NavBackend Unit Unit :=
  { exampleBackend with FindRoute := fun b _ _ _ => (false, b.corridor) }

/-- The navigation state `exampleBot false` with `needReplan` set. -/
def replanBot : Bot_t Unit Unit :=
  { exampleBot false with needReplan := true }

/-- The operations `G_BotSetNavMesh` calls on the corridor (`dtPathCorridor`, not part
of the sources at hand): `getPath` tells whether `corridor.getPath()` is not null,
`init` yields the corridor with its path allocated, or `none` when `corridor.init`
returns false, `reset` is `corridor.reset`. -/
structure CorridorBackend (C : Type) where
  getPath : C → Bool
  init : C → Nat → Option C
  reset : C → dtPolyRef → rVec → C

/-- Source function `G_BotSetNavMesh` on the array `agents` of navigation states.
`numNavData` and `BotNavData` are the globals of these names, `MAX_BOT_PATH` is the
constant of `bot_local.h`.  The result is `Except.error` with the message of
`Sys::Drop` when the call does not return; otherwise it is the array `agents` after the
call and the warnings logged. -/
def G_BotSetNavMesh (cb : CorridorBackend C) (MAX_BOT_PATH : Nat) (numNavData : Int)
    (BotNavData : Int → N) (agents : Int → Bot_t C N) (botClientNum : Int) (nav : Int) :
    Except String ((Int → Bot_t C N) × List String) :=
  if nav < 0 ∨ nav ≥ numNavData then
    .ok (agents, ["Navigation handle out of bounds"])
  else
    let bot := agents botClientNum
    let corridor : Option C :=
      if cb.getPath bot.corridor = false then cb.init bot.corridor MAX_BOT_PATH
      else some bot.corridor
    match corridor with
    | none => .error "Out of memory (bot corridor init)"
    | some c =>
        .ok (Function.update agents botClientNum
              { bot with
                nav := BotNavData nav,
                corridor := cb.reset c 0 ⟨0, 0, 0⟩,
                clientNum := botClientNum,
                needReplan := true,
                offMesh := false,
                numCorners := 0,
                routeResults := List.replicate bot.routeResults.length 0 },
             [])

/-- A corridor backend over corridors that are numbers: 0 is the corridor without a
path, `init` allocates the path (corridor 1), `reset` yields corridor 2. -/
def exampleCorridorBackend : CorridorBackend Nat where
  getPath := fun c => decide (c ≠ 0)
  init := fun _ _ => some 1
  reset := fun _ _ _ => 2

/-- An array of agents in the middle of an off-mesh traversal, with three corners,
a route cache of four bytes that are not zero, and no corridor path yet; the
navigation data are numbers. -/
def exampleAgents : Int → Bot_t Nat Int := fun _ =>
  { nav := 0, corridor := 0, clientNum := 0, needReplan := false, offMesh := true,
    offMeshPoly := 3, offMeshEnd := ⟨10, 0, 0⟩, offMeshStart := ⟨0, 0, 0⟩, numCorners := 3,
    cornerVerts := fun _ => ⟨0, 0, 0⟩, cornerFlags := fun _ => 0, cornerPolys := fun _ => 0,
    routeResults := [7, 7, 7, 7] }

/-! ### Obstacles (`src/sgame/botlib/bot_nav.cpp`)

The two maps `savedObstacles` and `obstacleHandles` are `std::map`s with `int` keys:
lists of pairs, one pair per key, in increasing order of the keys.  The tile cache of
Detour and the declarations of `bot_local.h` are not part of the sources at hand; what
the obstacle functions take from them is the structure `ObstacleBackend`.  The state
keeps, next to the globals, the list of the requests made to the tile caches. -/

section stdMap
variable {V : Type}

/-- The value `std::map::find` reaches for a key, if any. -/
def stdMap.find : List (Int × V) → Int → Option V
  | [], _ => none
  | (k2, v) :: rest, k => if k2 = k then some v else stdMap.find rest k

/-- The map with the value of the node of key `k`, if there is one, replaced by `f` of
it. -/
def stdMap.modify (m : List (Int × V)) (k : Int) (f : V → V) : List (Int × V) :=
  m.map (fun p => if p.1 = k then (p.1, f p.2) else p)

/-- The map with a new node for a key, at its place in the order of the keys. -/
def stdMap.insertSorted : List (Int × V) → Int → V → List (Int × V)
  | [], k, v => [(k, v)]
  | (k2, v2) :: rest, k, v =>
      if k < k2 then (k, v) :: (k2, v2) :: rest
      else (k2, v2) :: stdMap.insertSorted rest k v

/-- The assignment `m[ k ] = v`: the node of key `k` gets the value `v`; the node is
created when the map has none. -/
def stdMap.assign (m : List (Int × V)) (k : Int) (v : V) : List (Int × V) :=
  match stdMap.find m k with
  | some _ => stdMap.modify m k (fun _ => v)
  | none => stdMap.insertSorted m k v

/-- The call `m.insert( { k, v } )`: the map afterwards and the component `second` of
the result, which is false when the map had a node of key `k` (the map is then left as
it was). -/
def stdMap.insert (m : List (Int × V)) (k : Int) (v : V) : List (Int × V) × Bool :=
  match stdMap.find m k with
  | some _ => (m, false)
  | none => (stdMap.insertSorted m k v, true)

/-- The map without the node of key `k`. -/
def stdMap.erase (m : List (Int × V)) (k : Int) : List (Int × V) :=
  m.filter (fun p => decide (p.1 ≠ k))

/-- The keys of a map, in the order of iteration. -/
def stdMap.keys (m : List (Int × V)) : List Int := m.map Prod.fst

end stdMap

/-- The status `navMeshStatus_t` of the navigation meshes.  The sources at hand compare
the global `navMeshLoaded` with `LOADED` only. -/
inductive navMeshStatus_t where
  | UNINITIALIZED
  | GENERATING
  | LOAD_FAILED
  | LOADED
  deriving DecidableEq, Repr

/-- The box of a saved obstacle. -/
structure bbox_t where
  mins : Vec3
  maxs : Vec3
  deriving DecidableEq

/-- An entry `saved_obstacle_t` of `savedObstacles`. -/
structure saved_obstacle_t where
  added : Bool
  bbox : bbox_t
  deriving DecidableEq

/-- A handle of an obstacle of a tile cache. -/
abbrev dtObstacleRef := Nat

/-- The value `(unsigned int)-1` that marks a slot without a handle. -/
def NO_OBSTACLE : dtObstacleRef := 4294967295

/-- A request made to the tile cache of the mesh `mesh` on behalf of the obstacle
`obstacleNum`: `addBoxObstacle`, or `removeObstacle` of a handle. -/
inductive ObstacleRequest where
  | add (obstacleNum : Int) (mesh : Nat)
  | remove (obstacleNum : Int) (mesh : Nat) (handle : dtObstacleRef)
  deriving DecidableEq, Repr

/-- What the obstacle functions take from outside the sources at hand: the constant
`MAX_NAV_DATA`, the constructor `rBounds( min, max )` (the box in the coordinates of the
mesh), and of a tile cache `T` its parameters `walkableRadius` and `walkableHeight`,
`addBoxObstacle` (the cache afterwards and the handle it writes, if it writes one),
`removeObstacle` and `getObstacleCount`. -/
structure ObstacleBackend (T : Type) where
  MAX_NAV_DATA : Nat
  rBounds : qVec → qVec → rVec × rVec
  walkableRadius : T → Rat
  walkableHeight : T → Rat
  addBoxObstacle : T → rVec → rVec → T × Option dtObstacleRef
  removeObstacle : T → dtObstacleRef → T
  getObstacleCount : T → Int

/-- The globals the obstacle functions work on: `navMeshLoaded`, `numNavData`, the tile
caches `BotNavData[ i ].cache`, the maps `savedObstacles` and `obstacleHandles`; and
the requests made to the tile caches and the warnings logged so far. -/
structure ObstacleWorld (T : Type) where
  navMeshLoaded : navMeshStatus_t
  numNavData : Nat
  BotNavData : Nat → T
  savedObstacles : List (Int × saved_obstacle_t)
  obstacleHandles : List (Int × List dtObstacleRef)
  requests : List ObstacleRequest
  warnings : List String

variable {T : Type}

/-- One round `i` of the loop of `G_BotAddObstacle` over the meshes, on the state and
the local array `handles`.  The sums and differences that widen the box are rounded to
`float`; the box is handed to `addBoxObstacle` only. -/
def G_BotAddObstacle.step (ob : ObstacleBackend T) (box : rVec × rVec) (obstacleNum : Int)
    (st : ObstacleWorld T × List dtObstacleRef) (i : Nat) :
    ObstacleWorld T × List dtObstacleRef :=
  let nav := st.1.BotNavData i
  let offset := ob.walkableRadius nav
  let tempMins : rVec :=
    { v0 := roundF32 (box.1.v0 - offset), v1 := roundF32 (box.1.v1 - ob.walkableHeight nav),
      v2 := roundF32 (box.1.v2 - offset) }
  let tempMaxs : rVec :=
    { v0 := roundF32 (box.2.v0 + offset), v1 := box.2.v1, v2 := roundF32 (box.2.v2 + offset) }
  let r := ob.addBoxObstacle nav tempMins tempMaxs
  ({ st.1 with
      BotNavData := Function.update st.1.BotNavData i r.1,
      requests := st.1.requests ++ [ObstacleRequest.add obstacleNum i] },
   match r.2 with
   | some handle => st.2.set i handle
   | none => st.2)

/-- Source function `G_BotAddObstacle`. -/
def G_BotAddObstacle (ob : ObstacleBackend T) (w : ObstacleWorld T) (mins maxs : Vec3)
    (obstacleNum : Int) : ObstacleWorld T :=
  let box := ob.rBounds mins maxs
  let saved : saved_obstacle_t :=
    { added := decide (w.navMeshLoaded = navMeshStatus_t.LOADED),
      bbox := { mins := mins, maxs := maxs } }
  let w1 : ObstacleWorld T :=
    { w with savedObstacles := stdMap.assign w.savedObstacles obstacleNum saved }
  if w1.navMeshLoaded ≠ navMeshStatus_t.LOADED then w1
  else
    let r := (List.range w1.numNavData).foldl (G_BotAddObstacle.step ob box obstacleNum)
      (w1, List.replicate ob.MAX_NAV_DATA NO_OBSTACLE)
    let result := stdMap.insert r.1.obstacleHandles obstacleNum r.2
    if result.2 = false then
      { r.1 with
        obstacleHandles := result.1,
        warnings := r.1.warnings ++
          ["Insertion of obstacle failed. Was an obstacle of this number inserted already?"] }
    else { r.1 with obstacleHandles := result.1 }

/-- One round of the loop of `BotAddSavedObstacles`, on the node of key `k` of
`savedObstacles`. -/
def BotAddSavedObstacles.step (ob : ObstacleBackend T) (w : ObstacleWorld T) (k : Int) :
    ObstacleWorld T :=
  match stdMap.find w.savedObstacles k with
  | none => w
  | some obstacle =>
      let w1 :=
        if obstacle.added = false
        then G_BotAddObstacle ob w obstacle.bbox.mins obstacle.bbox.maxs k
        else w
      { w1 with savedObstacles :=
          stdMap.modify w1.savedObstacles k (fun o => { o with added := true }) }

/-- Source function `BotAddSavedObstacles`: the loop visits the nodes of
`savedObstacles` in the order of their keys; the calls of `G_BotAddObstacle` in it
assign to the node visited and create no node. -/
def BotAddSavedObstacles (ob : ObstacleBackend T) (w : ObstacleWorld T) : ObstacleWorld T :=
  (stdMap.keys w.savedObstacles).foldl (BotAddSavedObstacles.step ob) w

/-- One round `i` of the loop of `G_BotRemoveObstacle` over the meshes; `handles` is the
array found in `obstacleHandles`. -/
def G_BotRemoveObstacle.step (ob : ObstacleBackend T) (obstacleNum : Int)
    (handles : List dtObstacleRef) (w : ObstacleWorld T) (i : Nat) : ObstacleWorld T :=
  let nav := w.BotNavData i
  if ob.getObstacleCount nav ≤ 0 then w
  else if handles.getD i NO_OBSTACLE ≠ NO_OBSTACLE then
    { w with
      BotNavData := Function.update w.BotNavData i
        (ob.removeObstacle nav (handles.getD i NO_OBSTACLE)),
      requests := w.requests ++
        [ObstacleRequest.remove obstacleNum i (handles.getD i NO_OBSTACLE)] }
  else w

/-- First part of `G_BotRemoveObstacle`: the node of the obstacle in `savedObstacles`,
if there is one, is erased. -/
def G_BotRemoveObstacle.eraseSaved (w : ObstacleWorld T) (obstacleNum : Int) :
    ObstacleWorld T :=
  match stdMap.find w.savedObstacles obstacleNum with
  | some _ => { w with savedObstacles := stdMap.erase w.savedObstacles obstacleNum }
  | none => w

/-- Second part of `G_BotRemoveObstacle`: if `obstacleHandles` has a node for the
obstacle, the loop over the meshes runs on its array of handles and the node is
erased. -/
def G_BotRemoveObstacle.release (ob : ObstacleBackend T) (w : ObstacleWorld T)
    (obstacleNum : Int) : ObstacleWorld T :=
  match stdMap.find w.obstacleHandles obstacleNum with
  | some handles =>
      let w2 := (List.range w.numNavData).foldl
        (G_BotRemoveObstacle.step ob obstacleNum handles) w
      { w2 with obstacleHandles := stdMap.erase w2.obstacleHandles obstacleNum }
  | none => w

/-- Source function `G_BotRemoveObstacle`. -/
def G_BotRemoveObstacle (ob : ObstacleBackend T) (w : ObstacleWorld T) (obstacleNum : Int) :
    ObstacleWorld T :=
  G_BotRemoveObstacle.release ob (G_BotRemoveObstacle.eraseSaved w obstacleNum) obstacleNum

/-- A backend over tile caches that are counters of the obstacles added, with room for
`count` obstacles each: a cache with a free slot gives the handle 100 + its counter, a
full cache gives none; `getObstacleCount` reports the capacity `count`, as the tile
cache of Detour does; the agent radius is 1 and the agent height 2; the box is taken as
it is; there is room for 4 meshes. -/
def exampleObstacleBackend (count : Int) : ObstacleBackend Nat where
  MAX_NAV_DATA := 4
  rBounds := fun mins maxs => (mins, maxs)
  walkableRadius := fun _ => 1
  walkableHeight := fun _ => 2
  addBoxObstacle := fun c _ _ => if (c : Int) < count then (c + 1, some (100 + c)) else (c, none)
  removeObstacle := fun c _ => c - 1
  getObstacleCount := fun _ => count

/-- The state with no obstacle, `numNavData` meshes with empty tile caches, and the
given load status. -/
def emptyWorld (status : navMeshStatus_t) (numNavData : Nat) : ObstacleWorld Nat where
  navMeshLoaded := status
  numNavData := numNavData
  BotNavData := fun _ => 0
  savedObstacles := []
  obstacleHandles := []
  requests := []
  warnings := []

/-- The box from (0, 0, 0) to (1, 1, 1). -/
def unitBox : bbox_t := { mins := ⟨0, 0, 0⟩, maxs := ⟨1, 1, 1⟩ }

/-- The box from (5, 5, 5) to (9, 9, 9). -/
def otherBox : bbox_t := { mins := ⟨5, 5, 5⟩, maxs := ⟨9, 9, 9⟩ }

/-- The requests `G_BotRemoveObstacle` makes for the array `handles` stored under
`obstacleNum`: for each mesh, in order, whose tile cache reports a positive obstacle
count and whose slot holds a handle, the release of that handle. -/
def releaseRequests (ob : ObstacleBackend T) (w : ObstacleWorld T) (obstacleNum : Int)
    (handles : List dtObstacleRef) : List ObstacleRequest :=
  ((List.range w.numNavData).filter
      (fun i => decide (0 < ob.getObstacleCount (w.BotNavData i))
        && decide (handles.getD i NO_OBSTACLE ≠ NO_OBSTACLE))).map
    (fun i => ObstacleRequest.remove obstacleNum i (handles.getD i NO_OBSTACLE))

/-- The state after the obstacle 5 with the box `unitBox` was added to the empty state
with two loaded meshes, over tile caches that report the obstacle count `count`. -/
def oneObstacle (count : Int) : ObstacleWorld Nat :=
  G_BotAddObstacle (exampleObstacleBackend count) (emptyWorld navMeshStatus_t.LOADED 2)
    unitBox.mins unitBox.maxs 5

/-- The state after the obstacle 5 was added a second time, with the box `otherBox`, to
`oneObstacle 8`. -/
def duplicateObstacle : ObstacleWorld Nat :=
  G_BotAddObstacle (exampleObstacleBackend 8) (oneObstacle 8) otherBox.mins otherBox.maxs 5

/-- The state after the obstacle 5 was added to the empty state while the two meshes
were not loaded, and `BotAddSavedObstacles` was called with the meshes still not
loaded. -/
def flushedUnloaded : ObstacleWorld Nat :=
  BotAddSavedObstacles (exampleObstacleBackend 8)
    (G_BotAddObstacle (exampleObstacleBackend 8) (emptyWorld navMeshStatus_t.UNINITIALIZED 2)
      unitBox.mins unitBox.maxs 5)

/-- Every saved obstacle with `added` = true has a node in `obstacleHandles`. -/
def addedHaveHandles (w : ObstacleWorld T) : Prop :=
  ∀ k o, stdMap.find w.savedObstacles k = some o → o.added = true →
    stdMap.find w.obstacleHandles k ≠ none

/-- An operation on the obstacle bookkeeping: one of the three functions, or a change
of the load status of the meshes made outside of them. -/
inductive ObstacleOp where
  | add (mins maxs : Vec3) (obstacleNum : Int)
  | addSaved
  | remove (obstacleNum : Int)
  | setStatus (status : navMeshStatus_t)

/-- The state after an operation. -/
def ObstacleOp.apply (ob : ObstacleBackend T) (w : ObstacleWorld T) :
    ObstacleOp → ObstacleWorld T
  | .add mins maxs obstacleNum => G_BotAddObstacle ob w mins maxs obstacleNum
  | .addSaved => BotAddSavedObstacles ob w
  | .remove obstacleNum => G_BotRemoveObstacle ob w obstacleNum
  | .setStatus status => { w with navMeshLoaded := status }

/-- The operations of `ops` are carried out from `w` without a call of
`BotAddSavedObstacles` while the meshes are not loaded. -/
def flushesLoaded (ob : ObstacleBackend T) : ObstacleWorld T → List ObstacleOp → Prop
  | _, [] => True
  | w, op :: rest =>
      (op = ObstacleOp.addSaved → w.navMeshLoaded = navMeshStatus_t.LOADED)
      ∧ flushesLoaded ob (op.apply ob w) rest

/-- The children [Success, Failure, Success]: three leaves at addresses 1, 2, 3. -/
def failingChildren : List (AIGenericNode_t Unit) :=
  [constAction STATUS_SUCCESS 1, constAction STATUS_FAILURE 2, constAction STATUS_SUCCESS 3]

/-! ### Parameters of the action `buy` (`BotActionBuy`)

The enumerators `WP_NONE`, `WP_NUM_WEAPONS`, `UP_NONE` and `UP_NUM_UPGRADES` are not
part of the sources at hand: they are parameters. -/

/-- The constant `ARRAY_LENGTH` of `BotActionBuy`: the length of the local array
`upgrades`. -/
def BotActionBuy.ARRAY_LENGTH : Nat := 4

/-- What the branch `buy->nparams != 0` of `BotActionBuy` leaves: the weapon, the
counter `numUpgrades`, and the assignments `upgrades[ index ] = value` it made, in
order. -/
structure BuyRequest where
  weapon : Int
  numUpgrades : Nat
  stores : List (Nat × Int)
  deriving DecidableEq, Repr

/-- The loop `for ( i = 1; i < buy->nparams; i++ )` of `BotActionBuy` over the
parameters that are left, with the counter `numUpgrades` and the assignments made so
far: each parameter is stored at the index `numUpgrades`, and counted if it is strictly
between `UP_NONE` and `UP_NUM_UPGRADES`. -/
def BotActionBuy.upgradeLoop (UP_NONE UP_NUM_UPGRADES : Int) :
    List AIValue_t → Nat → List (Nat × Int) → Nat × List (Nat × Int)
  | [], numUpgrades, stores => (numUpgrades, stores)
  | p :: rest, numUpgrades, stores =>
      let upgrade := AIUnBoxInt p
      let stores1 := stores ++ [(numUpgrades, upgrade)]
      if upgrade ≤ UP_NONE ∨ upgrade ≥ UP_NUM_UPGRADES then
        BotActionBuy.upgradeLoop UP_NONE UP_NUM_UPGRADES rest numUpgrades stores1
      else
        BotActionBuy.upgradeLoop UP_NONE UP_NUM_UPGRADES rest (numUpgrades + 1) stores1

/-- The branch `buy->nparams != 0` of `BotActionBuy` on the parameters of the node
(`none` for a node without parameters, which takes the other branch). -/
def BotActionBuy.readParams (WP_NONE WP_NUM_WEAPONS UP_NONE UP_NUM_UPGRADES : Int)
    (params : List AIValue_t) : Option BuyRequest :=
  match params with
  | [] => none
  | p0 :: rest =>
      let weapon := AIUnBoxInt p0
      let r := BotActionBuy.upgradeLoop UP_NONE UP_NUM_UPGRADES rest 0 []
      some
        { weapon := if weapon < WP_NONE ∨ weapon ≥ WP_NUM_WEAPONS then WP_NONE else weapon,
          numUpgrades := r.1,
          stores := r.2 }

/-! ### Compound actions (`BotActionFlee`, `BotActionRoamInRadius`, `BotActionRoam`,
`BotActionMoveTo`, `BotActionRush`, `BotActionRepair`)

The helpers these actions call are not part of the sources at hand (apart from
`BotFindRandomPointInRadius`, which rests on the mesh queries): they are the fields of
`ActionEnv`.  `B` is the type of a goal target (`botTarget_t`), `E` the type of an
entity.  A helper that changes the agent returns the game state it leaves; the
current-node pointer is written by the actions only. -/

/-- The helpers of the compound actions.  The first group changes or chooses the goal;
the second group reads the goal or moves the agent. -/
structure ActionEnv (G B E : Type) where
  BotGetRetreatTarget : BotState G → B
  BotGetRoamTarget : BotState G → B
  BotGetRushTarget : BotState G → B
  AIEntityToGentity : BotState G → Int → Option E
  targetOfEntity : Option E → B
  entityOrigin : E → Vec3
  BotFindRandomPointInRadius : BotState G → Vec3 → Rat → Option Vec3
  closestDamagedBuilding : BotState G → Option E
  BotChangeGoal : BotState G → B → Bool × G
  BotChangeGoalPos : BotState G → Vec3 → Bool × G
  BotChangeGoalEntity : BotState G → Option E → Bool × G
  goalIsValid : BotState G → Bool
  goalTargetsValidEntity : BotState G → Bool
  goalEntityHasFullHealth : BotState G → Bool
  GoalInRange : BotState G → Rat → Bool
  BotGetGoalRadius : BotState G → Rat
  BotMoveToGoal : BotState G → Bool × G
  holdsBuildWeapon : BotState G → Bool
  G_ForceWeaponChange : BotState G → G
  BotTargetIsVisible : BotState G → Bool
  DistanceToGoalSquared : BotState G → Rat
  aimAtGoal : BotState G → G

variable {B E : Type}

/-- Two sets of helpers that differ at most in the helpers that change or choose the
goal. -/
def ActionEnv.sameButGoalChange (env env2 : ActionEnv G B E) : Prop :=
  env2.goalIsValid = env.goalIsValid
  ∧ env2.goalTargetsValidEntity = env.goalTargetsValidEntity
  ∧ env2.goalEntityHasFullHealth = env.goalEntityHasFullHealth
  ∧ env2.GoalInRange = env.GoalInRange
  ∧ env2.BotGetGoalRadius = env.BotGetGoalRadius
  ∧ env2.BotMoveToGoal = env.BotMoveToGoal
  ∧ env2.holdsBuildWeapon = env.holdsBuildWeapon
  ∧ env2.G_ForceWeaponChange = env.G_ForceWeaponChange
  ∧ env2.BotTargetIsVisible = env.BotTargetIsVisible
  ∧ env2.DistanceToGoalSquared = env.DistanceToGoalSquared
  ∧ env2.aimAtGoal = env.aimAtGoal

/-- The result of an action that returns `status` from the state `self`. -/
def actionReturn (self : BotState G) (status : AINodeStatus_t) : AIActionResult G :=
  { status := status, currentNode := self.currentNode, game := self.game }

/-- The statements `return BotMoveToGoal( self ) ? STATUS_RUNNING : STATUS_FAILURE`. -/
def moveOrFail (env : ActionEnv G B E) (self : BotState G) : AIActionResult G :=
  let r := env.BotMoveToGoal self
  { status := if r.1 then STATUS_RUNNING else STATUS_FAILURE,
    currentNode := self.currentNode, game := r.2 }

/-- What `BotActionFlee` does on first entry: `BotChangeGoal( self, BotGetRetreatTarget(
self ) )`. -/
def BotActionFlee.acquire (env : ActionEnv G B E) (self : BotState G)
    (_params : List AIValue_t) : Bool × G :=
  env.BotChangeGoal self (env.BotGetRetreatTarget self)

/-- The part of `BotActionFlee` after the first-entry block. -/
def BotActionFlee.body (env : ActionEnv G B E) (self : BotState G) : AIActionResult G :=
  if env.goalIsValid self = false then actionReturn self STATUS_FAILURE
  else if env.GoalInRange self 70 then actionReturn self STATUS_SUCCESS
  else { status := STATUS_RUNNING, currentNode := self.currentNode,
         game := (env.BotMoveToGoal self).2 }

/-- Source function `BotActionFlee`. -/
def BotActionFlee (env : ActionEnv G B E) (self : BotState G) (node : Nat)
    (params : List AIValue_t) : AIActionResult G :=
  if self.currentNode ≠ some node then
    let r := BotActionFlee.acquire env self params
    if r.1 = false then
      { status := STATUS_FAILURE, currentNode := self.currentNode, game := r.2 }
    else BotActionFlee.body env { self with game := r.2, currentNode := some node }
  else BotActionFlee.body env self

/-- What `BotActionRoamInRadius` does on first entry: the entity of the first parameter
is looked up, a random point within the radius of the second parameter around it is
drawn, and the goal is changed to the point; each of the three can fail. -/
def BotActionRoamInRadius.acquire (env : ActionEnv G B E) (self : BotState G)
    (params : List AIValue_t) : Bool × G :=
  let e := AIUnBoxInt (params0 params)
  let radius := AIUnBoxFloat (params.getD 1 (AIBoxInt 0))
  match env.AIEntityToGentity self e with
  | none => (false, self.game)
  | some ent =>
      match env.BotFindRandomPointInRadius self (env.entityOrigin ent) radius with
      | none => (false, self.game)
      | some point => env.BotChangeGoalPos self point

/-- The part of `BotActionRoamInRadius` and of `BotActionRoam` after the first-entry
block. -/
def BotActionRoam.body (env : ActionEnv G B E) (self : BotState G) : AIActionResult G :=
  if env.GoalInRange self (env.BotGetGoalRadius self) then actionReturn self STATUS_SUCCESS
  else moveOrFail env self

/-- Source function `BotActionRoamInRadius`. -/
def BotActionRoamInRadius (env : ActionEnv G B E) (self : BotState G) (node : Nat)
    (params : List AIValue_t) : AIActionResult G :=
  if self.currentNode ≠ some node then
    let r := BotActionRoamInRadius.acquire env self params
    if r.1 = false then
      { status := STATUS_FAILURE, currentNode := self.currentNode, game := r.2 }
    else BotActionRoam.body env { self with game := r.2, currentNode := some node }
  else BotActionRoam.body env self

/-- What `BotActionRoam` does on first entry: `BotChangeGoal( self, BotGetRoamTarget(
self ) )`. -/
def BotActionRoam.acquire (env : ActionEnv G B E) (self : BotState G)
    (_params : List AIValue_t) : Bool × G :=
  env.BotChangeGoal self (env.BotGetRoamTarget self)

/-- Source function `BotActionRoam`. -/
def BotActionRoam (env : ActionEnv G B E) (self : BotState G) (node : Nat)
    (params : List AIValue_t) : AIActionResult G :=
  if self.currentNode ≠ some node then
    let r := BotActionRoam.acquire env self params
    if r.1 = false then
      { status := STATUS_FAILURE, currentNode := self.currentNode, game := r.2 }
    else BotActionRoam.body env { self with game := r.2, currentNode := some node }
  else BotActionRoam.body env self

/-- Source function `BotGetMoveToTarget`. -/
def BotGetMoveToTarget (env : ActionEnv G B E) (self : BotState G) (e : Int) : B :=
  env.targetOfEntity (env.AIEntityToGentity self e)

/-- What `BotActionMoveTo` does on first entry: `BotChangeGoal( self, BotGetMoveToTarget(
self, ent ) )`. -/
def BotActionMoveTo.acquire (env : ActionEnv G B E) (self : BotState G)
    (params : List AIValue_t) : Bool × G :=
  env.BotChangeGoal self (BotGetMoveToTarget env self (AIUnBoxInt (params0 params)))

/-- The part of `BotActionMoveTo` after the first-entry block, with the radius read
from the parameters. -/
def BotActionMoveTo.body (env : ActionEnv G B E) (self : BotState G) (radius : Rat) :
    AIActionResult G :=
  if env.goalIsValid self = false then actionReturn self STATUS_FAILURE
  else
    let radius2 := if radius = 0 then env.BotGetGoalRadius self else radius
    if env.GoalInRange self radius2 then actionReturn self STATUS_SUCCESS
    else moveOrFail env self

/-- Source function `BotActionMoveTo`. -/
def BotActionMoveTo (env : ActionEnv G B E) (self : BotState G) (node : Nat)
    (params : List AIValue_t) : AIActionResult G :=
  let radius : Rat :=
    if params.length > 1 then max (AIUnBoxFloat (params.getD 1 (AIBoxInt 0))) 0 else 0
  if self.currentNode ≠ some node then
    let r := BotActionMoveTo.acquire env self params
    if r.1 = false then
      { status := STATUS_FAILURE, currentNode := self.currentNode, game := r.2 }
    else { status := STATUS_RUNNING, currentNode := some node, game := r.2 }
  else BotActionMoveTo.body env self radius

/-- What `BotActionRush` does on first entry: `BotChangeGoal( self, BotGetRushTarget(
self ) )`. -/
def BotActionRush.acquire (env : ActionEnv G B E) (self : BotState G)
    (_params : List AIValue_t) : Bool × G :=
  env.BotChangeGoal self (env.BotGetRushTarget self)

/-- The part of `BotActionRush` after the first-entry block. -/
def BotActionRush.body (env : ActionEnv G B E) (self : BotState G) : AIActionResult G :=
  if env.goalIsValid self = false then actionReturn self STATUS_FAILURE
  else if env.GoalInRange self (env.BotGetGoalRadius self) then
    actionReturn self STATUS_SUCCESS
  else moveOrFail env self

/-- Source function `BotActionRush`. -/
def BotActionRush (env : ActionEnv G B E) (self : BotState G) (node : Nat)
    (params : List AIValue_t) : AIActionResult G :=
  if self.currentNode ≠ some node then
    let r := BotActionRush.acquire env self params
    if r.1 = false then
      { status := STATUS_FAILURE, currentNode := self.currentNode, game := r.2 }
    else { status := STATUS_RUNNING, currentNode := some node, game := r.2 }
  else BotActionRush.body env self

/-- What `BotActionRepair` does on first entry: `BotChangeGoalEntity( self,
closestDamagedBuilding.ent )`. -/
def BotActionRepair.acquire (env : ActionEnv G B E) (self : BotState G)
    (_params : List AIValue_t) : Bool × G :=
  env.BotChangeGoalEntity self (env.closestDamagedBuilding self)

/-- The part of `BotActionRepair` after the first-entry block. -/
def BotActionRepair.body (env : ActionEnv G B E) (self : BotState G) : AIActionResult G :=
  if env.goalTargetsValidEntity self = false then actionReturn self STATUS_FAILURE
  else if env.goalEntityHasFullHealth self then actionReturn self STATUS_SUCCESS
  else
    let self1 : BotState G :=
      if env.holdsBuildWeapon self = false
      then { self with game := env.G_ForceWeaponChange self } else self
    if env.BotTargetIsVisible self1 = false ∨ env.DistanceToGoalSquared self1 > 100 * 100 then
      { status := STATUS_RUNNING, currentNode := self1.currentNode,
        game := (env.BotMoveToGoal self1).2 }
    else
      { status := STATUS_RUNNING, currentNode := self1.currentNode,
        game := env.aimAtGoal self1 }

/-- Source function `BotActionRepair`. -/
def BotActionRepair (env : ActionEnv G B E) (self : BotState G) (node : Nat)
    (params : List AIValue_t) : AIActionResult G :=
  if self.currentNode ≠ some node then
    let r := BotActionRepair.acquire env self params
    if r.1 = false then
      { status := STATUS_FAILURE, currentNode := self.currentNode, game := r.2 }
    else BotActionRepair.body env { self with game := r.2, currentNode := some node }
  else BotActionRepair.body env self

/-- The contract of first entry of a compound action `act` whose goal acquisition is
`acquire` and which goes on with `entered` once the goal is acquired.  (1) When the
current-node pointer is the node of the action, the result does not depend on the
helpers that change or choose the goal: no acquisition is made.  (2) When the pointer
differs and the acquisition fails, the action returns `STATUS_FAILURE`, leaves the
pointer as it was, and leaves the game state the acquisition left.  (3) When the
pointer differs and the acquisition succeeds, the pointer is the node of the action
afterwards, and the result is the one of `entered` on the state the acquisition left
with the pointer set to the node. -/
def FirstEntryContract
    (act : ActionEnv G B E → BotState G → Nat → List AIValue_t → AIActionResult G)
    (acquire : ActionEnv G B E → BotState G → List AIValue_t → Bool × G)
    (entered : ActionEnv G B E → BotState G → List AIValue_t → AIActionResult G) : Prop :=
  ∀ (env : ActionEnv G B E) (self : BotState G) (node : Nat) (params : List AIValue_t),
    (self.currentNode = some node →
      ∀ env2 : ActionEnv G B E, env.sameButGoalChange env2 →
        act env2 self node params = act env self node params)
    ∧ (self.currentNode ≠ some node → (acquire env self params).1 = false →
        (act env self node params).status = STATUS_FAILURE
        ∧ (act env self node params).currentNode = self.currentNode
        ∧ (act env self node params).game = (acquire env self params).2)
    ∧ (self.currentNode ≠ some node → (acquire env self params).1 = true →
        (act env self node params).currentNode = some node
        ∧ act env self node params
            = entered env
                { self with game := (acquire env self params).2, currentNode := some node }
                params)

/-- Helpers over a game state that counts the goal changes made: every goal change
succeeds iff `ok` and adds one to the count; the goal is valid, out of range, and the
agent can move. -/
def countingEnv (ok : Bool) : ActionEnv Nat Unit Unit where
  BotGetRetreatTarget := fun _ => ()
  BotGetRoamTarget := fun _ => ()
  BotGetRushTarget := fun _ => ()
  AIEntityToGentity := fun _ _ => some ()
  targetOfEntity := fun _ => ()
  entityOrigin := fun _ => ⟨0, 0, 0⟩
  BotFindRandomPointInRadius := fun _ _ _ => some ⟨1, 1, 1⟩
  closestDamagedBuilding := fun _ => some ()
  BotChangeGoal := fun s _ => (ok, s.game + 1)
  BotChangeGoalPos := fun s _ => (ok, s.game + 1)
  BotChangeGoalEntity := fun s _ => (ok, s.game + 1)
  goalIsValid := fun _ => true
  goalTargetsValidEntity := fun _ => true
  goalEntityHasFullHealth := fun _ => false
  GoalInRange := fun _ _ => false
  BotGetGoalRadius := fun _ => 10
  BotMoveToGoal := fun s => (true, s.game)
  holdsBuildWeapon := fun _ => true
  G_ForceWeaponChange := fun s => s.game
  BotTargetIsVisible := fun _ => true
  DistanceToGoalSquared := fun _ => 0
  aimAtGoal := fun s => s.game

/-- A bot state whose game state is the count 0 of goal changes, with the given
current-node pointer. -/
def countingState (currentNode : Option Nat) : BotState Nat :=
  { levelTime := 0, number := 0, runningNodes := [], currentNode := currentNode,
    decData := fun _ _ => 0, game := 0, evalLog := [] }

/-- Every handle stored in `obstacleHandles` for one of the `numNavData` meshes belongs
to a mesh whose tile cache reports a positive obstacle count. -/
def handlesHaveRoom (ob : ObstacleBackend T) (w : ObstacleWorld T) : Prop :=
  ∀ k handles, stdMap.find w.obstacleHandles k = some handles →
    ∀ i, i < w.numNavData → handles.getD i NO_OBSTACLE ≠ NO_OBSTACLE →
      0 < ob.getObstacleCount (w.BotNavData i)

/-- What the obstacle functions rely on of the tile cache of Detour, whose code is not
part of the sources at hand: `getObstacleCount` is the capacity of the cache
(`maxObstacles`), which `addBoxObstacle` and `removeObstacle` leave as it is, and
`addBoxObstacle` writes a handle only when it found a free slot, so only in a cache
with a positive capacity. -/
def ObstacleBackend.cacheContract (ob : ObstacleBackend T) : Prop :=
  (∀ t mins maxs, ob.getObstacleCount (ob.addBoxObstacle t mins maxs).1 = ob.getObstacleCount t)
  ∧ (∀ t handle, ob.getObstacleCount (ob.removeObstacle t handle) = ob.getObstacleCount t)
  ∧ (∀ t mins maxs handle, (ob.addBoxObstacle t mins maxs).2 = some handle →
      0 < ob.getObstacleCount t)

/-- For the array `handles` stored under `obstacleNum`: for each of the `numNavData`
meshes, in order, whose slot holds a handle other than `(unsigned int)-1`, the release
of that handle. -/
def releaseAll (numNavData : Nat) (obstacleNum : Int) (handles : List dtObstacleRef) :
    List ObstacleRequest :=
  ((List.range numNavData).filter
      (fun i => decide (handles.getD i NO_OBSTACLE ≠ NO_OBSTACLE))).map
    (fun i => ObstacleRequest.remove obstacleNum i (handles.getD i NO_OBSTACLE))

/-! ## Theorems -/

/-- Unfolding of `BotEvaluateNode`: the run function of the node, then the
bookkeeping. -/
theorem BotEvaluateNode_eq (cap : Nat) (node : AIGenericNode_t G) (self : BotState G) :
    BotEvaluateNode cap node self
      = BotEvaluateNode.bookkeeping cap node.addr node.type
          (node.run cap (logEvaluation node.addr self)) := by
  cases node with
  | list a r l => cases r <;> rfl
  | decorator a r ps c => cases r <;> rfl
  | condition a e c => cases c <;> rfl
  | action a r ps => rfl
  | behavior a r => rfl

@[simp] theorem STATUS_SUCCESS_ne_FAILURE : STATUS_SUCCESS ≠ STATUS_FAILURE := by decide

@[simp] theorem STATUS_FAILURE_ne_SUCCESS : STATUS_FAILURE ≠ STATUS_SUCCESS := by decide

@[simp] theorem STATUS_RUNNING_ne_FAILURE : STATUS_RUNNING ≠ STATUS_FAILURE := by decide

@[simp] theorem STATUS_FAILURE_ne_RUNNING : STATUS_FAILURE ≠ STATUS_RUNNING := by decide

@[simp] theorem STATUS_RUNNING_ne_SUCCESS : STATUS_RUNNING ≠ STATUS_SUCCESS := by decide

@[simp] theorem STATUS_SUCCESS_ne_RUNNING : STATUS_SUCCESS ≠ STATUS_RUNNING := by decide

/-! ### Children evaluated one after the other -/

@[simp] theorem evalAll_nil (cap : Nat) (s : BotState G) : evalAll cap [] s = s := rfl

@[simp] theorem evalAll_cons (cap : Nat) (c : AIGenericNode_t G) (l : List (AIGenericNode_t G))
    (s : BotState G) : evalAll cap (c :: l) s = evalAll cap l (BotEvaluateNode cap c s).2 := rfl

theorem evalAll_append (cap : Nat) (l1 l2 : List (AIGenericNode_t G)) (s : BotState G) :
    evalAll cap (l1 ++ l2) s = evalAll cap l2 (evalAll cap l1 s) := by
  simp [evalAll, List.foldl_append]

@[simp] theorem childResult_zero (cap : Nat) (c : AIGenericNode_t G)
    (l : List (AIGenericNode_t G)) (s : BotState G) :
    childResult cap (c :: l) s 0 = some (BotEvaluateNode cap c s) := by
  simp [childResult]

@[simp] theorem childResult_succ (cap : Nat) (c : AIGenericNode_t G)
    (l : List (AIGenericNode_t G)) (s : BotState G) (i : Nat) :
    childResult cap (c :: l) s (i + 1) = childResult cap l (BotEvaluateNode cap c s).2 i := by
  simp [childResult]

@[simp] theorem childResult_nil (cap : Nat) (s : BotState G) (i : Nat) :
    childResult cap ([] : List (AIGenericNode_t G)) s i = none := by
  simp [childResult]

@[simp] theorem childStatus_zero (cap : Nat) (c : AIGenericNode_t G)
    (l : List (AIGenericNode_t G)) (s : BotState G) :
    childStatus cap (c :: l) s 0 = some (BotEvaluateNode cap c s).1 := by
  simp [childStatus]

@[simp] theorem childStatus_succ (cap : Nat) (c : AIGenericNode_t G)
    (l : List (AIGenericNode_t G)) (s : BotState G) (i : Nat) :
    childStatus cap (c :: l) s (i + 1) = childStatus cap l (BotEvaluateNode cap c s).2 i := by
  simp [childStatus]

@[simp] theorem childStatus_nil (cap : Nat) (s : BotState G) (i : Nat) :
    childStatus cap ([] : List (AIGenericNode_t G)) s i = none := by
  simp [childStatus]

/-! ### Selector -/

theorem BotSelectorNode_nil (cap : Nat) (s : BotState G) :
    BotSelectorNode cap s [] = (STATUS_FAILURE, s) := rfl

theorem BotSelectorNode_cons (cap : Nat) (c : AIGenericNode_t G)
    (l : List (AIGenericNode_t G)) (s : BotState G) :
    BotSelectorNode cap s (c :: l)
      = if (BotEvaluateNode cap c s).1 = STATUS_FAILURE
        then BotSelectorNode cap (BotEvaluateNode cap c s).2 l
        else BotEvaluateNode cap c s := by
  simp only [BotSelectorNode, BotSelectorNode.loop]

theorem BotSelectorNode_first (cap : Nat) (l : List (AIGenericNode_t G)) :
    ∀ (s : BotState G) (j : Nat) (r : AINodeStatus_t × BotState G),
      (∀ i, i < j → childStatus cap l s i = some STATUS_FAILURE) →
      childResult cap l s j = some r → r.1 ≠ STATUS_FAILURE →
      BotSelectorNode cap s l = r := by
  induction l with
  | nil => intro s j r _ hr; simp at hr
  | cons c l ih =>
    intro s j r hlt hr hne
    rw [BotSelectorNode_cons]
    cases j with
    | zero =>
      simp at hr
      subst hr
      simp [hne]
    | succ j =>
      have h0 := hlt 0 (Nat.succ_pos j)
      simp at h0
      rw [if_pos h0]
      apply ih _ j r
      · intro i hi
        have := hlt (i + 1) (Nat.succ_lt_succ hi)
        simpa using this
      · simpa using hr
      · exact hne

theorem BotSelectorNode_all_fail (cap : Nat) (l : List (AIGenericNode_t G)) :
    ∀ (s : BotState G),
      (∀ i, i < l.length → childStatus cap l s i = some STATUS_FAILURE) →
      BotSelectorNode cap s l = (STATUS_FAILURE, evalAll cap l s) := by
  induction l with
  | nil => intro s _; rfl
  | cons c l ih =>
    intro s h
    rw [BotSelectorNode_cons]
    have h0 := h 0 (by simp)
    simp at h0
    rw [if_pos h0, evalAll_cons]
    apply ih
    intro i hi
    have := h (i + 1) (by simpa using hi)
    simpa using this

theorem BotSelectorNode_failure_iff (cap : Nat) (l : List (AIGenericNode_t G)) :
    ∀ (s : BotState G),
      (BotSelectorNode cap s l).1 = STATUS_FAILURE
        ↔ ∀ i, i < l.length → childStatus cap l s i = some STATUS_FAILURE := by
  induction l with
  | nil => intro s; simp [BotSelectorNode_nil]
  | cons c l ih =>
    intro s
    rw [BotSelectorNode_cons]
    by_cases h0 : (BotEvaluateNode cap c s).1 = STATUS_FAILURE
    · rw [if_pos h0, ih]
      constructor
      · intro h i hi
        cases i with
        | zero => simp [h0]
        | succ i => simpa using h i (by simpa using hi)
      · intro h i hi
        simpa using h (i + 1) (by simpa using hi)
    · rw [if_neg h0]
      constructor
      · intro h; exact absurd h h0
      · intro h
        have := h 0 (by simp)
        simp at this
        exact absurd this h0

/-! ### Bookkeeping of `BotEvaluateNode` and frame of an evaluation -/

theorem bookkeeping_status (cap a : Nat) (ty : AINodeType_t) (r : AINodeStatus_t × BotState G) :
    (BotEvaluateNode.bookkeeping cap a ty r).1 = r.1 := by
  unfold BotEvaluateNode.bookkeeping
  simp only []
  split <;> rfl

theorem resetCurrent_fields (a : Nat) (st : AINodeStatus_t) (s : BotState G) :
    (BotEvaluateNode.resetCurrent a st s).evalLog = s.evalLog
    ∧ (BotEvaluateNode.resetCurrent a st s).levelTime = s.levelTime
    ∧ (BotEvaluateNode.resetCurrent a st s).number = s.number
    ∧ (BotEvaluateNode.resetCurrent a st s).decData = s.decData
    ∧ (BotEvaluateNode.resetCurrent a st s).game = s.game
    ∧ (BotEvaluateNode.resetCurrent a st s).runningNodes = s.runningNodes := by
  unfold BotEvaluateNode.resetCurrent
  split <;> simp

theorem resetRunning_fields (a : Nat) (st : AINodeStatus_t) (s : BotState G) :
    (BotEvaluateNode.resetRunning a st s).evalLog = s.evalLog
    ∧ (BotEvaluateNode.resetRunning a st s).levelTime = s.levelTime
    ∧ (BotEvaluateNode.resetRunning a st s).number = s.number
    ∧ (BotEvaluateNode.resetRunning a st s).decData = s.decData
    ∧ (BotEvaluateNode.resetRunning a st s).game = s.game
    ∧ (BotEvaluateNode.resetRunning a st s).currentNode = s.currentNode := by
  unfold BotEvaluateNode.resetRunning
  split <;> simp

theorem storeRunning_fields (cap a : Nat) (ty : AINodeType_t) (s : BotState G) :
    (BotEvaluateNode.storeRunning cap a ty s).evalLog = s.evalLog
    ∧ (BotEvaluateNode.storeRunning cap a ty s).levelTime = s.levelTime
    ∧ (BotEvaluateNode.storeRunning cap a ty s).number = s.number
    ∧ (BotEvaluateNode.storeRunning cap a ty s).decData = s.decData
    ∧ (BotEvaluateNode.storeRunning cap a ty s).game = s.game
    ∧ (BotEvaluateNode.storeRunning cap a ty s).currentNode = s.currentNode := by
  unfold BotEvaluateNode.storeRunning
  simp only []
  repeat' split
  all_goals simp

theorem resetRunning_runningNodes (a : Nat) (st : AINodeStatus_t) (s : BotState G) :
    (BotEvaluateNode.resetRunning a st s).runningNodes = s.runningNodes
    ∨ (BotEvaluateNode.resetRunning a st s).runningNodes = [] := by
  unfold BotEvaluateNode.resetRunning
  split <;> simp

theorem storeRunning_runningNodes (cap a : Nat) (ty : AINodeType_t) (s : BotState G) :
    (BotEvaluateNode.storeRunning cap a ty s).runningNodes = s.runningNodes
    ∨ (BotEvaluateNode.storeRunning cap a ty s).runningNodes = []
    ∨ (BotEvaluateNode.storeRunning cap a ty s).runningNodes = s.runningNodes ++ [a]
    ∨ (BotEvaluateNode.storeRunning cap a ty s).runningNodes = [a] := by
  unfold BotEvaluateNode.storeRunning
  simp only []
  by_cases hty : ty = AINodeType_t.ACTION_NODE
  · simp only [hty, if_true]
    split
    · cases happ : runningNodes_append cap ([] : List Nat) a with
      | none => simp
      | some l =>
        unfold runningNodes_append at happ
        split_ifs at happ
        simp at happ
        subst happ
        simp
    · simp
  · simp only [hty, if_false]
    split
    · cases happ : runningNodes_append cap s.runningNodes a with
      | none => simp
      | some l =>
        unfold runningNodes_append at happ
        split_ifs at happ
        simp at happ
        subst happ
        simp
    · simp

theorem bookkeeping_fields (cap a : Nat) (ty : AINodeType_t) (r : AINodeStatus_t × BotState G) :
    (BotEvaluateNode.bookkeeping cap a ty r).2.evalLog = r.2.evalLog
    ∧ (BotEvaluateNode.bookkeeping cap a ty r).2.levelTime = r.2.levelTime
    ∧ (BotEvaluateNode.bookkeeping cap a ty r).2.number = r.2.number
    ∧ (BotEvaluateNode.bookkeeping cap a ty r).2.decData = r.2.decData
    ∧ (BotEvaluateNode.bookkeeping cap a ty r).2.game = r.2.game := by
  obtain ⟨c1, c2, c3, c4, c5, _⟩ := resetCurrent_fields a r.1 r.2
  obtain ⟨r1, r2, r3, r4, r5, _⟩ :=
    resetRunning_fields a r.1 (BotEvaluateNode.resetCurrent a r.1 r.2)
  obtain ⟨t1, t2, t3, t4, t5, _⟩ := storeRunning_fields cap a ty
    (BotEvaluateNode.resetRunning a r.1 (BotEvaluateNode.resetCurrent a r.1 r.2))
  unfold BotEvaluateNode.bookkeeping
  simp only []
  split
  · simp only [t1, t2, t3, t4, t5, r1, r2, r3, r4, r5, c1, c2, c3, c4, c5, and_self]
  · simp only [r1, r2, r3, r4, r5, c1, c2, c3, c4, c5, and_self]

theorem bookkeeping_runningNodes (cap a : Nat) (ty : AINodeType_t)
    (r : AINodeStatus_t × BotState G) :
    (BotEvaluateNode.bookkeeping cap a ty r).2.runningNodes = r.2.runningNodes
    ∨ (BotEvaluateNode.bookkeeping cap a ty r).2.runningNodes = []
    ∨ (BotEvaluateNode.bookkeeping cap a ty r).2.runningNodes = r.2.runningNodes ++ [a]
    ∨ (BotEvaluateNode.bookkeeping cap a ty r).2.runningNodes = [a] := by
  have hc := (resetCurrent_fields a r.1 r.2).2.2.2.2.2
  have hr := resetRunning_runningNodes a r.1 (BotEvaluateNode.resetCurrent a r.1 r.2)
  have ht := storeRunning_runningNodes cap a ty
    (BotEvaluateNode.resetRunning a r.1 (BotEvaluateNode.resetCurrent a r.1 r.2))
  rw [hc] at hr
  unfold BotEvaluateNode.bookkeeping
  simp only []
  split
  · simp only []
    rcases hr with hr | hr <;> rw [hr] at ht <;> rcases ht with ht | ht | ht | ht <;> rw [ht]
      <;> simp
  · simp only []
    rcases hr with hr | hr <;> rw [hr] <;> simp

theorem EvalFrame.refl (A : List Nat) (k : Nat) (s : BotState G) : EvalFrame A k s s := by
  refine ⟨⟨[], by simp⟩, rfl, rfl, by omega, fun x hx => Or.inl hx, fun _ _ _ => rfl⟩

theorem EvalFrame.trans {A B : List Nat} {k m : Nat} {s t u : BotState G}
    (h1 : EvalFrame A k s t) (h2 : EvalFrame B m t u) : EvalFrame (A ++ B) (k + m) s u := by
  obtain ⟨⟨e1, he1⟩, ht1, hn1, hl1, hm1, hd1⟩ := h1
  obtain ⟨⟨e2, he2⟩, ht2, hn2, hl2, hm2, hd2⟩ := h2
  refine ⟨⟨e1 ++ e2, by rw [he2, he1, List.append_assoc]⟩, by rw [ht2, ht1], by rw [hn2, hn1],
    by omega, ?_, ?_⟩
  · intro x hx
    rcases hm2 x hx with h | h
    · rcases hm1 x h with h | h
      · exact Or.inl h
      · exact Or.inr (List.mem_append.mpr (Or.inl h))
    · exact Or.inr (List.mem_append.mpr (Or.inr h))
  · intro x c hx
    rw [hd2 x c (fun h => hx (List.mem_append.mpr (Or.inr h))),
      hd1 x c (fun h => hx (List.mem_append.mpr (Or.inl h)))]

theorem EvalFrame.mono {A B : List Nat} {k m : Nat} {s t : BotState G}
    (h : EvalFrame A k s t) (hAB : ∀ x, x ∈ A → x ∈ B) (hkm : k ≤ m) : EvalFrame B m s t := by
  obtain ⟨he, ht, hn, hl, hm, hd⟩ := h
  refine ⟨he, ht, hn, by omega, ?_, fun x c hx => hd x c (fun h => hx (hAB x h))⟩
  intro x hx
  rcases hm x hx with h | h
  · exact Or.inl h
  · exact Or.inr (hAB x h)

/-- When the status is `STATUS_RUNNING` and the running-node list left by the run
function has room, the bookkeeping leaves the node in the running-node list. -/
theorem storeRunning_mem (cap a : Nat) (ty : AINodeType_t) (s : BotState G)
    (hroom : s.runningNodes.length < cap) :
    a ∈ (BotEvaluateNode.storeRunning cap a ty s).runningNodes := by
  unfold BotEvaluateNode.storeRunning
  simp only []
  by_cases hty : ty = AINodeType_t.ACTION_NODE
  · have hpos : 0 < cap := by omega
    simp [hty, NodeIsRunning, runningNodes_append, hpos]
  · simp only [hty, if_false]
    by_cases hin : a ∈ s.runningNodes
    · simp [NodeIsRunning, hin]
    · simp [NodeIsRunning, hin, runningNodes_append, hroom]

theorem bookkeeping_tracked (cap a : Nat) (ty : AINodeType_t) (r : AINodeStatus_t × BotState G)
    {n k : Nat} (hlen : r.2.runningNodes.length ≤ n + k) :
    (BotEvaluateNode.bookkeeping cap a ty r).1 = STATUS_RUNNING →
    n + (1 + k) ≤ cap →
    a ∈ (BotEvaluateNode.bookkeeping cap a ty r).2.runningNodes := by
  intro hst hcap
  rw [bookkeeping_status] at hst
  have hc := (resetCurrent_fields a r.1 r.2).2.2.2.2.2
  have hr : (BotEvaluateNode.resetRunning a r.1
      (BotEvaluateNode.resetCurrent a r.1 r.2)).runningNodes = r.2.runningNodes := by
    unfold BotEvaluateNode.resetRunning
    have hne : r.1 ≠ STATUS_SUCCESS := by rw [hst]; simp
    simp [hne, hc]
  unfold BotEvaluateNode.bookkeeping
  simp only [hst, if_true]
  apply storeRunning_mem
  rw [← hst, hr]
  omega

/-- Frame of the bookkeeping: a run function that stays inside `A` with budget `k`
gives an evaluation that stays inside `a :: A` with budget `1 + k`, and whose log
starts with `a`; a node that returns `STATUS_RUNNING` is in the running-node list
afterwards when the capacity leaves room for the budget. -/
theorem bookkeeping_frame (cap a : Nat) (ty : AINodeType_t) (A : List Nat) (k : Nat)
    (s : BotState G) (r : AINodeStatus_t × BotState G)
    (h : EvalFrame A k (logEvaluation a s) r.2) :
    (∃ e, (BotEvaluateNode.bookkeeping cap a ty r).2.evalLog = s.evalLog ++ a :: e)
    ∧ EvalFrame (a :: A) (1 + k) s (BotEvaluateNode.bookkeeping cap a ty r).2
    ∧ ((BotEvaluateNode.bookkeeping cap a ty r).1 = STATUS_RUNNING →
        s.runningNodes.length + (1 + k) ≤ cap →
        a ∈ (BotEvaluateNode.bookkeeping cap a ty r).2.runningNodes) := by
  obtain ⟨⟨e, he⟩, ht, hn, hl, hm, hd⟩ := h
  obtain ⟨fl, ft, fn, fd, _⟩ := bookkeeping_fields cap a ty r
  have hlog : (BotEvaluateNode.bookkeeping cap a ty r).2.evalLog = s.evalLog ++ a :: e := by
    rw [fl, he]; simp [logEvaluation]
  simp only [logEvaluation] at ht hn hl hm hd
  refine ⟨⟨e, hlog⟩, ⟨⟨a :: e, hlog⟩, by rw [ft, ht], by rw [fn, hn], ?_, ?_, ?_⟩,
    bookkeeping_tracked cap a ty r hl⟩
  · have hlen : ∀ l : List Nat, (l ++ [a]).length = l.length + 1 := by simp
    rcases bookkeeping_runningNodes cap a ty r with h | h | h | h <;> rw [h] <;>
      first
        | (rw [hlen]; omega)
        | (simp only [List.length_cons, List.length_nil]; omega)
        | omega
  · intro x hx
    rcases bookkeeping_runningNodes cap a ty r with h | h | h | h <;> rw [h] at hx
    · rcases hm x hx with h | h
      · exact Or.inl h
      · exact Or.inr (List.mem_cons_of_mem _ h)
    · simp at hx
    · rcases List.mem_append.mp hx with hx | hx
      · rcases hm x hx with h | h
        · exact Or.inl h
        · exact Or.inr (List.mem_cons_of_mem _ h)
      · simp at hx; subst hx; exact Or.inr (List.mem_cons_self _ _)
    · simp at hx; subst hx; exact Or.inr (List.mem_cons_self _ _)
  · intro x c hx
    rw [fd]
    exact hd x c (fun h => hx (List.mem_cons_of_mem _ h))

theorem EvalFrame.left {A B : List Nat} {k m : Nat} {s t : BotState G}
    (h : EvalFrame A k s t) : EvalFrame (A ++ B) (k + m) s t :=
  h.mono (fun _ hx => List.mem_append.mpr (Or.inl hx)) (Nat.le_add_right k m)

theorem EvalFrame.right {A B : List Nat} {k m : Nat} {s t : BotState G}
    (h : EvalFrame B m s t) : EvalFrame (A ++ B) (k + m) s t :=
  h.mono (fun _ hx => List.mem_append.mpr (Or.inr hx)) (Nat.le_add_left m k)

theorem EvalFrame.withDecData {A : List Nat} {k : Nat} {s t : BotState G}
    (h : EvalFrame A k s t) (a c : Nat) (v : Int) (ha : a ∈ A) :
    EvalFrame A k s (setDecData t a c v) := by
  obtain ⟨he, ht, hn, hl, hm, hd⟩ := h
  refine ⟨he, ht, hn, hl, hm, ?_⟩
  intro x c2 hx
  have hne : x ≠ a := fun h => hx (h ▸ ha)
  simp only [setDecData, hne, false_and, if_false]
  exact hd x c2 hx

mutual
/-- Frame of `BotEvaluateNode`: the log is extended, starting with the address of the
node; the running-node list grows by at most the number of nodes of the subtree, by
addresses of the subtree only; time and client number are untouched. -/
theorem BotEvaluateNode_frame (cap : Nat) :
    ∀ (n : AIGenericNode_t G) (s : BotState G),
      (∃ e, (BotEvaluateNode cap n s).2.evalLog = s.evalLog ++ n.addr :: e)
      ∧ EvalFrame n.addrs n.size s (BotEvaluateNode cap n s).2
      ∧ ((BotEvaluateNode cap n s).1 = STATUS_RUNNING →
          s.runningNodes.length + n.size ≤ cap →
          n.addr ∈ (BotEvaluateNode cap n s).2.runningNodes)
  | .list a .selector l, s => by
      simpa only [BotEvaluateNode, AIGenericNode_t.addrs, AIGenericNode_t.size,
        AIGenericNode_t.addr] using
        bookkeeping_frame cap a _ _ _ s _ (BotSelectorNode_loop_frame cap l (logEvaluation a s))
  | .list a .sequence l, s => by
      simpa only [BotEvaluateNode, AIGenericNode_t.addrs, AIGenericNode_t.size,
        AIGenericNode_t.addr] using
        bookkeeping_frame cap a _ _ _ s _
          (BotSequenceNode_loop_frame cap l _ (logEvaluation a s))
  | .list a .fallback l, s => by
      simpa only [BotEvaluateNode, AIGenericNode_t.addrs, AIGenericNode_t.size,
        AIGenericNode_t.addr] using
        bookkeeping_frame cap a _ _ _ s _
          (BotFallbackNode_loop_frame cap l _ (logEvaluation a s))
  | .list a .concurrent l, s => by
      simpa only [BotEvaluateNode, AIGenericNode_t.addrs, AIGenericNode_t.size,
        AIGenericNode_t.addr] using
        bookkeeping_frame cap a _ _ _ s _ (BotConcurrentNode_loop_frame cap l (logEvaluation a s))
  | .decorator a .invert ps c, s => by
      have h := (BotEvaluateNode_frame cap c (logEvaluation a s)).2.1
      simpa only [BotEvaluateNode, AIGenericNode_t.addrs, AIGenericNode_t.size,
        AIGenericNode_t.addr] using
        bookkeeping_frame cap a .DECORATOR_NODE _ _ s
          (BotDecoratorInvert.status (BotEvaluateNode cap c (logEvaluation a s)).1,
            (BotEvaluateNode cap c (logEvaluation a s)).2) h
  | .decorator a .timer ps c, s => by
      have h := (BotEvaluateNode_frame cap c (logEvaluation a s)).2.1
      have hsub : ∀ x, x ∈ c.addrs → x ∈ a :: c.addrs := fun x hx => List.mem_cons_of_mem _ hx
      have h2 : EvalFrame (a :: c.addrs) c.size (logEvaluation a s)
          (BotDecoratorTimer cap (logEvaluation a s) a ps c).2 := by
        unfold BotDecoratorTimer
        simp only []
        split
        · split
          · exact (h.mono hsub (Nat.le_refl _)).withDecData _ _ _ (List.mem_cons_self _ _)
          · exact h.mono hsub (Nat.le_refl _)
        · exact EvalFrame.refl _ _ _
      obtain ⟨g1, g2, g3⟩ := bookkeeping_frame cap a .DECORATOR_NODE _ _ s _ h2
      have g2b : EvalFrame (a :: c.addrs) (1 + c.size) s
          (BotEvaluateNode.bookkeeping cap a .DECORATOR_NODE
            (BotDecoratorTimer cap (logEvaluation a s) a ps c)).2 :=
        g2.mono (fun x hx => by
          rcases List.mem_cons.mp hx with h | h
          · exact h ▸ List.mem_cons_self _ _
          · exact h) (Nat.le_refl _)
      simpa only [BotEvaluateNode, AIGenericNode_t.addrs, AIGenericNode_t.size,
        AIGenericNode_t.addr, BotDecoratorTimer] using And.intro g1 (And.intro g2b g3)
  | .decorator a .ret ps c, s => by
      have h := (BotEvaluateNode_frame cap c (logEvaluation a s)).2.1
      simpa only [BotEvaluateNode, AIGenericNode_t.addrs, AIGenericNode_t.size,
        AIGenericNode_t.addr] using
        bookkeeping_frame cap a .DECORATOR_NODE _ _ s
          (AIUnBoxInt (params0 ps), (BotEvaluateNode cap c (logEvaluation a s)).2) h
  | .condition a e none, s => by
      have h2 : EvalFrame [] 0 (logEvaluation a s)
          (BotConditionNode cap (logEvaluation a s) e none).2 := by
        unfold BotConditionNode
        split <;> exact EvalFrame.refl _ _ _
      have := bookkeeping_frame cap a .CONDITION_NODE _ _ s _ h2
      simpa only [BotEvaluateNode, AIGenericNode_t.addrs, AIGenericNode_t.size,
        AIGenericNode_t.addr, BotConditionNode] using this
  | .condition a e (some c), s => by
      have h := (BotEvaluateNode_frame cap c (logEvaluation a s)).2.1
      have h2 : EvalFrame c.addrs c.size (logEvaluation a s)
          (BotConditionNode cap (logEvaluation a s) e (some c)).2 := by
        unfold BotConditionNode
        split
        · exact h
        · exact EvalFrame.refl _ _ _
      simpa only [BotEvaluateNode, AIGenericNode_t.addrs, AIGenericNode_t.size,
        AIGenericNode_t.addr, BotConditionNode] using
        bookkeeping_frame cap a .CONDITION_NODE _ _ s _ h2
  | .action a run ps, s => by
      have h2 : EvalFrame [] 0 (logEvaluation a s)
          (BotActionNode (logEvaluation a s) a run ps).2 :=
        ⟨⟨[], by simp [BotActionNode]⟩, rfl, rfl, Nat.le_refl _, fun x hx => Or.inl hx,
          fun _ _ _ => rfl⟩
      simpa only [BotEvaluateNode, AIGenericNode_t.addrs, AIGenericNode_t.size,
        AIGenericNode_t.addr, BotActionNode] using
        bookkeeping_frame cap a .ACTION_NODE _ _ s _ h2
  | .behavior a root, s => by
      have h := (BotEvaluateNode_frame cap root (logEvaluation a s)).2.1
      simpa only [BotEvaluateNode, AIGenericNode_t.addrs, AIGenericNode_t.size,
        AIGenericNode_t.addr] using
        bookkeeping_frame cap a .BEHAVIOR_NODE _ _ s _ h
termination_by structural n => n
theorem BotSelectorNode_loop_frame (cap : Nat) :
    ∀ (l : List (AIGenericNode_t G)) (s : BotState G),
      EvalFrame (AIGenericNode_t.addrsList l) (AIGenericNode_t.sizeList l) s
        (BotSelectorNode.loop cap l s).2
  | [], s => EvalFrame.refl _ _ _
  | c :: rest, s => by
      have hc := (BotEvaluateNode_frame cap c s).2.1
      have hr := BotSelectorNode_loop_frame cap rest (BotEvaluateNode cap c s).2
      simp only [BotSelectorNode.loop, AIGenericNode_t.addrsList, AIGenericNode_t.sizeList]
      split
      · exact hc.trans hr
      · exact hc.left
termination_by structural l => l
theorem BotSequenceNode_loop_frame (cap : Nat) :
    ∀ (l : List (AIGenericNode_t G)) (k : Nat) (s : BotState G),
      EvalFrame (AIGenericNode_t.addrsList l) (AIGenericNode_t.sizeList l) s
        (BotSequenceNode.loop cap l k s).2
  | [], _, s => EvalFrame.refl _ _ _
  | c :: rest, k + 1, s => by
      have hr := BotSequenceNode_loop_frame cap rest k s
      simp only [BotSequenceNode.loop, AIGenericNode_t.addrsList, AIGenericNode_t.sizeList]
      exact hr.right
  | c :: rest, 0, s => by
      have hc := (BotEvaluateNode_frame cap c s).2.1
      have hr := BotSequenceNode_loop_frame cap rest 0 (BotEvaluateNode cap c s).2
      simp only [BotSequenceNode.loop, AIGenericNode_t.addrsList, AIGenericNode_t.sizeList]
      split
      · exact hc.left
      · split
        · exact hc.left
        · exact hc.trans hr
termination_by structural l => l
theorem BotFallbackNode_loop_frame (cap : Nat) :
    ∀ (l : List (AIGenericNode_t G)) (k : Nat) (s : BotState G),
      EvalFrame (AIGenericNode_t.addrsList l) (AIGenericNode_t.sizeList l) s
        (BotFallbackNode.loop cap l k s).2
  | [], _, s => EvalFrame.refl _ _ _
  | c :: rest, k + 1, s => by
      have hr := BotFallbackNode_loop_frame cap rest k s
      simp only [BotFallbackNode.loop, AIGenericNode_t.addrsList, AIGenericNode_t.sizeList]
      exact hr.right
  | c :: rest, 0, s => by
      have hc := (BotEvaluateNode_frame cap c s).2.1
      have hr := BotFallbackNode_loop_frame cap rest 0 (BotEvaluateNode cap c s).2
      simp only [BotFallbackNode.loop, AIGenericNode_t.addrsList, AIGenericNode_t.sizeList]
      split
      · exact hc.left
      · split
        · exact hc.left
        · exact hc.trans hr
termination_by structural l => l
theorem BotConcurrentNode_loop_frame (cap : Nat) :
    ∀ (l : List (AIGenericNode_t G)) (s : BotState G),
      EvalFrame (AIGenericNode_t.addrsList l) (AIGenericNode_t.sizeList l) s
        (BotConcurrentNode.loop cap l s).2
  | [], s => EvalFrame.refl _ _ _
  | c :: rest, s => by
      have hc := (BotEvaluateNode_frame cap c s).2.1
      have hr := BotConcurrentNode_loop_frame cap rest (BotEvaluateNode cap c s).2
      simp only [BotConcurrentNode.loop, AIGenericNode_t.addrsList, AIGenericNode_t.sizeList]
      split
      · exact hc.left
      · exact hc.trans hr
termination_by structural l => l
end

/-! ### Evaluation log of children evaluated one after the other -/

theorem childResult_log (cap : Nat) (l : List (AIGenericNode_t G)) :
    ∀ (s : BotState G) (j : Nat) (r : AINodeStatus_t × BotState G),
      childResult cap l s j = some r →
      ∃ e, r.2.evalLog = s.evalLog ++ e
        ∧ List.Sublist ((l.take (j + 1)).map AIGenericNode_t.addr) e := by
  induction l with
  | nil => intro s j r hr; simp at hr
  | cons c l ih =>
    intro s j r hr
    obtain ⟨e1, he1⟩ := (BotEvaluateNode_frame cap c s).1
    cases j with
    | zero =>
      simp at hr
      subst hr
      exact ⟨c.addr :: e1, he1, by simp⟩
    | succ j =>
      rw [childResult_succ] at hr
      obtain ⟨e2, he2, hsub⟩ := ih _ j r hr
      refine ⟨c.addr :: (e1 ++ e2), by rw [he2, he1]; simp, ?_⟩
      simp only [List.take_succ_cons, List.map_cons]
      exact List.Sublist.cons₂ _ (List.Sublist.trans hsub (List.sublist_append_right e1 e2))

theorem evalAll_log (cap : Nat) (l : List (AIGenericNode_t G)) :
    ∀ (s : BotState G),
      ∃ e, (evalAll cap l s).evalLog = s.evalLog ++ e
        ∧ List.Sublist (l.map AIGenericNode_t.addr) e := by
  induction l with
  | nil => intro s; exact ⟨[], by simp, by simp⟩
  | cons c l ih =>
    intro s
    obtain ⟨e1, he1⟩ := (BotEvaluateNode_frame cap c s).1
    obtain ⟨e2, he2, hsub⟩ := ih (BotEvaluateNode cap c s).2
    refine ⟨c.addr :: (e1 ++ e2), by rw [evalAll_cons, he2, he1]; simp, ?_⟩
    simp only [List.map_cons]
    exact List.Sublist.cons₂ _ (List.Sublist.trans hsub (List.sublist_append_right e1 e2))

/-- C1: `BotSelectorNode` evaluates the children from index 0 in order, whatever the
state (running-node list included).  If child `j` is the first one whose result is not
`STATUS_FAILURE`, the selector returns exactly the result `r` of that child, and the
addresses of children `0..j` appear in this order in what was added to the evaluation
log.  The selector returns `STATUS_FAILURE` if and only if every child returns
`STATUS_FAILURE`, and then all children have been evaluated in order. -/
theorem BotSelectorNode_spec (cap : Nat) (self : BotState G) (list : List (AIGenericNode_t G)) :
    (∀ (j : Nat) (r : AINodeStatus_t × BotState G),
        (∀ i, i < j → childStatus cap list self i = some STATUS_FAILURE) →
        childResult cap list self j = some r → r.1 ≠ STATUS_FAILURE →
        BotSelectorNode cap self list = r
        ∧ ∃ e, (BotSelectorNode cap self list).2.evalLog = self.evalLog ++ e
            ∧ List.Sublist ((list.take (j + 1)).map AIGenericNode_t.addr) e)
    ∧ ((BotSelectorNode cap self list).1 = STATUS_FAILURE
        ↔ ∀ i, i < list.length → childStatus cap list self i = some STATUS_FAILURE)
    ∧ ((∀ i, i < list.length → childStatus cap list self i = some STATUS_FAILURE) →
        BotSelectorNode cap self list = (STATUS_FAILURE, evalAll cap list self)
        ∧ ∃ e, (BotSelectorNode cap self list).2.evalLog = self.evalLog ++ e
            ∧ List.Sublist (list.map AIGenericNode_t.addr) e) := by
  refine ⟨?_, BotSelectorNode_failure_iff cap list self, ?_⟩
  · intro j r hlt hr hne
    have h := BotSelectorNode_first cap list self j r hlt hr hne
    refine ⟨h, ?_⟩
    rw [h]
    exact childResult_log cap list self j r hr
  · intro hall
    have h := BotSelectorNode_all_fail cap list self hall
    refine ⟨h, ?_⟩
    rw [h]
    exact evalAll_log cap list self

/-- C1, on the children [Failure, Failure, Success] (leaves at addresses 1, 2, 3): all
three are evaluated, in this order, and the selector returns `STATUS_SUCCESS`. -/
theorem BotSelectorNode_spec_witness :
    (∀ i, i < 2 → childStatus 4
        [constAction STATUS_FAILURE 1, constAction STATUS_FAILURE 2, constAction STATUS_SUCCESS 3]
        (freshState 0) i = some STATUS_FAILURE)
    ∧ (BotSelectorNode 4 (freshState 0)
        [constAction STATUS_FAILURE 1, constAction STATUS_FAILURE 2,
          constAction STATUS_SUCCESS 3]).1 = STATUS_SUCCESS
    ∧ (BotSelectorNode 4 (freshState 0)
        [constAction STATUS_FAILURE 1, constAction STATUS_FAILURE 2,
          constAction STATUS_SUCCESS 3]).2.evalLog = [1, 2, 3] :=
  ⟨by decide,
   congrArg Prod.fst
    ((BotSelectorNode_spec 4 (freshState 0)
      [constAction STATUS_FAILURE 1, constAction STATUS_FAILURE 2,
        constAction STATUS_SUCCESS 3]).1 2
      (BotEvaluateNode 4 (constAction STATUS_SUCCESS 3)
        (evalAll 4 [constAction STATUS_FAILURE 1, constAction STATUS_FAILURE 2] (freshState 0)))
      (by decide) rfl (by decide)).1,
   by decide⟩

/-! ### Sequence -/

theorem BotSequenceNode_loop_drop (cap : Nat) (l : List (AIGenericNode_t G)) :
    ∀ (k : Nat) (s : BotState G),
      BotSequenceNode.loop cap l k s = BotSequenceNode.loop cap (l.drop k) 0 s := by
  induction l with
  | nil => intro k s; simp [BotSequenceNode.loop]
  | cons c l ih =>
    intro k s
    cases k with
    | zero => rfl
    | succ k => simp only [BotSequenceNode.loop, List.drop_succ_cons]; exact ih k s

theorem BotSequenceNode_loop_cons (cap : Nat) (c : AIGenericNode_t G)
    (l : List (AIGenericNode_t G)) (s : BotState G) :
    BotSequenceNode.loop cap (c :: l) 0 s
      = if (BotEvaluateNode cap c s).1 = STATUS_FAILURE
        then (STATUS_FAILURE, (BotEvaluateNode cap c s).2)
        else if (BotEvaluateNode cap c s).1 = STATUS_RUNNING
        then (STATUS_RUNNING, (BotEvaluateNode cap c s).2)
        else BotSequenceNode.loop cap l 0 (BotEvaluateNode cap c s).2 := by
  simp only [BotSequenceNode.loop]

theorem BotSequenceNode_loop_stop (cap : Nat) (l : List (AIGenericNode_t G)) :
    ∀ (s : BotState G) (j : Nat) (r : AINodeStatus_t × BotState G),
      (∀ i, i < j → childStatus cap l s i ≠ some STATUS_FAILURE
        ∧ childStatus cap l s i ≠ some STATUS_RUNNING) →
      childResult cap l s j = some r → (r.1 = STATUS_FAILURE ∨ r.1 = STATUS_RUNNING) →
      BotSequenceNode.loop cap l 0 s = r := by
  induction l with
  | nil => intro s j r _ hr; simp at hr
  | cons c l ih =>
    intro s j r hlt hr hst
    rw [BotSequenceNode_loop_cons]
    cases j with
    | zero =>
      simp at hr
      subst hr
      rcases hst with h | h
      · rw [if_pos h, ← h]
      · have hne : (BotEvaluateNode cap c s).1 ≠ STATUS_FAILURE := by rw [h]; simp
        rw [if_neg hne, if_pos h, ← h]
    | succ j =>
      have h0 := hlt 0 (Nat.succ_pos j)
      simp at h0
      rw [if_neg h0.1, if_neg h0.2]
      apply ih _ j r
      · intro i hi
        have := hlt (i + 1) (Nat.succ_lt_succ hi)
        simpa using this
      · simpa using hr
      · exact hst

theorem BotSequenceNode_loop_all (cap : Nat) (l : List (AIGenericNode_t G)) :
    ∀ (s : BotState G),
      (∀ i, i < l.length → childStatus cap l s i ≠ some STATUS_FAILURE
        ∧ childStatus cap l s i ≠ some STATUS_RUNNING) →
      BotSequenceNode.loop cap l 0 s = (STATUS_SUCCESS, evalAll cap l s) := by
  induction l with
  | nil => intro s _; rfl
  | cons c l ih =>
    intro s h
    rw [BotSequenceNode_loop_cons]
    have h0 := h 0 (by simp)
    simp at h0
    rw [if_neg h0.1, if_neg h0.2, evalAll_cons]
    apply ih
    intro i hi
    have := h (i + 1) (by simpa using hi)
    simpa using this

/-- The scan for a previously running child, entered with index `i`: the result is at
most `i`; if it is not 0 the child at that index is in the running-node list; no child
at an index above the result, up to `i`, is in the running-node list. -/
theorem findRunningStart_spec (self : BotState G) (list : List (AIGenericNode_t G)) :
    ∀ (i : Nat),
      findRunningStart self list i ≤ i
      ∧ (findRunningStart self list i ≠ 0 →
          ∃ c, list[findRunningStart self list i]? = some c
            ∧ NodeIsRunning self c.addr = true)
      ∧ (∀ k c, findRunningStart self list i < k → k ≤ i → list[k]? = some c →
          NodeIsRunning self c.addr = false) := by
  intro i
  induction i with
  | zero =>
    refine ⟨Nat.le_refl _, fun h => absurd rfl h, ?_⟩
    intro k c h1 h2
    simp only [findRunningStart] at h1
    omega
  | succ i ih =>
    obtain ⟨ih1, ih2, ih3⟩ := ih
    cases hget : list[i + 1]? with
    | none =>
      have heq : findRunningStart self list (i + 1) = findRunningStart self list i := by
        simp only [findRunningStart, hget]
      rw [heq]
      refine ⟨Nat.le_succ_of_le ih1, ih2, ?_⟩
      intro k c h1 h2 hk
      by_cases hki : k ≤ i
      · exact ih3 k c h1 hki hk
      · have : k = i + 1 := by omega
        subst this
        rw [hget] at hk
        exact absurd hk (by simp)
    | some n =>
      by_cases hrun : NodeIsRunning self n.addr = true
      · have heq : findRunningStart self list (i + 1) = i + 1 := by
          simp only [findRunningStart, hget, hrun, if_true]
        rw [heq]
        refine ⟨Nat.le_refl _, fun _ => ⟨n, hget, hrun⟩, ?_⟩
        intro k c h1 h2
        omega
      · have heq : findRunningStart self list (i + 1) = findRunningStart self list i := by
          simp only [findRunningStart, hget, hrun]
          simp
        rw [heq]
        refine ⟨Nat.le_succ_of_le ih1, ih2, ?_⟩
        intro k c h1 h2 hk
        by_cases hki : k ≤ i
        · exact ih3 k c h1 hki hk
        · have : k = i + 1 := by omega
          subst this
          rw [hget] at hk
          simp at hk
          subst hk
          simpa using hrun

/-- C2: `BotSequenceNode` starts at the index `BotSequenceNode.start`, which is the
largest index at least 1 whose child is in the running-node list, and 0 if there is
none.  Only the children from that index on are evaluated, in order: if child `j` of
them is the first to return `STATUS_FAILURE` or `STATUS_RUNNING`, the sequence returns
exactly its result `r`; if none of them returns one of the two, the sequence returns
`STATUS_SUCCESS` after all of them were evaluated.  In both cases the addresses of the
evaluated children appear in order in what was added to the evaluation log. -/
theorem BotSequenceNode_spec (cap : Nat) (self : BotState G) (list : List (AIGenericNode_t G)) :
    (BotSequenceNode.start self list ≠ 0 →
        1 ≤ BotSequenceNode.start self list ∧ BotSequenceNode.start self list < list.length
        ∧ ∃ c, list[BotSequenceNode.start self list]? = some c
            ∧ NodeIsRunning self c.addr = true)
    ∧ (∀ k c, BotSequenceNode.start self list < k → list[k]? = some c →
        NodeIsRunning self c.addr = false)
    ∧ (∀ (j : Nat) (r : AINodeStatus_t × BotState G),
        (∀ i, i < j →
          childStatus cap (list.drop (BotSequenceNode.start self list)) self i
            ≠ some STATUS_FAILURE
          ∧ childStatus cap (list.drop (BotSequenceNode.start self list)) self i
            ≠ some STATUS_RUNNING) →
        childResult cap (list.drop (BotSequenceNode.start self list)) self j = some r →
        (r.1 = STATUS_FAILURE ∨ r.1 = STATUS_RUNNING) →
        BotSequenceNode cap self list = r
        ∧ ∃ e, (BotSequenceNode cap self list).2.evalLog = self.evalLog ++ e
            ∧ List.Sublist
                ((((list.drop (BotSequenceNode.start self list)).take (j + 1)).map
                  AIGenericNode_t.addr)) e)
    ∧ ((∀ i, i < (list.drop (BotSequenceNode.start self list)).length →
          childStatus cap (list.drop (BotSequenceNode.start self list)) self i
            ≠ some STATUS_FAILURE
          ∧ childStatus cap (list.drop (BotSequenceNode.start self list)) self i
            ≠ some STATUS_RUNNING) →
        BotSequenceNode cap self list
          = (STATUS_SUCCESS, evalAll cap (list.drop (BotSequenceNode.start self list)) self)
        ∧ ∃ e, (BotSequenceNode cap self list).2.evalLog = self.evalLog ++ e
            ∧ List.Sublist
                ((list.drop (BotSequenceNode.start self list)).map AIGenericNode_t.addr) e) := by
  obtain ⟨h1, h2, h3⟩ := findRunningStart_spec self list (list.length - 1)
  have hrun : BotSequenceNode cap self list
      = BotSequenceNode.loop cap (list.drop (BotSequenceNode.start self list)) 0 self := by
    unfold BotSequenceNode
    exact BotSequenceNode_loop_drop cap list _ self
  refine ⟨?_, ?_, ?_, ?_⟩
  · intro hne
    obtain ⟨c, hc, hr⟩ := h2 hne
    have hlt : BotSequenceNode.start self list < list.length := by
      have := List.getElem?_eq_some.mp hc
      exact this.1
    exact ⟨Nat.one_le_iff_ne_zero.mpr hne, hlt, c, hc, hr⟩
  · intro k c hk hget
    have hlt : k < list.length := (List.getElem?_eq_some.mp hget).1
    exact h3 k c hk (by omega) hget
  · intro j r hlt hr hst
    have h := BotSequenceNode_loop_stop cap _ self j r hlt hr hst
    rw [hrun, h]
    exact ⟨rfl, childResult_log cap _ self j r hr⟩
  · intro hall
    have h := BotSequenceNode_loop_all cap _ self hall
    rw [hrun, h]
    exact ⟨rfl, evalAll_log cap _ self⟩

/-- C2, on the children [Success, Running, Success] (leaves at addresses 1, 2, 3) with
the running-node list [2]: the sequence starts at index 1, evaluates the child at
address 2 only and returns its `STATUS_RUNNING`. -/
theorem BotSequenceNode_spec_witness :
    BotSequenceNode.start (runningState [2] 0)
        [constAction STATUS_SUCCESS 1, constAction STATUS_RUNNING 2,
          constAction STATUS_SUCCESS 3] = 1
    ∧ (BotSequenceNode 4 (runningState [2] 0)
        [constAction STATUS_SUCCESS 1, constAction STATUS_RUNNING 2,
          constAction STATUS_SUCCESS 3]).1 = STATUS_RUNNING
    ∧ (BotSequenceNode 4 (runningState [2] 0)
        [constAction STATUS_SUCCESS 1, constAction STATUS_RUNNING 2,
          constAction STATUS_SUCCESS 3]).2.evalLog = [2] :=
  ⟨by decide,
   congrArg Prod.fst
    ((BotSequenceNode_spec 4 (runningState [2] 0)
      [constAction STATUS_SUCCESS 1, constAction STATUS_RUNNING 2,
        constAction STATUS_SUCCESS 3]).2.2.1 0
      (BotEvaluateNode 4 (constAction STATUS_RUNNING 2) (runningState [2] 0))
      (fun i hi => absurd hi (Nat.not_lt_zero i)) rfl (Or.inr (by decide))).1,
   by decide⟩

/-! ### Resumption of a sequence on the next tick -/

theorem addrsList_append (l1 l2 : List (AIGenericNode_t G)) :
    AIGenericNode_t.addrsList (l1 ++ l2)
      = AIGenericNode_t.addrsList l1 ++ AIGenericNode_t.addrsList l2 := by
  induction l1 with
  | nil => simp [AIGenericNode_t.addrsList]
  | cons c l ih => simp [AIGenericNode_t.addrsList, ih]

theorem addr_mem_addrs (n : AIGenericNode_t G) : n.addr ∈ n.addrs := by
  cases n with
  | list a r l => simp [AIGenericNode_t.addr, AIGenericNode_t.addrs]
  | decorator a r ps c => simp [AIGenericNode_t.addr, AIGenericNode_t.addrs]
  | condition a e c => cases c <;> simp [AIGenericNode_t.addr, AIGenericNode_t.addrs]
  | action a r ps => simp [AIGenericNode_t.addr, AIGenericNode_t.addrs]
  | behavior a r => simp [AIGenericNode_t.addr, AIGenericNode_t.addrs]

theorem addr_mem_addrsList (l : List (AIGenericNode_t G)) (d : AIGenericNode_t G)
    (hd : d ∈ l) : d.addr ∈ AIGenericNode_t.addrsList l := by
  induction l with
  | nil => simp at hd
  | cons c l ih =>
    simp only [AIGenericNode_t.addrsList, List.mem_append]
    rcases List.mem_cons.mp hd with h | h
    · subst h; exact Or.inl (addr_mem_addrs d)
    · exact Or.inr (ih h)

theorem BotSequenceNode_loop_log (cap : Nat) (c : AIGenericNode_t G)
    (l : List (AIGenericNode_t G)) (s : BotState G) :
    ∃ e, (BotSequenceNode.loop cap (c :: l) 0 s).2.evalLog = s.evalLog ++ c.addr :: e := by
  obtain ⟨e1, he1⟩ := (BotEvaluateNode_frame cap c s).1
  rw [BotSequenceNode_loop_cons]
  split
  · exact ⟨e1, he1⟩
  · split
    · exact ⟨e1, he1⟩
    · obtain ⟨⟨e2, he2⟩, _⟩ := BotSequenceNode_loop_frame cap l 0 (BotEvaluateNode cap c s).2
      exact ⟨e1 ++ e2, by rw [he2, he1]; simp⟩

theorem take_succ_of_getElem_some (l : List (AIGenericNode_t G)) (k : Nat) (c : AIGenericNode_t G)
    (hk : l[k]? = some c) : l.take (k + 1) = l.take k ++ [c] := by
  rw [List.take_succ, hk]
  rfl

theorem drop_of_getElem_some (l : List (AIGenericNode_t G)) (k : Nat) (c : AIGenericNode_t G)
    (hk : l[k]? = some c) : l.drop k = c :: l.drop (k + 1) := by
  obtain ⟨hlt, hget⟩ := List.getElem?_eq_some.mp hk
  rw [← hget]
  exact List.drop_eq_getElem_cons hlt

theorem BotConcurrentNode_nil (cap : Nat) (s : BotState G) :
    BotConcurrentNode cap s [] = (STATUS_SUCCESS, s) := rfl

theorem BotConcurrentNode_cons (cap : Nat) (c : AIGenericNode_t G)
    (l : List (AIGenericNode_t G)) (s : BotState G) :
    BotConcurrentNode cap s (c :: l)
      = if (BotEvaluateNode cap c s).1 = STATUS_FAILURE
        then (STATUS_FAILURE, (BotEvaluateNode cap c s).2)
        else BotConcurrentNode cap (BotEvaluateNode cap c s).2 l := by
  simp only [BotConcurrentNode, BotConcurrentNode.loop]

theorem BotConcurrentNode_first_failure (cap : Nat) (l : List (AIGenericNode_t G)) :
    ∀ (s : BotState G) (j : Nat) (r : AINodeStatus_t × BotState G),
      (∀ i, i < j → childStatus cap l s i ≠ some STATUS_FAILURE) →
      childResult cap l s j = some r → r.1 = STATUS_FAILURE →
      BotConcurrentNode cap s l = r := by
  induction l with
  | nil => intro s j r _ hr; simp at hr
  | cons c l ih =>
    intro s j r hlt hr hst
    rw [BotConcurrentNode_cons]
    cases j with
    | zero =>
      simp at hr
      subst hr
      rw [if_pos hst, ← hst]
    | succ j =>
      have h0 := hlt 0 (Nat.succ_pos j)
      simp at h0
      rw [if_neg h0]
      apply ih _ j r
      · intro i hi
        have := hlt (i + 1) (Nat.succ_lt_succ hi)
        simpa using this
      · simpa using hr
      · exact hst

theorem BotConcurrentNode_no_failure (cap : Nat) (l : List (AIGenericNode_t G)) :
    ∀ (s : BotState G),
      (∀ i, i < l.length → childStatus cap l s i ≠ some STATUS_FAILURE) →
      BotConcurrentNode cap s l = (STATUS_SUCCESS, evalAll cap l s) := by
  induction l with
  | nil => intro s _; rfl
  | cons c l ih =>
    intro s h
    rw [BotConcurrentNode_cons]
    have h0 := h 0 (by simp)
    simp at h0
    rw [if_neg h0, evalAll_cons]
    apply ih
    intro i hi
    have := h (i + 1) (by simpa using hi)
    simpa using this

theorem BotConcurrentNode_status (cap : Nat) (l : List (AIGenericNode_t G)) :
    ∀ (s : BotState G),
      (BotConcurrentNode cap s l).1 = STATUS_FAILURE
      ∨ (BotConcurrentNode cap s l).1 = STATUS_SUCCESS := by
  induction l with
  | nil => intro s; exact Or.inr rfl
  | cons c l ih =>
    intro s
    rw [BotConcurrentNode_cons]
    split
    · exact Or.inl rfl
    · exact ih _

/-- C4, as stated, fails: on the children [Failure, Success] (leaves at addresses 1
and 2) `BotConcurrentNode` returns `STATUS_FAILURE` after the first child; the second
child is not evaluated. -/
theorem BotConcurrentNode_skips_after_failure :
    (BotConcurrentNode 4 (freshState 0)
        [constAction STATUS_FAILURE 1, constAction STATUS_SUCCESS 2]).1 = STATUS_FAILURE
    ∧ (BotConcurrentNode 4 (freshState 0)
        [constAction STATUS_FAILURE 1, constAction STATUS_SUCCESS 2]).2.evalLog = [1]
    ∧ ¬ (∀ x, x ∈ [1, 2] → x ∈ (BotConcurrentNode 4 (freshState 0)
        [constAction STATUS_FAILURE 1, constAction STATUS_SUCCESS 2]).2.evalLog) := by
  refine ⟨by decide, by decide, ?_⟩
  intro h
  have h2 := h 2 (by decide)
  revert h2
  decide

/-- C4, amended: `BotConcurrentNode` evaluates its children in order until one returns
`STATUS_FAILURE`.  If child `j` is the first to return `STATUS_FAILURE` (whatever the
children before it returned, `STATUS_RUNNING` included), the node returns exactly the
result `r` of that child, so no later child is evaluated; if no child returns
`STATUS_FAILURE`, every child is evaluated and the node returns `STATUS_SUCCESS`.  The
node returns `STATUS_FAILURE` or `STATUS_SUCCESS`, never `STATUS_RUNNING`. -/
theorem BotConcurrentNode_spec (cap : Nat) (self : BotState G)
    (list : List (AIGenericNode_t G)) :
    (∀ (j : Nat) (r : AINodeStatus_t × BotState G),
        (∀ i, i < j → childStatus cap list self i ≠ some STATUS_FAILURE) →
        childResult cap list self j = some r → r.1 = STATUS_FAILURE →
        BotConcurrentNode cap self list = r
        ∧ ∃ e, (BotConcurrentNode cap self list).2.evalLog = self.evalLog ++ e
            ∧ List.Sublist ((list.take (j + 1)).map AIGenericNode_t.addr) e)
    ∧ ((∀ i, i < list.length → childStatus cap list self i ≠ some STATUS_FAILURE) →
        BotConcurrentNode cap self list = (STATUS_SUCCESS, evalAll cap list self)
        ∧ ∃ e, (BotConcurrentNode cap self list).2.evalLog = self.evalLog ++ e
            ∧ List.Sublist (list.map AIGenericNode_t.addr) e)
    ∧ ((BotConcurrentNode cap self list).1 = STATUS_FAILURE
        ∨ (BotConcurrentNode cap self list).1 = STATUS_SUCCESS)
    ∧ (BotConcurrentNode cap self list).1 ≠ STATUS_RUNNING := by
  refine ⟨?_, ?_, BotConcurrentNode_status cap list self, ?_⟩
  · intro j r hlt hr hst
    have h := BotConcurrentNode_first_failure cap list self j r hlt hr hst
    rw [h]
    exact ⟨rfl, childResult_log cap list self j r hr⟩
  · intro hall
    have h := BotConcurrentNode_no_failure cap list self hall
    rw [h]
    exact ⟨rfl, evalAll_log cap list self⟩
  · rcases BotConcurrentNode_status cap list self with h | h <;> rw [h] <;> simp

/-- C4, amended, on the children [Running, Success] (leaves at addresses 1 and 2): both
are evaluated and the node returns `STATUS_SUCCESS`. -/
theorem BotConcurrentNode_spec_witness :
    (∀ i, i < 2 → childStatus 4 [constAction STATUS_RUNNING 1, constAction STATUS_SUCCESS 2]
        (freshState 0) i ≠ some STATUS_FAILURE)
    ∧ (BotConcurrentNode 4 (freshState 0)
        [constAction STATUS_RUNNING 1, constAction STATUS_SUCCESS 2]).1 = STATUS_SUCCESS
    ∧ (BotConcurrentNode 4 (freshState 0)
        [constAction STATUS_RUNNING 1, constAction STATUS_SUCCESS 2]).2.evalLog = [1, 2] :=
  ⟨by decide,
   congrArg Prod.fst
    ((BotConcurrentNode_spec 4 (freshState 0)
      [constAction STATUS_RUNNING 1, constAction STATUS_SUCCESS 2]).2.1 (by decide)).1,
   by decide⟩

/-! ### Decorators -/

/-- C5: `BotDecoratorInvert` returns the child's status mapped by
`BotDecoratorInvert.status` and leaves the state as the child left it; the mapping
sends `STATUS_SUCCESS` to `STATUS_FAILURE`, `STATUS_FAILURE` to `STATUS_SUCCESS`,
`STATUS_RUNNING` to itself, and applied twice it is the identity on every status.  The
same holds through `BotEvaluateNode` on an invert decorator node, and an invert
decorator on an invert decorator returns the status of the inner child. -/
theorem BotDecoratorInvert_spec (cap : Nat) (self : BotState G) (child : AIGenericNode_t G)
    (a b : Nat) (ps qs : List AIValue_t) :
    BotDecoratorInvert cap self child
      = (BotDecoratorInvert.status (BotEvaluateNode cap child self).1,
          (BotEvaluateNode cap child self).2)
    ∧ BotDecoratorInvert.status STATUS_SUCCESS = STATUS_FAILURE
    ∧ BotDecoratorInvert.status STATUS_FAILURE = STATUS_SUCCESS
    ∧ BotDecoratorInvert.status STATUS_RUNNING = STATUS_RUNNING
    ∧ (∀ x : AINodeStatus_t, BotDecoratorInvert.status (BotDecoratorInvert.status x) = x)
    ∧ (BotEvaluateNode cap (AIGenericNode_t.decorator a AIDecoratorRun.invert ps child) self).1
        = BotDecoratorInvert.status (BotEvaluateNode cap child (logEvaluation a self)).1
    ∧ (BotEvaluateNode cap
          (AIGenericNode_t.decorator a AIDecoratorRun.invert ps
            (AIGenericNode_t.decorator b AIDecoratorRun.invert qs child)) self).1
        = (BotEvaluateNode cap child (logEvaluation b (logEvaluation a self))).1 := by
  have hinv : ∀ x : AINodeStatus_t,
      BotDecoratorInvert.status (BotDecoratorInvert.status x) = x := by
    intro x
    unfold BotDecoratorInvert.status
    by_cases h1 : x = STATUS_SUCCESS
    · simp [h1]
    · by_cases h2 : x = STATUS_FAILURE
      · simp [h2]
      · simp [h1, h2]
  refine ⟨rfl, by decide, by decide, by decide, hinv, ?_, ?_⟩
  · simp only [BotEvaluateNode, bookkeeping_status]
  · simp only [BotEvaluateNode, bookkeeping_status, hinv]

theorem BotDecoratorTimer_waiting (cap : Nat) (self : BotState G) (addr : Nat)
    (params : List AIValue_t) (child : AIGenericNode_t G)
    (h : self.levelTime ≤ self.decData addr self.number) :
    BotDecoratorTimer cap self addr params child = (STATUS_FAILURE, self) := by
  unfold BotDecoratorTimer
  rw [if_neg (by omega)]

theorem BotDecoratorTimer_unfold_due (cap : Nat) (self : BotState G) (addr : Nat)
    (params : List AIValue_t) (child : AIGenericNode_t G)
    (h : self.levelTime > self.decData addr self.number) :
    BotDecoratorTimer cap self addr params child
      = if (BotEvaluateNode cap child self).1 = STATUS_FAILURE then
          ((BotEvaluateNode cap child self).1,
            setDecData (BotEvaluateNode cap child self).2 addr self.number
              (wrapInt (self.levelTime + AIUnBoxInt (params0 params))))
        else BotEvaluateNode cap child self := by
  obtain ⟨_, ht, hn, _⟩ := (BotEvaluateNode_frame cap child self).2.1
  unfold BotDecoratorTimer
  rw [if_pos h]
  simp only [ht, hn]

theorem wrapInt_of_range (x : Int) (h1 : INT_MIN ≤ x) (h2 : x ≤ INT_MAX) : wrapInt x = x := by
  unfold INT_MIN at h1
  unfold INT_MAX at h2
  unfold wrapInt
  omega

/-- C6, as stated, fails when the sum `t + d` is beyond the range of `int`: the timer
of interval `INT_MAX` evaluated at time 5 on a failing leaf (address 1) stores the
deadline -2147483644, not 5 + 2147483647; at the later time 6, inside the interval, the
timer evaluates the leaf a second time and changes the deadline. -/
theorem BotDecoratorTimer_rearm_wraps :
    (BotEvaluateNode 4 (constAction STATUS_FAILURE 1) (freshState 5)).1 = STATUS_FAILURE
    ∧ timerOverflow.2.evalLog = [1]
    ∧ timerOverflow.2.decData 7 0 = -2147483644
    ∧ timerOverflow.2.decData 7 0 ≠ 5 + 2147483647
    ∧ (timerOverflowAt 6).levelTime = 6
    ∧ (5 : Int) ≤ 6 ∧ (6 : Int) < 5 + 2147483647
    ∧ (BotDecoratorTimer 4 (timerOverflowAt 6) 7 [AIBoxInt 2147483647]
        (constAction STATUS_FAILURE 1)).2.evalLog = [1, 1]
    ∧ (BotDecoratorTimer 4 (timerOverflowAt 6) 7 [AIBoxInt 2147483647]
        (constAction STATUS_FAILURE 1)).2.decData 7 0 = -2147483643 := by
  decide

/-- C6, amended: when `BotDecoratorTimer` evaluates its child at time
`t = self.levelTime` (the deadline of the agent has passed), the child returns
`STATUS_FAILURE`, and the sum `t + d` is a value of `int` (`d` is the first parameter
read by `AIUnBoxInt`), the timer returns `STATUS_FAILURE` and the deadline of the agent
becomes `t + d`.  In every later state `s2` of the same agent in which the deadline
still has this value and whose time `t2` satisfies `t ≤ t2 < t + d`,
`BotDecoratorTimer` returns `STATUS_FAILURE` and leaves the state exactly as it is: the
child is not evaluated and the deadline is not changed. -/
theorem BotDecoratorTimer_rearm (cap : Nat) (self : BotState G) (addr : Nat) (p : AIValue_t)
    (ps : List AIValue_t) (child : AIGenericNode_t G)
    (hdue : self.levelTime > self.decData addr self.number)
    (hfail : (BotEvaluateNode cap child self).1 = STATUS_FAILURE)
    (hmin : INT_MIN ≤ self.levelTime + AIUnBoxInt p)
    (hmax : self.levelTime + AIUnBoxInt p ≤ INT_MAX) :
    (BotDecoratorTimer cap self addr (p :: ps) child).1 = STATUS_FAILURE
    ∧ (BotDecoratorTimer cap self addr (p :: ps) child).2.decData addr self.number
        = self.levelTime + AIUnBoxInt p
    ∧ ∀ s2 : BotState G, s2.number = self.number →
        s2.decData addr s2.number
          = (BotDecoratorTimer cap self addr (p :: ps) child).2.decData addr self.number →
        self.levelTime ≤ s2.levelTime → s2.levelTime < self.levelTime + AIUnBoxInt p →
        BotDecoratorTimer cap s2 addr (p :: ps) child = (STATUS_FAILURE, s2) := by
  have heq := BotDecoratorTimer_unfold_due cap self addr (p :: ps) child hdue
  rw [if_pos hfail] at heq
  have hdl : (BotDecoratorTimer cap self addr (p :: ps) child).2.decData addr self.number
      = self.levelTime + AIUnBoxInt p := by
    rw [heq]
    simp [setDecData, params0, wrapInt_of_range _ hmin hmax]
  refine ⟨by rw [heq]; exact hfail, hdl, ?_⟩
  intro s2 _ hd _ hlt
  apply BotDecoratorTimer_waiting
  rw [hd, hdl]
  omega

/-- C6, amended, on a timer with interval 3 evaluated at time 5 on a failing leaf: the
deadline becomes 8, and at time 7 the timer returns `STATUS_FAILURE` without a second
evaluation of the leaf. -/
theorem BotDecoratorTimer_rearm_witness :
    timerExample.2.decData 7 0 = 8
    ∧ (BotDecoratorTimer 4 (timerExampleAt 7) 7 [AIBoxInt 3]
        (constAction STATUS_FAILURE 1)).1 = STATUS_FAILURE
    ∧ (BotDecoratorTimer 4 (timerExampleAt 7) 7 [AIBoxInt 3]
        (constAction STATUS_FAILURE 1)).2.evalLog = [1] :=
  ⟨by decide,
   congrArg Prod.fst
    ((BotDecoratorTimer_rearm 4 (freshState 5) 7 (AIBoxInt 3) []
      (constAction STATUS_FAILURE 1) (by decide) (by decide) (by decide) (by decide)).2.2
      (timerExampleAt 7) rfl (by decide) (by decide) (by decide)),
   by decide⟩

/-- C7, as stated, fails at time == deadline: with time 0 and deadline 0 the timer
returns `STATUS_FAILURE` and does not evaluate its child, which would have returned
`STATUS_SUCCESS`. -/
theorem BotDecoratorTimer_not_at_deadline :
    (freshState 0).levelTime ≥ (freshState 0).decData 7 (freshState 0).number
    ∧ (BotEvaluateNode 4 (constAction STATUS_SUCCESS 1) (freshState 0)).1 = STATUS_SUCCESS
    ∧ (BotDecoratorTimer 4 (freshState 0) 7 [AIBoxInt 3]
        (constAction STATUS_SUCCESS 1)).1 = STATUS_FAILURE
    ∧ (BotDecoratorTimer 4 (freshState 0) 7 [AIBoxInt 3]
        (constAction STATUS_SUCCESS 1)).2.evalLog = [] := by
  decide

/-- C7, amended: an evaluation of `BotDecoratorTimer` at a time strictly after the
deadline of the agent evaluates the child exactly once and returns the child's status;
if the child did not return `STATUS_FAILURE` the state is exactly the one the child
left, and the deadline is unchanged when the timer is not a node of the child's
subtree; if the child returned `STATUS_FAILURE` the deadline becomes time + interval,
as the `int` the machine computes for this sum (`wrapInt`), which is the sum itself
when the sum is a value of `int`.  At a time not after the deadline (time == deadline
included) the timer returns `STATUS_FAILURE` and leaves the state as it is. -/
theorem BotDecoratorTimer_due (cap : Nat) (self : BotState G) (addr : Nat) (p : AIValue_t)
    (ps : List AIValue_t) (child : AIGenericNode_t G) :
    (self.levelTime > self.decData addr self.number →
        (BotDecoratorTimer cap self addr (p :: ps) child).1 = (BotEvaluateNode cap child self).1
        ∧ (BotDecoratorTimer cap self addr (p :: ps) child).2.evalLog
            = (BotEvaluateNode cap child self).2.evalLog
        ∧ ((BotEvaluateNode cap child self).1 ≠ STATUS_FAILURE →
            BotDecoratorTimer cap self addr (p :: ps) child = BotEvaluateNode cap child self
            ∧ (addr ∉ child.addrs →
                (BotDecoratorTimer cap self addr (p :: ps) child).2.decData addr self.number
                  = self.decData addr self.number))
        ∧ ((BotEvaluateNode cap child self).1 = STATUS_FAILURE →
            (BotDecoratorTimer cap self addr (p :: ps) child).2.decData addr self.number
              = wrapInt (self.levelTime + AIUnBoxInt p)
            ∧ (INT_MIN ≤ self.levelTime + AIUnBoxInt p →
                self.levelTime + AIUnBoxInt p ≤ INT_MAX →
                (BotDecoratorTimer cap self addr (p :: ps) child).2.decData addr self.number
                  = self.levelTime + AIUnBoxInt p)))
    ∧ (self.levelTime ≤ self.decData addr self.number →
        BotDecoratorTimer cap self addr (p :: ps) child = (STATUS_FAILURE, self)) := by
  refine ⟨?_, BotDecoratorTimer_waiting cap self addr (p :: ps) child⟩
  intro hdue
  have heq := BotDecoratorTimer_unfold_due cap self addr (p :: ps) child hdue
  by_cases hf : (BotEvaluateNode cap child self).1 = STATUS_FAILURE
  · rw [if_pos hf] at heq
    rw [heq]
    exact ⟨rfl, rfl, fun h => absurd hf h, fun _ =>
      ⟨by simp [setDecData, params0],
       fun h1 h2 => by simp [setDecData, params0, wrapInt_of_range _ h1 h2]⟩⟩
  · rw [if_neg hf] at heq
    rw [heq]
    refine ⟨rfl, rfl, fun _ => ⟨rfl, ?_⟩, fun h => absurd h hf⟩
    intro hnot
    exact (BotEvaluateNode_frame cap child self).2.1.2.2.2.2.2 addr self.number hnot

/-- C7, amended, at time 5 with deadline 0 on a leaf (address 1) that returns
`STATUS_SUCCESS`: the leaf is evaluated once, its status is returned and the deadline
stays 0. -/
theorem BotDecoratorTimer_due_witness :
    (freshState 5).levelTime > (freshState 5).decData 7 (freshState 5).number
    ∧ (BotDecoratorTimer 4 (freshState 5) 7 [AIBoxInt 3]
        (constAction STATUS_SUCCESS 1)).1 = STATUS_SUCCESS
    ∧ (BotDecoratorTimer 4 (freshState 5) 7 [AIBoxInt 3]
        (constAction STATUS_SUCCESS 1)).2.evalLog = [1]
    ∧ (BotDecoratorTimer 4 (freshState 5) 7 [AIBoxInt 3]
        (constAction STATUS_SUCCESS 1)).2.decData 7 0 = 0 :=
  ⟨by decide,
   ((BotDecoratorTimer_due 4 (freshState 5) 7 (AIBoxInt 3) []
      (constAction STATUS_SUCCESS 1)).1 (by decide)).1,
   by decide, by decide⟩

/-- C8: `BotDecoratorReturn` evaluates its child exactly once with `BotEvaluateNode`
(the state it leaves is the one this evaluation left, whose log starts with the
child) and returns the status read from its first parameter by `AIUnBoxInt`, whatever
the child is and returns; so does `BotEvaluateNode` on a return decorator node. -/
theorem BotDecoratorReturn_spec (cap : Nat) (self : BotState G) (p : AIValue_t)
    (ps : List AIValue_t) (child : AIGenericNode_t G) (a : Nat) :
    BotDecoratorReturn cap self (p :: ps) child
      = (AIUnBoxInt p, (BotEvaluateNode cap child self).2)
    ∧ (∃ e, (BotDecoratorReturn cap self (p :: ps) child).2.evalLog
        = self.evalLog ++ child.addr :: e)
    ∧ (∀ (child2 : AIGenericNode_t G) (self2 : BotState G),
        (BotDecoratorReturn cap self2 (p :: ps) child2).1
          = (BotDecoratorReturn cap self (p :: ps) child).1)
    ∧ (BotEvaluateNode cap (AIGenericNode_t.decorator a AIDecoratorRun.ret (p :: ps) child)
        self).1 = AIUnBoxInt p
    ∧ (BotEvaluateNode cap (AIGenericNode_t.decorator a AIDecoratorRun.ret (p :: ps) child)
        self).2.evalLog = (BotEvaluateNode cap child (logEvaluation a self)).2.evalLog := by
  refine ⟨rfl, (BotEvaluateNode_frame cap child self).1, fun _ _ => rfl, ?_, ?_⟩
  · simp only [BotEvaluateNode, bookkeeping_status, params0, List.headD_cons]
  · simp only [BotEvaluateNode, (bookkeeping_fields cap a _ _).1]

/-! ### Condition -/

/-- C9: if the expression of a condition node evaluates to false, `BotConditionNode`
returns `STATUS_FAILURE` and leaves the state as it is (the child, if any, is not
evaluated); if it evaluates to true and there is no child, it returns `STATUS_SUCCESS`
and leaves the state as it is; if it evaluates to true and there is a child, it
returns exactly the result of `BotEvaluateNode` on the child. -/
theorem BotConditionNode_spec (cap : Nat) (self : BotState G) (exp : AIExp G) :
    (EvalConditionExpression self exp = false →
        ∀ child, BotConditionNode cap self exp child = (STATUS_FAILURE, self))
    ∧ (EvalConditionExpression self exp = true →
        BotConditionNode cap self exp none = (STATUS_SUCCESS, self))
    ∧ (EvalConditionExpression self exp = true →
        ∀ c, BotConditionNode cap self exp (some c) = BotEvaluateNode cap c self) := by
  refine ⟨?_, ?_, ?_⟩
  · intro h child
    simp [BotConditionNode, h]
  · intro h
    simp [BotConditionNode, h]
  · intro h c
    simp [BotConditionNode, h]

/-- C9, on the expression that is the boxed integer 0 (false) with a leaf child at
address 1: `STATUS_FAILURE` is returned and the leaf is not evaluated. -/
theorem BotConditionNode_spec_witness :
    EvalConditionExpression (freshState 0) (AIExp.value (AIBoxInt 0)) = false
    ∧ (BotConditionNode 4 (freshState 0) (AIExp.value (AIBoxInt 0))
        (some (constAction STATUS_SUCCESS 1))).1 = STATUS_FAILURE
    ∧ (BotConditionNode 4 (freshState 0) (AIExp.value (AIBoxInt 0))
        (some (constAction STATUS_SUCCESS 1))).2.evalLog = [] :=
  ⟨by simp [EvalConditionExpression, AIBoxInt, AIUnBoxDouble],
   congrArg Prod.fst
    ((BotConditionNode_spec 4 (freshState 0) (AIExp.value (AIBoxInt 0))).1
      (by simp [EvalConditionExpression, AIBoxInt, AIUnBoxDouble])
      (some (constAction STATUS_SUCCESS 1))),
   congrArg (fun r => r.2.evalLog)
    ((BotConditionNode_spec 4 (freshState 0) (AIExp.value (AIBoxInt 0))).1
      (by simp [EvalConditionExpression, AIBoxInt, AIUnBoxDouble])
      (some (constAction STATUS_SUCCESS 1)))⟩

/-! ### Status returned by `BotEvaluateNode` -/

theorem resetCurrent_running (a : Nat) (s : BotState G) :
    BotEvaluateNode.resetCurrent a STATUS_RUNNING s = s := by
  unfold BotEvaluateNode.resetCurrent
  simp

theorem resetRunning_running (a : Nat) (s : BotState G) :
    BotEvaluateNode.resetRunning a STATUS_RUNNING s = s := by
  unfold BotEvaluateNode.resetRunning
  simp

theorem bookkeeping_running_full (cap a : Nat) (ty : AINodeType_t)
    (r : AINodeStatus_t × BotState G) (hst : r.1 = STATUS_RUNNING)
    (hty : ty ≠ AINodeType_t.ACTION_NODE) (hfull : cap ≤ r.2.runningNodes.length) :
    BotEvaluateNode.bookkeeping cap a ty r = (STATUS_RUNNING, r.2) := by
  have h3 : BotEvaluateNode.storeRunning cap a ty r.2 = r.2 := by
    unfold BotEvaluateNode.storeRunning runningNodes_append
    simp only [hty, if_false, if_neg (Nat.not_lt.mpr hfull)]
    split <;> rfl
  unfold BotEvaluateNode.bookkeeping
  simp only [hst, if_true, resetCurrent_running, resetRunning_running, h3]

theorem bookkeeping_running_action_zero (a : Nat) (r : AINodeStatus_t × BotState G)
    (hst : r.1 = STATUS_RUNNING) :
    BotEvaluateNode.bookkeeping 0 a AINodeType_t.ACTION_NODE r
      = (STATUS_RUNNING, { r.2 with runningNodes := [] }) := by
  unfold BotEvaluateNode.bookkeeping
  simp only [hst, if_true, resetCurrent_running, resetRunning_running]
  simp [BotEvaluateNode.storeRunning, runningNodes_append, NodeIsRunning]

/-- C10: `BotEvaluateNode` returns exactly the status its run function produced.  When
that status is `STATUS_RUNNING` and the running-node list is at capacity at the point
where the node is to be stored (this is the list the run function left, or the empty
list for an action node, whose list is cleared first), `append` fails, the list is
left as it is at that point, the rest of the state is as the run function left it, and
`STATUS_RUNNING` is returned. -/
theorem BotEvaluateNode_status (cap : Nat) (node : AIGenericNode_t G) (self : BotState G) :
    (BotEvaluateNode cap node self).1 = (node.run cap (logEvaluation node.addr self)).1
    ∧ ((node.run cap (logEvaluation node.addr self)).1 = STATUS_RUNNING →
        cap ≤ (if node.type = AINodeType_t.ACTION_NODE then []
                else (node.run cap (logEvaluation node.addr self)).2.runningNodes).length →
        runningNodes_append cap
            (if node.type = AINodeType_t.ACTION_NODE then []
              else (node.run cap (logEvaluation node.addr self)).2.runningNodes) node.addr = none
        ∧ BotEvaluateNode cap node self
            = (STATUS_RUNNING,
                { (node.run cap (logEvaluation node.addr self)).2 with
                  runningNodes :=
                    if node.type = AINodeType_t.ACTION_NODE then []
                    else (node.run cap (logEvaluation node.addr self)).2.runningNodes })) := by
  refine ⟨?_, ?_⟩
  · rw [BotEvaluateNode_eq, bookkeeping_status]
  · intro hst hfull
    refine ⟨?_, ?_⟩
    · unfold runningNodes_append
      rw [if_neg (Nat.not_lt.mpr hfull)]
    · rw [BotEvaluateNode_eq]
      by_cases hty : node.type = AINodeType_t.ACTION_NODE
      · rw [if_pos hty] at hfull
        have hcap : cap = 0 := by simpa using hfull
        subst hcap
        rw [hty, if_pos rfl]
        exact bookkeeping_running_action_zero _ _ hst
      · rw [if_neg hty] at hfull
        rw [if_neg hty]
        exact bookkeeping_running_full cap _ _ _ hst hty hfull

/-- C10, on a selector (address 9) over a leaf (address 2) that returns
`STATUS_RUNNING`, with capacity 1: the leaf fills the running-node list, the selector
cannot be appended, the list stays [2] and `STATUS_RUNNING` is returned. -/
theorem BotEvaluateNode_status_witness :
    (BotEvaluateNode 1
        (AIGenericNode_t.list 9 AIListRun.selector [constAction STATUS_RUNNING 2])
        (freshState 0)).1 = STATUS_RUNNING
    ∧ (BotEvaluateNode 1
        (AIGenericNode_t.list 9 AIListRun.selector [constAction STATUS_RUNNING 2])
        (freshState 0)).2.runningNodes = [2] :=
  ⟨congrArg Prod.fst
    ((BotEvaluateNode_status 1
      (AIGenericNode_t.list 9 AIListRun.selector [constAction STATUS_RUNNING 2])
      (freshState 0)).2 (by decide) (by decide)).2,
   by decide⟩

/-! ### Bookkeeping of the current-node pointer and of the running-node list -/

theorem storeRunning_currentNode (cap a : Nat) (ty : AINodeType_t) (s : BotState G) :
    (BotEvaluateNode.storeRunning cap a ty s).currentNode = s.currentNode :=
  (storeRunning_fields cap a ty s).2.2.2.2.2

theorem bookkeeping_currentNode (cap a : Nat) (ty : AINodeType_t)
    (r : AINodeStatus_t × BotState G) :
    (BotEvaluateNode.bookkeeping cap a ty r).2.currentNode
      = if (r.1 = STATUS_SUCCESS ∨ r.1 = STATUS_FAILURE) ∧ r.2.currentNode = some a
        then none else r.2.currentNode := by
  have h1 : (BotEvaluateNode.resetCurrent a r.1 r.2).currentNode
      = if (r.1 = STATUS_SUCCESS ∨ r.1 = STATUS_FAILURE) ∧ r.2.currentNode = some a
        then none else r.2.currentNode := by
    unfold BotEvaluateNode.resetCurrent
    split <;> rfl
  unfold BotEvaluateNode.bookkeeping
  simp only []
  split
  · simp only [storeRunning_currentNode, (resetRunning_fields _ _ _).2.2.2.2.2, h1]
  · simp only [(resetRunning_fields _ _ _).2.2.2.2.2, h1]

/-- C11: after `BotEvaluateNode`, if the run function returned `STATUS_SUCCESS` or
`STATUS_FAILURE` and left the current-node pointer on the node, the pointer is none; in
every other case the pointer is the one the run function left.  Hence after an
evaluation that returned `STATUS_SUCCESS` or `STATUS_FAILURE` the pointer is not on the
evaluated node. -/
theorem BotEvaluateNode_currentNode (cap : Nat) (node : AIGenericNode_t G) (self : BotState G) :
    (((node.run cap (logEvaluation node.addr self)).1 = STATUS_SUCCESS
        ∨ (node.run cap (logEvaluation node.addr self)).1 = STATUS_FAILURE)
      ∧ (node.run cap (logEvaluation node.addr self)).2.currentNode = some node.addr →
        (BotEvaluateNode cap node self).2.currentNode = none)
    ∧ (¬ (((node.run cap (logEvaluation node.addr self)).1 = STATUS_SUCCESS
          ∨ (node.run cap (logEvaluation node.addr self)).1 = STATUS_FAILURE)
        ∧ (node.run cap (logEvaluation node.addr self)).2.currentNode = some node.addr) →
        (BotEvaluateNode cap node self).2.currentNode
          = (node.run cap (logEvaluation node.addr self)).2.currentNode)
    ∧ ((BotEvaluateNode cap node self).1 = STATUS_SUCCESS
        ∨ (BotEvaluateNode cap node self).1 = STATUS_FAILURE →
        (BotEvaluateNode cap node self).2.currentNode ≠ some node.addr) := by
  rw [BotEvaluateNode_eq, bookkeeping_currentNode, bookkeeping_status]
  refine ⟨fun h => by rw [if_pos h], fun h => by rw [if_neg h], ?_⟩
  intro hst
  by_cases hc : (node.run cap (logEvaluation node.addr self)).2.currentNode = some node.addr
  · rw [if_pos ⟨hst, hc⟩]
    simp
  · rw [if_neg (fun h => hc h.2)]
    exact hc

/-- C11, on a leaf (address 5) that runs `BotActionChangeGoal` with a goal change that
succeeds: the action sets the current-node pointer to its node and returns
`STATUS_SUCCESS`, and after `BotEvaluateNode` the pointer is none. -/
theorem BotEvaluateNode_currentNode_witness :
    ((changeGoalAction 5).run 4 (logEvaluation 5 (freshState 0))).1 = STATUS_SUCCESS
    ∧ ((changeGoalAction 5).run 4 (logEvaluation 5 (freshState 0))).2.currentNode = some 5
    ∧ (BotEvaluateNode 4 (changeGoalAction 5) (freshState 0)).2.currentNode = none :=
  ⟨by decide, by decide,
   (BotEvaluateNode_currentNode 4 (changeGoalAction 5) (freshState 0)).1
    ⟨Or.inl (by decide), by decide⟩⟩

theorem resetRunning_list (a : Nat) (st : AINodeStatus_t) (s : BotState G) :
    (BotEvaluateNode.resetRunning a st s).runningNodes
      = if a ∈ s.runningNodes ∧ st = STATUS_SUCCESS then [] else s.runningNodes := by
  unfold BotEvaluateNode.resetRunning
  simp only [NodeIsRunning, decide_eq_true_eq]
  split <;> rfl

theorem bookkeeping_success_list (cap a : Nat) (ty : AINodeType_t)
    (r : AINodeStatus_t × BotState G) (hst : r.1 = STATUS_SUCCESS) :
    (BotEvaluateNode.bookkeeping cap a ty r).2.runningNodes
      = if a ∈ r.2.runningNodes then [] else r.2.runningNodes := by
  have hc := (resetCurrent_fields a r.1 r.2).2.2.2.2.2
  have hne : ¬ (r.1 = STATUS_RUNNING) := by rw [hst]; simp
  unfold BotEvaluateNode.bookkeeping
  simp only [hne, if_false]
  rw [resetRunning_list, hc]
  simp only [hst, and_true]

/-- C12: when `BotEvaluateNode` returns `STATUS_SUCCESS`, the running-node list is empty
afterwards if the node was in the list the run function left, and it is that list,
unchanged, if the node was not in it. -/
theorem BotEvaluateNode_success_list (cap : Nat) (node : AIGenericNode_t G) (self : BotState G)
    (hst : (BotEvaluateNode cap node self).1 = STATUS_SUCCESS) :
    (node.addr ∈ (node.run cap (logEvaluation node.addr self)).2.runningNodes →
        (BotEvaluateNode cap node self).2.runningNodes = [])
    ∧ (node.addr ∉ (node.run cap (logEvaluation node.addr self)).2.runningNodes →
        (BotEvaluateNode cap node self).2.runningNodes
          = (node.run cap (logEvaluation node.addr self)).2.runningNodes) := by
  rw [BotEvaluateNode_eq, bookkeeping_status] at hst
  rw [BotEvaluateNode_eq, bookkeeping_success_list cap _ _ _ hst]
  exact ⟨fun h => by rw [if_pos h], fun h => by rw [if_neg h]⟩

/-- C12, on a leaf (address 1) that returns `STATUS_SUCCESS`, with the running-node
list [5, 1]: the list is empty afterwards. -/
theorem BotEvaluateNode_success_list_witness :
    (BotEvaluateNode 4 (constAction STATUS_SUCCESS 1) (runningState [5, 1] 0)).1 = STATUS_SUCCESS
    ∧ (BotEvaluateNode 4 (constAction STATUS_SUCCESS 1) (runningState [5, 1] 0)).2.runningNodes
        = [] :=
  ⟨by decide,
   (BotEvaluateNode_success_list 4 (constAction STATUS_SUCCESS 1) (runningState [5, 1] 0)
    (by decide)).1 (by decide)⟩

theorem storeRunning_list (cap a : Nat) (ty : AINodeType_t) (s : BotState G) :
    (BotEvaluateNode.storeRunning cap a ty s).runningNodes
      = if a ∈ (if ty = AINodeType_t.ACTION_NODE then [] else s.runningNodes)
        then (if ty = AINodeType_t.ACTION_NODE then [] else s.runningNodes)
        else if (if ty = AINodeType_t.ACTION_NODE then [] else s.runningNodes).length < cap
        then (if ty = AINodeType_t.ACTION_NODE then [] else s.runningNodes) ++ [a]
        else (if ty = AINodeType_t.ACTION_NODE then [] else s.runningNodes) := by
  unfold BotEvaluateNode.storeRunning runningNodes_append
  by_cases hty : ty = AINodeType_t.ACTION_NODE
  · simp only [hty, if_true, NodeIsRunning, List.not_mem_nil, decide_False, if_false,
      List.length_nil, List.nil_append]
    by_cases hcap : 0 < cap
    · simp [hcap]
    · simp [hcap]
  · simp only [hty, if_false, NodeIsRunning]
    by_cases hin : a ∈ s.runningNodes
    · simp [hin]
    · by_cases hcap : s.runningNodes.length < cap
      · simp [hin, hcap]
      · simp [hin, hcap]

theorem bookkeeping_running_list (cap a : Nat) (ty : AINodeType_t)
    (r : AINodeStatus_t × BotState G) (hst : r.1 = STATUS_RUNNING) :
    (BotEvaluateNode.bookkeeping cap a ty r).2.runningNodes
      = if a ∈ (if ty = AINodeType_t.ACTION_NODE then [] else r.2.runningNodes)
        then (if ty = AINodeType_t.ACTION_NODE then [] else r.2.runningNodes)
        else if (if ty = AINodeType_t.ACTION_NODE then [] else r.2.runningNodes).length < cap
        then (if ty = AINodeType_t.ACTION_NODE then [] else r.2.runningNodes) ++ [a]
        else (if ty = AINodeType_t.ACTION_NODE then [] else r.2.runningNodes) := by
  unfold BotEvaluateNode.bookkeeping
  simp only [hst, if_true, resetCurrent_running, resetRunning_running]
  exact storeRunning_list cap a ty r.2

theorem bookkeeping_other_list (cap a : Nat) (ty : AINodeType_t)
    (r : AINodeStatus_t × BotState G) (hst : r.1 ≠ STATUS_RUNNING) :
    (BotEvaluateNode.bookkeeping cap a ty r).2.runningNodes
      = if a ∈ r.2.runningNodes ∧ r.1 = STATUS_SUCCESS then [] else r.2.runningNodes := by
  have hc := (resetCurrent_fields a r.1 r.2).2.2.2.2.2
  unfold BotEvaluateNode.bookkeeping
  simp only [hst, if_false]
  rw [resetRunning_list, hc]

/-! ### Invariants of the running-node list -/

theorem logEvaluation_runningNodes (a : Nat) (s : BotState G) :
    (logEvaluation a s).runningNodes = s.runningNodes := rfl

mutual
/-- A property of the running-node list that every bookkeeping step of the nodes of a
subtree preserves is preserved by `BotEvaluateNode` on the subtree. -/
theorem BotEvaluateNode_preserves (cap : Nat) (P : List Nat → Prop) :
    ∀ (n : AIGenericNode_t G) (s : BotState G),
      (∀ p, p ∈ n.nodeTags → ∀ r : AINodeStatus_t × BotState G,
        P r.2.runningNodes → P (BotEvaluateNode.bookkeeping cap p.1 p.2 r).2.runningNodes) →
      P s.runningNodes → P (BotEvaluateNode cap n s).2.runningNodes
  | .list a .selector l, s, h, hs => by
      simp only [BotEvaluateNode]
      apply h (a, .SELECTOR_NODE) (by simp [AIGenericNode_t.nodeTags])
      exact BotSelectorNode_loop_preserves cap P l _
        (fun p hp => h p (by simp [AIGenericNode_t.nodeTags, hp])) hs
  | .list a .sequence l, s, h, hs => by
      simp only [BotEvaluateNode]
      apply h (a, .SELECTOR_NODE) (by simp [AIGenericNode_t.nodeTags])
      exact BotSequenceNode_loop_preserves cap P l _ _
        (fun p hp => h p (by simp [AIGenericNode_t.nodeTags, hp])) hs
  | .list a .fallback l, s, h, hs => by
      simp only [BotEvaluateNode]
      apply h (a, .SELECTOR_NODE) (by simp [AIGenericNode_t.nodeTags])
      exact BotFallbackNode_loop_preserves cap P l _ _
        (fun p hp => h p (by simp [AIGenericNode_t.nodeTags, hp])) hs
  | .list a .concurrent l, s, h, hs => by
      simp only [BotEvaluateNode]
      apply h (a, .SELECTOR_NODE) (by simp [AIGenericNode_t.nodeTags])
      exact BotConcurrentNode_loop_preserves cap P l _
        (fun p hp => h p (by simp [AIGenericNode_t.nodeTags, hp])) hs
  | .decorator a .invert ps c, s, h, hs => by
      simp only [BotEvaluateNode]
      apply h (a, .DECORATOR_NODE) (by simp [AIGenericNode_t.nodeTags])
      exact BotEvaluateNode_preserves cap P c _
        (fun p hp => h p (by simp [AIGenericNode_t.nodeTags, hp])) hs
  | .decorator a .timer ps c, s, h, hs => by
      simp only [BotEvaluateNode]
      apply h (a, .DECORATOR_NODE) (by simp [AIGenericNode_t.nodeTags])
      have hc := BotEvaluateNode_preserves cap P c (logEvaluation a s)
        (fun p hp => h p (by simp [AIGenericNode_t.nodeTags, hp])) hs
      split
      · split
        · exact hc
        · exact hc
      · exact hs
  | .decorator a .ret ps c, s, h, hs => by
      simp only [BotEvaluateNode]
      apply h (a, .DECORATOR_NODE) (by simp [AIGenericNode_t.nodeTags])
      exact BotEvaluateNode_preserves cap P c _
        (fun p hp => h p (by simp [AIGenericNode_t.nodeTags, hp])) hs
  | .condition a e none, s, h, hs => by
      simp only [BotEvaluateNode]
      apply h (a, .CONDITION_NODE) (by simp [AIGenericNode_t.nodeTags])
      split
      · exact hs
      · exact hs
  | .condition a e (some c), s, h, hs => by
      simp only [BotEvaluateNode]
      apply h (a, .CONDITION_NODE) (by simp [AIGenericNode_t.nodeTags])
      split
      · exact BotEvaluateNode_preserves cap P c _
          (fun p hp => h p (by simp [AIGenericNode_t.nodeTags, hp])) hs
      · exact hs
  | .action a run ps, s, h, hs => by
      simp only [BotEvaluateNode]
      apply h (a, .ACTION_NODE) (by simp [AIGenericNode_t.nodeTags])
      exact hs
  | .behavior a root, s, h, hs => by
      simp only [BotEvaluateNode]
      apply h (a, .BEHAVIOR_NODE) (by simp [AIGenericNode_t.nodeTags])
      exact BotEvaluateNode_preserves cap P root _
        (fun p hp => h p (by simp [AIGenericNode_t.nodeTags, hp])) hs
termination_by structural n => n
theorem BotSelectorNode_loop_preserves (cap : Nat) (P : List Nat → Prop) :
    ∀ (l : List (AIGenericNode_t G)) (s : BotState G),
      (∀ p, p ∈ AIGenericNode_t.nodeTagsList l → ∀ r : AINodeStatus_t × BotState G,
        P r.2.runningNodes → P (BotEvaluateNode.bookkeeping cap p.1 p.2 r).2.runningNodes) →
      P s.runningNodes → P (BotSelectorNode.loop cap l s).2.runningNodes
  | [], s, _, hs => hs
  | c :: rest, s, h, hs => by
      have hc := BotEvaluateNode_preserves cap P c s
        (fun p hp => h p (by simp [AIGenericNode_t.nodeTagsList, hp])) hs
      have hr := BotSelectorNode_loop_preserves cap P rest (BotEvaluateNode cap c s).2
        (fun p hp => h p (by simp [AIGenericNode_t.nodeTagsList, hp])) hc
      simp only [BotSelectorNode.loop]
      split
      · exact hr
      · exact hc
termination_by structural l => l
theorem BotSequenceNode_loop_preserves (cap : Nat) (P : List Nat → Prop) :
    ∀ (l : List (AIGenericNode_t G)) (k : Nat) (s : BotState G),
      (∀ p, p ∈ AIGenericNode_t.nodeTagsList l → ∀ r : AINodeStatus_t × BotState G,
        P r.2.runningNodes → P (BotEvaluateNode.bookkeeping cap p.1 p.2 r).2.runningNodes) →
      P s.runningNodes → P (BotSequenceNode.loop cap l k s).2.runningNodes
  | [], _, s, _, hs => hs
  | c :: rest, k + 1, s, h, hs => by
      simp only [BotSequenceNode.loop]
      exact BotSequenceNode_loop_preserves cap P rest k s
        (fun p hp => h p (by simp [AIGenericNode_t.nodeTagsList, hp])) hs
  | c :: rest, 0, s, h, hs => by
      have hc := BotEvaluateNode_preserves cap P c s
        (fun p hp => h p (by simp [AIGenericNode_t.nodeTagsList, hp])) hs
      have hr := BotSequenceNode_loop_preserves cap P rest 0 (BotEvaluateNode cap c s).2
        (fun p hp => h p (by simp [AIGenericNode_t.nodeTagsList, hp])) hc
      simp only [BotSequenceNode.loop]
      split
      · exact hc
      · split
        · exact hc
        · exact hr
termination_by structural l => l
theorem BotFallbackNode_loop_preserves (cap : Nat) (P : List Nat → Prop) :
    ∀ (l : List (AIGenericNode_t G)) (k : Nat) (s : BotState G),
      (∀ p, p ∈ AIGenericNode_t.nodeTagsList l → ∀ r : AINodeStatus_t × BotState G,
        P r.2.runningNodes → P (BotEvaluateNode.bookkeeping cap p.1 p.2 r).2.runningNodes) →
      P s.runningNodes → P (BotFallbackNode.loop cap l k s).2.runningNodes
  | [], _, s, _, hs => hs
  | c :: rest, k + 1, s, h, hs => by
      simp only [BotFallbackNode.loop]
      exact BotFallbackNode_loop_preserves cap P rest k s
        (fun p hp => h p (by simp [AIGenericNode_t.nodeTagsList, hp])) hs
  | c :: rest, 0, s, h, hs => by
      have hc := BotEvaluateNode_preserves cap P c s
        (fun p hp => h p (by simp [AIGenericNode_t.nodeTagsList, hp])) hs
      have hr := BotFallbackNode_loop_preserves cap P rest 0 (BotEvaluateNode cap c s).2
        (fun p hp => h p (by simp [AIGenericNode_t.nodeTagsList, hp])) hc
      simp only [BotFallbackNode.loop]
      split
      · exact hc
      · split
        · exact hc
        · exact hr
termination_by structural l => l
theorem BotConcurrentNode_loop_preserves (cap : Nat) (P : List Nat → Prop) :
    ∀ (l : List (AIGenericNode_t G)) (s : BotState G),
      (∀ p, p ∈ AIGenericNode_t.nodeTagsList l → ∀ r : AINodeStatus_t × BotState G,
        P r.2.runningNodes → P (BotEvaluateNode.bookkeeping cap p.1 p.2 r).2.runningNodes) →
      P s.runningNodes → P (BotConcurrentNode.loop cap l s).2.runningNodes
  | [], s, _, hs => hs
  | c :: rest, s, h, hs => by
      have hc := BotEvaluateNode_preserves cap P c s
        (fun p hp => h p (by simp [AIGenericNode_t.nodeTagsList, hp])) hs
      have hr := BotConcurrentNode_loop_preserves cap P rest (BotEvaluateNode cap c s).2
        (fun p hp => h p (by simp [AIGenericNode_t.nodeTagsList, hp])) hc
      simp only [BotConcurrentNode.loop]
      split
      · exact hc
      · exact hr
termination_by structural l => l
end

mutual
theorem nodeTags_map_fst : ∀ (n : AIGenericNode_t G), n.nodeTags.map Prod.fst = n.addrs
  | .list a _ l => by
      simp only [AIGenericNode_t.nodeTags, AIGenericNode_t.addrs, List.map_cons,
        nodeTagsList_map_fst l]
  | .decorator a _ _ c => by
      simp only [AIGenericNode_t.nodeTags, AIGenericNode_t.addrs, List.map_cons,
        nodeTags_map_fst c]
  | .condition a _ none => by
      simp only [AIGenericNode_t.nodeTags, AIGenericNode_t.addrs, List.map_cons, List.map_nil]
  | .condition a _ (some c) => by
      simp only [AIGenericNode_t.nodeTags, AIGenericNode_t.addrs, List.map_cons,
        nodeTags_map_fst c]
  | .action a _ _ => by
      simp only [AIGenericNode_t.nodeTags, AIGenericNode_t.addrs, List.map_cons, List.map_nil]
  | .behavior a r => by
      simp only [AIGenericNode_t.nodeTags, AIGenericNode_t.addrs, List.map_cons,
        nodeTags_map_fst r]
termination_by structural n => n
theorem nodeTagsList_map_fst : ∀ (l : List (AIGenericNode_t G)),
    (AIGenericNode_t.nodeTagsList l).map Prod.fst = AIGenericNode_t.addrsList l
  | [] => rfl
  | c :: rest => by
      simp only [AIGenericNode_t.nodeTagsList, AIGenericNode_t.addrsList, List.map_append,
        nodeTags_map_fst c, nodeTagsList_map_fst rest]
termination_by structural l => l
end

theorem not_actionAddr_of_tag (root : AIGenericNode_t G) (hnodup : root.addrs.Nodup)
    (a : Nat) (ty : AINodeType_t) (hp : (a, ty) ∈ root.nodeTags)
    (hty : ty ≠ AINodeType_t.ACTION_NODE) : a ∉ root.actionAddrs := by
  intro hin
  unfold AIGenericNode_t.actionAddrs at hin
  simp only [List.mem_map, List.mem_filter, decide_eq_true_eq] at hin
  obtain ⟨⟨a2, ty2⟩, ⟨hmem, hact⟩, hfst⟩ := hin
  simp only at hact hfst
  subst hfst
  subst hact
  rw [← nodeTags_map_fst] at hnodup
  have := List.inj_on_of_nodup_map hnodup hp hmem rfl
  simp only [Prod.mk.injEq, true_and] at this
  exact hty this

theorem actionOnlyFirst_bookkeeping (cap : Nat) (root : AIGenericNode_t G)
    (hnodup : root.addrs.Nodup) (p : Nat × AINodeType_t) (hp : p ∈ root.nodeTags)
    (r : AINodeStatus_t × BotState G) (h : actionOnlyFirst root r.2.runningNodes) :
    actionOnlyFirst root (BotEvaluateNode.bookkeeping cap p.1 p.2 r).2.runningNodes := by
  by_cases hst : r.1 = STATUS_RUNNING
  · rw [bookkeeping_running_list cap _ _ _ hst]
    by_cases hty : p.2 = AINodeType_t.ACTION_NODE
    · simp only [hty, if_true, List.not_mem_nil, if_false, List.length_nil, List.nil_append]
      split <;> (intro x hx; simp at hx)
    · simp only [hty, if_false]
      split
      · exact h
      · split
        · intro x hx
          have hna : p.1 ∉ root.actionAddrs :=
            not_actionAddr_of_tag root hnodup p.1 p.2 hp hty
          cases hl : r.2.runningNodes with
          | nil => rw [hl] at hx; simp at hx
          | cons y t =>
            rw [hl] at hx
            simp only [List.cons_append, List.tail_cons, List.mem_append,
              List.mem_singleton] at hx
            rcases hx with hx | hx
            · apply h x
              rw [hl]
              exact hx
            · rw [hx]; exact hna
        · exact h
  · rw [bookkeeping_other_list cap _ _ _ hst]
    split
    · intro x hx; simp at hx
    · exact h

theorem actionOnlyFirst_count (root : AIGenericNode_t G) (l : List Nat)
    (h : actionOnlyFirst root l) :
    (l.filter (fun x => decide (x ∈ root.actionAddrs))).length ≤ 1 := by
  cases l with
  | nil => simp
  | cons y t =>
    have ht : t.filter (fun x => decide (x ∈ root.actionAddrs)) = [] := by
      rw [List.filter_eq_nil_iff]
      intro x hx
      simpa using h x hx
    rw [List.filter_cons]
    split
    · simp [ht]
    · simp [ht]

theorem evalAll_preserves (cap : Nat) (P : List Nat → Prop)
    (nodes : List (AIGenericNode_t G)) :
    ∀ (s : BotState G),
      (∀ n, n ∈ nodes → ∀ t : BotState G, P t.runningNodes →
        P (BotEvaluateNode cap n t).2.runningNodes) →
      P s.runningNodes → P (evalAll cap nodes s).runningNodes := by
  induction nodes with
  | nil => intro s _ hs; exact hs
  | cons n rest ih =>
    intro s h hs
    rw [evalAll_cons]
    exact ih _ (fun m hm => h m (List.mem_cons_of_mem _ hm)) (h n (List.mem_cons_self _ _) s hs)

/-- C13: when `BotEvaluateNode` returns `STATUS_RUNNING` for an action node and the
capacity is at least 1, the running-node list is exactly the one-element list of that
node, whatever it was before.  In a tree `root` whose nodes have pairwise distinct
addresses, the property that only the first entry of the list may be an action leaf
holds for the empty list and is kept by the evaluation of every node of the tree; a
list with this property holds at most one action leaf.  So, starting from an empty
list, the list holds at most one action leaf after the evaluation of any sequence
`nodes` of nodes of the tree. -/
theorem BotEvaluateNode_running_action (cap : Nat) (root node : AIGenericNode_t G)
    (self : BotState G) :
    ((BotEvaluateNode cap node self).1 = STATUS_RUNNING →
        node.type = AINodeType_t.ACTION_NODE → 1 ≤ cap →
        (BotEvaluateNode cap node self).2.runningNodes = [node.addr])
    ∧ actionOnlyFirst root []
    ∧ (root.addrs.Nodup → (∀ p, p ∈ node.nodeTags → p ∈ root.nodeTags) →
        actionOnlyFirst root self.runningNodes →
        actionOnlyFirst root (BotEvaluateNode cap node self).2.runningNodes)
    ∧ (∀ l, actionOnlyFirst root l →
        (l.filter (fun x => decide (x ∈ root.actionAddrs))).length ≤ 1)
    ∧ (root.addrs.Nodup → ∀ nodes : List (AIGenericNode_t G),
        (∀ n, n ∈ nodes → ∀ p, p ∈ n.nodeTags → p ∈ root.nodeTags) →
        self.runningNodes = [] →
        ((evalAll cap nodes self).runningNodes.filter
          (fun x => decide (x ∈ root.actionAddrs))).length ≤ 1) := by
  refine ⟨?_, ?_, ?_, actionOnlyFirst_count root, ?_⟩
  · intro hst hty hcap
    rw [BotEvaluateNode_eq, bookkeeping_status] at hst
    rw [BotEvaluateNode_eq, bookkeeping_running_list cap _ _ _ hst]
    have hc : 0 < cap := hcap
    simp [hty, hc]
  · intro x hx
    simp at hx
  · intro hnodup hsub hs
    exact BotEvaluateNode_preserves cap (actionOnlyFirst root) node self
      (fun p hp r hr => actionOnlyFirst_bookkeeping cap root hnodup p (hsub p hp) r hr) hs
  · intro hnodup nodes hsub hempty
    apply actionOnlyFirst_count
    apply evalAll_preserves cap (actionOnlyFirst root) nodes self
    · intro n hn t ht
      exact BotEvaluateNode_preserves cap (actionOnlyFirst root) n t
        (fun p hp r hr => actionOnlyFirst_bookkeeping cap root hnodup p (hsub n hn p hp) r hr) ht
    · rw [hempty]
      intro x hx
      simp at hx

/-- C13, on a leaf (address 2) that returns `STATUS_RUNNING`, with the running-node
list [5, 6] and capacity 1: the list is [2] afterwards. -/
theorem BotEvaluateNode_running_action_witness :
    (BotEvaluateNode 1 (constAction STATUS_RUNNING 2) (runningState [5, 6] 0)).1 = STATUS_RUNNING
    ∧ (BotEvaluateNode 1 (constAction STATUS_RUNNING 2) (runningState [5, 6] 0)).2.runningNodes
        = [2] :=
  ⟨by decide,
   (BotEvaluateNode_running_action 1 (constAction STATUS_RUNNING 2)
    (constAction STATUS_RUNNING 2) (runningState [5, 6] 0)).1
    (by decide) (by decide) (by decide)⟩

theorem nodup_bookkeeping (cap : Nat) (p : Nat × AINodeType_t)
    (r : AINodeStatus_t × BotState G) (h : r.2.runningNodes.Nodup) :
    (BotEvaluateNode.bookkeeping cap p.1 p.2 r).2.runningNodes.Nodup := by
  by_cases hst : r.1 = STATUS_RUNNING
  · rw [bookkeeping_running_list cap _ _ _ hst]
    by_cases hty : p.2 = AINodeType_t.ACTION_NODE
    · simp only [hty, if_true, List.not_mem_nil, if_false, List.length_nil, List.nil_append]
      split <;> simp
    · simp only [hty, if_false]
      split
      · exact h
      · rename_i hin
        split
        · rw [List.nodup_append]
          refine ⟨h, by simp, ?_⟩
          intro x hx hy
          simp at hy
          subst hy
          exact hin hx
        · exact h
  · rw [bookkeeping_other_list cap _ _ _ hst]
    split
    · simp
    · exact h

/-- C14: when `BotEvaluateNode` returns `STATUS_RUNNING` for a node that is not an
action, the running-node list afterwards is the list the run function left if the node
is in it, that list with the node appended at the end if the node is not in it and the
capacity allows, and that list unchanged if the node is not in it and the capacity is
used up.  `BotEvaluateNode` leaves a running-node list without duplicates when it starts
from one; so, starting from an empty list, the list holds no node twice after the
evaluation of any sequence `nodes` of nodes. -/
theorem BotEvaluateNode_running_other (cap : Nat) (node : AIGenericNode_t G)
    (self : BotState G) :
    ((BotEvaluateNode cap node self).1 = STATUS_RUNNING →
        node.type ≠ AINodeType_t.ACTION_NODE →
        (node.addr ∈ (node.run cap (logEvaluation node.addr self)).2.runningNodes →
          (BotEvaluateNode cap node self).2.runningNodes
            = (node.run cap (logEvaluation node.addr self)).2.runningNodes)
        ∧ (node.addr ∉ (node.run cap (logEvaluation node.addr self)).2.runningNodes →
            (node.run cap (logEvaluation node.addr self)).2.runningNodes.length < cap →
            (BotEvaluateNode cap node self).2.runningNodes
              = (node.run cap (logEvaluation node.addr self)).2.runningNodes ++ [node.addr])
        ∧ (node.addr ∉ (node.run cap (logEvaluation node.addr self)).2.runningNodes →
            cap ≤ (node.run cap (logEvaluation node.addr self)).2.runningNodes.length →
            (BotEvaluateNode cap node self).2.runningNodes
              = (node.run cap (logEvaluation node.addr self)).2.runningNodes))
    ∧ (self.runningNodes.Nodup → (BotEvaluateNode cap node self).2.runningNodes.Nodup)
    ∧ (∀ nodes : List (AIGenericNode_t G), self.runningNodes = [] →
        (evalAll cap nodes self).runningNodes.Nodup) := by
  refine ⟨?_, ?_, ?_⟩
  · intro hst hty
    rw [BotEvaluateNode_eq, bookkeeping_status] at hst
    rw [BotEvaluateNode_eq, bookkeeping_running_list cap _ _ _ hst]
    simp only [hty, if_false]
    refine ⟨fun h => by rw [if_pos h], fun h hc => by rw [if_neg h, if_pos hc],
      fun h hc => by rw [if_neg h, if_neg (Nat.not_lt.mpr hc)]⟩
  · intro hs
    exact BotEvaluateNode_preserves cap List.Nodup node self
      (fun p _ r hr => nodup_bookkeeping cap p r hr) hs
  · intro nodes hempty
    apply evalAll_preserves cap List.Nodup nodes self
    · intro n _ t ht
      exact BotEvaluateNode_preserves cap List.Nodup n t
        (fun p _ r hr => nodup_bookkeeping cap p r hr) ht
    · rw [hempty]
      exact List.nodup_nil

/-- C14, on a selector (address 9) over a leaf (address 2) that returns
`STATUS_RUNNING`, with capacity 4: the leaf leaves [2], the selector is appended and
the list is [2, 9]. -/
theorem BotEvaluateNode_running_other_witness :
    (BotEvaluateNode 4
        (AIGenericNode_t.list 9 AIListRun.selector [constAction STATUS_RUNNING 2])
        (freshState 0)).1 = STATUS_RUNNING
    ∧ (BotEvaluateNode 4
        (AIGenericNode_t.list 9 AIListRun.selector [constAction STATUS_RUNNING 2])
        (freshState 0)).2.runningNodes = [2, 9] :=
  ⟨by decide,
   ((BotEvaluateNode_running_other 4
      (AIGenericNode_t.list 9 AIListRun.selector [constAction STATUS_RUNNING 2])
      (freshState 0)).1 (by decide) (by decide)).2.1 (by decide) (by decide)⟩

/-- C15, failing input: the selector `twoReturnsSelector` (all addresses distinct) is
evaluated twice from an empty running-node list, the flag being set on the first tick
and cleared on the second.  After the first tick the list is [2, 1, 9]; after the
second it is [2, 1, 9, 5, 4], which holds the two children 1 and 4 of the selector, and
the return decorators 2 and 5: neither pair is on one path of the tree.  One
evaluation of `twoReturnsConcurrent` from an empty list leaves [1, 3], two children of
the concurrent node. -/
theorem runningNodes_off_one_path :
    twoReturnsSelector.addrs.Nodup
    ∧ (BotEvaluateNode 8 twoReturnsSelector (flagState true)).2.runningNodes = [2, 1, 9]
    ∧ (BotEvaluateNode 8 twoReturnsSelector twoReturnsSecondTick).2.runningNodes
        = [2, 1, 9, 5, 4]
    ∧ twoReturnsSelector.onOnePath 1 4 = false
    ∧ twoReturnsSelector.onOnePath 2 5 = false
    ∧ twoReturnsConcurrent.addrs.Nodup
    ∧ (BotEvaluateNode 8 twoReturnsConcurrent (flagState true)).2.runningNodes = [1, 3]
    ∧ twoReturnsConcurrent.onOnePath 1 3 = false := by
  refine ⟨by decide, by decide, by decide, by decide, by decide, by decide, by decide,
    by decide⟩

/-! ### A tree whose root is a condition with a false expression -/

/-- C16: `BotEvaluateNode` on a behaviour tree node (address `b`) whose root is a
condition node (address `c`) with an expression that evaluates to false returns
`STATUS_FAILURE`; if the current-node pointer is on neither of the two nodes, the
state is left as it was (running-node list and current-node pointer included) but for
the evaluation log, which records the tree node and the condition node only: the child
of the condition, if any, is not evaluated. -/
theorem BotEvaluateNode_false_condition (cap b c : Nat) (exp : AIExp G)
    (child : Option (AIGenericNode_t G)) (self : BotState G)
    (hexp : EvalConditionExpression (logEvaluation c (logEvaluation b self)) exp = false)
    (hb : self.currentNode ≠ some b) (hc : self.currentNode ≠ some c) :
    BotEvaluateNode cap (AIGenericNode_t.behavior b (AIGenericNode_t.condition c exp child)) self
      = (STATUS_FAILURE, { self with evalLog := self.evalLog ++ [b, c] })
    ∧ (BotEvaluateNode cap (AIGenericNode_t.behavior b (AIGenericNode_t.condition c exp child))
        self).2.runningNodes = self.runningNodes
    ∧ (BotEvaluateNode cap (AIGenericNode_t.behavior b (AIGenericNode_t.condition c exp child))
        self).2.currentNode = self.currentNode := by
  have hbook : ∀ (a : Nat) (ty : AINodeType_t) (s : BotState G), s.currentNode ≠ some a →
      BotEvaluateNode.bookkeeping cap a ty (STATUS_FAILURE, s) = (STATUS_FAILURE, s) := by
    intro a ty s hs
    unfold BotEvaluateNode.bookkeeping BotEvaluateNode.resetRunning BotEvaluateNode.resetCurrent
    simp [hs]
  have hcond : BotEvaluateNode cap (AIGenericNode_t.condition c exp child) (logEvaluation b self)
      = (STATUS_FAILURE, logEvaluation c (logEvaluation b self)) := by
    rw [BotEvaluateNode_eq]
    simp only [AIGenericNode_t.run, AIGenericNode_t.addr, BotConditionNode, hexp]
    exact hbook c _ _ hc
  have hmain : BotEvaluateNode cap
      (AIGenericNode_t.behavior b (AIGenericNode_t.condition c exp child)) self
      = (STATUS_FAILURE, { self with evalLog := self.evalLog ++ [b, c] }) := by
    rw [BotEvaluateNode_eq]
    simp only [AIGenericNode_t.run, AIGenericNode_t.addr, BotBehaviorNode, hcond]
    rw [hbook b _ (logEvaluation c (logEvaluation b self)) hb]
    simp [logEvaluation]
  rw [hmain]
  exact ⟨rfl, rfl, rfl⟩

/-- C16, on the tree at address 8 whose root is the condition at address 7 with the
boxed integer 0 as expression and a leaf (address 1) as child: `STATUS_FAILURE` is
returned, only the nodes 8 and 7 are evaluated, the running-node list [5] stays. -/
theorem BotEvaluateNode_false_condition_witness :
    (BotEvaluateNode 4
        (AIGenericNode_t.behavior 8
          (AIGenericNode_t.condition 7 (AIExp.value (AIBoxInt 0))
            (some (constAction STATUS_SUCCESS 1))))
        (runningState [5] 0)).1 = STATUS_FAILURE
    ∧ (BotEvaluateNode 4
        (AIGenericNode_t.behavior 8
          (AIGenericNode_t.condition 7 (AIExp.value (AIBoxInt 0))
            (some (constAction STATUS_SUCCESS 1))))
        (runningState [5] 0)).2.evalLog = [8, 7]
    ∧ (BotEvaluateNode 4
        (AIGenericNode_t.behavior 8
          (AIGenericNode_t.condition 7 (AIExp.value (AIBoxInt 0))
            (some (constAction STATUS_SUCCESS 1))))
        (runningState [5] 0)).2.runningNodes = [5] :=
  ⟨congrArg Prod.fst
    (BotEvaluateNode_false_condition 4 8 7 (AIExp.value (AIBoxInt 0))
      (some (constAction STATUS_SUCCESS 1)) (runningState [5] 0)
      (by simp [EvalConditionExpression, AIBoxInt, AIUnBoxDouble]) (by decide) (by decide)).1,
   congrArg (fun r => r.2.evalLog)
    (BotEvaluateNode_false_condition 4 8 7 (AIExp.value (AIBoxInt 0))
      (some (constAction STATUS_SUCCESS 1)) (runningState [5] 0)
      (by simp [EvalConditionExpression, AIBoxInt, AIUnBoxDouble]) (by decide) (by decide)).1,
   (BotEvaluateNode_false_condition 4 8 7 (AIExp.value (AIBoxInt 0))
      (some (constAction STATUS_SUCCESS 1)) (runningState [5] 0)
      (by simp [EvalConditionExpression, AIBoxInt, AIUnBoxDouble]) (by decide) (by decide)).2.1⟩

/-! ### Condition expressions and boxed values -/

theorem AIUnBoxDouble_eq_refNumeric (v : AIValue_t) : AIUnBoxDouble v = refNumeric v := by
  cases v <;> rfl

theorem EvalValue_body_of_refExp (self : BotState G) (e : AIExp G)
    (h : EvalConditionExpression self e = (refExp self e).1) :
    EvalValue.body self e (EvalConditionExpression self e) = (refExp self e).2 := by
  cases e with
  | value v => simp [EvalValue.body, refExp, AIUnBoxDouble_eq_refNumeric]
  | func f ps => simp [EvalValue.body, refExp, EvalFunc, AIUnBoxDouble_eq_refNumeric]
  | unaryOp op x =>
    rw [h]
    simp [EvalValue.body, refExp]
  | binaryOp op x y =>
    rw [h]
    simp [EvalValue.body, refExp]

theorem EvalConditionExpression_eq_refExp (self : BotState G) (e : AIExp G) :
    EvalConditionExpression self e = (refExp self e).1 := by
  induction e with
  | value v => simp [EvalConditionExpression, refExp, AIUnBoxDouble_eq_refNumeric]
  | func f ps => simp [EvalConditionExpression, refExp, EvalFunc, AIUnBoxDouble_eq_refNumeric]
  | unaryOp op x ih =>
    cases op <;> simp [EvalConditionExpression, refExp, isBinaryOp, isUnaryOp, ih]
  | binaryOp op x y ihx ihy =>
    have hx := EvalValue_body_of_refExp self x ihx
    have hy := EvalValue_body_of_refExp self y ihy
    rw [ihx] at hx
    rw [ihy] at hy
    cases op <;> simp [EvalConditionExpression, refExp, isBinaryOp, isUnaryOp, ihx, ihy, hx, hy]

/-- C17: `EvalConditionExpression` is the boolean value and `EvalValue` the numeric
value of the reference semantics `refExp`: AND and OR combine the boolean values of
both operands, NOT negates the boolean value of its operand, the six comparisons
compare the numeric values of the operands (an operator node counting as 1 or 0), a
value or function leaf is true iff its numeric value is not zero (0 for a string), and
an operator that is neither binary nor unary yields false.  The expressions have no
effect on the state, so the order in which AND and OR look at their operands does not
show. -/
theorem EvalConditionExpression_refines (self : BotState G) (e : AIExp G) :
    EvalConditionExpression self e = (refExp self e).1
    ∧ EvalValue self e = (refExp self e).2
    ∧ (∀ s : String, EvalConditionExpression self (AIExp.value (AIBoxString s)) = false)
    ∧ (∀ (op : AIOpType_t) (x y : AIExp G), isBinaryOp op = false → isUnaryOp op = false →
        EvalConditionExpression self (AIExp.binaryOp op x y) = false
        ∧ EvalConditionExpression self (AIExp.unaryOp op x) = false) := by
  refine ⟨EvalConditionExpression_eq_refExp self e,
    EvalValue_body_of_refExp self e (EvalConditionExpression_eq_refExp self e), ?_, ?_⟩
  · intro s
    simp [EvalConditionExpression, AIBoxString, AIUnBoxDouble]
  · intro op x y hb hu
    simp [EvalConditionExpression, hb, hu]

/-- C17, on the operator `OP_NONE`, which is neither binary nor unary: the expression
is false whatever its operands. -/
theorem EvalConditionExpression_refines_witness :
    isBinaryOp AIOpType_t.OP_NONE = false ∧ isUnaryOp AIOpType_t.OP_NONE = false
    ∧ EvalConditionExpression (freshState 0)
        (AIExp.binaryOp AIOpType_t.OP_NONE (AIExp.value (AIBoxInt 1)) (AIExp.value (AIBoxInt 1)))
        = false :=
  ⟨by decide, by decide,
   ((EvalConditionExpression_refines (freshState 0) (AIExp.value (AIBoxInt 1))).2.2.2
      AIOpType_t.OP_NONE (AIExp.value (AIBoxInt 1)) (AIExp.value (AIBoxInt 1))
      (by decide) (by decide)).1⟩

theorem tdiv_eq_floor (f : Rat) (h : 0 ≤ f) : Int.tdiv f.num (f.den : Int) = ⌊f⌋ := by
  rw [Rat.floor_def, Int.tdiv_eq_ediv (Rat.num_nonneg.mpr h) (Int.ofNat_nonneg _)]

theorem tdiv_eq_ceil (f : Rat) (h : f ≤ 0) : Int.tdiv f.num (f.den : Int) = ⌈f⌉ := by
  have hneg : 0 ≤ -f := neg_nonneg.mpr h
  have h1 : ⌈f⌉ = -⌊-f⌋ := by rw [Int.floor_neg, neg_neg]
  rw [h1, Rat.floor_def, Rat.neg_num, Rat.neg_den]
  have h2 : (0 : Int) ≤ -f.num := by
    have := Rat.num_nonneg.mpr hneg
    rwa [Rat.neg_num] at this
  rw [← Int.tdiv_eq_ediv h2 (Int.ofNat_nonneg _), Int.neg_tdiv, neg_neg]

/-- The conversion `( int ) f` of `truncToInt` rounds toward zero when the rounded value
is a value of `int`: down to the floor for a value that is not negative, up to the
ceiling for one that is not positive.  Beyond the range of `int` it gives `INT_MIN`. -/
theorem truncToInt_spec (f : Rat) :
    (0 ≤ f → ⌊f⌋ ≤ INT_MAX → truncToInt f = ⌊f⌋)
    ∧ (f ≤ 0 → INT_MIN ≤ ⌈f⌉ → truncToInt f = ⌈f⌉)
    ∧ (0 ≤ f → INT_MAX < ⌊f⌋ → truncToInt f = INT_MIN)
    ∧ (f ≤ 0 → ⌈f⌉ < INT_MIN → truncToInt f = INT_MIN) := by
  refine ⟨?_, ?_, ?_, ?_⟩
  · intro h hr
    have hnn : (0 : Int) ≤ ⌊f⌋ := Int.floor_nonneg.mpr h
    unfold truncToInt
    simp only [tdiv_eq_floor f h]
    rw [if_pos ⟨by unfold INT_MIN; omega, hr⟩]
  · intro h hr
    have hnp : ⌈f⌉ ≤ (0 : Int) := Int.ceil_le.mpr (by simpa using h)
    unfold truncToInt
    simp only [tdiv_eq_ceil f h]
    rw [if_pos ⟨hr, by unfold INT_MAX; omega⟩]
  · intro h hr
    unfold truncToInt
    simp only [tdiv_eq_floor f h]
    rw [if_neg (by omega)]
  · intro h hr
    unfold truncToInt
    simp only [tdiv_eq_ceil f h]
    rw [if_neg (by omega)]

/-- The conversion `( float ) i` of `AIUnBoxFloat` rounds: the int 16777217, which no
`float` represents, unboxes to the float 16777216. -/
theorem AIUnBoxFloat_int_rounds : AIUnBoxFloat (AIBoxInt 16777217) = 16777216 := by
  decide!

/-- C18, as stated, fails on a float beyond the range of `int`: the float 3000000000
(a value of `float`: rounding leaves it as it is) unboxes as int to `INT_MIN`, not to
3000000000, its value truncated toward zero. -/
theorem AIUnBoxInt_float_out_of_range :
    roundF32 3000000000 = 3000000000
    ∧ AIUnBoxInt (AIBoxFloat 3000000000) = INT_MIN
    ∧ AIUnBoxInt (AIBoxFloat 3000000000) ≠ 3000000000 := by
  decide!

/-- C18, amended: coercions of boxed values (a `float` or `double` value is the rational
it stands for).  A boxed int unboxes to itself as int and, exactly, as double, so that
comparing boxed ints through `EvalValue` agrees with comparing the integers; a boxed
float whose value truncated toward zero is a value of `int` unboxes as int to that
truncated value, and every boxed float unboxes as float to itself; a boxed string
unboxes to 0 as int, float and double. -/
theorem AIUnBox_spec (self : BotState G) :
    (∀ i : Int, AIUnBoxInt (AIBoxInt i) = i ∧ AIUnBoxDouble (AIBoxInt i) = (i : Rat)
        ∧ EvalValue self (AIExp.value (AIBoxInt i)) = (i : Rat))
    ∧ (∀ i j : Int,
        (AIUnBoxDouble (AIBoxInt i) < AIUnBoxDouble (AIBoxInt j) ↔ i < j)
        ∧ (AIUnBoxDouble (AIBoxInt i) ≤ AIUnBoxDouble (AIBoxInt j) ↔ i ≤ j)
        ∧ (AIUnBoxDouble (AIBoxInt i) = AIUnBoxDouble (AIBoxInt j) ↔ i = j)
        ∧ EvalConditionExpression self
            (AIExp.binaryOp AIOpType_t.OP_LESSTHAN (AIExp.value (AIBoxInt i))
              (AIExp.value (AIBoxInt j))) = decide (i < j))
    ∧ (∀ f : Rat,
        (0 ≤ f → ⌊f⌋ ≤ INT_MAX → AIUnBoxInt (AIBoxFloat f) = ⌊f⌋)
        ∧ (f ≤ 0 → INT_MIN ≤ ⌈f⌉ → AIUnBoxInt (AIBoxFloat f) = ⌈f⌉)
        ∧ AIUnBoxFloat (AIBoxFloat f) = f)
    ∧ (∀ s : String, AIUnBoxInt (AIBoxString s) = 0 ∧ AIUnBoxFloat (AIBoxString s) = 0
        ∧ AIUnBoxDouble (AIBoxString s) = 0) := by
  refine ⟨?_, ?_, ?_, ?_⟩
  · intro i
    exact ⟨rfl, rfl, rfl⟩
  · intro i j
    refine ⟨?_, ?_, ?_, ?_⟩
    · simp [AIUnBoxDouble, AIBoxInt]
    · simp [AIUnBoxDouble, AIBoxInt]
    · simp [AIUnBoxDouble, AIBoxInt]
    · simp [EvalConditionExpression, isBinaryOp, EvalValue.body, AIUnBoxDouble, AIBoxInt]
  · intro f
    exact ⟨(truncToInt_spec f).1, (truncToInt_spec f).2.1, rfl⟩
  · intro s
    exact ⟨rfl, rfl, rfl⟩

/-- C18, amended, on the floats 7/2 and -7/2: they unbox to the ints 3 and -3. -/
theorem AIUnBox_spec_witness :
    AIUnBoxInt (AIBoxFloat (7 / 2)) = 3 ∧ AIUnBoxInt (AIBoxFloat (-7 / 2)) = -3 :=
  have h1 : ⌊(7 / 2 : Rat)⌋ = 3 := by rw [Int.floor_eq_iff]; norm_num
  have h2 : ⌈(-7 / 2 : Rat)⌉ = -3 := by rw [Int.ceil_eq_iff]; norm_num
  ⟨(((AIUnBox_spec (freshState 0)).2.2.1 (7 / 2)).1 (by norm_num)
      (by rw [h1]; decide)).trans h1,
   (((AIUnBox_spec (freshState 0)).2.2.1 (-7 / 2)).2.1 (by norm_num)
      (by rw [h2]; decide)).trans h2⟩

/-! ### Off-mesh traversal and corridor check of `G_BotUpdatePath` -/

theorem withinRadius_iff (be : NavBackend C N) (bot : Bot_t C N) (pos off : rVec)
    (conPoly : dtPolyRef) :
    withinRadiusOfOffMeshConnection be bot pos off conPoly = true
      ↔ ∃ con, be.getOffMeshConnectionByRef bot.nav conPoly = some con
          ∧ Float32.lt (dtVdist2DSqr pos off)
              (Float32.mul (.finite con.rad) (.finite con.rad)) = true := by
  unfold withinRadiusOfOffMeshConnection
  cases h : be.getOffMeshConnectionByRef bot.nav conPoly with
  | none => simp
  | some con => simp

theorem overStart_iff (be : NavBackend C N) (bot : Bot_t C N) (pos : rVec) :
    overOffMeshConnectionStart be bot pos = true
      ↔ 1 ≤ bot.numCorners
        ∧ (bot.cornerFlags (bot.numCorners - 1).toNat) &&& DT_STRAIGHTPATH_OFFMESH_CONNECTION ≠ 0
        ∧ ∃ con, be.getOffMeshConnectionByRef bot.nav
              (bot.cornerPolys (bot.numCorners - 1).toNat) = some con
            ∧ Float32.lt (dtVdist2DSqr pos (bot.cornerVerts (bot.numCorners - 1).toNat))
                (Float32.mul (.finite con.rad) (.finite con.rad)) = true := by
  unfold overOffMeshConnectionStart
  by_cases h1 : bot.numCorners < 1
  · simp only [h1, if_true]
    constructor
    · intro h; exact absurd h (by simp)
    · intro h; omega
  · simp only [h1, if_false]
    have h1b : 1 ≤ bot.numCorners := by omega
    by_cases h2 : (bot.cornerFlags (bot.numCorners - 1).toNat)
        &&& DT_STRAIGHTPATH_OFFMESH_CONNECTION ≠ 0
    · simp only [bne_iff_ne, ne_eq, h2, not_false_eq_true, decide_True, if_true,
        withinRadius_iff, h1b, true_and]
    · simp only [bne_iff_ne, ne_eq, h2, decide_False, if_false, h1b, false_and, and_false]
      simp

theorem replan_fields (be : NavBackend C N) (bot : Bot_t C N) (spos : rVec)
    (rtarget : botRouteTargetInternal) :
    (G_BotUpdatePath.replan be bot spos rtarget).nav = bot.nav
    ∧ (G_BotUpdatePath.replan be bot spos rtarget).offMesh = bot.offMesh
    ∧ (G_BotUpdatePath.replan be bot spos rtarget).numCorners = bot.numCorners
    ∧ (G_BotUpdatePath.replan be bot spos rtarget).cornerFlags = bot.cornerFlags
    ∧ (G_BotUpdatePath.replan be bot spos rtarget).cornerVerts = bot.cornerVerts
    ∧ (G_BotUpdatePath.replan be bot spos rtarget).cornerPolys = bot.cornerPolys := by
  unfold G_BotUpdatePath.replan
  simp only []
  split
  · split <;> exact ⟨rfl, rfl, rfl, rfl, rfl, rfl⟩
  · exact ⟨rfl, rfl, rfl, rfl, rfl, rfl⟩

theorem enterOffMesh_fields (be : NavBackend C N) (bot : Bot_t C N) (spos : rVec) :
    (G_BotUpdatePath.enterOffMesh be bot spos).nav = bot.nav
    ∧ (G_BotUpdatePath.enterOffMesh be bot spos).needReplan = bot.needReplan
    ∧ (G_BotUpdatePath.enterOffMesh be bot spos).numCorners = bot.numCorners
    ∧ (G_BotUpdatePath.enterOffMesh be bot spos).cornerFlags = bot.cornerFlags
    ∧ (G_BotUpdatePath.enterOffMesh be bot spos).cornerVerts = bot.cornerVerts
    ∧ (G_BotUpdatePath.enterOffMesh be bot spos).cornerPolys = bot.cornerPolys
    ∧ ((G_BotUpdatePath.enterOffMesh be bot spos).offMesh = true → bot.offMesh = false →
        overOffMeshConnectionStart be bot spos = true) := by
  unfold G_BotUpdatePath.enterOffMesh
  simp only []
  split
  · rename_i h
    split <;> exact ⟨rfl, rfl, rfl, rfl, rfl, rfl, fun _ _ => h⟩
  · refine ⟨rfl, rfl, rfl, rfl, rfl, rfl, ?_⟩
    intro h1 h2
    rw [h2] at h1
    exact absurd h1 (by simp)

theorem checkCorridor_fields (be : NavBackend C N) (bot : Bot_t C N) (spos epos : rVec)
    (rtarget : botRouteTargetInternal) :
    (G_BotUpdatePath.checkCorridor be bot spos epos rtarget).nav = bot.nav
    ∧ (G_BotUpdatePath.checkCorridor be bot spos epos rtarget).corridor = bot.corridor
    ∧ (G_BotUpdatePath.checkCorridor be bot spos epos rtarget).offMesh = bot.offMesh
    ∧ (G_BotUpdatePath.checkCorridor be bot spos epos rtarget).numCorners = bot.numCorners
    ∧ (G_BotUpdatePath.checkCorridor be bot spos epos rtarget).cornerFlags = bot.cornerFlags
    ∧ (G_BotUpdatePath.checkCorridor be bot spos epos rtarget).cornerVerts = bot.cornerVerts
    ∧ (G_BotUpdatePath.checkCorridor be bot spos epos rtarget).cornerPolys = bot.cornerPolys
    ∧ (be.PointInPoly bot.nav (be.getFirstPoly bot.corridor) spos = true
        ∨ (G_BotUpdatePath.checkCorridor be bot spos epos rtarget).needReplan = true) := by
  unfold G_BotUpdatePath.checkCorridor
  simp only []
  split
  · exact ⟨rfl, rfl, rfl, rfl, rfl, rfl, rfl, Or.inr rfl⟩
  · rename_i h
    refine ⟨rfl, rfl, rfl, rfl, rfl, rfl, rfl, Or.inl ?_⟩
    cases hp : be.PointInPoly bot.nav (be.getFirstPoly bot.corridor) spos with
    | true => rfl
    | false => exact absurd (Or.inl hp) h

theorem offMesh_fields (be : NavBackend C N) (bot : Bot_t C N) (origin : qVec) (spos : rVec)
    (cmd : botNavCmd_t) :
    (G_BotUpdatePath.offMesh be bot origin spos cmd).1.nav = bot.nav
    ∧ (G_BotUpdatePath.offMesh be bot origin spos cmd).1.corridor = bot.corridor
    ∧ (G_BotUpdatePath.offMesh be bot origin spos cmd).1.needReplan = bot.needReplan
    ∧ (G_BotUpdatePath.offMesh be bot origin spos cmd).1.numCorners = bot.numCorners
    ∧ (G_BotUpdatePath.offMesh be bot origin spos cmd).1.cornerFlags = bot.cornerFlags
    ∧ (G_BotUpdatePath.offMesh be bot origin spos cmd).1.cornerVerts = bot.cornerVerts
    ∧ (G_BotUpdatePath.offMesh be bot origin spos cmd).1.cornerPolys = bot.cornerPolys
    ∧ ((G_BotUpdatePath.offMesh be bot origin spos cmd).1.offMesh = true → bot.offMesh = true)
    ∧ (bot.offMesh = true → (G_BotUpdatePath.offMesh be bot origin spos cmd).1.offMesh = false →
        withinRadiusOfOffMeshConnection be bot spos bot.offMeshEnd bot.offMeshPoly = true) := by
  unfold G_BotUpdatePath.offMesh
  simp only []
  split
  · rename_i h
    exact ⟨rfl, rfl, rfl, rfl, rfl, rfl, rfl, fun h1 => absurd h1 (by simp), fun _ _ => h⟩
  · refine ⟨rfl, rfl, rfl, rfl, rfl, rfl, rfl, fun h1 => h1, ?_⟩
    intro h1 h2
    rw [h1] at h2
    exact absurd h2 (by simp)

theorem updatePathCorridor_fields (be : NavBackend C N) (bot : Bot_t C N) (spos : rVec)
    (rtarget : botRouteTargetInternal) :
    (G_UpdatePathCorridor be bot spos rtarget).nav = bot.nav
    ∧ (G_UpdatePathCorridor be bot spos rtarget).offMesh = bot.offMesh
    ∧ (G_UpdatePathCorridor be bot spos rtarget).offMeshPoly = bot.offMeshPoly
    ∧ (G_UpdatePathCorridor be bot spos rtarget).offMeshEnd = bot.offMeshEnd := by
  unfold G_UpdatePathCorridor
  simp only []
  split_ifs <;> exact ⟨rfl, rfl, rfl, rfl⟩

theorem onMesh_fields (be : NavBackend C N) (bot : Bot_t C N) (spos epos : rVec)
    (rtarget : botRouteTargetInternal) (cmd : botNavCmd_t) :
    (G_BotUpdatePath.onMesh be bot spos epos rtarget cmd).1.nav = bot.nav
    ∧ (G_BotUpdatePath.onMesh be bot spos epos rtarget cmd).1.numCorners = bot.numCorners
    ∧ (G_BotUpdatePath.onMesh be bot spos epos rtarget cmd).1.cornerFlags = bot.cornerFlags
    ∧ (G_BotUpdatePath.onMesh be bot spos epos rtarget cmd).1.cornerVerts = bot.cornerVerts
    ∧ (G_BotUpdatePath.onMesh be bot spos epos rtarget cmd).1.cornerPolys = bot.cornerPolys
    ∧ ((G_BotUpdatePath.onMesh be bot spos epos rtarget cmd).1.offMesh = true →
        bot.offMesh = false → overOffMeshConnectionStart be bot spos = true)
    ∧ (be.PointInPoly bot.nav
          (be.getFirstPoly (G_BotUpdatePath.onMesh be bot spos epos rtarget cmd).1.corridor) spos
          = true
        ∨ (G_BotUpdatePath.onMesh be bot spos epos rtarget cmd).1.needReplan = true) := by
  obtain ⟨r1, r2, r3, r4, r5, r6⟩ := replan_fields be bot spos rtarget
  obtain ⟨e1, _, e3, e4, e5, e6, e7⟩ :=
    enterOffMesh_fields be (G_BotUpdatePath.replan be bot spos rtarget) spos
  obtain ⟨c1, c2, c3, c4, c5, c6, c7, c8⟩ := checkCorridor_fields be
    (G_BotUpdatePath.enterOffMesh be (G_BotUpdatePath.replan be bot spos rtarget) spos)
    spos epos rtarget
  unfold G_BotUpdatePath.onMesh
  simp only []
  refine ⟨by rw [c1, e1, r1], by rw [c4, e3, r3], by rw [c5, e4, r4], by rw [c6, e5, r5],
    by rw [c7, e6, r6], ?_, ?_⟩
  · intro h1 h2
    rw [c3] at h1
    have h3 := e7 h1 (by rw [r2]; exact h2)
    rw [overStart_iff] at h3 ⊢
    rw [r1, r3, r4, r5, r6] at h3
    exact h3
  · rw [c2]
    rw [e1, r1] at c8
    exact c8

theorem G_BotUpdatePath_some (be : NavBackend C N) (bot : Bot_t C N) (origin : qVec)
    (rtarget : botRouteTargetInternal) (cmd : botNavCmd_t) :
    (G_BotUpdatePath be bot origin (some rtarget) (some cmd)).1
      = (if (if (G_UpdatePathCorridor be bot (be.quake2recast origin) rtarget).offMesh = false
              then G_BotUpdatePath.onMesh be
                (G_UpdatePathCorridor be bot (be.quake2recast origin) rtarget)
                (be.quake2recast origin) rtarget.pos rtarget cmd
              else (G_UpdatePathCorridor be bot (be.quake2recast origin) rtarget, cmd)).1.offMesh
          then G_BotUpdatePath.offMesh be
            (if (G_UpdatePathCorridor be bot (be.quake2recast origin) rtarget).offMesh = false
              then G_BotUpdatePath.onMesh be
                (G_UpdatePathCorridor be bot (be.quake2recast origin) rtarget)
                (be.quake2recast origin) rtarget.pos rtarget cmd
              else (G_UpdatePathCorridor be bot (be.quake2recast origin) rtarget, cmd)).1
            origin (be.quake2recast origin)
            (if (G_UpdatePathCorridor be bot (be.quake2recast origin) rtarget).offMesh = false
              then G_BotUpdatePath.onMesh be
                (G_UpdatePathCorridor be bot (be.quake2recast origin) rtarget)
                (be.quake2recast origin) rtarget.pos rtarget cmd
              else (G_UpdatePathCorridor be bot (be.quake2recast origin) rtarget, cmd)).2
          else (if (G_UpdatePathCorridor be bot (be.quake2recast origin) rtarget).offMesh = false
              then G_BotUpdatePath.onMesh be
                (G_UpdatePathCorridor be bot (be.quake2recast origin) rtarget)
                (be.quake2recast origin) rtarget.pos rtarget cmd
              else (G_UpdatePathCorridor be bot (be.quake2recast origin) rtarget, cmd))).1 := rfl

/-- A call of `G_BotUpdatePath` entered with the off-mesh flag clear: the state it
leaves, in terms of the block `if ( !bot->offMesh )` and, if that block set the flag,
of the block `if ( bot->offMesh )`. -/
theorem G_BotUpdatePath_onMesh (be : NavBackend C N) (bot : Bot_t C N) (origin : qVec)
    (rtarget : botRouteTargetInternal) (cmd : botNavCmd_t) (h : bot.offMesh = false) :
    (G_BotUpdatePath be bot origin (some rtarget) (some cmd)).1
      = if (G_BotUpdatePath.onMesh be
              (G_UpdatePathCorridor be bot (be.quake2recast origin) rtarget)
              (be.quake2recast origin) rtarget.pos rtarget cmd).1.offMesh
        then (G_BotUpdatePath.offMesh be
              (G_BotUpdatePath.onMesh be
                (G_UpdatePathCorridor be bot (be.quake2recast origin) rtarget)
                (be.quake2recast origin) rtarget.pos rtarget cmd).1
              origin (be.quake2recast origin)
              (G_BotUpdatePath.onMesh be
                (G_UpdatePathCorridor be bot (be.quake2recast origin) rtarget)
                (be.quake2recast origin) rtarget.pos rtarget cmd).2).1
        else (G_BotUpdatePath.onMesh be
              (G_UpdatePathCorridor be bot (be.quake2recast origin) rtarget)
              (be.quake2recast origin) rtarget.pos rtarget cmd).1 := by
  have h1 : (G_UpdatePathCorridor be bot (be.quake2recast origin) rtarget).offMesh = false := by
    rw [(updatePathCorridor_fields be bot _ rtarget).2.1]; exact h
  rw [G_BotUpdatePath_some]
  simp only [h1, if_true]
  split <;> rfl

/-- A call of `G_BotUpdatePath` entered with the off-mesh flag set: the block
`if ( !bot->offMesh )` is passed over. -/
theorem G_BotUpdatePath_offMesh (be : NavBackend C N) (bot : Bot_t C N) (origin : qVec)
    (rtarget : botRouteTargetInternal) (cmd : botNavCmd_t) (h : bot.offMesh = true) :
    (G_BotUpdatePath be bot origin (some rtarget) (some cmd)).1
      = (G_BotUpdatePath.offMesh be
          (G_UpdatePathCorridor be bot (be.quake2recast origin) rtarget)
          origin (be.quake2recast origin) cmd).1 := by
  have h1 : (G_UpdatePathCorridor be bot (be.quake2recast origin) rtarget).offMesh = true := by
    rw [(updatePathCorridor_fields be bot _ rtarget).2.1]; exact h
  rw [G_BotUpdatePath_some]
  simp [h1]

/-- C19, amended: in `G_BotUpdatePath` the off-mesh flag goes from false to true only
if, for the corner list of this call, there is at least one corner, the last corner
carries the flag `DT_STRAIGHTPATH_OFFMESH_CONNECTION`, its polygon is a connection known
to the mesh, and the squared 2-D distance of the agent to the corner, as `dtVdist2DSqr`
computes it on `float`, is strictly less than the square of the radius of the
connection, as the product computes it on `float`; in particular the flag stays false
when the computed squared distance is not less than the computed squared radius (equal
computed values included).  The flag goes from true to false only if the captured
connection is known to the mesh and the computed squared 2-D distance of the agent to
the captured end is strictly less than the computed square of its radius. -/
theorem G_BotUpdatePath_offMesh_flag (be : NavBackend C N) (bot : Bot_t C N) (origin : qVec)
    (rtarget : botRouteTargetInternal) (cmd : botNavCmd_t) :
    (bot.offMesh = false →
        (G_BotUpdatePath be bot origin (some rtarget) (some cmd)).1.offMesh = true →
        1 ≤ (G_BotUpdatePath be bot origin (some rtarget) (some cmd)).1.numCorners
        ∧ ((G_BotUpdatePath be bot origin (some rtarget) (some cmd)).1.cornerFlags
              ((G_BotUpdatePath be bot origin (some rtarget) (some cmd)).1.numCorners - 1).toNat)
            &&& DT_STRAIGHTPATH_OFFMESH_CONNECTION ≠ 0
        ∧ ∃ con, be.getOffMeshConnectionByRef bot.nav
              ((G_BotUpdatePath be bot origin (some rtarget) (some cmd)).1.cornerPolys
                ((G_BotUpdatePath be bot origin (some rtarget) (some cmd)).1.numCorners
                  - 1).toNat) = some con
            ∧ Float32.lt
                (dtVdist2DSqr (be.quake2recast origin)
                  ((G_BotUpdatePath be bot origin (some rtarget) (some cmd)).1.cornerVerts
                    ((G_BotUpdatePath be bot origin (some rtarget) (some cmd)).1.numCorners
                      - 1).toNat))
                (Float32.mul (.finite con.rad) (.finite con.rad)) = true)
    ∧ (bot.offMesh = false →
        (∀ con, be.getOffMeshConnectionByRef bot.nav
              ((G_BotUpdatePath be bot origin (some rtarget) (some cmd)).1.cornerPolys
                ((G_BotUpdatePath be bot origin (some rtarget) (some cmd)).1.numCorners
                  - 1).toNat) = some con →
            Float32.lt
                (dtVdist2DSqr (be.quake2recast origin)
                  ((G_BotUpdatePath be bot origin (some rtarget) (some cmd)).1.cornerVerts
                    ((G_BotUpdatePath be bot origin (some rtarget) (some cmd)).1.numCorners
                      - 1).toNat))
                (Float32.mul (.finite con.rad) (.finite con.rad)) = false) →
        (G_BotUpdatePath be bot origin (some rtarget) (some cmd)).1.offMesh = false)
    ∧ (bot.offMesh = true →
        (G_BotUpdatePath be bot origin (some rtarget) (some cmd)).1.offMesh = false →
        ∃ con, be.getOffMeshConnectionByRef bot.nav bot.offMeshPoly = some con
          ∧ Float32.lt (dtVdist2DSqr (be.quake2recast origin) bot.offMeshEnd)
              (Float32.mul (.finite con.rad) (.finite con.rad)) = true) := by
  have henter : bot.offMesh = false →
      (G_BotUpdatePath be bot origin (some rtarget) (some cmd)).1.offMesh = true →
      1 ≤ (G_BotUpdatePath be bot origin (some rtarget) (some cmd)).1.numCorners
      ∧ ((G_BotUpdatePath be bot origin (some rtarget) (some cmd)).1.cornerFlags
            ((G_BotUpdatePath be bot origin (some rtarget) (some cmd)).1.numCorners - 1).toNat)
          &&& DT_STRAIGHTPATH_OFFMESH_CONNECTION ≠ 0
      ∧ ∃ con, be.getOffMeshConnectionByRef bot.nav
            ((G_BotUpdatePath be bot origin (some rtarget) (some cmd)).1.cornerPolys
              ((G_BotUpdatePath be bot origin (some rtarget) (some cmd)).1.numCorners
                - 1).toNat) = some con
          ∧ Float32.lt
              (dtVdist2DSqr (be.quake2recast origin)
                ((G_BotUpdatePath be bot origin (some rtarget) (some cmd)).1.cornerVerts
                  ((G_BotUpdatePath be bot origin (some rtarget) (some cmd)).1.numCorners
                    - 1).toNat))
              (Float32.mul (.finite con.rad) (.finite con.rad)) = true := by
    intro h0 h1
    have hu := updatePathCorridor_fields be bot (be.quake2recast origin) rtarget
    obtain ⟨m1, m2, m3, m4, m5, m6, _⟩ := onMesh_fields be
      (G_UpdatePathCorridor be bot (be.quake2recast origin) rtarget)
      (be.quake2recast origin) rtarget.pos rtarget cmd
    have hb1 : (G_UpdatePathCorridor be bot (be.quake2recast origin) rtarget).offMesh = false := by
      rw [hu.2.1]; exact h0
    rw [G_BotUpdatePath_onMesh be bot origin rtarget cmd h0] at h1 ⊢
    by_cases hon : (G_BotUpdatePath.onMesh be
        (G_UpdatePathCorridor be bot (be.quake2recast origin) rtarget)
        (be.quake2recast origin) rtarget.pos rtarget cmd).1.offMesh = true
    · have hstart := m6 hon hb1
      rw [overStart_iff, hu.1] at hstart
      obtain ⟨o1, _, _, o4, o5, o6, o7, _⟩ := offMesh_fields be
        (G_BotUpdatePath.onMesh be
          (G_UpdatePathCorridor be bot (be.quake2recast origin) rtarget)
          (be.quake2recast origin) rtarget.pos rtarget cmd).1
        origin (be.quake2recast origin)
        (G_BotUpdatePath.onMesh be
          (G_UpdatePathCorridor be bot (be.quake2recast origin) rtarget)
          (be.quake2recast origin) rtarget.pos rtarget cmd).2
      rw [if_pos hon, o4, o5, o6, o7, m2, m3, m4, m5]
      exact hstart
    · rw [if_neg hon] at h1
      exact absurd h1 hon
  refine ⟨henter, ?_, ?_⟩
  · intro h0 hfar
    cases hres : (G_BotUpdatePath be bot origin (some rtarget) (some cmd)).1.offMesh with
    | false => rfl
    | true =>
      obtain ⟨_, _, con, hcon, hlt⟩ := henter h0 hres
      rw [hfar con hcon] at hlt
      exact absurd hlt Bool.false_ne_true
  · intro h0 h1
    have hu := updatePathCorridor_fields be bot (be.quake2recast origin) rtarget
    rw [G_BotUpdatePath_offMesh be bot origin rtarget cmd h0] at h1
    have hb1 : (G_UpdatePathCorridor be bot (be.quake2recast origin) rtarget).offMesh = true := by
      rw [hu.2.1]; exact h0
    have hw := (offMesh_fields be
      (G_UpdatePathCorridor be bot (be.quake2recast origin) rtarget)
      origin (be.quake2recast origin) cmd).2.2.2.2.2.2.2.2 hb1 h1
    rw [withinRadius_iff, hu.1, hu.2.2.1, hu.2.2.2] at hw
    exact hw

/-- C20, as stated, fails while an off-mesh traversal is active: over `exampleBackend`
(the agent is inside no polygon, the corridor is valid) a call entered with the
off-mesh flag set and `needReplan` clear leaves `needReplan` clear although the agent
is not inside the first polygon of the corridor. -/
theorem G_BotUpdatePath_no_check_off_mesh :
    (exampleBot true).offMesh = true
    ∧ (G_BotUpdatePath exampleBackend (exampleBot true) ⟨1, 0, 0⟩ (some exampleTarget)
        (some exampleCmd)).1.needReplan = false
    ∧ exampleBackend.PointInPoly
        (G_BotUpdatePath exampleBackend (exampleBot true) ⟨1, 0, 0⟩ (some exampleTarget)
          (some exampleCmd)).1.nav
        (exampleBackend.getFirstPoly
          (G_BotUpdatePath exampleBackend (exampleBot true) ⟨1, 0, 0⟩ (some exampleTarget)
            (some exampleCmd)).1.corridor)
        (exampleBackend.quake2recast ⟨1, 0, 0⟩) = false := by
  refine ⟨rfl, by decide, rfl⟩

/-- C20, amended: after a call of `G_BotUpdatePath` with a target and a command that is
entered with the off-mesh flag clear, the agent's position lies within the first
polygon of the corridor or `needReplan` is set (also when the call starts an off-mesh
traversal). -/
theorem G_BotUpdatePath_corridor_check (be : NavBackend C N) (bot : Bot_t C N) (origin : qVec)
    (rtarget : botRouteTargetInternal) (cmd : botNavCmd_t) (h : bot.offMesh = false) :
    be.PointInPoly (G_BotUpdatePath be bot origin (some rtarget) (some cmd)).1.nav
        (be.getFirstPoly (G_BotUpdatePath be bot origin (some rtarget) (some cmd)).1.corridor)
        (be.quake2recast origin) = true
    ∨ (G_BotUpdatePath be bot origin (some rtarget) (some cmd)).1.needReplan = true := by
  obtain ⟨m1, _, _, _, _, _, m7⟩ := onMesh_fields be
    (G_UpdatePathCorridor be bot (be.quake2recast origin) rtarget)
    (be.quake2recast origin) rtarget.pos rtarget cmd
  rw [G_BotUpdatePath_onMesh be bot origin rtarget cmd h]
  split
  · obtain ⟨o1, o2, o3, _⟩ := offMesh_fields be
      (G_BotUpdatePath.onMesh be
        (G_UpdatePathCorridor be bot (be.quake2recast origin) rtarget)
        (be.quake2recast origin) rtarget.pos rtarget cmd).1
      origin (be.quake2recast origin)
      (G_BotUpdatePath.onMesh be
        (G_UpdatePathCorridor be bot (be.quake2recast origin) rtarget)
        (be.quake2recast origin) rtarget.pos rtarget cmd).2
    rw [o1, o2, o3, m1]
    exact m7
  · rw [m1]
    exact m7

/-- C19, as stated, fails at distance == radius: over `wideBackend` (one corner at the
origin, flagged, connection of radius 11635/256) the agent at (6981/256, 0, 9308/256)
is at the distance 11635/256 of the corner, exactly the radius.  On `float` the squared
distance comes out as 135373216/65536 (the square of 6981/256 and the sum are rounded
down) and the squared radius as 135373232/65536 (rounded up), and the call starts the
traversal. -/
theorem G_BotUpdatePath_enters_at_radius :
    ((6981 : Rat) / 256) * (6981 / 256) + (9308 / 256) * (9308 / 256)
        = (11635 / 256) * (11635 / 256)
    ∧ roundF32 (6981 / 256) = 6981 / 256 ∧ roundF32 (9308 / 256) = 9308 / 256
    ∧ roundF32 (11635 / 256) = 11635 / 256
    ∧ dtVdist2DSqr ⟨6981 / 256, 0, 9308 / 256⟩ ⟨0, 0, 0⟩ = Float32.finite (135373216 / 65536)
    ∧ Float32.mul (.finite (11635 / 256)) (.finite (11635 / 256))
        = Float32.finite (135373232 / 65536)
    ∧ (exampleBot false).offMesh = false
    ∧ (G_BotUpdatePath wideBackend (exampleBot false) ⟨6981 / 256, 0, 9308 / 256⟩
        (some exampleTarget) (some exampleCmd)).1.offMesh = true := by
  decide!

/-- C19, amended, over `exampleBackend` (one corner at the origin, flagged, connection of
radius 2): from the position (1, 0, 0), at distance 1, the traversal starts; from the
position (2, 0, 0), where the computed squared distance 4 equals the computed squared
radius, it does not. -/
theorem G_BotUpdatePath_offMesh_flag_witness :
    (G_BotUpdatePath exampleBackend (exampleBot false) ⟨1, 0, 0⟩ (some exampleTarget)
        (some exampleCmd)).1.offMesh = true
    ∧ 1 ≤ (G_BotUpdatePath exampleBackend (exampleBot false) ⟨1, 0, 0⟩ (some exampleTarget)
        (some exampleCmd)).1.numCorners
    ∧ (G_BotUpdatePath exampleBackend (exampleBot false) ⟨2, 0, 0⟩ (some exampleTarget)
        (some exampleCmd)).1.offMesh = false :=
  ⟨by decide!,
   ((G_BotUpdatePath_offMesh_flag exampleBackend (exampleBot false) ⟨1, 0, 0⟩ exampleTarget
      exampleCmd).1 rfl (by decide!)).1,
   (G_BotUpdatePath_offMesh_flag exampleBackend (exampleBot false) ⟨2, 0, 0⟩ exampleTarget
      exampleCmd).2.1 rfl (fun con hcon => by
        have hpoly : (G_BotUpdatePath exampleBackend (exampleBot false) ⟨2, 0, 0⟩
            (some exampleTarget) (some exampleCmd)).1.cornerPolys
            ((G_BotUpdatePath exampleBackend (exampleBot false) ⟨2, 0, 0⟩ (some exampleTarget)
              (some exampleCmd)).1.numCorners - 1).toNat = 7 := by decide!
        rw [hpoly] at hcon
        have h7 : con = ⟨2⟩ := (Option.some.inj hcon).symm
        rw [h7]
        decide!)⟩

/-- C20, amended, over `exampleBackend`, where the agent is inside no polygon: a call
entered with the off-mesh flag clear leaves `needReplan` set. -/
theorem G_BotUpdatePath_corridor_check_witness :
    (exampleBot false).offMesh = false
    ∧ (G_BotUpdatePath exampleBackend (exampleBot false) ⟨5, 0, 0⟩ (some exampleTarget)
        (some exampleCmd)).1.needReplan = true :=
  ⟨rfl,
   (G_BotUpdatePath_corridor_check exampleBackend (exampleBot false) ⟨5, 0, 0⟩ exampleTarget
      exampleCmd rfl).resolve_left (by simp [exampleBackend])⟩

/-! ### Running-node lists of trees without a return decorator that yields Running -/

theorem onOnePath_of_subnode (root m : AIGenericNode_t G) (hm : m ∈ root.subnodes)
    (x : Nat) (hx : x ∈ m.addrs) : root.onOnePath x m.addr = true := by
  unfold AIGenericNode_t.onOnePath AIGenericNode_t.isAncestorOrSelf
  rw [Bool.or_eq_true]
  right
  rw [List.any_eq_true]
  exact ⟨m, hm, by simp [hx]⟩

theorem onePath_append_subnode (root m : AIGenericNode_t G) (hm : m ∈ root.subnodes)
    (l : List Nat) (hl : onePath root l) (hsub : ∀ x, x ∈ l → x ∈ m.addrs) :
    onePath root (l ++ [m.addr]) := by
  unfold onePath at hl ⊢
  rw [List.pairwise_append]
  refine ⟨hl, List.pairwise_singleton _ _, ?_⟩
  intro x hx y hy
  simp only [List.mem_singleton] at hy
  subst hy
  exact onOnePath_of_subnode root m hm x (hsub x hx)

theorem PathOutcome_same (root : AIGenericNode_t G) (A : List Nat) (s t : BotState G)
    (status : AINodeStatus_t) (h : t.runningNodes = s.runningNodes)
    (hst : status ≠ STATUS_RUNNING) : PathOutcome root A s t status :=
  ⟨Or.inl h, fun h2 => absurd h2 hst⟩

theorem PathOutcome_mono {root : AIGenericNode_t G} {A B : List Nat} {s t : BotState G}
    {status : AINodeStatus_t} (h : PathOutcome root A s t status)
    (hAB : ∀ x, x ∈ A → x ∈ B) : PathOutcome root B s t status := by
  obtain ⟨h1, h2⟩ := h
  refine ⟨?_, fun hst => ⟨(h2 hst).1, fun x hx => hAB x ((h2 hst).2 x hx)⟩⟩
  rcases h1 with h1 | h1
  · exact Or.inl h1
  · exact Or.inr ⟨h1.1, fun x hx => hAB x (h1.2 x hx)⟩

/-- Two pieces in a row: the outcome of the second piece decides, and a list the second
piece left as it was is judged by the first piece. -/
theorem PathOutcome_seq {root : AIGenericNode_t G} {A B : List Nat} {s t u : BotState G}
    {st1 st2 : AINodeStatus_t} (h1 : PathOutcome root A s t st1)
    (h2 : PathOutcome root B t u st2) : PathOutcome root (A ++ B) s u st2 := by
  refine ⟨?_, fun hst => ⟨(h2.2 hst).1,
    fun x hx => List.mem_append.mpr (Or.inr ((h2.2 hst).2 x hx))⟩⟩
  rcases h2.1 with h | h
  · rcases h1.1 with g | g
    · exact Or.inl (h.trans g)
    · right
      rw [h]
      exact ⟨g.1, fun x hx => List.mem_append.mpr (Or.inl (g.2 x hx))⟩
  · exact Or.inr ⟨h.1, fun x hx => List.mem_append.mpr (Or.inr (h.2 x hx))⟩

/-- The status may be replaced by one that is not Running, or by Running when the piece
returned Running. -/
theorem PathOutcome_restatus {root : AIGenericNode_t G} {A : List Nat} {s t : BotState G}
    {st : AINodeStatus_t} (h : PathOutcome root A s t st) (st2 : AINodeStatus_t)
    (hst : st2 = STATUS_RUNNING → st = STATUS_RUNNING) : PathOutcome root A s t st2 :=
  ⟨h.1, fun h2 => h.2 (hst h2)⟩

theorem BotDecoratorInvert_status_running (st : AINodeStatus_t)
    (h : BotDecoratorInvert.status st = STATUS_RUNNING) : st = STATUS_RUNNING := by
  unfold BotDecoratorInvert.status at h
  split_ifs at h with h1 h2
  · exact absurd h (by decide)
  · exact absurd h (by decide)
  · exact h

/-- Bookkeeping of a node `m` of the tree that is not an action, after a run function
whose outcome lies below `m`. -/
theorem PathOutcome_bookkeeping (cap : Nat) (root m : AIGenericNode_t G)
    (hm : m ∈ root.subnodes) (hty : m.type ≠ AINodeType_t.ACTION_NODE) (A : List Nat)
    (hA : ∀ x, x ∈ A → x ∈ m.addrs) (s : BotState G) (r : AINodeStatus_t × BotState G)
    (h : PathOutcome root A (logEvaluation m.addr s) r.2 r.1) :
    PathOutcome root m.addrs s (BotEvaluateNode.bookkeeping cap m.addr m.type r).2
      (BotEvaluateNode.bookkeeping cap m.addr m.type r).1 := by
  rw [bookkeeping_status]
  by_cases hst : r.1 = STATUS_RUNNING
  · obtain ⟨hp, hin⟩ := h.2 hst
    have hres : onePath root (BotEvaluateNode.bookkeeping cap m.addr m.type r).2.runningNodes
        ∧ ∀ x, x ∈ (BotEvaluateNode.bookkeeping cap m.addr m.type r).2.runningNodes →
            x ∈ m.addrs := by
      rw [bookkeeping_running_list cap _ _ _ hst]
      simp only [hty, if_false]
      split
      · exact ⟨hp, fun x hx => hA x (hin x hx)⟩
      · split
        · refine ⟨onePath_append_subnode root m hm _ hp (fun x hx => hA x (hin x hx)), ?_⟩
          intro x hx
          rcases List.mem_append.mp hx with hx | hx
          · exact hA x (hin x hx)
          · simp only [List.mem_singleton] at hx
            rw [hx]
            exact addr_mem_addrs m
        · exact ⟨hp, fun x hx => hA x (hin x hx)⟩
    exact ⟨Or.inr hres, fun _ => hres⟩
  · refine ⟨?_, fun h2 => absurd h2 hst⟩
    rw [bookkeeping_other_list cap _ _ _ hst]
    split
    · right
      exact ⟨List.Pairwise.nil, fun x hx => by simp at hx⟩
    · rcases h.1 with g | g
      · exact Or.inl g
      · exact Or.inr ⟨g.1, fun x hx => hA x (g.2 x hx)⟩

/-- Bookkeeping of an action leaf `m` of the tree. -/
theorem PathOutcome_action (cap : Nat) (root : AIGenericNode_t G) (a : Nat)
    (s : BotState G) (r : AINodeStatus_t × BotState G)
    (h : r.2.runningNodes = s.runningNodes) :
    PathOutcome root [a] s
      (BotEvaluateNode.bookkeeping cap a AINodeType_t.ACTION_NODE r).2
      (BotEvaluateNode.bookkeeping cap a AINodeType_t.ACTION_NODE r).1 := by
  rw [bookkeeping_status]
  by_cases hst : r.1 = STATUS_RUNNING
  · have hres : onePath root
          (BotEvaluateNode.bookkeeping cap a AINodeType_t.ACTION_NODE r).2.runningNodes
        ∧ ∀ x, x ∈ (BotEvaluateNode.bookkeeping cap a AINodeType_t.ACTION_NODE r).2.runningNodes →
            x ∈ [a] := by
      rw [bookkeeping_running_list cap _ _ _ hst]
      simp only [if_true, List.not_mem_nil, if_false, List.length_nil, List.nil_append]
      split
      · exact ⟨List.pairwise_singleton _ _, fun x hx => hx⟩
      · exact ⟨List.Pairwise.nil, fun x hx => by simp at hx⟩
    exact ⟨Or.inr hres, fun _ => hres⟩
  · refine ⟨?_, fun h2 => absurd h2 hst⟩
    rw [bookkeeping_other_list cap _ _ _ hst]
    split
    · right
      exact ⟨List.Pairwise.nil, fun x hx => by simp at hx⟩
    · exact Or.inl h

mutual
/-- Evaluating a node of a tree `root` in which no return decorator is configured with
`STATUS_RUNNING` leaves the running-node list as it was or makes it a list of
addresses of the node's subtree that are pairwise on one path of `root`; the latter
whenever the node returns Running. -/
theorem BotEvaluateNode_pathOutcome (cap : Nat) (root : AIGenericNode_t G) :
    ∀ (n : AIGenericNode_t G) (s : BotState G),
      (∀ m, m ∈ n.subnodes → m ∈ root.subnodes ∧ m.returnsRunning = false) →
      PathOutcome root n.addrs s (BotEvaluateNode cap n s).2 (BotEvaluateNode cap n s).1
  | .list a .selector l, s, h => by
      have hl := BotSelectorNode_loop_pathOutcome cap root l (logEvaluation a s)
        (fun m hm => h m (by simp [AIGenericNode_t.subnodes, hm]))
      have := PathOutcome_bookkeeping cap root (.list a .selector l)
        (h _ (by simp [AIGenericNode_t.subnodes])).1 (by simp [AIGenericNode_t.type])
        (AIGenericNode_t.addrsList l) (fun x hx => by simp [AIGenericNode_t.addrs, hx]) s _ hl
      simpa only [BotEvaluateNode, AIGenericNode_t.addr, AIGenericNode_t.type] using this
  | .list a .sequence l, s, h => by
      have hl := BotSequenceNode_loop_pathOutcome cap root l
        (findRunningStart (logEvaluation a s) l (l.length - 1)) (logEvaluation a s)
        (fun m hm => h m (by simp [AIGenericNode_t.subnodes, hm]))
      have := PathOutcome_bookkeeping cap root (.list a .sequence l)
        (h _ (by simp [AIGenericNode_t.subnodes])).1 (by simp [AIGenericNode_t.type])
        (AIGenericNode_t.addrsList l) (fun x hx => by simp [AIGenericNode_t.addrs, hx]) s _ hl
      simpa only [BotEvaluateNode, AIGenericNode_t.addr, AIGenericNode_t.type] using this
  | .list a .fallback l, s, h => by
      have hl := BotFallbackNode_loop_pathOutcome cap root l
        (findRunningStart (logEvaluation a s) l (l.length - 1)) (logEvaluation a s)
        (fun m hm => h m (by simp [AIGenericNode_t.subnodes, hm]))
      have := PathOutcome_bookkeeping cap root (.list a .fallback l)
        (h _ (by simp [AIGenericNode_t.subnodes])).1 (by simp [AIGenericNode_t.type])
        (AIGenericNode_t.addrsList l) (fun x hx => by simp [AIGenericNode_t.addrs, hx]) s _ hl
      simpa only [BotEvaluateNode, AIGenericNode_t.addr, AIGenericNode_t.type] using this
  | .list a .concurrent l, s, h => by
      have hl := BotConcurrentNode_loop_pathOutcome cap root l (logEvaluation a s)
        (fun m hm => h m (by simp [AIGenericNode_t.subnodes, hm]))
      have := PathOutcome_bookkeeping cap root (.list a .concurrent l)
        (h _ (by simp [AIGenericNode_t.subnodes])).1 (by simp [AIGenericNode_t.type])
        (AIGenericNode_t.addrsList l) (fun x hx => by simp [AIGenericNode_t.addrs, hx]) s _ hl
      simpa only [BotEvaluateNode, AIGenericNode_t.addr, AIGenericNode_t.type] using this
  | .decorator a .invert ps c, s, h => by
      have hc := BotEvaluateNode_pathOutcome cap root c (logEvaluation a s)
        (fun m hm => h m (by simp [AIGenericNode_t.subnodes, hm]))
      have := PathOutcome_bookkeeping cap root (.decorator a .invert ps c)
        (h _ (by simp [AIGenericNode_t.subnodes])).1 (by simp [AIGenericNode_t.type])
        c.addrs (fun x hx => by simp [AIGenericNode_t.addrs, hx]) s
        (BotDecoratorInvert.status (BotEvaluateNode cap c (logEvaluation a s)).1,
          (BotEvaluateNode cap c (logEvaluation a s)).2)
        (PathOutcome_restatus hc _ (BotDecoratorInvert_status_running _))
      simpa only [BotEvaluateNode, AIGenericNode_t.addr, AIGenericNode_t.type] using this
  | .decorator a .timer ps c, s, h => by
      have hc := BotEvaluateNode_pathOutcome cap root c (logEvaluation a s)
        (fun m hm => h m (by simp [AIGenericNode_t.subnodes, hm]))
      have hrun : PathOutcome root c.addrs (logEvaluation a s)
          (if (logEvaluation a s).levelTime > (logEvaluation a s).decData a (logEvaluation a s).number then
            if (BotEvaluateNode cap c (logEvaluation a s)).1 = STATUS_FAILURE then
              ((BotEvaluateNode cap c (logEvaluation a s)).1,
                setDecData (BotEvaluateNode cap c (logEvaluation a s)).2 a
                  (BotEvaluateNode cap c (logEvaluation a s)).2.number
                  (wrapInt ((BotEvaluateNode cap c (logEvaluation a s)).2.levelTime
                    + AIUnBoxInt (params0 ps))))
            else BotEvaluateNode cap c (logEvaluation a s)
          else (STATUS_FAILURE, logEvaluation a s)).2
          (if (logEvaluation a s).levelTime > (logEvaluation a s).decData a (logEvaluation a s).number then
            if (BotEvaluateNode cap c (logEvaluation a s)).1 = STATUS_FAILURE then
              ((BotEvaluateNode cap c (logEvaluation a s)).1,
                setDecData (BotEvaluateNode cap c (logEvaluation a s)).2 a
                  (BotEvaluateNode cap c (logEvaluation a s)).2.number
                  (wrapInt ((BotEvaluateNode cap c (logEvaluation a s)).2.levelTime
                    + AIUnBoxInt (params0 ps))))
            else BotEvaluateNode cap c (logEvaluation a s)
          else (STATUS_FAILURE, logEvaluation a s)).1 := by
        split
        · split
          · exact hc
          · exact hc
        · exact PathOutcome_same root _ _ _ _ rfl STATUS_FAILURE_ne_RUNNING
      have := PathOutcome_bookkeeping cap root (.decorator a .timer ps c)
        (h _ (by simp [AIGenericNode_t.subnodes])).1 (by simp [AIGenericNode_t.type])
        c.addrs (fun x hx => by simp [AIGenericNode_t.addrs, hx]) s _ hrun
      simpa only [BotEvaluateNode, AIGenericNode_t.addr, AIGenericNode_t.type] using this
  | .decorator a .ret ps c, s, h => by
      have hc := BotEvaluateNode_pathOutcome cap root c (logEvaluation a s)
        (fun m hm => h m (by simp [AIGenericNode_t.subnodes, hm]))
      have hnr : AIUnBoxInt (params0 ps) ≠ STATUS_RUNNING := by
        have := (h (.decorator a .ret ps c) (by simp [AIGenericNode_t.subnodes])).2
        simpa [AIGenericNode_t.returnsRunning] using this
      have := PathOutcome_bookkeeping cap root (.decorator a .ret ps c)
        (h _ (by simp [AIGenericNode_t.subnodes])).1 (by simp [AIGenericNode_t.type])
        c.addrs (fun x hx => by simp [AIGenericNode_t.addrs, hx]) s
        (AIUnBoxInt (params0 ps), (BotEvaluateNode cap c (logEvaluation a s)).2)
        (PathOutcome_restatus hc _ (fun h2 => absurd h2 hnr))
      simpa only [BotEvaluateNode, AIGenericNode_t.addr, AIGenericNode_t.type] using this
  | .condition a e none, s, h => by
      have hrun : PathOutcome root [] (logEvaluation a s)
          (if EvalConditionExpression (logEvaluation a s) e then
            (STATUS_SUCCESS, logEvaluation a s) else (STATUS_FAILURE, logEvaluation a s)).2
          (if EvalConditionExpression (logEvaluation a s) e then
            (STATUS_SUCCESS, logEvaluation a s) else (STATUS_FAILURE, logEvaluation a s)).1 := by
        split
        · exact PathOutcome_same root _ _ _ _ rfl STATUS_SUCCESS_ne_RUNNING
        · exact PathOutcome_same root _ _ _ _ rfl STATUS_FAILURE_ne_RUNNING
      have := PathOutcome_bookkeeping cap root (.condition a e none)
        (h _ (by simp [AIGenericNode_t.subnodes])).1 (by simp [AIGenericNode_t.type])
        [] (fun x hx => by simp at hx) s _ hrun
      simpa only [BotEvaluateNode, AIGenericNode_t.addr, AIGenericNode_t.type] using this
  | .condition a e (some c), s, h => by
      have hc := BotEvaluateNode_pathOutcome cap root c (logEvaluation a s)
        (fun m hm => h m (by simp [AIGenericNode_t.subnodes, hm]))
      have hrun : PathOutcome root c.addrs (logEvaluation a s)
          (if EvalConditionExpression (logEvaluation a s) e then
            BotEvaluateNode cap c (logEvaluation a s) else (STATUS_FAILURE, logEvaluation a s)).2
          (if EvalConditionExpression (logEvaluation a s) e then
            BotEvaluateNode cap c (logEvaluation a s) else (STATUS_FAILURE, logEvaluation a s)).1 := by
        split
        · exact hc
        · exact PathOutcome_same root _ _ _ _ rfl STATUS_FAILURE_ne_RUNNING
      have := PathOutcome_bookkeeping cap root (.condition a e (some c))
        (h _ (by simp [AIGenericNode_t.subnodes])).1 (by simp [AIGenericNode_t.type])
        c.addrs (fun x hx => by simp [AIGenericNode_t.addrs, hx]) s _ hrun
      simpa only [BotEvaluateNode, AIGenericNode_t.addr, AIGenericNode_t.type] using this
  | .action a run ps, s, h => by
      have := PathOutcome_action cap root a s
        ((run (logEvaluation a s) a ps).status,
          { logEvaluation a s with currentNode := (run (logEvaluation a s) a ps).currentNode,
                                   game := (run (logEvaluation a s) a ps).game }) rfl
      simpa only [BotEvaluateNode, AIGenericNode_t.addrs] using this
  | .behavior a r, s, h => by
      have hc := BotEvaluateNode_pathOutcome cap root r (logEvaluation a s)
        (fun m hm => h m (by simp [AIGenericNode_t.subnodes, hm]))
      have := PathOutcome_bookkeeping cap root (.behavior a r)
        (h _ (by simp [AIGenericNode_t.subnodes])).1 (by simp [AIGenericNode_t.type])
        r.addrs (fun x hx => by simp [AIGenericNode_t.addrs, hx]) s _ hc
      simpa only [BotEvaluateNode, AIGenericNode_t.addr, AIGenericNode_t.type] using this
termination_by structural n => n
theorem BotSelectorNode_loop_pathOutcome (cap : Nat) (root : AIGenericNode_t G) :
    ∀ (l : List (AIGenericNode_t G)) (s : BotState G),
      (∀ m, m ∈ AIGenericNode_t.subnodesList l → m ∈ root.subnodes ∧ m.returnsRunning = false) →
      PathOutcome root (AIGenericNode_t.addrsList l) s (BotSelectorNode.loop cap l s).2
        (BotSelectorNode.loop cap l s).1
  | [], s, _ => PathOutcome_same root _ _ _ _ rfl STATUS_FAILURE_ne_RUNNING
  | c :: rest, s, h => by
      have hc := BotEvaluateNode_pathOutcome cap root c s
        (fun m hm => h m (by simp [AIGenericNode_t.subnodesList, hm]))
      have hr := BotSelectorNode_loop_pathOutcome cap root rest (BotEvaluateNode cap c s).2
        (fun m hm => h m (by simp [AIGenericNode_t.subnodesList, hm]))
      simp only [BotSelectorNode.loop, AIGenericNode_t.addrsList]
      split
      · exact PathOutcome_seq hc hr
      · exact PathOutcome_mono hc (fun x hx => List.mem_append.mpr (Or.inl hx))
termination_by structural l => l
theorem BotSequenceNode_loop_pathOutcome (cap : Nat) (root : AIGenericNode_t G) :
    ∀ (l : List (AIGenericNode_t G)) (k : Nat) (s : BotState G),
      (∀ m, m ∈ AIGenericNode_t.subnodesList l → m ∈ root.subnodes ∧ m.returnsRunning = false) →
      PathOutcome root (AIGenericNode_t.addrsList l) s (BotSequenceNode.loop cap l k s).2
        (BotSequenceNode.loop cap l k s).1
  | [], _, s, _ => PathOutcome_same root _ _ _ _ rfl STATUS_SUCCESS_ne_RUNNING
  | c :: rest, k + 1, s, h => by
      have hr := BotSequenceNode_loop_pathOutcome cap root rest k s
        (fun m hm => h m (by simp [AIGenericNode_t.subnodesList, hm]))
      simp only [BotSequenceNode.loop, AIGenericNode_t.addrsList]
      exact PathOutcome_mono hr (fun x hx => List.mem_append.mpr (Or.inr hx))
  | c :: rest, 0, s, h => by
      have hc := BotEvaluateNode_pathOutcome cap root c s
        (fun m hm => h m (by simp [AIGenericNode_t.subnodesList, hm]))
      have hr := BotSequenceNode_loop_pathOutcome cap root rest 0 (BotEvaluateNode cap c s).2
        (fun m hm => h m (by simp [AIGenericNode_t.subnodesList, hm]))
      simp only [BotSequenceNode.loop, AIGenericNode_t.addrsList]
      split
      · exact PathOutcome_mono (PathOutcome_restatus hc STATUS_FAILURE (fun h2 => absurd h2 (by decide)))
          (fun x hx => List.mem_append.mpr (Or.inl hx))
      · split
        · exact PathOutcome_mono (PathOutcome_restatus hc STATUS_RUNNING (fun _ => by assumption))
            (fun x hx => List.mem_append.mpr (Or.inl hx))
        · exact PathOutcome_seq hc hr
termination_by structural l => l
theorem BotFallbackNode_loop_pathOutcome (cap : Nat) (root : AIGenericNode_t G) :
    ∀ (l : List (AIGenericNode_t G)) (k : Nat) (s : BotState G),
      (∀ m, m ∈ AIGenericNode_t.subnodesList l → m ∈ root.subnodes ∧ m.returnsRunning = false) →
      PathOutcome root (AIGenericNode_t.addrsList l) s (BotFallbackNode.loop cap l k s).2
        (BotFallbackNode.loop cap l k s).1
  | [], _, s, _ => PathOutcome_same root _ _ _ _ rfl STATUS_FAILURE_ne_RUNNING
  | c :: rest, k + 1, s, h => by
      have hr := BotFallbackNode_loop_pathOutcome cap root rest k s
        (fun m hm => h m (by simp [AIGenericNode_t.subnodesList, hm]))
      simp only [BotFallbackNode.loop, AIGenericNode_t.addrsList]
      exact PathOutcome_mono hr (fun x hx => List.mem_append.mpr (Or.inr hx))
  | c :: rest, 0, s, h => by
      have hc := BotEvaluateNode_pathOutcome cap root c s
        (fun m hm => h m (by simp [AIGenericNode_t.subnodesList, hm]))
      have hr := BotFallbackNode_loop_pathOutcome cap root rest 0 (BotEvaluateNode cap c s).2
        (fun m hm => h m (by simp [AIGenericNode_t.subnodesList, hm]))
      simp only [BotFallbackNode.loop, AIGenericNode_t.addrsList]
      split
      · exact PathOutcome_mono (PathOutcome_restatus hc STATUS_SUCCESS (fun h2 => absurd h2 (by decide)))
          (fun x hx => List.mem_append.mpr (Or.inl hx))
      · split
        · exact PathOutcome_mono (PathOutcome_restatus hc STATUS_RUNNING (fun _ => by assumption))
            (fun x hx => List.mem_append.mpr (Or.inl hx))
        · exact PathOutcome_seq hc hr
termination_by structural l => l
theorem BotConcurrentNode_loop_pathOutcome (cap : Nat) (root : AIGenericNode_t G) :
    ∀ (l : List (AIGenericNode_t G)) (s : BotState G),
      (∀ m, m ∈ AIGenericNode_t.subnodesList l → m ∈ root.subnodes ∧ m.returnsRunning = false) →
      PathOutcome root (AIGenericNode_t.addrsList l) s (BotConcurrentNode.loop cap l s).2
        (BotConcurrentNode.loop cap l s).1
  | [], s, _ => PathOutcome_same root _ _ _ _ rfl STATUS_SUCCESS_ne_RUNNING
  | c :: rest, s, h => by
      have hc := BotEvaluateNode_pathOutcome cap root c s
        (fun m hm => h m (by simp [AIGenericNode_t.subnodesList, hm]))
      have hr := BotConcurrentNode_loop_pathOutcome cap root rest (BotEvaluateNode cap c s).2
        (fun m hm => h m (by simp [AIGenericNode_t.subnodesList, hm]))
      simp only [BotConcurrentNode.loop, AIGenericNode_t.addrsList]
      split
      · exact PathOutcome_mono (PathOutcome_restatus hc STATUS_FAILURE (fun h2 => absurd h2 (by decide)))
          (fun x hx => List.mem_append.mpr (Or.inl hx))
      · exact PathOutcome_seq hc hr
termination_by structural l => l
end

/-- In a tree without a return decorator configured with `STATUS_RUNNING`, one
evaluation of the root keeps the entries of the running-node list pairwise on one path
of the tree. -/
theorem BotEvaluateNode_onePath (cap : Nat) (root : AIGenericNode_t G)
    (hret : ∀ m, m ∈ root.subnodes → m.returnsRunning = false) (s : BotState G)
    (hs : onePath root s.runningNodes) :
    onePath root (BotEvaluateNode cap root s).2.runningNodes := by
  rcases (BotEvaluateNode_pathOutcome cap root root s (fun m hm => ⟨hm, hret m hm⟩)).1 with h | h
  · rw [h]
    exact hs
  · exact h.1

/-- The invariant on a selector (address 9) over a leaf (address 2) that returns
`STATUS_RUNNING`: the tree has no return decorator, and the list [2, 9] it leaves is on
one path. -/
theorem BotEvaluateNode_onePath_example :
    onePath (AIGenericNode_t.list 9 AIListRun.selector [constAction STATUS_RUNNING 2])
      (BotEvaluateNode 4
        (AIGenericNode_t.list 9 AIListRun.selector [constAction STATUS_RUNNING 2])
        (freshState 0)).2.runningNodes := by
  apply BotEvaluateNode_onePath
  · intro m hm
    simp only [AIGenericNode_t.subnodes, AIGenericNode_t.subnodesList, constAction,
      List.append_nil, List.mem_cons, List.mem_singleton, List.not_mem_nil, or_false] at hm
    rcases hm with hm | hm <;> subst hm <;> rfl
  · exact List.Pairwise.nil

/-! ### The field `havePath` of the command of `G_BotUpdatePath` -/

theorem replan_needReplan (be : NavBackend C N) (bot : Bot_t C N) (spos : rVec)
    (rtarget : botRouteTargetInternal) :
    (G_BotUpdatePath.replan be bot spos rtarget).needReplan
      = (bot.needReplan && !(be.FindRoute bot spos rtarget false).1) := by
  unfold G_BotUpdatePath.replan
  simp only []
  cases h1 : bot.needReplan with
  | false => simp [h1]
  | true =>
    cases h2 : (be.FindRoute bot spos rtarget false).1 with
    | false => simp [h1, h2]
    | true => simp [h2]

theorem onMesh_havePath (be : NavBackend C N) (bot : Bot_t C N) (spos epos : rVec)
    (rtarget : botRouteTargetInternal) (cmd : botNavCmd_t) :
    (G_BotUpdatePath.onMesh be bot spos epos rtarget cmd).2.havePath
        = (!bot.needReplan || (be.FindRoute bot spos rtarget false).1)
    ∧ (G_BotUpdatePath.onMesh be bot spos epos rtarget cmd).1.offMesh
        = (G_BotUpdatePath.enterOffMesh be (G_BotUpdatePath.replan be bot spos rtarget)
            spos).offMesh
    ∧ ((G_BotUpdatePath.replan be bot spos rtarget).needReplan = true →
        (G_BotUpdatePath.onMesh be bot spos epos rtarget cmd).1.needReplan = true) := by
  obtain ⟨_, e2, _⟩ :=
    enterOffMesh_fields be (G_BotUpdatePath.replan be bot spos rtarget) spos
  obtain ⟨_, _, c3, _⟩ := checkCorridor_fields be
    (G_BotUpdatePath.enterOffMesh be (G_BotUpdatePath.replan be bot spos rtarget) spos)
    spos epos rtarget
  refine ⟨?_, ?_, ?_⟩
  · unfold G_BotUpdatePath.onMesh
    simp only [replan_needReplan]
    cases bot.needReplan <;> cases (be.FindRoute bot spos rtarget false).1 <;> rfl
  · unfold G_BotUpdatePath.onMesh
    simp only []
    exact c3
  · intro h
    unfold G_BotUpdatePath.onMesh
    simp only []
    unfold G_BotUpdatePath.checkCorridor
    simp only []
    split
    · rfl
    · rw [e2]
      exact h

theorem offMesh_havePath (be : NavBackend C N) (bot : Bot_t C N) (origin : qVec) (spos : rVec)
    (cmd : botNavCmd_t) :
    (G_BotUpdatePath.offMesh be bot origin spos cmd).2.havePath = true := by
  unfold G_BotUpdatePath.offMesh
  simp only []
  split <;> rfl

/-- The command of a call of `G_BotUpdatePath` entered with the off-mesh flag clear. -/
theorem G_BotUpdatePath_cmd (be : NavBackend C N) (bot : Bot_t C N) (origin : qVec)
    (rtarget : botRouteTargetInternal) (cmd : botNavCmd_t) (h : bot.offMesh = false) :
    (G_BotUpdatePath be bot origin (some rtarget) (some cmd)).2
      = some (if (G_BotUpdatePath.onMesh be
              (G_UpdatePathCorridor be bot (be.quake2recast origin) rtarget)
              (be.quake2recast origin) rtarget.pos rtarget cmd).1.offMesh
        then (G_BotUpdatePath.offMesh be
              (G_BotUpdatePath.onMesh be
                (G_UpdatePathCorridor be bot (be.quake2recast origin) rtarget)
                (be.quake2recast origin) rtarget.pos rtarget cmd).1
              origin (be.quake2recast origin)
              (G_BotUpdatePath.onMesh be
                (G_UpdatePathCorridor be bot (be.quake2recast origin) rtarget)
                (be.quake2recast origin) rtarget.pos rtarget cmd).2).2
        else (G_BotUpdatePath.onMesh be
              (G_UpdatePathCorridor be bot (be.quake2recast origin) rtarget)
              (be.quake2recast origin) rtarget.pos rtarget cmd).2) := by
  have h1 : (G_UpdatePathCorridor be bot (be.quake2recast origin) rtarget).offMesh = false := by
    rw [(updatePathCorridor_fields be bot _ rtarget).2.1]; exact h
  unfold G_BotUpdatePath
  simp only [h1, if_true]
  split <;> rfl

/-- C21, as stated, fails when the call starts an off-mesh traversal: over
`noRouteBackend` (the route query fails) the agent at the origin, with `needReplan` set
and the off-mesh flag clear, stands on the start of the connection; the route query of
the call fails, the traversal starts, and the command has `havePath` = true. -/
theorem G_BotUpdatePath_havePath_failed_route :
    replanBot.offMesh = false
    ∧ (G_UpdatePathCorridor noRouteBackend replanBot (noRouteBackend.quake2recast ⟨0, 0, 0⟩)
        exampleTarget).needReplan = true
    ∧ (noRouteBackend.FindRoute
        (G_UpdatePathCorridor noRouteBackend replanBot (noRouteBackend.quake2recast ⟨0, 0, 0⟩)
          exampleTarget)
        (noRouteBackend.quake2recast ⟨0, 0, 0⟩) exampleTarget false).1 = false
    ∧ (G_BotUpdatePath noRouteBackend replanBot ⟨0, 0, 0⟩ (some exampleTarget)
        (some exampleCmd)).2.map botNavCmd_t.havePath = some true
    ∧ (G_BotUpdatePath noRouteBackend replanBot ⟨0, 0, 0⟩ (some exampleTarget)
        (some exampleCmd)).1.needReplan = true := by
  refine ⟨rfl, rfl, rfl, ?_, ?_⟩
  · decide!
  · decide!

/-- C21, amended: in a call of `G_BotUpdatePath` with a target and a command that is
entered with the off-mesh flag clear, (1) if `needReplan` is set after the corridor
update and `FindRoute` returns false, `needReplan` is set when the call ends; (2) if the
call starts no off-mesh traversal, `havePath` is true iff `needReplan` was clear after
the corridor update or the route query succeeded, so it is false after a failed query;
(3) if the call starts an off-mesh traversal, `havePath` is true. -/
theorem G_BotUpdatePath_havePath (be : NavBackend C N) (bot : Bot_t C N) (origin : qVec)
    (rtarget : botRouteTargetInternal) (cmd : botNavCmd_t) (h : bot.offMesh = false) :
    ((G_UpdatePathCorridor be bot (be.quake2recast origin) rtarget).needReplan = true →
        (be.FindRoute (G_UpdatePathCorridor be bot (be.quake2recast origin) rtarget)
          (be.quake2recast origin) rtarget false).1 = false →
        (G_BotUpdatePath be bot origin (some rtarget) (some cmd)).1.needReplan = true)
    ∧ ((G_BotUpdatePath.enterOffMesh be
          (G_BotUpdatePath.replan be
            (G_UpdatePathCorridor be bot (be.quake2recast origin) rtarget)
            (be.quake2recast origin) rtarget)
          (be.quake2recast origin)).offMesh = false →
        (G_BotUpdatePath be bot origin (some rtarget) (some cmd)).2.map botNavCmd_t.havePath
          = some (!(G_UpdatePathCorridor be bot (be.quake2recast origin) rtarget).needReplan
              || (be.FindRoute (G_UpdatePathCorridor be bot (be.quake2recast origin) rtarget)
                    (be.quake2recast origin) rtarget false).1))
    ∧ ((G_BotUpdatePath.enterOffMesh be
          (G_BotUpdatePath.replan be
            (G_UpdatePathCorridor be bot (be.quake2recast origin) rtarget)
            (be.quake2recast origin) rtarget)
          (be.quake2recast origin)).offMesh = true →
        (G_BotUpdatePath be bot origin (some rtarget) (some cmd)).2.map botNavCmd_t.havePath
          = some true) := by
  obtain ⟨m1, m2, m3⟩ := onMesh_havePath be
    (G_UpdatePathCorridor be bot (be.quake2recast origin) rtarget)
    (be.quake2recast origin) rtarget.pos rtarget cmd
  refine ⟨?_, ?_, ?_⟩
  · intro hn hf
    have hr : (G_BotUpdatePath.replan be
        (G_UpdatePathCorridor be bot (be.quake2recast origin) rtarget)
        (be.quake2recast origin) rtarget).needReplan = true := by
      rw [replan_needReplan, hn, hf]; rfl
    have hon := m3 hr
    rw [G_BotUpdatePath_onMesh be bot origin rtarget cmd h]
    split
    · rw [(offMesh_fields be _ origin (be.quake2recast origin) _).2.2.1]
      exact hon
    · exact hon
  · intro hno
    rw [G_BotUpdatePath_cmd be bot origin rtarget cmd h, m2, hno]
    simp only [Bool.false_eq_true, if_false, Option.map_some']
    rw [m1]
  · intro hyes
    rw [G_BotUpdatePath_cmd be bot origin rtarget cmd h, m2, hyes]
    simp only [if_true, Option.map_some']
    rw [offMesh_havePath]

/-- C21, amended, over `noRouteBackend` with the agent at (5, 0, 0), away from the
connection: the route query fails, `havePath` is false and `needReplan` stays set. -/
theorem G_BotUpdatePath_havePath_witness :
    replanBot.offMesh = false
    ∧ (G_BotUpdatePath noRouteBackend replanBot ⟨5, 0, 0⟩ (some exampleTarget)
        (some exampleCmd)).1.needReplan = true
    ∧ (G_BotUpdatePath noRouteBackend replanBot ⟨5, 0, 0⟩ (some exampleTarget)
        (some exampleCmd)).2.map botNavCmd_t.havePath = some false :=
  ⟨rfl,
   (G_BotUpdatePath_havePath noRouteBackend replanBot ⟨5, 0, 0⟩ exampleTarget exampleCmd
      rfl).1 rfl rfl,
   (G_BotUpdatePath_havePath noRouteBackend replanBot ⟨5, 0, 0⟩ exampleTarget exampleCmd
      rfl).2.1 (by decide!)⟩

/-! ### Assignment of a navigation mesh: `G_BotSetNavMesh` -/

/-- C26: `G_BotSetNavMesh` with a handle outside [0, numNavData) returns with a warning
and leaves the array of agents as it was.  With a handle inside the range, once the
corridor has its path (it had one, or `corridor.init` succeeds), the call returns
without a warning, leaves the other agents as they were and gives the agent the mesh
`BotNavData[ nav ]`, the reset corridor, its client number, `needReplan` = true,
`offMesh` = false, `numCorners` = 0 and a route cache of zero bytes of the same size.
The only other outcome, for a handle inside the range, is `Sys::Drop` when the corridor
has no path and `corridor.init` fails. -/
theorem G_BotSetNavMesh_spec (cb : CorridorBackend C) (MAX_BOT_PATH : Nat) (numNavData : Int)
    (BotNavData : Int → N) (agents : Int → Bot_t C N) (botClientNum : Int) (nav : Int) :
    ((nav < 0 ∨ numNavData ≤ nav) →
        G_BotSetNavMesh cb MAX_BOT_PATH numNavData BotNavData agents botClientNum nav
          = .ok (agents, ["Navigation handle out of bounds"]))
    ∧ (0 ≤ nav → nav < numNavData →
        ∀ c, (if cb.getPath (agents botClientNum).corridor = false
              then cb.init (agents botClientNum).corridor MAX_BOT_PATH
              else some (agents botClientNum).corridor) = some c →
          ∃ agents2,
            G_BotSetNavMesh cb MAX_BOT_PATH numNavData BotNavData agents botClientNum nav
              = .ok (agents2, [])
            ∧ (∀ other, other ≠ botClientNum → agents2 other = agents other)
            ∧ (agents2 botClientNum).nav = BotNavData nav
            ∧ (agents2 botClientNum).corridor = cb.reset c 0 ⟨0, 0, 0⟩
            ∧ (agents2 botClientNum).clientNum = botClientNum
            ∧ (agents2 botClientNum).needReplan = true
            ∧ (agents2 botClientNum).offMesh = false
            ∧ (agents2 botClientNum).numCorners = 0
            ∧ (agents2 botClientNum).routeResults.length
                = (agents botClientNum).routeResults.length
            ∧ (∀ x, x ∈ (agents2 botClientNum).routeResults → x = 0))
    ∧ (0 ≤ nav → nav < numNavData → cb.getPath (agents botClientNum).corridor = false →
        cb.init (agents botClientNum).corridor MAX_BOT_PATH = none →
        G_BotSetNavMesh cb MAX_BOT_PATH numNavData BotNavData agents botClientNum nav
          = .error "Out of memory (bot corridor init)") := by
  refine ⟨?_, ?_, ?_⟩
  · intro h
    unfold G_BotSetNavMesh
    rw [if_pos (by omega)]
  · intro h0 h1 c hc
    refine ⟨Function.update agents botClientNum
      { agents botClientNum with
        nav := BotNavData nav,
        corridor := cb.reset c 0 ⟨0, 0, 0⟩,
        clientNum := botClientNum,
        needReplan := true,
        offMesh := false,
        numCorners := 0,
        routeResults := List.replicate (agents botClientNum).routeResults.length 0 }, ?_, ?_, ?_⟩
    · unfold G_BotSetNavMesh
      rw [if_neg (by omega)]
      simp only [hc]
    · intro other hne
      exact Function.update_noteq hne _ _
    · simp only [Function.update_same, List.length_replicate, true_and]
      intro x hx
      exact (List.mem_replicate.mp hx).2
  · intro h0 h1 hp hi
    unfold G_BotSetNavMesh
    rw [if_neg (by omega)]
    simp only [hp, if_true, hi]

/-- C26, on `exampleAgents`: with two meshes loaded, the handle 1 gives agent 0 the
second mesh and the default navigation state; the handle 2 changes nothing. -/
theorem G_BotSetNavMesh_spec_witness :
    G_BotSetNavMesh exampleCorridorBackend 512 2 (fun i => 100 + i) exampleAgents 0 2
      = .ok (exampleAgents, ["Navigation handle out of bounds"])
    ∧ ∃ agents2,
        G_BotSetNavMesh exampleCorridorBackend 512 2 (fun i => 100 + i) exampleAgents 0 1
          = .ok (agents2, [])
        ∧ (∀ other, other ≠ 0 → agents2 other = exampleAgents other)
        ∧ (agents2 0).nav = 101
        ∧ (agents2 0).corridor = 2
        ∧ (agents2 0).clientNum = 0
        ∧ (agents2 0).needReplan = true
        ∧ (agents2 0).offMesh = false
        ∧ (agents2 0).numCorners = 0
        ∧ (agents2 0).routeResults.length = 4
        ∧ (∀ x, x ∈ (agents2 0).routeResults → x = 0) :=
  ⟨(G_BotSetNavMesh_spec exampleCorridorBackend 512 2 (fun i => 100 + i) exampleAgents 0 2).1
      (by decide),
   (G_BotSetNavMesh_spec exampleCorridorBackend 512 2 (fun i => 100 + i) exampleAgents 0 1).2.1
      (by decide) (by decide) 1 rfl⟩

/-! ### The maps of the obstacle bookkeeping -/

section stdMapLemmas
variable {V : Type}

theorem stdMap_find_nil (k : Int) : stdMap.find ([] : List (Int × V)) k = none := rfl

theorem stdMap_find_cons (a : Int) (v : V) (rest : List (Int × V)) (k : Int) :
    stdMap.find ((a, v) :: rest) k = if a = k then some v else stdMap.find rest k := rfl

theorem stdMap_modify_cons (a : Int) (v : V) (rest : List (Int × V)) (k : Int) (f : V → V) :
    stdMap.modify ((a, v) :: rest) k f
      = (if a = k then (a, f v) else (a, v)) :: stdMap.modify rest k f := rfl

theorem stdMap_find_modify (m : List (Int × V)) (k : Int) (f : V → V) (k2 : Int) :
    stdMap.find (stdMap.modify m k f) k2
      = if k2 = k then (stdMap.find m k).map f else stdMap.find m k2 := by
  induction m with
  | nil => simp [stdMap.modify, stdMap_find_nil]
  | cons p rest ih =>
    obtain ⟨a, v⟩ := p
    rw [stdMap_modify_cons]
    by_cases ha : a = k
    · rw [if_pos ha, stdMap_find_cons, stdMap_find_cons, stdMap_find_cons, ih]
      subst ha
      by_cases h2 : k2 = a
      · subst h2
        simp
      · have h3 : ¬ a = k2 := fun h => h2 h.symm
        simp [h2, h3]
    · rw [if_neg ha, stdMap_find_cons, stdMap_find_cons, stdMap_find_cons, ih, if_neg ha]
      by_cases h2 : k2 = k
      · subst h2
        simp [ha]
      · simp [h2]

theorem stdMap_find_insertSorted (m : List (Int × V)) (k : Int) (v : V) (k2 : Int)
    (h : stdMap.find m k = none) :
    stdMap.find (stdMap.insertSorted m k v) k2
      = if k2 = k then some v else stdMap.find m k2 := by
  induction m with
  | nil =>
    simp only [stdMap.insertSorted, stdMap_find_cons, stdMap_find_nil]
    by_cases h2 : k2 = k
    · subst h2; simp
    · have h3 : ¬ k = k2 := fun h => h2 h.symm
      simp [h2, h3]
  | cons p rest ih =>
    obtain ⟨a, w⟩ := p
    rw [stdMap_find_cons] at h
    by_cases ha : a = k
    · rw [if_pos ha] at h
      exact absurd h (by simp)
    · rw [if_neg ha] at h
      simp only [stdMap.insertSorted]
      by_cases hlt : k < a
      · rw [if_pos hlt, stdMap_find_cons]
        by_cases h2 : k2 = k
        · subst h2; simp
        · have h3 : ¬ k = k2 := fun h => h2 h.symm
          simp [h2, h3]
      · rw [if_neg hlt, stdMap_find_cons, stdMap_find_cons, ih h]
        by_cases h2 : k2 = k
        · subst h2
          simp [ha]
        · simp [h2]

theorem stdMap_find_assign (m : List (Int × V)) (k : Int) (v : V) (k2 : Int) :
    stdMap.find (stdMap.assign m k v) k2 = if k2 = k then some v else stdMap.find m k2 := by
  unfold stdMap.assign
  cases h : stdMap.find m k with
  | none => exact stdMap_find_insertSorted m k v k2 h
  | some o =>
    simp only []
    rw [stdMap_find_modify, h]
    rfl

theorem stdMap_find_insert (m : List (Int × V)) (k : Int) (v : V) (k2 : Int) :
    stdMap.find (stdMap.insert m k v).1 k2
      = if k2 = k then (match stdMap.find m k with | some o => some o | none => some v)
        else stdMap.find m k2 := by
  unfold stdMap.insert
  cases h : stdMap.find m k with
  | none =>
    simp only []
    exact stdMap_find_insertSorted m k v k2 h
  | some o =>
    simp only []
    by_cases h2 : k2 = k
    · subst h2; simp [h]
    · simp [h2]

theorem stdMap_find_insert_self (m : List (Int × V)) (k : Int) (v : V) :
    stdMap.find (stdMap.insert m k v).1 k ≠ none := by
  rw [stdMap_find_insert, if_pos rfl]
  cases stdMap.find m k <;> simp

theorem stdMap_find_insert_mono (m : List (Int × V)) (k : Int) (v : V) (k2 : Int)
    (h : stdMap.find m k2 ≠ none) : stdMap.find (stdMap.insert m k v).1 k2 ≠ none := by
  by_cases h2 : k2 = k
  · subst h2; exact stdMap_find_insert_self m k2 v
  · rw [stdMap_find_insert, if_neg h2]; exact h

theorem stdMap_erase_cons (a : Int) (v : V) (rest : List (Int × V)) (k : Int) :
    stdMap.erase ((a, v) :: rest) k
      = if a = k then stdMap.erase rest k else (a, v) :: stdMap.erase rest k := by
  unfold stdMap.erase
  by_cases ha : a = k
  · simp [List.filter_cons, ha]
  · simp [List.filter_cons, ha]

theorem stdMap_find_erase (m : List (Int × V)) (k k2 : Int) :
    stdMap.find (stdMap.erase m k) k2 = if k2 = k then none else stdMap.find m k2 := by
  induction m with
  | nil => simp [stdMap.erase, stdMap_find_nil]
  | cons p rest ih =>
    obtain ⟨a, v⟩ := p
    rw [stdMap_erase_cons]
    by_cases ha : a = k
    · rw [if_pos ha, ih, stdMap_find_cons]
      subst ha
      by_cases h2 : k2 = a
      · simp [h2]
      · have h3 : ¬ a = k2 := fun h => h2 h.symm
        simp [h2, h3]
    · rw [if_neg ha, stdMap_find_cons, stdMap_find_cons, ih]
      by_cases h2 : k2 = k
      · subst h2
        simp [ha]
      · simp [h2]

theorem stdMap_erase_of_find_none (m : List (Int × V)) (k : Int)
    (h : stdMap.find m k = none) : stdMap.erase m k = m := by
  induction m with
  | nil => rfl
  | cons p rest ih =>
    obtain ⟨a, v⟩ := p
    rw [stdMap_find_cons] at h
    by_cases ha : a = k
    · rw [if_pos ha] at h
      exact absurd h (by simp)
    · rw [if_neg ha] at h
      rw [stdMap_erase_cons, if_neg ha, ih h]

theorem stdMap_keys_modify (m : List (Int × V)) (k : Int) (f : V → V) :
    stdMap.keys (stdMap.modify m k f) = stdMap.keys m := by
  unfold stdMap.keys stdMap.modify
  rw [List.map_map]
  apply List.map_congr_left
  intro p _
  simp only [Function.comp]
  split <;> rfl

theorem stdMap_keys_assign (m : List (Int × V)) (k : Int) (v : V)
    (h : stdMap.find m k ≠ none) : stdMap.keys (stdMap.assign m k v) = stdMap.keys m := by
  unfold stdMap.assign
  cases h2 : stdMap.find m k with
  | none => exact absurd h2 h
  | some o => exact stdMap_keys_modify m k _

theorem stdMap_find_eq_none_iff (m : List (Int × V)) (k : Int) :
    stdMap.find m k = none ↔ k ∉ stdMap.keys m := by
  induction m with
  | nil => simp [stdMap_find_nil, stdMap.keys]
  | cons p rest ih =>
    obtain ⟨a, v⟩ := p
    unfold stdMap.keys at ih ⊢
    rw [stdMap_find_cons]
    simp only [List.map_cons, List.mem_cons, not_or]
    by_cases ha : a = k
    · simp [ha]
    · have h3 : ¬ k = a := fun h => ha h.symm
      simp only [ha, if_false, h3, not_false_eq_true, true_and]
      exact ih

theorem stdMap_find_of_mem (m : List (Int × V)) (h : (stdMap.keys m).Nodup) (p : Int × V)
    (hp : p ∈ m) : stdMap.find m p.1 = some p.2 := by
  induction m with
  | nil => simp at hp
  | cons q rest ih =>
    obtain ⟨a, v⟩ := q
    unfold stdMap.keys at h ih
    simp only [List.map_cons, List.nodup_cons] at h
    rw [stdMap_find_cons]
    rcases List.mem_cons.mp hp with hp | hp
    · subst hp
      simp
    · have hne : ¬ a = p.1 := by
        intro he
        apply h.1
        rw [he]
        exact List.mem_map_of_mem Prod.fst hp
      rw [if_neg hne]
      exact ih h.2 hp

end stdMapLemmas

/-! ### `G_BotAddObstacle` -/

/-- The loop of `G_BotAddObstacle` over the meshes of `l` asks each tile cache once and
touches nothing else of the bookkeeping. -/
theorem G_BotAddObstacle_loop_fields (ob : ObstacleBackend T) (box : rVec × rVec)
    (obstacleNum : Int) (l : List Nat) :
    ∀ (st : ObstacleWorld T × List dtObstacleRef),
      (l.foldl (G_BotAddObstacle.step ob box obstacleNum) st).1.navMeshLoaded
          = st.1.navMeshLoaded
      ∧ (l.foldl (G_BotAddObstacle.step ob box obstacleNum) st).1.numNavData = st.1.numNavData
      ∧ (l.foldl (G_BotAddObstacle.step ob box obstacleNum) st).1.savedObstacles
          = st.1.savedObstacles
      ∧ (l.foldl (G_BotAddObstacle.step ob box obstacleNum) st).1.obstacleHandles
          = st.1.obstacleHandles
      ∧ (l.foldl (G_BotAddObstacle.step ob box obstacleNum) st).1.warnings = st.1.warnings
      ∧ (l.foldl (G_BotAddObstacle.step ob box obstacleNum) st).1.requests
          = st.1.requests ++ l.map (ObstacleRequest.add obstacleNum) := by
  induction l with
  | nil => intro st; simp
  | cons i rest ih =>
    intro st
    rw [List.foldl_cons]
    obtain ⟨h1, h2, h3, h4, h5, h6⟩ := ih (G_BotAddObstacle.step ob box obstacleNum st i)
    refine ⟨h1, h2, h3, h4, h5, ?_⟩
    rw [h6]
    simp [G_BotAddObstacle.step]

/-- `G_BotAddObstacle` while the meshes are not loaded. -/
theorem G_BotAddObstacle_unloaded (ob : ObstacleBackend T) (w : ObstacleWorld T)
    (mins maxs : Vec3) (obstacleNum : Int) (h : w.navMeshLoaded ≠ navMeshStatus_t.LOADED) :
    G_BotAddObstacle ob w mins maxs obstacleNum
      = { w with savedObstacles :=
            stdMap.assign w.savedObstacles obstacleNum ⟨false, ⟨mins, maxs⟩⟩ } := by
  unfold G_BotAddObstacle
  simp only [h, ne_eq, not_false_eq_true, if_true, decide_False]

/-- `G_BotAddObstacle` while the meshes are loaded: the fields of the state
afterwards. -/
theorem G_BotAddObstacle_loaded (ob : ObstacleBackend T) (w : ObstacleWorld T)
    (mins maxs : Vec3) (obstacleNum : Int) (h : w.navMeshLoaded = navMeshStatus_t.LOADED) :
    (G_BotAddObstacle ob w mins maxs obstacleNum).navMeshLoaded = w.navMeshLoaded
    ∧ (G_BotAddObstacle ob w mins maxs obstacleNum).numNavData = w.numNavData
    ∧ (G_BotAddObstacle ob w mins maxs obstacleNum).savedObstacles
        = stdMap.assign w.savedObstacles obstacleNum
            { added := true, bbox := { mins := mins, maxs := maxs } }
    ∧ (G_BotAddObstacle ob w mins maxs obstacleNum).requests
        = w.requests ++ (List.range w.numNavData).map (ObstacleRequest.add obstacleNum)
    ∧ (∃ handles, (G_BotAddObstacle ob w mins maxs obstacleNum).obstacleHandles
        = (stdMap.insert w.obstacleHandles obstacleNum handles).1) := by
  obtain ⟨h1, h2, h3, h4, h5, h6⟩ := G_BotAddObstacle_loop_fields ob (ob.rBounds mins maxs)
    obstacleNum (List.range w.numNavData)
    ({ w with
        savedObstacles := stdMap.assign w.savedObstacles obstacleNum
          ⟨decide (w.navMeshLoaded = navMeshStatus_t.LOADED), ⟨mins, maxs⟩⟩ },
      List.replicate ob.MAX_NAV_DATA NO_OBSTACLE)
  unfold G_BotAddObstacle
  simp only [h, ne_eq, not_true_eq_false, if_false, decide_True] at h1 h2 h3 h4 h5 h6 ⊢
  split
  · exact ⟨h1, h2, h3, h6, ⟨_, by rw [h4]⟩⟩
  · exact ⟨h1, h2, h3, h6, ⟨_, by rw [h4]⟩⟩

/-- C22: while the navigation meshes are not loaded, `G_BotAddObstacle` leaves in
`savedObstacles` an entry for the obstacle with the given box and `added` = false,
leaves the entries of the other obstacles, the map `obstacleHandles`, the tile caches,
the load status and the warnings as they were, and makes no request to a tile cache. -/
theorem G_BotAddObstacle_not_loaded (ob : ObstacleBackend T) (w : ObstacleWorld T)
    (mins maxs : Vec3) (obstacleNum : Int) (h : w.navMeshLoaded ≠ navMeshStatus_t.LOADED) :
    stdMap.find (G_BotAddObstacle ob w mins maxs obstacleNum).savedObstacles obstacleNum
        = some { added := false, bbox := { mins := mins, maxs := maxs } }
    ∧ (∀ other, other ≠ obstacleNum →
        stdMap.find (G_BotAddObstacle ob w mins maxs obstacleNum).savedObstacles other
          = stdMap.find w.savedObstacles other)
    ∧ (G_BotAddObstacle ob w mins maxs obstacleNum).obstacleHandles = w.obstacleHandles
    ∧ (G_BotAddObstacle ob w mins maxs obstacleNum).requests = w.requests
    ∧ (G_BotAddObstacle ob w mins maxs obstacleNum).BotNavData = w.BotNavData
    ∧ (G_BotAddObstacle ob w mins maxs obstacleNum).navMeshLoaded = w.navMeshLoaded
    ∧ (G_BotAddObstacle ob w mins maxs obstacleNum).warnings = w.warnings := by
  rw [G_BotAddObstacle_unloaded ob w mins maxs obstacleNum h]
  refine ⟨?_, ?_, rfl, rfl, rfl, rfl, rfl⟩
  · simp only [stdMap_find_assign, if_true]
  · intro other hne
    simp only [stdMap_find_assign, hne, if_false]

/-- C22, on the empty state with two meshes that are not loaded: the obstacle 5 with the
box `unitBox` is saved with `added` = false, no handle is stored and no request is
made. -/
theorem G_BotAddObstacle_not_loaded_witness :
    stdMap.find (G_BotAddObstacle (exampleObstacleBackend 8)
        (emptyWorld navMeshStatus_t.UNINITIALIZED 2) unitBox.mins unitBox.maxs 5).savedObstacles 5
      = some { added := false, bbox := unitBox }
    ∧ (G_BotAddObstacle (exampleObstacleBackend 8)
        (emptyWorld navMeshStatus_t.UNINITIALIZED 2) unitBox.mins unitBox.maxs 5).obstacleHandles
      = []
    ∧ (G_BotAddObstacle (exampleObstacleBackend 8)
        (emptyWorld navMeshStatus_t.UNINITIALIZED 2) unitBox.mins unitBox.maxs 5).requests = [] :=
  ⟨(G_BotAddObstacle_not_loaded (exampleObstacleBackend 8)
      (emptyWorld navMeshStatus_t.UNINITIALIZED 2) unitBox.mins unitBox.maxs 5 (by decide)).1,
   (G_BotAddObstacle_not_loaded (exampleObstacleBackend 8)
      (emptyWorld navMeshStatus_t.UNINITIALIZED 2) unitBox.mins unitBox.maxs 5
      (by decide)).2.2.1,
   (G_BotAddObstacle_not_loaded (exampleObstacleBackend 8)
      (emptyWorld navMeshStatus_t.UNINITIALIZED 2) unitBox.mins unitBox.maxs 5
      (by decide)).2.2.2.1⟩

/-! ### `G_BotRemoveObstacle` -/

theorem G_BotRemoveObstacle_step_fields (ob : ObstacleBackend T) (obstacleNum : Int)
    (handles : List dtObstacleRef) (w : ObstacleWorld T) (i : Nat) :
    (G_BotRemoveObstacle.step ob obstacleNum handles w i).navMeshLoaded = w.navMeshLoaded
    ∧ (G_BotRemoveObstacle.step ob obstacleNum handles w i).numNavData = w.numNavData
    ∧ (G_BotRemoveObstacle.step ob obstacleNum handles w i).savedObstacles = w.savedObstacles
    ∧ (G_BotRemoveObstacle.step ob obstacleNum handles w i).obstacleHandles = w.obstacleHandles
    ∧ (G_BotRemoveObstacle.step ob obstacleNum handles w i).warnings = w.warnings
    ∧ (∀ j, j ≠ i →
        (G_BotRemoveObstacle.step ob obstacleNum handles w i).BotNavData j = w.BotNavData j)
    ∧ (G_BotRemoveObstacle.step ob obstacleNum handles w i).requests
        = w.requests ++
          (if (decide (0 < ob.getObstacleCount (w.BotNavData i))
                && decide (handles.getD i NO_OBSTACLE ≠ NO_OBSTACLE)) = true
           then [ObstacleRequest.remove obstacleNum i (handles.getD i NO_OBSTACLE)] else []) := by
  unfold G_BotRemoveObstacle.step
  simp only []
  by_cases hc : ob.getObstacleCount (w.BotNavData i) ≤ 0
  · have hc2 : ¬ 0 < ob.getObstacleCount (w.BotNavData i) := not_lt.mpr hc
    rw [if_pos hc, decide_eq_false hc2]
    refine ⟨rfl, rfl, rfl, rfl, rfl, fun _ _ => rfl, ?_⟩
    rw [Bool.false_and, if_neg (by decide), List.append_nil]
  · have hc2 : 0 < ob.getObstacleCount (w.BotNavData i) := not_le.mp hc
    rw [if_neg hc, decide_eq_true hc2]
    by_cases hh : handles.getD i NO_OBSTACLE ≠ NO_OBSTACLE
    · rw [if_pos hh, decide_eq_true hh]
      refine ⟨rfl, rfl, rfl, rfl, rfl, fun j hj => Function.update_noteq hj _ _, ?_⟩
      rw [Bool.and_self, if_pos rfl]
    · rw [if_neg hh, decide_eq_false hh]
      refine ⟨rfl, rfl, rfl, rfl, rfl, fun _ _ => rfl, ?_⟩
      rw [Bool.and_false, if_neg (by decide), List.append_nil]

theorem G_BotRemoveObstacle_loop_fields (ob : ObstacleBackend T) (obstacleNum : Int)
    (handles : List dtObstacleRef) (l : List Nat) (hl : l.Nodup) :
    ∀ (w : ObstacleWorld T),
      (l.foldl (G_BotRemoveObstacle.step ob obstacleNum handles) w).navMeshLoaded
          = w.navMeshLoaded
      ∧ (l.foldl (G_BotRemoveObstacle.step ob obstacleNum handles) w).numNavData = w.numNavData
      ∧ (l.foldl (G_BotRemoveObstacle.step ob obstacleNum handles) w).savedObstacles
          = w.savedObstacles
      ∧ (l.foldl (G_BotRemoveObstacle.step ob obstacleNum handles) w).obstacleHandles
          = w.obstacleHandles
      ∧ (l.foldl (G_BotRemoveObstacle.step ob obstacleNum handles) w).warnings = w.warnings
      ∧ (∀ j, j ∉ l →
          (l.foldl (G_BotRemoveObstacle.step ob obstacleNum handles) w).BotNavData j
            = w.BotNavData j)
      ∧ (l.foldl (G_BotRemoveObstacle.step ob obstacleNum handles) w).requests
          = w.requests ++
            (l.filter (fun i => decide (0 < ob.getObstacleCount (w.BotNavData i))
                && decide (handles.getD i NO_OBSTACLE ≠ NO_OBSTACLE))).map
              (fun i => ObstacleRequest.remove obstacleNum i (handles.getD i NO_OBSTACLE)) := by
  induction l with
  | nil => intro w; simp
  | cons i rest ih =>
    intro w
    rw [List.nodup_cons] at hl
    rw [List.foldl_cons]
    obtain ⟨s1, s2, s3, s4, s5, s6, s7⟩ :=
      G_BotRemoveObstacle_step_fields ob obstacleNum handles w i
    obtain ⟨h1, h2, h3, h4, h5, h6, h7⟩ :=
      ih hl.2 (G_BotRemoveObstacle.step ob obstacleNum handles w i)
    refine ⟨h1.trans s1, h2.trans s2, h3.trans s3, h4.trans s4, h5.trans s5, ?_, ?_⟩
    · intro j hj
      rw [List.mem_cons, not_or] at hj
      rw [h6 j hj.2, s6 j hj.1]
    · rw [h7, s7, List.append_assoc]
      congr 1
      have hfilter : rest.filter (fun j => decide (0 < ob.getObstacleCount
            ((G_BotRemoveObstacle.step ob obstacleNum handles w i).BotNavData j))
            && decide (handles.getD j NO_OBSTACLE ≠ NO_OBSTACLE))
          = rest.filter (fun j => decide (0 < ob.getObstacleCount (w.BotNavData j))
            && decide (handles.getD j NO_OBSTACLE ≠ NO_OBSTACLE)) := by
        apply List.filter_congr
        intro j hj
        have hne : j ≠ i := fun h => hl.1 (h ▸ hj)
        rw [s6 j hne]
      rw [hfilter, List.filter_cons]
      split <;> simp

theorem eraseSaved_fields (w : ObstacleWorld T) (obstacleNum : Int) :
    (∀ k2, stdMap.find (G_BotRemoveObstacle.eraseSaved w obstacleNum).savedObstacles k2
        = if k2 = obstacleNum then none else stdMap.find w.savedObstacles k2)
    ∧ (G_BotRemoveObstacle.eraseSaved w obstacleNum).obstacleHandles = w.obstacleHandles
    ∧ (G_BotRemoveObstacle.eraseSaved w obstacleNum).requests = w.requests
    ∧ (G_BotRemoveObstacle.eraseSaved w obstacleNum).BotNavData = w.BotNavData
    ∧ (G_BotRemoveObstacle.eraseSaved w obstacleNum).numNavData = w.numNavData := by
  unfold G_BotRemoveObstacle.eraseSaved
  cases h : stdMap.find w.savedObstacles obstacleNum with
  | some o =>
    refine ⟨?_, rfl, rfl, rfl, rfl⟩
    intro k2
    exact stdMap_find_erase _ _ _
  | none =>
    refine ⟨?_, rfl, rfl, rfl, rfl⟩
    intro k2
    by_cases h2 : k2 = obstacleNum
    · rw [if_pos h2, h2]; exact h
    · rw [if_neg h2]

theorem release_fields (ob : ObstacleBackend T) (w : ObstacleWorld T) (obstacleNum : Int) :
    (G_BotRemoveObstacle.release ob w obstacleNum).savedObstacles = w.savedObstacles
    ∧ (∀ k2, stdMap.find (G_BotRemoveObstacle.release ob w obstacleNum).obstacleHandles k2
        = if k2 = obstacleNum then none else stdMap.find w.obstacleHandles k2)
    ∧ (∀ handles, stdMap.find w.obstacleHandles obstacleNum = some handles →
        (G_BotRemoveObstacle.release ob w obstacleNum).requests
          = w.requests ++
            ((List.range w.numNavData).filter
              (fun i => decide (0 < ob.getObstacleCount (w.BotNavData i))
                && decide (handles.getD i NO_OBSTACLE ≠ NO_OBSTACLE))).map
              (fun i => ObstacleRequest.remove obstacleNum i (handles.getD i NO_OBSTACLE)))
    ∧ (stdMap.find w.obstacleHandles obstacleNum = none →
        G_BotRemoveObstacle.release ob w obstacleNum = w)
    ∧ (G_BotRemoveObstacle.release ob w obstacleNum).navMeshLoaded = w.navMeshLoaded := by
  unfold G_BotRemoveObstacle.release
  cases hh : stdMap.find w.obstacleHandles obstacleNum with
  | none =>
    refine ⟨rfl, ?_, ?_, fun _ => rfl, rfl⟩
    · intro k2
      by_cases h2 : k2 = obstacleNum
      · rw [if_pos h2, h2]; exact hh
      · rw [if_neg h2]
    · intro handles hx
      exact absurd hx (by simp)
  | some handles =>
    obtain ⟨l1, l2, l3, l4, l5, l6, l7⟩ := G_BotRemoveObstacle_loop_fields ob obstacleNum
      handles (List.range w.numNavData) (List.nodup_range _) w
    refine ⟨l3, ?_, ?_, ?_, l1⟩
    · intro k2
      simp only []
      rw [stdMap_find_erase, l4]
    · intro handles2 hx
      have : handles2 = handles := by
        rw [Option.some.injEq] at hx; exact hx.symm
      subst this
      exact l7
    · intro hx
      exact absurd hx (by simp)

/-- The bookkeeping of `G_BotRemoveObstacle`, for every tile cache: neither map has an
entry for the obstacle afterwards, the entries of the other obstacles stay; the requests
made are the releases `releaseRequests` of the handles stored for the obstacle; without
stored handles nothing is requested, and removing an unknown obstacle changes
nothing. -/
theorem G_BotRemoveObstacle_bookkeeping (ob : ObstacleBackend T) (w : ObstacleWorld T)
    (obstacleNum : Int) :
    stdMap.find (G_BotRemoveObstacle ob w obstacleNum).savedObstacles obstacleNum = none
    ∧ stdMap.find (G_BotRemoveObstacle ob w obstacleNum).obstacleHandles obstacleNum = none
    ∧ (∀ other, other ≠ obstacleNum →
        stdMap.find (G_BotRemoveObstacle ob w obstacleNum).savedObstacles other
          = stdMap.find w.savedObstacles other
        ∧ stdMap.find (G_BotRemoveObstacle ob w obstacleNum).obstacleHandles other
          = stdMap.find w.obstacleHandles other)
    ∧ (∀ handles, stdMap.find w.obstacleHandles obstacleNum = some handles →
        (G_BotRemoveObstacle ob w obstacleNum).requests
          = w.requests ++ releaseRequests ob w obstacleNum handles)
    ∧ (stdMap.find w.obstacleHandles obstacleNum = none →
        (G_BotRemoveObstacle ob w obstacleNum).requests = w.requests
        ∧ (G_BotRemoveObstacle ob w obstacleNum).BotNavData = w.BotNavData)
    ∧ (stdMap.find w.savedObstacles obstacleNum = none →
        stdMap.find w.obstacleHandles obstacleNum = none →
        G_BotRemoveObstacle ob w obstacleNum = w) := by
  obtain ⟨e0, e1, e2, e3, e4⟩ := eraseSaved_fields w obstacleNum
  obtain ⟨r1, r2, r3, r4, r5⟩ := release_fields ob
    (G_BotRemoveObstacle.eraseSaved w obstacleNum) obstacleNum
  unfold G_BotRemoveObstacle
  refine ⟨?_, ?_, ?_, ?_, ?_, ?_⟩
  · rw [r1, e0, if_pos rfl]
  · rw [r2, if_pos rfl]
  · intro other hne
    rw [r1, e0, if_neg hne, r2, if_neg hne, e1]
    exact ⟨rfl, rfl⟩
  · intro handles hx
    rw [← e1] at hx
    rw [r3 handles hx, e2]
    unfold releaseRequests
    rw [e3, e4]
  · intro hx
    rw [← e1] at hx
    rw [r4 hx]
    exact ⟨e2, e3⟩
  · intro hs hx
    have h1 : G_BotRemoveObstacle.eraseSaved w obstacleNum = w := by
      unfold G_BotRemoveObstacle.eraseSaved
      rw [hs]
    rw [h1]
    exact (release_fields ob w obstacleNum).2.2.2.1 hx

/-! ### `BotAddSavedObstacles` while the meshes are loaded -/

theorem stdMap_mem_of_find {V : Type} (m : List (Int × V)) (k : Int) (v : V)
    (h : stdMap.find m k = some v) : (k, v) ∈ m := by
  induction m with
  | nil => rw [stdMap_find_nil] at h; exact absurd h (by simp)
  | cons p rest ih =>
    obtain ⟨a, x⟩ := p
    rw [stdMap_find_cons] at h
    by_cases ha : a = k
    · rw [if_pos ha, Option.some.injEq] at h
      rw [ha, h]
      exact List.mem_cons_self _ _
    · rw [if_neg ha] at h
      exact List.mem_cons_of_mem _ (ih h)

/-- One round of the loop of `BotAddSavedObstacles` on a node that is there, while the
meshes are loaded. -/
theorem BotAddSavedObstacles_step_fields (ob : ObstacleBackend T) (w : ObstacleWorld T)
    (k : Int) (o : saved_obstacle_t) (hl : w.navMeshLoaded = navMeshStatus_t.LOADED)
    (ho : stdMap.find w.savedObstacles k = some o) :
    (BotAddSavedObstacles.step ob w k).navMeshLoaded = navMeshStatus_t.LOADED
    ∧ (BotAddSavedObstacles.step ob w k).numNavData = w.numNavData
    ∧ (∀ k2, stdMap.find (BotAddSavedObstacles.step ob w k).savedObstacles k2
        = if k2 = k then some { o with added := true } else stdMap.find w.savedObstacles k2)
    ∧ stdMap.keys (BotAddSavedObstacles.step ob w k).savedObstacles
        = stdMap.keys w.savedObstacles
    ∧ (BotAddSavedObstacles.step ob w k).requests
        = w.requests ++ (if o.added = true then []
            else (List.range w.numNavData).map (ObstacleRequest.add k))
    ∧ (∀ k2, stdMap.find w.obstacleHandles k2 ≠ none →
        stdMap.find (BotAddSavedObstacles.step ob w k).obstacleHandles k2 ≠ none)
    ∧ (o.added = false →
        stdMap.find (BotAddSavedObstacles.step ob w k).obstacleHandles k ≠ none) := by
  have hne : stdMap.find w.savedObstacles k ≠ none := by rw [ho]; simp
  unfold BotAddSavedObstacles.step
  rw [ho]
  simp only []
  have hft : ¬ (true = false) := by decide
  cases hadd : o.added with
  | true =>
    rw [if_neg hft, if_pos rfl]
    refine ⟨hl, rfl, ?_, stdMap_keys_modify _ _ _, by rw [List.append_nil], fun _ h => h, ?_⟩
    · intro k2
      rw [stdMap_find_modify, ho]
      rfl
    · intro hx
      exact absurd hx hft
  | false =>
    rw [if_pos rfl, if_neg (fun h => hft h.symm)]
    obtain ⟨a1, a2, a3, a4, handles, a5⟩ :=
      G_BotAddObstacle_loaded ob w o.bbox.mins o.bbox.maxs k hl
    refine ⟨by rw [a1]; exact hl, a2, ?_, ?_, a4, ?_, ?_⟩
    · intro k2
      rw [stdMap_find_modify, a3, stdMap_find_assign, if_pos rfl, stdMap_find_assign]
      by_cases hk2 : k2 = k
      · rw [if_pos hk2, if_pos hk2]
        rfl
      · simp only [if_neg hk2]
    · rw [stdMap_keys_modify, a3, stdMap_keys_assign _ _ _ hne]
    · intro k2 h2
      rw [a5]
      exact stdMap_find_insert_mono _ _ _ _ h2
    · intro _
      rw [a5]
      exact stdMap_find_insert_self _ _ _

/-- The loop of `BotAddSavedObstacles` over the nodes `es`, while the meshes are
loaded. -/
theorem BotAddSavedObstacles_loop_fields (ob : ObstacleBackend T)
    (es : List (Int × saved_obstacle_t)) :
    ∀ (w : ObstacleWorld T), w.navMeshLoaded = navMeshStatus_t.LOADED →
      (es.map Prod.fst).Nodup →
      (∀ p, p ∈ es → stdMap.find w.savedObstacles p.1 = some p.2) →
      ((es.map Prod.fst).foldl (BotAddSavedObstacles.step ob) w).navMeshLoaded
          = navMeshStatus_t.LOADED
      ∧ ((es.map Prod.fst).foldl (BotAddSavedObstacles.step ob) w).numNavData = w.numNavData
      ∧ (∀ k2, stdMap.find
            ((es.map Prod.fst).foldl (BotAddSavedObstacles.step ob) w).savedObstacles k2
          = if k2 ∈ es.map Prod.fst
            then (stdMap.find w.savedObstacles k2).map (fun o => { o with added := true })
            else stdMap.find w.savedObstacles k2)
      ∧ stdMap.keys ((es.map Prod.fst).foldl (BotAddSavedObstacles.step ob) w).savedObstacles
          = stdMap.keys w.savedObstacles
      ∧ ((es.map Prod.fst).foldl (BotAddSavedObstacles.step ob) w).requests
          = w.requests ++ (es.filter (fun p => !p.2.added)).flatMap
              (fun p => (List.range w.numNavData).map (ObstacleRequest.add p.1))
      ∧ (∀ k2, stdMap.find w.obstacleHandles k2 ≠ none →
          stdMap.find
            ((es.map Prod.fst).foldl (BotAddSavedObstacles.step ob) w).obstacleHandles k2
            ≠ none)
      ∧ (∀ p, p ∈ es → p.2.added = false →
          stdMap.find
            ((es.map Prod.fst).foldl (BotAddSavedObstacles.step ob) w).obstacleHandles p.1
            ≠ none) := by
  induction es with
  | nil =>
    intro w hl _ _
    refine ⟨hl, rfl, ?_, rfl, ?_, fun _ h => h, ?_⟩
    · intro k2; simp
    · simp
    · intro p hp; simp at hp
  | cons e rest ih =>
    intro w hl hnd hfind
    obtain ⟨k, o⟩ := e
    rw [List.map_cons, List.nodup_cons] at hnd
    rw [List.map_cons, List.foldl_cons]
    have ho : stdMap.find w.savedObstacles k = some o := hfind (k, o) (List.mem_cons_self _ _)
    obtain ⟨s1, s2, s3, s4, s5, s6, s7⟩ := BotAddSavedObstacles_step_fields ob w k o hl ho
    have hrest : ∀ p, p ∈ rest →
        stdMap.find (BotAddSavedObstacles.step ob w k).savedObstacles p.1 = some p.2 := by
      intro p hp
      have hpk : p.1 ≠ k := by
        intro h
        apply hnd.1
        exact List.mem_map.mpr ⟨p, hp, h⟩
      rw [s3, if_neg hpk]
      exact hfind p (List.mem_cons_of_mem _ hp)
    obtain ⟨h1, h2, h3, h4, h5, h6, h7⟩ :=
      ih (BotAddSavedObstacles.step ob w k) s1 hnd.2 hrest
    refine ⟨h1, h2.trans s2, ?_, h4.trans s4, ?_, ?_, ?_⟩
    · intro k2
      rw [h3, s3]
      by_cases hk2 : k2 = k
      · subst hk2
        rw [if_neg hnd.1, if_pos rfl, if_pos (List.mem_cons_self _ _), ho]
        rfl
      · rw [if_neg hk2]
        by_cases hin : k2 ∈ rest.map Prod.fst
        · rw [if_pos hin, if_pos (List.mem_cons_of_mem _ hin)]
        · rw [if_neg hin, if_neg]
          rw [List.mem_cons, not_or]
          exact ⟨hk2, hin⟩
    · rw [h5, s5, s2, List.append_assoc]
      congr 1
      rw [List.filter_cons]
      cases hadd : o.added with
      | true => simp
      | false => simp
    · intro k2 hk2
      exact h6 k2 (s6 k2 hk2)
    · intro p hp hadd
      rcases List.mem_cons.mp hp with hp | hp
      · subst hp
        exact h6 k (s7 hadd)
      · exact h7 p hp hadd

/-- C24, failing input: with two loaded meshes, the obstacle 5 is added with the box
`unitBox` and then again with the box `otherBox`.  The second call asks both tile
caches for a new obstacle (each cache then holds two), stores the handles of the new
obstacles nowhere (the node of `obstacleHandles` keeps the handles 100 of the first
call), replaces the saved box by `otherBox`, and logs the warning; both maps have the
one key 5. -/
theorem G_BotAddObstacle_duplicate :
    (oneObstacle 8).requests = [ObstacleRequest.add 5 0, ObstacleRequest.add 5 1]
    ∧ stdMap.find (oneObstacle 8).savedObstacles 5 = some { added := true, bbox := unitBox }
    ∧ stdMap.find (oneObstacle 8).obstacleHandles 5
        = some [100, 100, NO_OBSTACLE, NO_OBSTACLE]
    ∧ duplicateObstacle.requests
        = [ObstacleRequest.add 5 0, ObstacleRequest.add 5 1,
           ObstacleRequest.add 5 0, ObstacleRequest.add 5 1]
    ∧ duplicateObstacle.BotNavData 0 = 2
    ∧ duplicateObstacle.BotNavData 1 = 2
    ∧ stdMap.find duplicateObstacle.obstacleHandles 5
        = some [100, 100, NO_OBSTACLE, NO_OBSTACLE]
    ∧ stdMap.find duplicateObstacle.savedObstacles 5
        = some { added := true, bbox := otherBox }
    ∧ duplicateObstacle.warnings.length = 1
    ∧ stdMap.keys duplicateObstacle.savedObstacles = [5]
    ∧ stdMap.keys duplicateObstacle.obstacleHandles = [5] := by
  refine ⟨by decide, by decide, by decide, by decide, by decide, by decide, by decide,
    by decide, by decide, by decide, by decide⟩

/-- C30, failing input: the obstacle 5 is added while the meshes are not loaded, and
`BotAddSavedObstacles` is called with the meshes still not loaded.  The saved obstacle
then has `added` = true although no request was made to a tile cache and
`obstacleHandles` has no node for it. -/
theorem BotAddSavedObstacles_marks_unsubmitted :
    flushedUnloaded.navMeshLoaded = navMeshStatus_t.UNINITIALIZED
    ∧ (stdMap.find flushedUnloaded.savedObstacles 5).map saved_obstacle_t.added = some true
    ∧ stdMap.find flushedUnloaded.obstacleHandles 5 = none
    ∧ flushedUnloaded.requests = []
    ∧ ¬ addedHaveHandles flushedUnloaded := by
  refine ⟨by decide, by decide, by decide, by decide, ?_⟩
  intro h
  exact h 5 { added := true, bbox := unitBox } (by decide) rfl (by decide)

/-! ### The invariant of the obstacle bookkeeping when saved obstacles are only added
while the meshes are loaded -/

theorem stdMap_keys_insertSorted {V : Type} (m : List (Int × V)) (k : Int) (v : V) :
    (stdMap.keys (stdMap.insertSorted m k v)).Perm (k :: stdMap.keys m) := by
  induction m with
  | nil => exact List.Perm.refl _
  | cons p rest ih =>
    obtain ⟨a, x⟩ := p
    unfold stdMap.keys at ih ⊢
    simp only [stdMap.insertSorted]
    by_cases hlt : k < a
    · rw [if_pos hlt]
      exact List.Perm.refl _
    · rw [if_neg hlt, List.map_cons, List.map_cons]
      exact (List.Perm.cons a ih).trans (List.Perm.swap k a _)

theorem stdMap_nodup_assign {V : Type} (m : List (Int × V)) (k : Int) (v : V)
    (h : (stdMap.keys m).Nodup) : (stdMap.keys (stdMap.assign m k v)).Nodup := by
  cases hf : stdMap.find m k with
  | some o =>
    rw [stdMap_keys_assign m k v (by rw [hf]; simp)]
    exact h
  | none =>
    unfold stdMap.assign
    rw [hf]
    simp only []
    rw [(stdMap_keys_insertSorted m k v).nodup_iff, List.nodup_cons]
    exact ⟨(stdMap_find_eq_none_iff m k).mp hf, h⟩

theorem stdMap_nodup_erase {V : Type} (m : List (Int × V)) (k : Int)
    (h : (stdMap.keys m).Nodup) : (stdMap.keys (stdMap.erase m k)).Nodup := by
  unfold stdMap.keys stdMap.erase at *
  exact h.sublist ((List.filter_sublist m).map Prod.fst)

theorem G_BotAddObstacle_keeps_invariant (ob : ObstacleBackend T) (w : ObstacleWorld T)
    (mins maxs : Vec3) (obstacleNum : Int)
    (h : (stdMap.keys w.savedObstacles).Nodup ∧ addedHaveHandles w) :
    (stdMap.keys (G_BotAddObstacle ob w mins maxs obstacleNum).savedObstacles).Nodup
    ∧ addedHaveHandles (G_BotAddObstacle ob w mins maxs obstacleNum) := by
  by_cases hl : w.navMeshLoaded = navMeshStatus_t.LOADED
  · obtain ⟨_, _, a3, _, handles, a5⟩ := G_BotAddObstacle_loaded ob w mins maxs obstacleNum hl
    refine ⟨by rw [a3]; exact stdMap_nodup_assign _ _ _ h.1, ?_⟩
    intro k o hk hadd
    rw [a5]
    by_cases hk2 : k = obstacleNum
    · rw [hk2]
      exact stdMap_find_insert_self _ _ _
    · rw [a3, stdMap_find_assign, if_neg hk2] at hk
      exact stdMap_find_insert_mono _ _ _ _ (h.2 k o hk hadd)
  · rw [G_BotAddObstacle_unloaded ob w mins maxs obstacleNum hl]
    refine ⟨stdMap_nodup_assign _ _ _ h.1, ?_⟩
    intro k o hk hadd
    simp only [] at hk ⊢
    rw [stdMap_find_assign] at hk
    by_cases hk2 : k = obstacleNum
    · rw [if_pos hk2, Option.some.injEq] at hk
      rw [← hk] at hadd
      exact absurd hadd Bool.false_ne_true
    · rw [if_neg hk2] at hk
      exact h.2 k o hk hadd

theorem G_BotRemoveObstacle_saved (ob : ObstacleBackend T) (w : ObstacleWorld T)
    (obstacleNum : Int) :
    (G_BotRemoveObstacle ob w obstacleNum).savedObstacles
      = stdMap.erase w.savedObstacles obstacleNum := by
  unfold G_BotRemoveObstacle
  rw [(release_fields ob _ obstacleNum).1]
  unfold G_BotRemoveObstacle.eraseSaved
  cases hf : stdMap.find w.savedObstacles obstacleNum with
  | some o => rfl
  | none => exact (stdMap_erase_of_find_none _ _ hf).symm

theorem G_BotRemoveObstacle_keeps_invariant (ob : ObstacleBackend T) (w : ObstacleWorld T)
    (obstacleNum : Int)
    (h : (stdMap.keys w.savedObstacles).Nodup ∧ addedHaveHandles w) :
    (stdMap.keys (G_BotRemoveObstacle ob w obstacleNum).savedObstacles).Nodup
    ∧ addedHaveHandles (G_BotRemoveObstacle ob w obstacleNum) := by
  refine ⟨by rw [G_BotRemoveObstacle_saved]; exact stdMap_nodup_erase _ _ h.1, ?_⟩
  intro k o hk hadd
  obtain ⟨_, _, r3, _⟩ := G_BotRemoveObstacle_bookkeeping ob w obstacleNum
  by_cases hk2 : k = obstacleNum
  · rw [hk2, (G_BotRemoveObstacle_bookkeeping ob w obstacleNum).1] at hk
    exact absurd hk (by simp)
  · rw [(r3 k hk2).1] at hk
    rw [(r3 k hk2).2]
    exact h.2 k o hk hadd

theorem BotAddSavedObstacles_keeps_invariant (ob : ObstacleBackend T) (w : ObstacleWorld T)
    (hl : w.navMeshLoaded = navMeshStatus_t.LOADED)
    (h : (stdMap.keys w.savedObstacles).Nodup ∧ addedHaveHandles w) :
    (stdMap.keys (BotAddSavedObstacles ob w).savedObstacles).Nodup
    ∧ addedHaveHandles (BotAddSavedObstacles ob w) := by
  obtain ⟨_, _, _, h4, _, h6, h7⟩ := BotAddSavedObstacles_loop_fields ob w.savedObstacles
    w hl h.1 (fun p hp => stdMap_find_of_mem _ h.1 p hp)
  have hkeys : stdMap.keys (BotAddSavedObstacles ob w).savedObstacles
      = stdMap.keys w.savedObstacles := h4
  refine ⟨by rw [hkeys]; exact h.1, ?_⟩
  intro k o hk _
  have hin : k ∈ stdMap.keys w.savedObstacles := by
    rw [← hkeys]
    exact List.mem_map_of_mem Prod.fst (stdMap_mem_of_find _ _ _ hk)
  cases hw : stdMap.find w.savedObstacles k with
  | none => exact absurd hin ((stdMap_find_eq_none_iff _ _).mp hw)
  | some o2 =>
    cases hadd2 : o2.added with
    | true => exact h6 k (h.2 k o2 hw hadd2)
    | false => exact h7 (k, o2) (stdMap_mem_of_find _ _ _ hw) hadd2

/-- From a state in which the saved obstacles with `added` = true have handles, every
sequence of calls of the three obstacle functions and of changes of the load status
leads to such a state again, provided `BotAddSavedObstacles` is only called while the
meshes are loaded. -/
theorem obstacle_ops_keep_invariant (ob : ObstacleBackend T) (ops : List ObstacleOp) :
    ∀ (w : ObstacleWorld T), (stdMap.keys w.savedObstacles).Nodup → addedHaveHandles w →
      flushesLoaded ob w ops →
      addedHaveHandles (ops.foldl (ObstacleOp.apply ob) w) := by
  induction ops with
  | nil => intro w _ h _; exact h
  | cons op rest ih =>
    intro w hk h hf
    rw [List.foldl_cons]
    obtain ⟨hf1, hf2⟩ := hf
    have hstep : (stdMap.keys (op.apply ob w).savedObstacles).Nodup
        ∧ addedHaveHandles (op.apply ob w) := by
      cases op with
      | add mins maxs obstacleNum =>
        exact G_BotAddObstacle_keeps_invariant ob w mins maxs obstacleNum ⟨hk, h⟩
      | addSaved => exact BotAddSavedObstacles_keeps_invariant ob w (hf1 rfl) ⟨hk, h⟩
      | remove obstacleNum => exact G_BotRemoveObstacle_keeps_invariant ob w obstacleNum ⟨hk, h⟩
      | setStatus status => exact ⟨hk, h⟩
    exact ih _ hstep.1 hstep.2 hf2

/-! ### A Failure result and the running-node list -/

/-- When child `k` of a sequence is in the running-node list and no child after it is,
the scan yields `k`, and the sequence evaluates the children from `k` on only, child
`k` first. -/
theorem sequence_start_eq (cap a : Nat) (list : List (AIGenericNode_t G)) (s2 : BotState G)
    (k : Nat) (c : AIGenericNode_t G) (hk : list[k]? = some c)
    (hin : c.addr ∈ s2.runningNodes)
    (hlater : ∀ j d, k < j → list[j]? = some d → d.addr ∉ s2.runningNodes) :
    BotSequenceNode.start (logEvaluation a s2) list = k
    ∧ BotEvaluateNode cap (AIGenericNode_t.list a AIListRun.sequence list) s2
        = BotEvaluateNode.bookkeeping cap a AINodeType_t.SELECTOR_NODE
            (BotSequenceNode.loop cap (c :: list.drop (k + 1)) 0 (logEvaluation a s2))
    ∧ ∃ e, (BotEvaluateNode cap (AIGenericNode_t.list a AIListRun.sequence list) s2).2.evalLog
        = s2.evalLog ++ a :: c.addr :: e := by
  obtain ⟨hklt, _⟩ := List.getElem?_eq_some.mp hk
  obtain ⟨h1, h2, h3⟩ := findRunningStart_spec (logEvaluation a s2) list (list.length - 1)
  have hstart : BotSequenceNode.start (logEvaluation a s2) list = k := by
    unfold BotSequenceNode.start
    have hle : findRunningStart (logEvaluation a s2) list (list.length - 1) ≤ k := by
      by_contra hgt
      have hne : findRunningStart (logEvaluation a s2) list (list.length - 1) ≠ 0 := by omega
      obtain ⟨d, hd, hdr⟩ := h2 hne
      have := hlater _ d (by omega) hd
      simp only [NodeIsRunning, logEvaluation, decide_eq_true_eq] at hdr
      exact this hdr
    by_contra hne
    have hlt : findRunningStart (logEvaluation a s2) list (list.length - 1) < k := by omega
    have := h3 k c hlt (by omega) hk
    simp [NodeIsRunning, logEvaluation, hin] at this
  have heval : BotEvaluateNode cap (AIGenericNode_t.list a AIListRun.sequence list) s2
      = BotEvaluateNode.bookkeeping cap a AINodeType_t.SELECTOR_NODE
          (BotSequenceNode.loop cap (c :: list.drop (k + 1)) 0 (logEvaluation a s2)) := by
    unfold BotSequenceNode.start at hstart
    simp only [BotEvaluateNode, hstart]
    rw [BotSequenceNode_loop_drop, drop_of_getElem_some list k c hk]
  refine ⟨hstart, heval, ?_⟩
  obtain ⟨e, he⟩ := BotSequenceNode_loop_log cap c (list.drop (k + 1)) (logEvaluation a s2)
  refine ⟨e, ?_⟩
  rw [heval, (bookkeeping_fields cap a _ _).1, he]
  simp [logEvaluation]

/-- The scan of a sequence: no child after the start index is in the running-node
list. -/
theorem sequence_later_absent (a : Nat) (list : List (AIGenericNode_t G)) (s : BotState G)
    (j : Nat) (d : AIGenericNode_t G)
    (hj : BotSequenceNode.start (logEvaluation a s) list < j) (hd : list[j]? = some d) :
    d.addr ∉ s.runningNodes := by
  obtain ⟨hjlt, _⟩ := List.getElem?_eq_some.mp hd
  have h3 := (findRunningStart_spec (logEvaluation a s) list (list.length - 1)).2.2 j d hj
    (by omega) hd
  simpa [NodeIsRunning, logEvaluation] using h3

/-- C28: if `BotEvaluateNode` returns `STATUS_FAILURE` for a node, the running-node list
afterwards is the list the run function of the node left.  For a sequence (address `a`,
nodes with pairwise distinct addresses) evaluated from a state in which the scan yields
the child `k` (the resumed child when `k` ≥ 1): if child `k` returns `STATUS_FAILURE` and is still in the
running-node list after its evaluation, the sequence returns `STATUS_FAILURE`, the
running-node list afterwards is the one child `k` left, and the next evaluation of the
sequence, from any state with that running-node list, starts at child `k` again: it
evaluates the children from `k` on only, child `k` first. -/
theorem BotEvaluateNode_failure_keeps (cap a : Nat) (list : List (AIGenericNode_t G))
    (s1 : BotState G) (k : Nat) (c : AIGenericNode_t G)
    (hnodup : (AIGenericNode_t.list a AIListRun.sequence list).addrs.Nodup)
    (hk : list[k]? = some c)
    (hstart : BotSequenceNode.start (logEvaluation a s1) list = k)
    (hfail : (BotEvaluateNode cap c (logEvaluation a s1)).1 = STATUS_FAILURE)
    (hkeep : c.addr ∈ (BotEvaluateNode cap c (logEvaluation a s1)).2.runningNodes) :
    (∀ (node : AIGenericNode_t G) (self : BotState G),
        (BotEvaluateNode cap node self).1 = STATUS_FAILURE →
        (BotEvaluateNode cap node self).2.runningNodes
          = (node.run cap (logEvaluation node.addr self)).2.runningNodes)
    ∧ (BotEvaluateNode cap (AIGenericNode_t.list a AIListRun.sequence list) s1).1
        = STATUS_FAILURE
    ∧ (BotEvaluateNode cap (AIGenericNode_t.list a AIListRun.sequence list) s1).2.runningNodes
        = (BotEvaluateNode cap c (logEvaluation a s1)).2.runningNodes
    ∧ ∀ s2 : BotState G,
        s2.runningNodes
          = (BotEvaluateNode cap (AIGenericNode_t.list a AIListRun.sequence list)
              s1).2.runningNodes →
        BotSequenceNode.start (logEvaluation a s2) list = k
        ∧ BotEvaluateNode cap (AIGenericNode_t.list a AIListRun.sequence list) s2
            = BotEvaluateNode.bookkeeping cap a AINodeType_t.SELECTOR_NODE
                (BotSequenceNode.loop cap (list.drop k) 0 (logEvaluation a s2))
        ∧ ∃ e, (BotEvaluateNode cap (AIGenericNode_t.list a AIListRun.sequence list)
              s2).2.evalLog = s2.evalLog ++ a :: c.addr :: e := by
  have hgen : ∀ (node : AIGenericNode_t G) (self : BotState G),
      (BotEvaluateNode cap node self).1 = STATUS_FAILURE →
      (BotEvaluateNode cap node self).2.runningNodes
        = (node.run cap (logEvaluation node.addr self)).2.runningNodes := by
    intro node self hst
    rw [BotEvaluateNode_eq, bookkeeping_status] at hst
    rw [BotEvaluateNode_eq, bookkeeping_other_list cap _ _ _ (by rw [hst]; decide)]
    rw [if_neg]
    intro h
    rw [hst] at h
    exact absurd h.2 (by decide)
  have heval : BotEvaluateNode cap (AIGenericNode_t.list a AIListRun.sequence list) s1
      = BotEvaluateNode.bookkeeping cap a AINodeType_t.SELECTOR_NODE
          (STATUS_FAILURE, (BotEvaluateNode cap c (logEvaluation a s1)).2) := by
    unfold BotSequenceNode.start at hstart
    simp only [BotEvaluateNode, hstart]
    rw [BotSequenceNode_loop_drop, drop_of_getElem_some list k c hk, BotSequenceNode_loop_cons,
      if_pos hfail]
  have hst : (BotEvaluateNode cap (AIGenericNode_t.list a AIListRun.sequence list) s1).1
      = STATUS_FAILURE := by
    rw [heval, bookkeeping_status]
  have hlist : (BotEvaluateNode cap (AIGenericNode_t.list a AIListRun.sequence list)
        s1).2.runningNodes
      = (BotEvaluateNode cap c (logEvaluation a s1)).2.runningNodes := by
    rw [heval, bookkeeping_other_list cap _ _ _ STATUS_FAILURE_ne_RUNNING, if_neg]
    intro h
    exact absurd h.2 STATUS_FAILURE_ne_SUCCESS
  refine ⟨hgen, hst, hlist, ?_⟩
  intro s2 hs2
  simp only [AIGenericNode_t.addrs, List.nodup_cons] at hnodup
  obtain ⟨_, hnd⟩ := hnodup
  have hframe := (BotEvaluateNode_frame cap c (logEvaluation a s1)).2.1.2.2.2.2.1
  have hlater : ∀ j d, k < j → list[j]? = some d → d.addr ∉ s2.runningNodes := by
    intro j d hj hd hmem
    rw [hs2, hlist] at hmem
    obtain ⟨hjlt, hget⟩ := List.getElem?_eq_some.mp hd
    rcases hframe _ hmem with h | h
    · exact sequence_later_absent a list s1 j d (by rw [hstart]; exact hj) hd h
    · have hdl : d ∈ list.drop (k + 1) := by
        rw [List.mem_drop_iff_getElem]
        refine ⟨j - (k + 1), by omega, ?_⟩
        rw [← hget]
        congr 1
        omega
      have hd2 : d.addr ∈ AIGenericNode_t.addrsList (list.drop (k + 1)) :=
        addr_mem_addrsList _ d hdl
      have hsplit : AIGenericNode_t.addrsList list
          = AIGenericNode_t.addrsList (list.take (k + 1))
            ++ AIGenericNode_t.addrsList (list.drop (k + 1)) := by
        rw [← addrsList_append, List.take_append_drop]
      have hc2 : d.addr ∈ AIGenericNode_t.addrsList (list.take (k + 1)) := by
        rw [take_succ_of_getElem_some list k c hk, addrsList_append]
        simp only [AIGenericNode_t.addrsList, List.append_nil, List.mem_append]
        exact Or.inr h
      rw [hsplit] at hnd
      exact (List.disjoint_of_nodup_append hnd) hc2 hd2
  obtain ⟨g1, g2, g3⟩ := sequence_start_eq cap a list s2 k c hk
    (by rw [hs2, hlist]; exact hkeep) hlater
  refine ⟨g1, ?_, g3⟩
  rw [g2, drop_of_getElem_some list k c hk]

/-- C28, on the sequence at address 9 with children [Success, Failure, Success] (leaves
at addresses 1, 2, 3), entered with the running-node list [2, 9]: the scan yields 1,
the leaf 2 returns `STATUS_FAILURE`, the sequence returns `STATUS_FAILURE` and leaves
the list [2, 9]; the next evaluation starts at index 1 again. -/
theorem BotEvaluateNode_failure_keeps_witness :
    (BotEvaluateNode 4 (AIGenericNode_t.list 9 AIListRun.sequence failingChildren)
        (runningState [2, 9] 0)).1 = STATUS_FAILURE
    ∧ (BotEvaluateNode 4 (AIGenericNode_t.list 9 AIListRun.sequence failingChildren)
        (runningState [2, 9] 0)).2.runningNodes = [2, 9]
    ∧ BotSequenceNode.start
        (logEvaluation 9
          (BotEvaluateNode 4 (AIGenericNode_t.list 9 AIListRun.sequence failingChildren)
            (runningState [2, 9] 0)).2)
        failingChildren = 1 :=
  ⟨(BotEvaluateNode_failure_keeps 4 9 failingChildren (runningState [2, 9] 0) 1
      (constAction STATUS_FAILURE 2) (by decide) rfl (by decide) (by decide)
      (by decide)).2.1,
   by decide,
   ((BotEvaluateNode_failure_keeps 4 9 failingChildren (runningState [2, 9] 0) 1
      (constAction STATUS_FAILURE 2) (by decide) rfl (by decide) (by decide)
      (by decide)).2.2.2 _ rfl).1⟩

/-! ### Parameters of the action `buy` -/

/-- The loop of `BotActionBuy` over the upgrade parameters: the counter grows by the
number of parameters strictly between `UP_NONE` and `UP_NUM_UPGRADES`, the assignments
made before stay, and every new assignment is at an index from the counter at entry up
to the counter at the end. -/
theorem BotActionBuy_upgradeLoop_spec (UP_NONE UP_NUM_UPGRADES : Int) (params : List AIValue_t) :
    ∀ (n : Nat) (stores : List (Nat × Int)),
      (BotActionBuy.upgradeLoop UP_NONE UP_NUM_UPGRADES params n stores).1
          = n + params.countP (fun p => decide (UP_NONE < AIUnBoxInt p)
              && decide (AIUnBoxInt p < UP_NUM_UPGRADES))
      ∧ ∃ added, (BotActionBuy.upgradeLoop UP_NONE UP_NUM_UPGRADES params n stores).2
            = stores ++ added
          ∧ added.length = params.length
          ∧ ∀ x, x ∈ added → n ≤ x.1 ∧ x.1 < n + params.length
              ∧ x.1 ≤ (BotActionBuy.upgradeLoop UP_NONE UP_NUM_UPGRADES params n stores).1 := by
  induction params with
  | nil =>
    intro n stores
    exact ⟨by simp [BotActionBuy.upgradeLoop], [], by simp [BotActionBuy.upgradeLoop]⟩
  | cons p rest ih =>
    intro n stores
    by_cases hbad : AIUnBoxInt p ≤ UP_NONE ∨ AIUnBoxInt p ≥ UP_NUM_UPGRADES
    · have hloop : BotActionBuy.upgradeLoop UP_NONE UP_NUM_UPGRADES (p :: rest) n stores
          = BotActionBuy.upgradeLoop UP_NONE UP_NUM_UPGRADES rest n
              (stores ++ [(n, AIUnBoxInt p)]) := by
        simp only [BotActionBuy.upgradeLoop, hbad, if_true]
      have hcount : (decide (UP_NONE < AIUnBoxInt p)
          && decide (AIUnBoxInt p < UP_NUM_UPGRADES)) = false := by
        rcases hbad with h | h
        · rw [decide_eq_false (not_lt.mpr h), Bool.false_and]
        · rw [decide_eq_false (not_lt.mpr h), Bool.and_false]
      obtain ⟨h1, added, h2, h3, h4⟩ := ih n (stores ++ [(n, AIUnBoxInt p)])
      rw [hloop]
      refine ⟨?_, (n, AIUnBoxInt p) :: added, ?_, ?_, ?_⟩
      · rw [h1, List.countP_cons, hcount]
        simp
      · rw [h2, List.append_assoc]
        rfl
      · simp [h3]
      · intro x hx
        rcases List.mem_cons.mp hx with hx | hx
        · subst hx
          exact ⟨Nat.le_refl _, by simp, by rw [h1]; exact Nat.le_add_right _ _⟩
        · have := h4 x hx
          exact ⟨this.1, by simp only [List.length_cons]; omega, this.2.2⟩
    · have hloop : BotActionBuy.upgradeLoop UP_NONE UP_NUM_UPGRADES (p :: rest) n stores
          = BotActionBuy.upgradeLoop UP_NONE UP_NUM_UPGRADES rest (n + 1)
              (stores ++ [(n, AIUnBoxInt p)]) := by
        simp only [BotActionBuy.upgradeLoop, hbad, if_false]
      have hcount : (decide (UP_NONE < AIUnBoxInt p)
          && decide (AIUnBoxInt p < UP_NUM_UPGRADES)) = true := by
        rw [not_or, not_le, not_le] at hbad
        rw [decide_eq_true hbad.1, decide_eq_true hbad.2]
        rfl
      obtain ⟨h1, added, h2, h3, h4⟩ := ih (n + 1) (stores ++ [(n, AIUnBoxInt p)])
      rw [hloop]
      refine ⟨?_, (n, AIUnBoxInt p) :: added, ?_, ?_, ?_⟩
      · rw [h1, List.countP_cons, hcount]
        simp
        omega
      · rw [h2, List.append_assoc]
        rfl
      · simp [h3]
      · intro x hx
        rcases List.mem_cons.mp hx with hx | hx
        · subst hx
          refine ⟨Nat.le_refl _, by simp, ?_⟩
          rw [h1]
          simp only []
          omega
        · have := h4 x hx
          exact ⟨by omega, by simp only [List.length_cons]; omega, this.2.2⟩

/-- C29, failing input: a node `buy` with a weapon and five upgrade parameters that are
all strictly between `UP_NONE` and `UP_NUM_UPGRADES`.  The fifth upgrade is stored at
the index 4 of the array `upgrades`, whose length is 4, and five upgrades are counted.
The rest of the claim holds on this input: a weapon parameter out of range is replaced
by `WP_NONE`. -/
theorem BotActionBuy_store_out_of_bounds (WP_NONE WP_NUM_WEAPONS UP_NONE UP_NUM_UPGRADES : Int)
    (weapon upgrade : Int) (h1 : UP_NONE < upgrade) (h2 : upgrade < UP_NUM_UPGRADES) :
    ∃ r, BotActionBuy.readParams WP_NONE WP_NUM_WEAPONS UP_NONE UP_NUM_UPGRADES
          [AIBoxInt weapon, AIBoxInt upgrade, AIBoxInt upgrade, AIBoxInt upgrade,
           AIBoxInt upgrade, AIBoxInt upgrade] = some r
      ∧ r.stores = [(0, upgrade), (1, upgrade), (2, upgrade), (3, upgrade), (4, upgrade)]
      ∧ (BotActionBuy.ARRAY_LENGTH, upgrade) ∈ r.stores
      ∧ r.numUpgrades = 5
      ∧ ((weapon < WP_NONE ∨ weapon ≥ WP_NUM_WEAPONS) → r.weapon = WP_NONE) := by
  have hok : ¬ (upgrade ≤ UP_NONE ∨ upgrade ≥ UP_NUM_UPGRADES) := by
    rw [not_or, not_le, not_le]
    exact ⟨h1, h2⟩
  refine ⟨_, rfl, ?_, ?_, ?_, ?_⟩
  · simp [BotActionBuy.upgradeLoop, AIUnBoxInt, AIBoxInt, hok]
  · simp [BotActionBuy.upgradeLoop, AIUnBoxInt, AIBoxInt, hok, BotActionBuy.ARRAY_LENGTH]
  · simp [BotActionBuy.upgradeLoop, AIUnBoxInt, AIBoxInt, hok]
  · intro hw
    simp [AIUnBoxInt, AIBoxInt, hw]

/-- C29, failing input with the enumerators `WP_NONE` = 0, `WP_NUM_WEAPONS` = 20,
`UP_NONE` = 0, `UP_NUM_UPGRADES` = 9: the node `buy( 25, 2, 2, 2, 2, 2 )` stores its
fifth upgrade at the index 4; its weapon, out of range, is replaced by `WP_NONE`. -/
theorem BotActionBuy_store_out_of_bounds_witness :
    ∃ r, BotActionBuy.readParams 0 20 0 9
          [AIBoxInt 25, AIBoxInt 2, AIBoxInt 2, AIBoxInt 2, AIBoxInt 2, AIBoxInt 2] = some r
      ∧ r.stores = [(0, 2), (1, 2), (2, 2), (3, 2), (4, 2)]
      ∧ (BotActionBuy.ARRAY_LENGTH, 2) ∈ r.stores
      ∧ r.numUpgrades = 5
      ∧ r.weapon = 0 := by
  obtain ⟨r, a, b, c, d, e⟩ :=
    BotActionBuy_store_out_of_bounds 0 20 0 9 25 2 (by decide) (by decide)
  exact ⟨r, a, b, c, d, e (by decide)⟩

/-- What holds of the branch `buy->nparams != 0` of `BotActionBuy` for every parameter
list: a weapon parameter outside [`WP_NONE`, `WP_NUM_WEAPONS`) is replaced by
`WP_NONE`, the upgrades counted are exactly the parameters strictly between `UP_NONE`
and `UP_NUM_UPGRADES`, one assignment is made per upgrade parameter, at an index that
is at most the number of upgrades counted; so every index is less than 4 when at most
four upgrade parameters are given. -/
theorem BotActionBuy_readParams_spec (WP_NONE WP_NUM_WEAPONS UP_NONE UP_NUM_UPGRADES : Int)
    (p0 : AIValue_t) (rest : List AIValue_t) :
    ∃ r, BotActionBuy.readParams WP_NONE WP_NUM_WEAPONS UP_NONE UP_NUM_UPGRADES (p0 :: rest)
          = some r
      ∧ r.weapon = (if AIUnBoxInt p0 < WP_NONE ∨ AIUnBoxInt p0 ≥ WP_NUM_WEAPONS then WP_NONE
          else AIUnBoxInt p0)
      ∧ r.numUpgrades = rest.countP (fun p => decide (UP_NONE < AIUnBoxInt p)
          && decide (AIUnBoxInt p < UP_NUM_UPGRADES))
      ∧ r.stores.length = rest.length
      ∧ (∀ x, x ∈ r.stores → x.1 ≤ r.numUpgrades)
      ∧ (rest.length ≤ BotActionBuy.ARRAY_LENGTH →
          ∀ x, x ∈ r.stores → x.1 < BotActionBuy.ARRAY_LENGTH) := by
  obtain ⟨h1, added, h2, h3, h4⟩ :=
    BotActionBuy_upgradeLoop_spec UP_NONE UP_NUM_UPGRADES rest 0 []
  refine ⟨_, rfl, rfl, ?_, ?_, ?_, ?_⟩
  · simp only []
    rw [h1, Nat.zero_add]
  · simp only []
    rw [h2, List.nil_append, h3]
  · intro x hx
    simp only [] at hx ⊢
    rw [h2, List.nil_append] at hx
    exact (h4 x hx).2.2
  · intro hlen x hx
    simp only [] at hx
    rw [h2, List.nil_append] at hx
    have := (h4 x hx).2.1
    omega

/-! ### First entry of the compound actions -/

theorem BotActionFlee_body_congr (env env2 : ActionEnv G B E)
    (h : env.sameButGoalChange env2) (self : BotState G) :
    BotActionFlee.body env2 self = BotActionFlee.body env self := by
  obtain ⟨h1, h2, h3, h4, h5, h6, h7, h8, h9, h10, h11⟩ := h
  unfold BotActionFlee.body
  rw [h1, h4, h6]

theorem moveOrFail_congr (env env2 : ActionEnv G B E)
    (h : env.sameButGoalChange env2) (self : BotState G) :
    moveOrFail env2 self = moveOrFail env self := by
  obtain ⟨h1, h2, h3, h4, h5, h6, h7, h8, h9, h10, h11⟩ := h
  unfold moveOrFail
  rw [h6]

theorem BotActionRoam_body_congr (env env2 : ActionEnv G B E)
    (h : env.sameButGoalChange env2) (self : BotState G) :
    BotActionRoam.body env2 self = BotActionRoam.body env self := by
  have hm := moveOrFail_congr env env2 h self
  obtain ⟨h1, h2, h3, h4, h5, h6, h7, h8, h9, h10, h11⟩ := h
  unfold BotActionRoam.body
  rw [h4, h5, hm]

theorem BotActionMoveTo_body_congr (env env2 : ActionEnv G B E)
    (h : env.sameButGoalChange env2) (self : BotState G) (radius : Rat) :
    BotActionMoveTo.body env2 self radius = BotActionMoveTo.body env self radius := by
  have hm := moveOrFail_congr env env2 h self
  obtain ⟨h1, h2, h3, h4, h5, h6, h7, h8, h9, h10, h11⟩ := h
  unfold BotActionMoveTo.body
  rw [h1, h4, h5, hm]

theorem BotActionRush_body_congr (env env2 : ActionEnv G B E)
    (h : env.sameButGoalChange env2) (self : BotState G) :
    BotActionRush.body env2 self = BotActionRush.body env self := by
  have hm := moveOrFail_congr env env2 h self
  obtain ⟨h1, h2, h3, h4, h5, h6, h7, h8, h9, h10, h11⟩ := h
  unfold BotActionRush.body
  rw [h1, h4, h5, hm]

theorem BotActionRepair_body_congr (env env2 : ActionEnv G B E)
    (h : env.sameButGoalChange env2) (self : BotState G) :
    BotActionRepair.body env2 self = BotActionRepair.body env self := by
  obtain ⟨h1, h2, h3, h4, h5, h6, h7, h8, h9, h10, h11⟩ := h
  unfold BotActionRepair.body
  rw [h2, h3, h6, h7, h8, h9, h10, h11]

theorem BotActionFlee_body_currentNode (env : ActionEnv G B E) (self : BotState G) :
    (BotActionFlee.body env self).currentNode = self.currentNode := by
  unfold BotActionFlee.body actionReturn
  split_ifs <;> rfl

theorem BotActionRoam_body_currentNode (env : ActionEnv G B E) (self : BotState G) :
    (BotActionRoam.body env self).currentNode = self.currentNode := by
  unfold BotActionRoam.body actionReturn moveOrFail
  split_ifs <;> rfl

theorem BotActionRepair_body_currentNode (env : ActionEnv G B E) (self : BotState G) :
    (BotActionRepair.body env self).currentNode = self.currentNode := by
  unfold BotActionRepair.body actionReturn
  simp only []
  split_ifs <;> rfl

theorem BotActionFlee_first_entry :
    FirstEntryContract (BotActionFlee (G := G) (B := B) (E := E)) BotActionFlee.acquire
      (fun env s _ => BotActionFlee.body env s) := by
  intro env self node params
  refine ⟨?_, ?_, ?_⟩
  · intro h env2 hsame
    unfold BotActionFlee
    rw [if_neg (not_not.mpr h), if_neg (not_not.mpr h)]
    exact BotActionFlee_body_congr env env2 hsame self
  · intro h hf
    unfold BotActionFlee
    simp only []
    rw [if_pos h, if_pos hf]
    exact ⟨rfl, rfl, rfl⟩
  · intro h ht
    unfold BotActionFlee
    simp only []
    rw [if_pos h, if_neg (by rw [ht]; decide)]
    exact ⟨BotActionFlee_body_currentNode env _, rfl⟩

theorem BotActionRoamInRadius_first_entry :
    FirstEntryContract (BotActionRoamInRadius (G := G) (B := B) (E := E)) BotActionRoamInRadius.acquire
      (fun env s _ => BotActionRoam.body env s) := by
  intro env self node params
  refine ⟨?_, ?_, ?_⟩
  · intro h env2 hsame
    unfold BotActionRoamInRadius
    rw [if_neg (not_not.mpr h), if_neg (not_not.mpr h)]
    exact BotActionRoam_body_congr env env2 hsame self
  · intro h hf
    unfold BotActionRoamInRadius
    simp only []
    rw [if_pos h, if_pos hf]
    exact ⟨rfl, rfl, rfl⟩
  · intro h ht
    unfold BotActionRoamInRadius
    simp only []
    rw [if_pos h, if_neg (by rw [ht]; decide)]
    exact ⟨BotActionRoam_body_currentNode env _, rfl⟩

theorem BotActionRoam_first_entry :
    FirstEntryContract (BotActionRoam (G := G) (B := B) (E := E)) BotActionRoam.acquire
      (fun env s _ => BotActionRoam.body env s) := by
  intro env self node params
  refine ⟨?_, ?_, ?_⟩
  · intro h env2 hsame
    unfold BotActionRoam
    rw [if_neg (not_not.mpr h), if_neg (not_not.mpr h)]
    exact BotActionRoam_body_congr env env2 hsame self
  · intro h hf
    unfold BotActionRoam
    simp only []
    rw [if_pos h, if_pos hf]
    exact ⟨rfl, rfl, rfl⟩
  · intro h ht
    unfold BotActionRoam
    simp only []
    rw [if_pos h, if_neg (by rw [ht]; decide)]
    exact ⟨BotActionRoam_body_currentNode env _, rfl⟩

theorem BotActionMoveTo_first_entry :
    FirstEntryContract (BotActionMoveTo (G := G) (B := B) (E := E)) BotActionMoveTo.acquire
      (fun _ s _ => actionReturn s STATUS_RUNNING) := by
  intro env self node params
  refine ⟨?_, ?_, ?_⟩
  · intro h env2 hsame
    unfold BotActionMoveTo
    simp only []
    rw [if_neg (not_not.mpr h), if_neg (not_not.mpr h)]
    exact BotActionMoveTo_body_congr env env2 hsame self _
  · intro h hf
    unfold BotActionMoveTo
    simp only []
    rw [if_pos h, if_pos hf]
    exact ⟨rfl, rfl, rfl⟩
  · intro h ht
    unfold BotActionMoveTo
    simp only []
    rw [if_pos h, if_neg (by rw [ht]; decide)]
    exact ⟨rfl, rfl⟩

theorem BotActionRush_first_entry :
    FirstEntryContract (BotActionRush (G := G) (B := B) (E := E)) BotActionRush.acquire
      (fun _ s _ => actionReturn s STATUS_RUNNING) := by
  intro env self node params
  refine ⟨?_, ?_, ?_⟩
  · intro h env2 hsame
    unfold BotActionRush
    rw [if_neg (not_not.mpr h), if_neg (not_not.mpr h)]
    exact BotActionRush_body_congr env env2 hsame self
  · intro h hf
    unfold BotActionRush
    simp only []
    rw [if_pos h, if_pos hf]
    exact ⟨rfl, rfl, rfl⟩
  · intro h ht
    unfold BotActionRush
    simp only []
    rw [if_pos h, if_neg (by rw [ht]; decide)]
    exact ⟨rfl, rfl⟩

theorem BotActionRepair_first_entry :
    FirstEntryContract (BotActionRepair (G := G) (B := B) (E := E)) BotActionRepair.acquire
      (fun env s _ => BotActionRepair.body env s) := by
  intro env self node params
  refine ⟨?_, ?_, ?_⟩
  · intro h env2 hsame
    unfold BotActionRepair
    rw [if_neg (not_not.mpr h), if_neg (not_not.mpr h)]
    exact BotActionRepair_body_congr env env2 hsame self
  · intro h hf
    unfold BotActionRepair
    simp only []
    rw [if_pos h, if_pos hf]
    exact ⟨rfl, rfl, rfl⟩
  · intro h ht
    unfold BotActionRepair
    simp only []
    rw [if_pos h, if_neg (by rw [ht]; decide)]
    exact ⟨BotActionRepair_body_currentNode env _, rfl⟩

/-- C27: each of the compound actions flee, roam-in-radius, roam, move-to, rush and
repair meets the contract of first entry `FirstEntryContract`, with the goal
acquisition written out for each of them (flee: `BotChangeGoal` to the retreat target;
roam-in-radius: the lookup of the entity, the draw of a random point around it and
`BotChangeGoalPos` to the point; roam: `BotChangeGoal` to the roam target; move-to:
`BotChangeGoal` to the target of the entity; rush: `BotChangeGoal` to the rush target;
repair: `BotChangeGoalEntity` to the closest damaged building).  The acquisition is made
exactly when the current-node pointer differs from the node of the action; when it
fails the action returns `STATUS_FAILURE`, leaves the pointer as it was and leaves the
game state the acquisition left; when it succeeds the pointer is set to the node, and
the action goes on from the state the acquisition left (move-to and rush return
`STATUS_RUNNING` at once, the others run the rest of their body); when the pointer is
the node already, the result does not depend on the helpers that change the goal. -/
theorem compound_actions_first_entry :
    FirstEntryContract (BotActionFlee (G := G) (B := B) (E := E))
      (fun env self _ => env.BotChangeGoal self (env.BotGetRetreatTarget self))
      (fun env s _ => BotActionFlee.body env s)
    ∧ FirstEntryContract (BotActionRoamInRadius (G := G) (B := B) (E := E))
      (fun env self params =>
        match env.AIEntityToGentity self (AIUnBoxInt (params0 params)) with
        | none => (false, self.game)
        | some ent =>
            match env.BotFindRandomPointInRadius self (env.entityOrigin ent)
                (AIUnBoxFloat (params.getD 1 (AIBoxInt 0))) with
            | none => (false, self.game)
            | some point => env.BotChangeGoalPos self point)
      (fun env s _ => BotActionRoam.body env s)
    ∧ FirstEntryContract (BotActionRoam (G := G) (B := B) (E := E))
      (fun env self _ => env.BotChangeGoal self (env.BotGetRoamTarget self))
      (fun env s _ => BotActionRoam.body env s)
    ∧ FirstEntryContract (BotActionMoveTo (G := G) (B := B) (E := E))
      (fun env self params =>
        env.BotChangeGoal self
          (env.targetOfEntity (env.AIEntityToGentity self (AIUnBoxInt (params0 params)))))
      (fun _ s _ => actionReturn s STATUS_RUNNING)
    ∧ FirstEntryContract (BotActionRush (G := G) (B := B) (E := E))
      (fun env self _ => env.BotChangeGoal self (env.BotGetRushTarget self))
      (fun _ s _ => actionReturn s STATUS_RUNNING)
    ∧ FirstEntryContract (BotActionRepair (G := G) (B := B) (E := E))
      (fun env self _ => env.BotChangeGoalEntity self (env.closestDamagedBuilding self))
      (fun env s _ => BotActionRepair.body env s) :=
  ⟨BotActionFlee_first_entry, BotActionRoamInRadius_first_entry, BotActionRoam_first_entry,
   BotActionMoveTo_first_entry, BotActionRush_first_entry, BotActionRepair_first_entry⟩

/-- C27, over `countingEnv`, whose game state counts the goal changes made, for each of
the six actions at node 7: entered with the current node 3 and a goal change that
fails, the action returns `STATUS_FAILURE`, keeps the pointer at 3 and has made one
goal change; with a goal change that succeeds the pointer is 7 afterwards and one goal
change was made; entered with the pointer at 7, no goal change is made. -/
theorem compound_actions_first_entry_witness :
    (((BotActionFlee (countingEnv false) (countingState (some 3)) 7 []).status = STATUS_FAILURE
      ∧ (BotActionFlee (countingEnv false) (countingState (some 3)) 7 []).currentNode = some 3
      ∧ (BotActionFlee (countingEnv false) (countingState (some 3)) 7 []).game = 1)
    ∧ ((BotActionFlee (countingEnv true) (countingState (some 3)) 7 []).currentNode = some 7
      ∧ (BotActionFlee (countingEnv true) (countingState (some 3)) 7 []).game = 1)
    ∧ (BotActionFlee (countingEnv true) (countingState (some 7)) 7 []).game = 0)
    ∧ (((BotActionRoamInRadius (countingEnv false) (countingState (some 3)) 7 [AIBoxInt 0, AIBoxFloat 5]).status = STATUS_FAILURE
      ∧ (BotActionRoamInRadius (countingEnv false) (countingState (some 3)) 7 [AIBoxInt 0, AIBoxFloat 5]).currentNode = some 3
      ∧ (BotActionRoamInRadius (countingEnv false) (countingState (some 3)) 7 [AIBoxInt 0, AIBoxFloat 5]).game = 1)
    ∧ ((BotActionRoamInRadius (countingEnv true) (countingState (some 3)) 7 [AIBoxInt 0, AIBoxFloat 5]).currentNode = some 7
      ∧ (BotActionRoamInRadius (countingEnv true) (countingState (some 3)) 7 [AIBoxInt 0, AIBoxFloat 5]).game = 1)
    ∧ (BotActionRoamInRadius (countingEnv true) (countingState (some 7)) 7 [AIBoxInt 0, AIBoxFloat 5]).game = 0)
    ∧ (((BotActionRoam (countingEnv false) (countingState (some 3)) 7 []).status = STATUS_FAILURE
      ∧ (BotActionRoam (countingEnv false) (countingState (some 3)) 7 []).currentNode = some 3
      ∧ (BotActionRoam (countingEnv false) (countingState (some 3)) 7 []).game = 1)
    ∧ ((BotActionRoam (countingEnv true) (countingState (some 3)) 7 []).currentNode = some 7
      ∧ (BotActionRoam (countingEnv true) (countingState (some 3)) 7 []).game = 1)
    ∧ (BotActionRoam (countingEnv true) (countingState (some 7)) 7 []).game = 0)
    ∧ (((BotActionMoveTo (countingEnv false) (countingState (some 3)) 7 [AIBoxInt 0]).status = STATUS_FAILURE
      ∧ (BotActionMoveTo (countingEnv false) (countingState (some 3)) 7 [AIBoxInt 0]).currentNode = some 3
      ∧ (BotActionMoveTo (countingEnv false) (countingState (some 3)) 7 [AIBoxInt 0]).game = 1)
    ∧ ((BotActionMoveTo (countingEnv true) (countingState (some 3)) 7 [AIBoxInt 0]).currentNode = some 7
      ∧ (BotActionMoveTo (countingEnv true) (countingState (some 3)) 7 [AIBoxInt 0]).game = 1)
    ∧ (BotActionMoveTo (countingEnv true) (countingState (some 7)) 7 [AIBoxInt 0]).game = 0)
    ∧ (((BotActionRush (countingEnv false) (countingState (some 3)) 7 []).status = STATUS_FAILURE
      ∧ (BotActionRush (countingEnv false) (countingState (some 3)) 7 []).currentNode = some 3
      ∧ (BotActionRush (countingEnv false) (countingState (some 3)) 7 []).game = 1)
    ∧ ((BotActionRush (countingEnv true) (countingState (some 3)) 7 []).currentNode = some 7
      ∧ (BotActionRush (countingEnv true) (countingState (some 3)) 7 []).game = 1)
    ∧ (BotActionRush (countingEnv true) (countingState (some 7)) 7 []).game = 0)
    ∧ (((BotActionRepair (countingEnv false) (countingState (some 3)) 7 []).status = STATUS_FAILURE
      ∧ (BotActionRepair (countingEnv false) (countingState (some 3)) 7 []).currentNode = some 3
      ∧ (BotActionRepair (countingEnv false) (countingState (some 3)) 7 []).game = 1)
    ∧ ((BotActionRepair (countingEnv true) (countingState (some 3)) 7 []).currentNode = some 7
      ∧ (BotActionRepair (countingEnv true) (countingState (some 3)) 7 []).game = 1)
    ∧ (BotActionRepair (countingEnv true) (countingState (some 7)) 7 []).game = 0) :=
  ⟨⟨(compound_actions_first_entry.1 (countingEnv false) (countingState (some 3)) 7 []).2.1
      (by decide) rfl,
    ⟨((compound_actions_first_entry.1 (countingEnv true) (countingState (some 3)) 7 []).2.2
        (by decide) rfl).1,
     congrArg AIActionResult.game
      ((compound_actions_first_entry.1 (countingEnv true) (countingState (some 3)) 7 []).2.2
        (by decide) rfl).2⟩,
    by decide⟩,
   ⟨(compound_actions_first_entry.2.1 (countingEnv false) (countingState (some 3)) 7 [AIBoxInt 0, AIBoxFloat 5]).2.1
      (by decide) rfl,
    ⟨((compound_actions_first_entry.2.1 (countingEnv true) (countingState (some 3)) 7 [AIBoxInt 0, AIBoxFloat 5]).2.2
        (by decide) rfl).1,
     congrArg AIActionResult.game
      ((compound_actions_first_entry.2.1 (countingEnv true) (countingState (some 3)) 7 [AIBoxInt 0, AIBoxFloat 5]).2.2
        (by decide) rfl).2⟩,
    by decide⟩,
   ⟨(compound_actions_first_entry.2.2.1 (countingEnv false) (countingState (some 3)) 7 []).2.1
      (by decide) rfl,
    ⟨((compound_actions_first_entry.2.2.1 (countingEnv true) (countingState (some 3)) 7 []).2.2
        (by decide) rfl).1,
     congrArg AIActionResult.game
      ((compound_actions_first_entry.2.2.1 (countingEnv true) (countingState (some 3)) 7 []).2.2
        (by decide) rfl).2⟩,
    by decide⟩,
   ⟨(compound_actions_first_entry.2.2.2.1 (countingEnv false) (countingState (some 3)) 7 [AIBoxInt 0]).2.1
      (by decide) rfl,
    ⟨((compound_actions_first_entry.2.2.2.1 (countingEnv true) (countingState (some 3)) 7 [AIBoxInt 0]).2.2
        (by decide) rfl).1,
     congrArg AIActionResult.game
      ((compound_actions_first_entry.2.2.2.1 (countingEnv true) (countingState (some 3)) 7 [AIBoxInt 0]).2.2
        (by decide) rfl).2⟩,
    by decide⟩,
   ⟨(compound_actions_first_entry.2.2.2.2.1 (countingEnv false) (countingState (some 3)) 7 []).2.1
      (by decide) rfl,
    ⟨((compound_actions_first_entry.2.2.2.2.1 (countingEnv true) (countingState (some 3)) 7 []).2.2
        (by decide) rfl).1,
     congrArg AIActionResult.game
      ((compound_actions_first_entry.2.2.2.2.1 (countingEnv true) (countingState (some 3)) 7 []).2.2
        (by decide) rfl).2⟩,
    by decide⟩,
   ⟨(compound_actions_first_entry.2.2.2.2.2 (countingEnv false) (countingState (some 3)) 7 []).2.1
      (by decide) rfl,
    ⟨((compound_actions_first_entry.2.2.2.2.2 (countingEnv true) (countingState (some 3)) 7 []).2.2
        (by decide) rfl).1,
     (congrArg AIActionResult.game
      ((compound_actions_first_entry.2.2.2.2.2 (countingEnv true) (countingState (some 3)) 7 []).2.2
        (by decide) rfl).2).trans (by decide!)⟩,
    by decide!⟩⟩

/-! ### The handles `G_BotRemoveObstacle` releases -/

theorem handlesHaveRoom_of_fields (ob : ObstacleBackend T) (w w2 : ObstacleWorld T)
    (h : handlesHaveRoom ob w)
    (hh : ∀ k handles, stdMap.find w2.obstacleHandles k = some handles →
      stdMap.find w.obstacleHandles k = some handles)
    (hn : w2.numNavData = w.numNavData)
    (hc : ∀ i, ob.getObstacleCount (w2.BotNavData i) = ob.getObstacleCount (w.BotNavData i)) :
    handlesHaveRoom ob w2 := by
  intro k handles hk i hi hne
  rw [hc i]
  exact h k handles (hh k handles hk) i (hn ▸ hi) hne

theorem G_BotAddObstacle_step_room (ob : ObstacleBackend T) (hc : ob.cacheContract)
    (box : rVec × rVec) (obstacleNum : Int) (st : ObstacleWorld T × List dtObstacleRef)
    (i : Nat) :
    (∀ j, ob.getObstacleCount ((G_BotAddObstacle.step ob box obstacleNum st i).1.BotNavData j)
        = ob.getObstacleCount (st.1.BotNavData j))
    ∧ (∀ j, (G_BotAddObstacle.step ob box obstacleNum st i).2.getD j NO_OBSTACLE ≠ NO_OBSTACLE →
        st.2.getD j NO_OBSTACLE ≠ NO_OBSTACLE ∨ 0 < ob.getObstacleCount (st.1.BotNavData j)) := by
  unfold G_BotAddObstacle.step
  simp only []
  constructor
  · intro j
    by_cases hj : j = i
    · subst hj
      rw [Function.update_same]
      exact hc.1 _ _ _
    · rw [Function.update_noteq hj]
  · intro j hne
    cases hr : (ob.addBoxObstacle (st.1.BotNavData i)
        { v0 := roundF32 (box.1.v0 - ob.walkableRadius (st.1.BotNavData i)),
          v1 := roundF32 (box.1.v1 - ob.walkableHeight (st.1.BotNavData i)),
          v2 := roundF32 (box.1.v2 - ob.walkableRadius (st.1.BotNavData i)) }
        { v0 := roundF32 (box.2.v0 + ob.walkableRadius (st.1.BotNavData i)), v1 := box.2.v1,
          v2 := roundF32 (box.2.v2 + ob.walkableRadius (st.1.BotNavData i)) }).2 with
    | none =>
      rw [hr] at hne
      exact Or.inl hne
    | some handle =>
      rw [hr] at hne
      by_cases hj : j = i
      · subst hj
        exact Or.inr (hc.2.2 _ _ _ _ hr)
      · left
        simp only [List.getD_eq_getElem?_getD] at hne ⊢
        rw [List.getElem?_set_ne (fun h => hj h.symm)] at hne
        exact hne

theorem G_BotAddObstacle_loop_room (ob : ObstacleBackend T) (hc : ob.cacheContract)
    (box : rVec × rVec) (obstacleNum : Int) (l : List Nat) :
    ∀ (st : ObstacleWorld T × List dtObstacleRef),
      (∀ j, ob.getObstacleCount
          ((l.foldl (G_BotAddObstacle.step ob box obstacleNum) st).1.BotNavData j)
          = ob.getObstacleCount (st.1.BotNavData j))
      ∧ (∀ j, (l.foldl (G_BotAddObstacle.step ob box obstacleNum) st).2.getD j NO_OBSTACLE
            ≠ NO_OBSTACLE →
          st.2.getD j NO_OBSTACLE ≠ NO_OBSTACLE
          ∨ 0 < ob.getObstacleCount (st.1.BotNavData j)) := by
  induction l with
  | nil => intro st; exact ⟨fun _ => rfl, fun _ h => Or.inl h⟩
  | cons i rest ih =>
    intro st
    rw [List.foldl_cons]
    obtain ⟨s1, s2⟩ := G_BotAddObstacle_step_room ob hc box obstacleNum st i
    obtain ⟨h1, h2⟩ := ih (G_BotAddObstacle.step ob box obstacleNum st i)
    refine ⟨fun j => (h1 j).trans (s1 j), ?_⟩
    intro j hne
    rcases h2 j hne with h | h
    · exact s2 j h
    · rw [s1 j] at h
      exact Or.inr h

theorem G_BotAddObstacle_keeps_room (ob : ObstacleBackend T) (hc : ob.cacheContract)
    (w : ObstacleWorld T) (mins maxs : Vec3) (obstacleNum : Int) (h : handlesHaveRoom ob w) :
    handlesHaveRoom ob (G_BotAddObstacle ob w mins maxs obstacleNum) := by
  by_cases hl : w.navMeshLoaded = navMeshStatus_t.LOADED
  · obtain ⟨l1, l2, l3, l4, l5, l6⟩ := G_BotAddObstacle_loop_fields ob (ob.rBounds mins maxs)
      obstacleNum (List.range w.numNavData)
      ({ w with
          savedObstacles := stdMap.assign w.savedObstacles obstacleNum
            ⟨decide (w.navMeshLoaded = navMeshStatus_t.LOADED), ⟨mins, maxs⟩⟩ },
        List.replicate ob.MAX_NAV_DATA NO_OBSTACLE)
    obtain ⟨r1, r2⟩ := G_BotAddObstacle_loop_room ob hc (ob.rBounds mins maxs)
      obstacleNum (List.range w.numNavData)
      ({ w with
          savedObstacles := stdMap.assign w.savedObstacles obstacleNum
            ⟨decide (w.navMeshLoaded = navMeshStatus_t.LOADED), ⟨mins, maxs⟩⟩ },
        List.replicate ob.MAX_NAV_DATA NO_OBSTACLE)
    have hnew : ∀ k handles i,
        stdMap.find (stdMap.insert w.obstacleHandles obstacleNum
          ((List.range w.numNavData).foldl (G_BotAddObstacle.step ob (ob.rBounds mins maxs)
            obstacleNum)
            ({ w with
                savedObstacles := stdMap.assign w.savedObstacles obstacleNum
                  ⟨decide (w.navMeshLoaded = navMeshStatus_t.LOADED), ⟨mins, maxs⟩⟩ },
              List.replicate ob.MAX_NAV_DATA NO_OBSTACLE)).2).1 k = some handles →
        i < w.numNavData → handles.getD i NO_OBSTACLE ≠ NO_OBSTACLE →
        0 < ob.getObstacleCount (w.BotNavData i) := by
      intro k handles i hk hi hne
      rw [stdMap_find_insert] at hk
      by_cases hkk : k = obstacleNum
      · rw [if_pos hkk] at hk
        cases hold : stdMap.find w.obstacleHandles obstacleNum with
        | some o =>
          rw [hold] at hk
          simp only [Option.some.injEq] at hk
          subst hk
          exact h obstacleNum o hold i hi hne
        | none =>
          rw [hold] at hk
          simp only [Option.some.injEq] at hk
          subst hk
          rcases r2 i hne with h0 | h0
          · simp at h0
          · exact h0
      · rw [if_neg hkk] at hk
        exact h k handles hk i hi hne
    unfold G_BotAddObstacle
    simp only [hl, ne_eq, not_true_eq_false, if_false, decide_True] at l2 l4 r1 hnew ⊢
    split
    · intro k handles hk i hi hne
      simp only [l4] at hk
      simp only [l2] at hi
      rw [r1 i]
      exact hnew k handles i hk hi hne
    · intro k handles hk i hi hne
      simp only [l4] at hk
      simp only [l2] at hi
      rw [r1 i]
      exact hnew k handles i hk hi hne
  · rw [G_BotAddObstacle_unloaded ob w mins maxs obstacleNum hl]
    exact h

theorem BotAddSavedObstacles_step_room (ob : ObstacleBackend T) (hc : ob.cacheContract)
    (w : ObstacleWorld T) (k : Int) (h : handlesHaveRoom ob w) :
    handlesHaveRoom ob (BotAddSavedObstacles.step ob w k) := by
  unfold BotAddSavedObstacles.step
  cases hf : stdMap.find w.savedObstacles k with
  | none => exact h
  | some obstacle =>
    simp only []
    by_cases ha : obstacle.added = false
    · rw [if_pos ha]
      exact G_BotAddObstacle_keeps_room ob hc w _ _ k h
    · rw [if_neg ha]
      exact h

theorem BotAddSavedObstacles_keeps_room (ob : ObstacleBackend T) (hc : ob.cacheContract)
    (w : ObstacleWorld T) (h : handlesHaveRoom ob w) :
    handlesHaveRoom ob (BotAddSavedObstacles ob w) := by
  unfold BotAddSavedObstacles
  generalize stdMap.keys w.savedObstacles = l
  induction l generalizing w with
  | nil => exact h
  | cons k rest ih =>
    rw [List.foldl_cons]
    exact ih _ (BotAddSavedObstacles_step_room ob hc w k h)

theorem G_BotRemoveObstacle_loop_counts (ob : ObstacleBackend T) (hc : ob.cacheContract)
    (obstacleNum : Int) (handles : List dtObstacleRef) (l : List Nat) :
    ∀ (w : ObstacleWorld T) (j : Nat),
      ob.getObstacleCount
          ((l.foldl (G_BotRemoveObstacle.step ob obstacleNum handles) w).BotNavData j)
        = ob.getObstacleCount (w.BotNavData j) := by
  induction l with
  | nil => intro w j; rfl
  | cons i rest ih =>
    intro w j
    rw [List.foldl_cons, ih]
    unfold G_BotRemoveObstacle.step
    simp only []
    split
    · rfl
    · split
      · by_cases hj : j = i
        · subst hj
          show ob.getObstacleCount (Function.update w.BotNavData j _ j) = _
          rw [Function.update_same]
          exact hc.2.1 _ _
        · show ob.getObstacleCount (Function.update w.BotNavData i _ j) = _
          rw [Function.update_noteq hj]
      · rfl

theorem G_BotRemoveObstacle_keeps_room (ob : ObstacleBackend T) (hc : ob.cacheContract)
    (w : ObstacleWorld T) (obstacleNum : Int) (h : handlesHaveRoom ob w) :
    handlesHaveRoom ob (G_BotRemoveObstacle ob w obstacleNum) := by
  obtain ⟨_, e1, _, e3, e4⟩ := eraseSaved_fields w obstacleNum
  have h1 : handlesHaveRoom ob (G_BotRemoveObstacle.eraseSaved w obstacleNum) :=
    handlesHaveRoom_of_fields ob w _ h (fun k handles hk => by rw [e1] at hk; exact hk) e4
      (fun i => by rw [e3])
  unfold G_BotRemoveObstacle
  generalize G_BotRemoveObstacle.eraseSaved w obstacleNum = w1 at h1
  obtain ⟨_, r2, _, r4, _⟩ := release_fields ob w1 obstacleNum
  cases hf : stdMap.find w1.obstacleHandles obstacleNum with
  | none => rw [r4 hf]; exact h1
  | some handles =>
    obtain ⟨_, l2, _, _, _, _, _⟩ := G_BotRemoveObstacle_loop_fields ob obstacleNum
      handles (List.range w1.numNavData) (List.nodup_range _) w1
    apply handlesHaveRoom_of_fields ob w1 _ h1
    · intro k handles2 hk
      rw [r2] at hk
      by_cases hkk : k = obstacleNum
      · rw [if_pos hkk] at hk
        exact absurd hk (by simp)
      · rw [if_neg hkk] at hk
        exact hk
    · unfold G_BotRemoveObstacle.release
      rw [hf]
      exact l2
    · intro i
      unfold G_BotRemoveObstacle.release
      rw [hf]
      exact G_BotRemoveObstacle_loop_counts ob hc obstacleNum handles _ w1 i

/-- Over a tile cache that keeps `ObstacleBackend.cacheContract`, the three obstacle
functions and the changes of the load status keep `handlesHaveRoom`; it holds in every
state without stored handles, so in every state reached from one. -/
theorem obstacle_ops_keep_room (ob : ObstacleBackend T) (hc : ob.cacheContract)
    (ops : List ObstacleOp) :
    ∀ (w : ObstacleWorld T), handlesHaveRoom ob w →
      handlesHaveRoom ob (ops.foldl (ObstacleOp.apply ob) w) := by
  induction ops with
  | nil => intro w h; exact h
  | cons op rest ih =>
    intro w h
    rw [List.foldl_cons]
    apply ih
    cases op with
    | add mins maxs obstacleNum => exact G_BotAddObstacle_keeps_room ob hc w mins maxs obstacleNum h
    | addSaved => exact BotAddSavedObstacles_keeps_room ob hc w h
    | remove obstacleNum => exact G_BotRemoveObstacle_keeps_room ob hc w obstacleNum h
    | setStatus status => exact h

theorem handlesHaveRoom_of_no_handles (ob : ObstacleBackend T) (w : ObstacleWorld T)
    (h : w.obstacleHandles = []) : handlesHaveRoom ob w := by
  intro k handles hk
  rw [h, stdMap_find_nil] at hk
  exact absurd hk (by simp)

theorem releaseRequests_of_room (ob : ObstacleBackend T) (w : ObstacleWorld T)
    (obstacleNum : Int) (handles : List dtObstacleRef)
    (h : ∀ i, i < w.numNavData → handles.getD i NO_OBSTACLE ≠ NO_OBSTACLE →
      0 < ob.getObstacleCount (w.BotNavData i)) :
    releaseRequests ob w obstacleNum handles = releaseAll w.numNavData obstacleNum handles := by
  unfold releaseRequests releaseAll
  congr 1
  apply List.filter_congr
  intro i hi
  rw [List.mem_range] at hi
  by_cases hne : handles.getD i NO_OBSTACLE ≠ NO_OBSTACLE
  · rw [decide_eq_true hne, decide_eq_true (h i hi hne), Bool.and_self]
  · rw [decide_eq_false hne, Bool.and_false]

theorem mem_releaseAll (numNavData : Nat) (obstacleNum : Int) (handles : List dtObstacleRef)
    (i : Nat) (handle : dtObstacleRef) :
    ObstacleRequest.remove obstacleNum i handle ∈ releaseAll numNavData obstacleNum handles
      ↔ i < numNavData ∧ handles.getD i NO_OBSTACLE = handle ∧ handle ≠ NO_OBSTACLE := by
  unfold releaseAll
  rw [List.mem_map]
  constructor
  · rintro ⟨j, hj, he⟩
    rw [List.mem_filter, List.mem_range, decide_eq_true_iff] at hj
    injection he with _ h2 h3
    subst h2
    subst h3
    exact ⟨hj.1, rfl, hj.2⟩
  · rintro ⟨h1, h2, h3⟩
    subst h2
    refine ⟨i, ?_, rfl⟩
    rw [List.mem_filter, List.mem_range, decide_eq_true_iff]
    exact ⟨h1, h3⟩

theorem G_BotRemoveObstacle_step_cache (ob : ObstacleBackend T) (obstacleNum : Int)
    (handles : List dtObstacleRef) (w : ObstacleWorld T) (i : Nat) :
    (G_BotRemoveObstacle.step ob obstacleNum handles w i).BotNavData i
      = if 0 < ob.getObstacleCount (w.BotNavData i) ∧ handles.getD i NO_OBSTACLE ≠ NO_OBSTACLE
        then ob.removeObstacle (w.BotNavData i) (handles.getD i NO_OBSTACLE)
        else w.BotNavData i := by
  unfold G_BotRemoveObstacle.step
  simp only []
  by_cases hc : ob.getObstacleCount (w.BotNavData i) ≤ 0
  · rw [if_pos hc, if_neg (fun h => absurd h.1 (not_lt.mpr hc))]
  · rw [if_neg hc]
    by_cases hh : handles.getD i NO_OBSTACLE ≠ NO_OBSTACLE
    · rw [if_pos hh, if_pos ⟨not_le.mp hc, hh⟩]
      show Function.update w.BotNavData i _ i = _
      rw [Function.update_same]
    · rw [if_neg hh, if_neg (fun h => hh h.2)]

theorem G_BotRemoveObstacle_loop_cache (ob : ObstacleBackend T) (obstacleNum : Int)
    (handles : List dtObstacleRef) (l : List Nat) (hl : l.Nodup) :
    ∀ (w : ObstacleWorld T) (j : Nat),
      (l.foldl (G_BotRemoveObstacle.step ob obstacleNum handles) w).BotNavData j
        = if j ∈ l ∧ 0 < ob.getObstacleCount (w.BotNavData j)
              ∧ handles.getD j NO_OBSTACLE ≠ NO_OBSTACLE
          then ob.removeObstacle (w.BotNavData j) (handles.getD j NO_OBSTACLE)
          else w.BotNavData j := by
  induction l with
  | nil => intro w j; simp
  | cons i rest ih =>
    intro w j
    rw [List.nodup_cons] at hl
    rw [List.foldl_cons, ih hl.2]
    obtain ⟨_, _, _, _, _, s6, _⟩ := G_BotRemoveObstacle_step_fields ob obstacleNum handles w i
    by_cases hj : j = i
    · subst hj
      rw [if_neg (fun h => hl.1 h.1), G_BotRemoveObstacle_step_cache]
      simp
    · rw [s6 j hj]
      simp [hj]

theorem release_cache (ob : ObstacleBackend T) (w : ObstacleWorld T) (obstacleNum : Int)
    (handles : List dtObstacleRef)
    (hf : stdMap.find w.obstacleHandles obstacleNum = some handles) (i : Nat) :
    (G_BotRemoveObstacle.release ob w obstacleNum).BotNavData i
      = if i < w.numNavData ∧ 0 < ob.getObstacleCount (w.BotNavData i)
            ∧ handles.getD i NO_OBSTACLE ≠ NO_OBSTACLE
        then ob.removeObstacle (w.BotNavData i) (handles.getD i NO_OBSTACLE)
        else w.BotNavData i := by
  unfold G_BotRemoveObstacle.release
  rw [hf]
  simp only []
  rw [G_BotRemoveObstacle_loop_cache ob obstacleNum handles _ (List.nodup_range _) w i]
  simp only [List.mem_range]

theorem exampleObstacleBackend_cacheContract (count : Int) :
    (exampleObstacleBackend count).cacheContract := by
  refine ⟨fun _ _ _ => rfl, fun _ _ => rfl, ?_⟩
  intro t mins maxs handle h
  show 0 < count
  by_cases ht : (t : Int) < count
  · omega
  · have h2 : (exampleObstacleBackend count).addBoxObstacle t mins maxs = (t, none) := by
      show (if (t : Int) < count then (t + 1, some (100 + t)) else (t, none)) = (t, none)
      rw [if_neg ht]
    rw [h2] at h
    exact absurd h (by simp)

/-- C25: after `G_BotRemoveObstacle` neither `savedObstacles` nor `obstacleHandles` has
an entry for the obstacle, and the entries of every other obstacle are as before.  If
handles were stored for the obstacle, the requests made are, for each of the
`numNavData` meshes in order whose tile cache reports a positive obstacle count and
whose slot holds a handle other than `(unsigned int)-1`, the release of exactly that
handle (`releaseRequests`).  When every mesh whose slot holds a handle has a tile cache
that reports a positive count, these are the releases of all the handles stored for the
obstacle (`releaseAll`), the tile caches of these meshes are the ones `removeObstacle`
returned for that handle, and the other tile caches are untouched.  (The tile cache of
Detour reports its capacity and gives out handles only within it; over such a cache
`obstacle_ops_keep_room` shows that every state the obstacle functions reach meets the
condition.)  If no handles were stored, no request is made and the tile caches are
untouched.  Removing an obstacle that neither map holds changes nothing. -/
theorem G_BotRemoveObstacle_releases (ob : ObstacleBackend T) (w : ObstacleWorld T)
    (obstacleNum : Int) :
    stdMap.find (G_BotRemoveObstacle ob w obstacleNum).savedObstacles obstacleNum = none
    ∧ stdMap.find (G_BotRemoveObstacle ob w obstacleNum).obstacleHandles obstacleNum = none
    ∧ (∀ other, other ≠ obstacleNum →
        stdMap.find (G_BotRemoveObstacle ob w obstacleNum).savedObstacles other
          = stdMap.find w.savedObstacles other
        ∧ stdMap.find (G_BotRemoveObstacle ob w obstacleNum).obstacleHandles other
          = stdMap.find w.obstacleHandles other)
    ∧ (∀ handles, stdMap.find w.obstacleHandles obstacleNum = some handles →
        (G_BotRemoveObstacle ob w obstacleNum).requests
          = w.requests ++ releaseRequests ob w obstacleNum handles
        ∧ ((∀ i, i < w.numNavData → handles.getD i NO_OBSTACLE ≠ NO_OBSTACLE →
              0 < ob.getObstacleCount (w.BotNavData i)) →
            (G_BotRemoveObstacle ob w obstacleNum).requests
              = w.requests ++ releaseAll w.numNavData obstacleNum handles
            ∧ ∀ i, (G_BotRemoveObstacle ob w obstacleNum).BotNavData i
                = if i < w.numNavData ∧ handles.getD i NO_OBSTACLE ≠ NO_OBSTACLE
                  then ob.removeObstacle (w.BotNavData i) (handles.getD i NO_OBSTACLE)
                  else w.BotNavData i))
    ∧ (stdMap.find w.obstacleHandles obstacleNum = none →
        (G_BotRemoveObstacle ob w obstacleNum).requests = w.requests
        ∧ (G_BotRemoveObstacle ob w obstacleNum).BotNavData = w.BotNavData)
    ∧ (stdMap.find w.savedObstacles obstacleNum = none →
        stdMap.find w.obstacleHandles obstacleNum = none →
        G_BotRemoveObstacle ob w obstacleNum = w) := by
  obtain ⟨b1, b2, b3, b4, b5, b6⟩ := G_BotRemoveObstacle_bookkeeping ob w obstacleNum
  refine ⟨b1, b2, b3, ?_, b5, b6⟩
  intro handles hf
  refine ⟨b4 handles hf, ?_⟩
  intro hr
  refine ⟨by rw [b4 handles hf, releaseRequests_of_room ob w obstacleNum handles hr], ?_⟩
  intro i
  obtain ⟨_, e1, _, e3, e4⟩ := eraseSaved_fields w obstacleNum
  unfold G_BotRemoveObstacle
  rw [release_cache ob _ obstacleNum handles (by rw [e1]; exact hf) i, e3, e4]
  by_cases hi : i < w.numNavData ∧ handles.getD i NO_OBSTACLE ≠ NO_OBSTACLE
  · rw [if_pos hi, if_pos ⟨hi.1, hr i hi.1 hi.2, hi.2⟩]
  · rw [if_neg hi, if_neg (fun h => hi ⟨h.1, h.2.2⟩)]

/-- C25, over tile caches with room for 8 obstacles: the state `oneObstacle 8` holds
the handle 100 of the obstacle 5 for mesh 0 and for mesh 1; removing the obstacle
releases the handle 100 on mesh 0 and on mesh 1, and both maps lose the entry. -/
theorem G_BotRemoveObstacle_releases_witness :
    handlesHaveRoom (exampleObstacleBackend 8) (oneObstacle 8)
    ∧ stdMap.find (oneObstacle 8).obstacleHandles 5
        = some [100, 100, NO_OBSTACLE, NO_OBSTACLE]
    ∧ (G_BotRemoveObstacle (exampleObstacleBackend 8) (oneObstacle 8) 5).requests
        = (oneObstacle 8).requests
          ++ [ObstacleRequest.remove 5 0 100, ObstacleRequest.remove 5 1 100]
    ∧ stdMap.find (G_BotRemoveObstacle (exampleObstacleBackend 8) (oneObstacle 8)
        5).savedObstacles 5 = none
    ∧ stdMap.find (G_BotRemoveObstacle (exampleObstacleBackend 8) (oneObstacle 8)
        5).obstacleHandles 5 = none :=
  ⟨fun _ _ _ _ _ _ => (by decide : (0 : Int) < 8),
   by decide,
   (((G_BotRemoveObstacle_releases (exampleObstacleBackend 8) (oneObstacle 8) 5).2.2.2.1
      [100, 100, NO_OBSTACLE, NO_OBSTACLE] (by decide)).2
      (fun _ _ _ => (by decide : (0 : Int) < 8))).1,
   (G_BotRemoveObstacle_releases (exampleObstacleBackend 8) (oneObstacle 8) 5).1,
   (G_BotRemoveObstacle_releases (exampleObstacleBackend 8) (oneObstacle 8) 5).2.1⟩
